import Mathlib

/-!
The contract templates of go-evm-client and their argument checks

A shallow embedding of `internal/utils`, `pkg/contracts/detailed_test_token`
and `pkg/contracts/fast_test_token`, of the registry `internal/constants`, the
holder `internal/contracts_template_interface`, the facades of
`internal/contract_interactor_facade`, `pkg/eth_account`, `pkg/eth_rpc_client`
and the function `main` of `cmd/contract_deployer` and of
`cmd/contract_interactor`, together with the parts of the Go runtime and of the
libraries (`fmt`, `math/big`, `encoding/hex`, go-ethereum `common`) that they
call.

Conventions of the embedding.

* A Go method with a pointer receiver that mutates the receiver and talks to the
  chain connector becomes a function from the receiver value and the state of
  the outside world to a `Run (Result ..)`: either the call returns (error value,
  receiver afterwards, world afterwards) or the Go runtime panics.
* The chain connector (`IInstance`) is an interface value. Its method table is a
  record of functions over an arbitrary world state `W`; the receiver keeps
  only the handle (`Instance`, nil when unset).
* Go strings are Lean strings; where the code looks at bytes the string is
  viewed through its UTF-8 encoding.
* The legacy Keccak-256 hash behind the EIP-55 casing of `Address.Hex` is a
  parameter of everything that prints an address; every statement holds for
  every hash function.
* Each template comes with a small vocabulary for the statements: the requests
  a connector can receive (`Call`), the case labels of the two switches with
  their lengths (`queryArity`, `writeArity`), the call each case makes
  (`queryCall`, `writeCall`), the recording connector of the tests
  (`MockContractInstance`) and what a loaded instance is (`Loaded`).
* The functions of the generated binding files that the templates call reach
  them through a record (`Generated`), as the connector does; the functions of
  go-ethereum that the generated files call are a record too (`bind.Lib`).
* The registry points to one object per template. The facade runs on a state
  (`Sys`) that holds these two objects, the world and the standard output.
* The conversions `int64(..)` and `uint64(..)` wrap around modulo 2^64
  (`toInt64`, `toUint64`).
* What the facades take from outside the repository, and the two package
  variables of `eth_rpc_client`, are a record (`Packages`). A deferred call runs
  after the statements that follow it have returned. A program returns its exit
  code with the final state.
* The client of the fixtures records the calls it receives as a list of events
  (`Event`, `recordingClient`, `recordingDial`).
-/

namespace GoEvmClient

/-! ## Go runtime -/

/-- Go `error` values: built by `fmt.Errorf` (identified by the message), or an
error value of some other origin, of which nothing is known. -/
inductive GoError (E : Type) where
  | errorf (msg : String)
  | foreign (e : E)
deriving DecidableEq

/-- Outcome of running a Go function: it returns a value or the runtime panics. -/
inductive Run (α : Type) where
  | returned (a : α)
  | panicked (reason : String)

namespace Run

/-- Sequencing: a panic aborts what follows. -/
def bind {α β : Type} (r : Run α) (k : α → Run β) : Run β :=
  match r with
  | returned a => k a
  | panicked s => panicked s

end Run

/-- What a method with a pointer receiver leaves behind when it returns: the
returned `error` (nil is `none`), the receiver and the outside world. -/
structure Result (σ W E : Type) where
  err : Option (GoError E)
  self : σ
  world : W

/-- Slice indexing `s[i]`, which panics when `i` is out of range. -/
def index (s : List String) (i : Nat) : Run String :=
  match s[i]? with
  | some x => .returned x
  | none => .panicked "index out of range"

/-- Using an interface value to call a method: a nil interface panics. -/
def deref {ι : Type} (p : Option ι) : Run ι :=
  match p with
  | some x => .returned x
  | none => .panicked "invalid memory address or nil pointer dereference"

/-- A Go map value: the nil map, or a map with its entries. -/
inductive GoMap (K V : Type) where
  | nil
  | entries (f : K → Option V)

namespace GoMap

/-- The comma-ok read `v, ok := m[k]`; reading the nil map finds nothing. -/
def lookup {K V : Type} (m : GoMap K V) (k : K) : Option V :=
  match m with
  | nil => none
  | entries f => f k

/-- The assignment `m[k] = v`; assigning into the nil map panics. -/
def assign {K V : Type} [DecidableEq K] (m : GoMap K V) (k : K) (v : V) : Run (GoMap K V) :=
  match m with
  | nil => .panicked "assignment to entry in nil map"
  | entries f => .returned (entries (Function.update f k (some v)))

/-- The map literal `map[K]V{}`. -/
def empty {K V : Type} : GoMap K V := entries (fun _ => none)

/-- The nested assignment `m[k1][k2] = v`. The inner map read under `k1` (the nil
map when there is none) is assigned into. A Go map is a reference, so the outer
map sees the new entry of its inner map; here the changed inner map is put
back under `k1`. Inner maps are only ever made fresh by the templates, one per
key, so no two keys share one. -/
def assignNested {K L V : Type} [DecidableEq K] [DecidableEq L]
    (m : GoMap K (GoMap L V)) (k1 : K) (k2 : L) (v : V) : Run (GoMap K (GoMap L V)) :=
  (((m.lookup k1).getD nil).assign k2 v).bind fun inner => m.assign k1 inner

/-- The entries of the inner map held under a key of a nested map, given what
the read of that key found; there are none when the key holds no map. -/
def innerEntries {L V : Type} (x : Option (GoMap L V)) : L → Option V :=
  match x with
  | some (entries h) => h
  | _ => fun _ => none

end GoMap

/-! ## math/big -/

namespace big

/-- A `*big.Int`: nil or a pointer to an integer. -/
abbrev IntPtr := Option Int

/-- The digits consumed by `nat.scan` in base 10: the value of the longest
run of ASCII digits at the front, by Horner's rule. -/
def scan (acc : Nat) : List Char → Nat
  | [] => acc
  | ch :: rest =>
    if '0' ≤ ch ∧ ch ≤ '9' then scan (acc * 10 + (ch.toNat - '0'.toNat)) rest else acc

/-- Value of a fresh `new(big.Int)` after `SetString(s, 10)`, whose results the
callers discard. An empty string fails in `scanSign` and leaves the receiver at
0. Otherwise an optional sign is read, then `nat.scan` stores the digits it
could read in the receiver before the trailing input is examined.
Go reads bytes; a byte of a multi-byte UTF-8 character is never a sign or a
digit, so reading characters stops at the same place. -/
def SetString (s : String) : Int :=
  match s.data with
  | [] => 0
  | ch :: rest =>
    let neg := ch = '-'
    let body := if ch = '-' ∨ ch = '+' then rest else ch :: rest
    let abs := scan 0 body
    if neg then -(abs : Int) else (abs : Int)

end big

/-! ## encoding/hex and go-ethereum common -/

namespace hex

/-- The lookup in `reverseHexTable`: the value of a hex digit byte. -/
def fromHexChar (c : UInt8) : Option Nat :=
  let n := c.toNat
  if 48 ≤ n ∧ n ≤ 57 then some (n - 48)
  else if 97 ≤ n ∧ n ≤ 102 then some (n - 97 + 10)
  else if 65 ≤ n ∧ n ≤ 70 then some (n - 65 + 10)
  else none

/-- The bytes `hex.DecodeString` hands back, error dropped: the pairs decoded
before the first byte that is not a hex digit (or before a dangling last byte). -/
def DecodeString : List UInt8 → List UInt8
  | p :: q :: rest =>
    match fromHexChar p, fromHexChar q with
    | some a, some b => UInt8.ofNat (a * 16 + b) :: DecodeString rest
    | _, _ => []
  | _ => []

/-- The table `hextable = "0123456789abcdef"`. -/
def hextable (n : Nat) : Char :=
  if n < 10 then Char.ofNat (48 + n) else Char.ofNat (97 + (n - 10))

/-- Lower-case hex of a byte sequence (`hex.Encode`). -/
def Encode : List UInt8 → List Char
  | [] => []
  | b :: rest => hextable (b.toNat / 16) :: hextable (b.toNat % 16) :: Encode rest

end hex

namespace common

/-- The bytes of a Go string. -/
def goBytes (s : String) : List UInt8 := s.data.flatMap String.utf8EncodeChar

/-- Address: `[AddressLength]byte` with `AddressLength = 20`. -/
structure Address where
  bytes : List UInt8
  size : bytes.length = 20
deriving DecidableEq

/-- Prefix test `has0xPrefix`. -/
def has0xPrefix (str : List UInt8) : Bool :=
  match str with
  | a :: b :: _ => a.toNat = 48 && (b.toNat = 120 || b.toNat = 88)
  | _ => false

/-- FromHex: strip an optional 0x, left-pad to even length, decode. -/
def FromHex (s : List UInt8) : List UInt8 :=
  let s := if has0xPrefix s then s.drop 2 else s
  let s := if s.length % 2 = 1 then UInt8.ofNat 48 :: s else s
  hex.DecodeString s

/-- The cropping in SetBytes: of more than 20 bytes only the last 20 are kept. -/
def crop (b : List UInt8) : List UInt8 :=
  if b.length > 20 then b.drop (b.length - 20) else b

/-- BytesToAddress, that is SetBytes on a zero address: the cropped bytes are
copied to the right end. -/
def BytesToAddress (b : List UInt8) : Address :=
  ⟨List.replicate (20 - (crop b).length) 0 ++ crop b, by
    have h : (crop b).length ≤ 20 := by
      unfold crop
      split
      · simp only [List.length_drop]; omega
      · omega
    simp only [List.length_append, List.length_replicate]
    omega⟩

/-- An ASCII hex digit, of either case. -/
def isHexDigit (c : Char) : Prop :=
  ('0' ≤ c ∧ c ≤ '9') ∨ ('a' ≤ c ∧ c ≤ 'f') ∨ ('A' ≤ c ∧ c ≤ 'F')

instance (c : Char) : Decidable (isHexDigit c) := by
  unfold isHexDigit
  infer_instance

/-- HexToAddress. -/
def HexToAddress (s : String) : Address := BytesToAddress (FromHex (goBytes s))

/-- The zero value of `Address`. -/
def zeroAddress : Address := ⟨List.replicate 20 0, by simp⟩

/-- The EIP-55 casing applied by `checksumHex` to the hex digit at position
`i` (counted after the 0x): a letter is upper-cased when the matching
nibble of the hash exceeds 7. -/
def checksumChar (hash : List UInt8) (i : Nat) (c : Char) : Char :=
  let hashByte := (hash.getD (i / 2) 0).toNat
  let hashByte := if i % 2 = 0 then hashByte / 16 else hashByte % 16
  if c > '9' ∧ hashByte > 7 then Char.ofNat (c.toNat - 32) else c

/-- The loop of `checksumHex` from position `i` on. -/
def checksumFrom (hash : List UInt8) (i : Nat) : List Char → List Char
  | [] => []
  | c :: rest => checksumChar hash i c :: checksumFrom hash (i + 1) rest

/-- Address.Hex, which is also what the verbs %s and %v print: 0x and the 40
hex digits in EIP-55 casing. The legacy Keccak-256 hash of the lower-case
digits is a parameter. -/
def Address.Hex (keccak256 : List UInt8 → List UInt8) (a : Address) : String :=
  let digits := hex.Encode a.bytes
  let hash := keccak256 (digits.map fun c => UInt8.ofNat c.toNat)
  String.mk ('0' :: 'x' :: checksumFrom hash 0 digits)

end common

/-! ## fmt -/

namespace fmt

/-- The verb %s on a string. -/
def s_string (x : String) : String := x

/-- The verb %s on a `common.Address` (`Address.Format`): the checksummed hex. -/
def s_Address (keccak256 : List UInt8 → List UInt8) (a : common.Address) : String :=
  a.Hex keccak256

/-- The verb %d on a Go `int`. -/
def d_int (n : Int) : String := toString n

/-- The verb %d on a `uint8`. -/
def d_uint8 (n : UInt8) : String := toString n.toNat

/-- The verb %d on a `*big.Int` (`big.Int.Format`), which prints a nil pointer
as `<nil>`. -/
def d_bigInt (x : big.IntPtr) : String :=
  match x with
  | none => "<nil>"
  | some v => toString v

end fmt

/-! ## internal/utils -/

namespace utils

/-- ValidateLength: the length of the slice must be the expected one. -/
def ValidateLength {E : Type} (s : List String) (expected : Int) : Option (GoError E) :=
  let listLen : Int := s.length
  if listLen ≠ expected then
    some (.errorf ("error: " ++ fmt.d_int listLen ++ " arguments does not match required "
      ++ fmt.d_int expected))
  else
    none

end utils

/-! ## Replies of the chain connector -/

/-- The first result of a connector method: a transaction handle, a string, a
`uint8` or a `*big.Int`. -/
inductive Reply (Tx : Type) where
  | tx (t : Option Tx)
  | str (s : String)
  | u8 (n : UInt8)
  | int (x : big.IntPtr)

/-- The values handed to `Return` when a test sets up the mocked connector. -/
structure MockReturns (Tx E : Type) where
  tx : Option Tx
  str : String
  u8 : UInt8
  int : big.IntPtr
  err : Option (GoError E)

/-! ## pkg/contracts/detailed_test_token -/

namespace detailed_test_token

/-- The method set `IInstance` of the chain connector. A method takes the
receiver handle, its Go arguments and the world, and gives back its two Go
results and the world afterwards. -/
structure IInstance (ι W Auth CallOpts Tx E : Type) where
  Transfer : ι → Auth → common.Address → big.IntPtr → W → (Option Tx × Option (GoError E)) × W
  Approve : ι → Auth → common.Address → big.IntPtr → W → (Option Tx × Option (GoError E)) × W
  TransferFrom : ι → Auth → common.Address → common.Address → big.IntPtr → W →
    (Option Tx × Option (GoError E)) × W
  IncreaseAllowance : ι → Auth → common.Address → big.IntPtr → W →
    (Option Tx × Option (GoError E)) × W
  DecreaseAllowance : ι → Auth → common.Address → big.IntPtr → W →
    (Option Tx × Option (GoError E)) × W
  Mint : ι → Auth → common.Address → big.IntPtr → W → (Option Tx × Option (GoError E)) × W
  Burn : ι → Auth → common.Address → big.IntPtr → W → (Option Tx × Option (GoError E)) × W
  Name : ι → Option CallOpts → W → (String × Option (GoError E)) × W
  Symbol : ι → Option CallOpts → W → (String × Option (GoError E)) × W
  Decimals : ι → Option CallOpts → W → (UInt8 × Option (GoError E)) × W
  TotalSupply : ι → Option CallOpts → W → (big.IntPtr × Option (GoError E)) × W
  BalanceOf : ι → Option CallOpts → common.Address → W → (big.IntPtr × Option (GoError E)) × W
  Allowance : ι → Option CallOpts → common.Address → common.Address → W →
    (big.IntPtr × Option (GoError E)) × W

/-- The constructor arguments of the DetailedTestToken. -/
structure contractConstructorArgs where
  name : String
  symbol : String
  amount : big.IntPtr

/-- The data that can be queried from the contract. -/
structure detailedQueriableContractData where
  Name : String
  Symbol : String
  Decimals : UInt8
  TotalSupply : big.IntPtr
  BalanceOf : GoMap common.Address big.IntPtr
  Allowance : GoMap common.Address (GoMap common.Address big.IntPtr)

/-- DetailedTestTokenContract. The embedded `cc.Contract` holder, which no method
of the template reads or writes, is left out. -/
structure DetailedTestTokenContract (ι Tx : Type) extends detailedQueriableContractData where
  ConstructorArgs : contractConstructorArgs
  Address : common.Address
  LastTx : Option Tx
  Instance : Option ι
  StrToPrint : String

variable {ι W Auth CallOpts Tx E : Type}

/-- WriteContract. -/
def WriteContract (keccak256 : List UInt8 → List UInt8) (I : IInstance ι W Auth CallOpts Tx E)
    (d : DetailedTestTokenContract ι Tx) (auth : Auth) (funcName : String)
    (funcArgs : List String) (w : W) : Run (Result (DetailedTestTokenContract ι Tx) W E) :=
  if funcName = "transfer" then
    match utils.ValidateLength funcArgs 2 with
    | some err => .returned ⟨some err, d, w⟩
    | none =>
      (index funcArgs 0).bind fun a0 =>
      (index funcArgs 1).bind fun a1 =>
      (deref d.Instance).bind fun inst =>
      let recipient := common.HexToAddress a0
      let amount : big.IntPtr := some (big.SetString a1)
      let r := I.Transfer inst auth recipient amount w
      match r.1.2 with
      | some err1 => .returned ⟨some err1, d, r.2⟩
      | none =>
        .returned ⟨none, { d with
          LastTx := r.1.1
          StrToPrint := "info: Transferred " ++ fmt.d_bigInt amount
              ++ " tokens at DetailedTestToken ("
            ++ fmt.s_Address keccak256 d.Address ++ ") to address "
                ++ fmt.s_Address keccak256 recipient ++ "\n" }, r.2⟩
  else if funcName = "approve" then
    match utils.ValidateLength funcArgs 2 with
    | some err => .returned ⟨some err, d, w⟩
    | none =>
      (index funcArgs 0).bind fun a0 =>
      (index funcArgs 1).bind fun a1 =>
      (deref d.Instance).bind fun inst =>
      let recipient := common.HexToAddress a0
      let amount : big.IntPtr := some (big.SetString a1)
      let r := I.Approve inst auth recipient amount w
      match r.1.2 with
      | some err1 => .returned ⟨some err1, d, r.2⟩
      | none =>
        .returned ⟨none, { d with
          LastTx := r.1.1
          StrToPrint := "info: Approved " ++ fmt.d_bigInt amount ++ " tokens at DetailedTestToken ("
            ++ fmt.s_Address keccak256 d.Address ++ ") to address "
                ++ fmt.s_Address keccak256 recipient ++ "\n" }, r.2⟩
  else if funcName = "transferfrom" then
    match utils.ValidateLength funcArgs 3 with
    | some err => .returned ⟨some err, d, w⟩
    | none =>
      (index funcArgs 0).bind fun a0 =>
      (index funcArgs 1).bind fun a1 =>
      (index funcArgs 2).bind fun a2 =>
      (deref d.Instance).bind fun inst =>
      let sender := common.HexToAddress a0
      let recipient := common.HexToAddress a1
      let amount : big.IntPtr := some (big.SetString a2)
      let r := I.TransferFrom inst auth sender recipient amount w
      match r.1.2 with
      | some err1 => .returned ⟨some err1, d, r.2⟩
      | none =>
        .returned ⟨none, { d with
          LastTx := r.1.1
          StrToPrint := "info: Transferred From " ++ fmt.s_Address keccak256 sender ++ " "
              ++ fmt.d_bigInt amount
            ++ " tokens at DetailedTestToken (" ++ fmt.s_Address keccak256 d.Address
                ++ ") to address "
            ++ fmt.s_Address keccak256 recipient ++ "\n" }, r.2⟩
  else if funcName = "increaseallowance" then
    match utils.ValidateLength funcArgs 2 with
    | some err => .returned ⟨some err, d, w⟩
    | none =>
      (index funcArgs 0).bind fun a0 =>
      (index funcArgs 1).bind fun a1 =>
      (deref d.Instance).bind fun inst =>
      let spender := common.HexToAddress a0
      let amount : big.IntPtr := some (big.SetString a1)
      let r := I.IncreaseAllowance inst auth spender amount w
      match r.1.2 with
      | some err1 => .returned ⟨some err1, d, r.2⟩
      | none =>
        .returned ⟨none, { d with
          LastTx := r.1.1
          StrToPrint := "info: Increased Allowance by " ++ fmt.d_bigInt amount
              ++ " tokens at DetailedTestToken ("
            ++ fmt.s_Address keccak256 d.Address ++ ") to address "
                ++ fmt.s_Address keccak256 spender ++ "\n" }, r.2⟩
  else if funcName = "decreaseallowance" then
    match utils.ValidateLength funcArgs 2 with
    | some err => .returned ⟨some err, d, w⟩
    | none =>
      (index funcArgs 0).bind fun a0 =>
      (index funcArgs 1).bind fun a1 =>
      (deref d.Instance).bind fun inst =>
      let spender := common.HexToAddress a0
      let amount : big.IntPtr := some (big.SetString a1)
      let r := I.DecreaseAllowance inst auth spender amount w
      match r.1.2 with
      | some err1 => .returned ⟨some err1, d, r.2⟩
      | none =>
        .returned ⟨none, { d with
          LastTx := r.1.1
          StrToPrint := "info: Decreased Allowance by " ++ fmt.d_bigInt amount
              ++ " tokens at DetailedTestToken ("
            ++ fmt.s_Address keccak256 d.Address ++ ") from address "
                ++ fmt.s_Address keccak256 spender ++ "\n" }, r.2⟩
  else if funcName = "mint" then
    match utils.ValidateLength funcArgs 2 with
    | some err => .returned ⟨some err, d, w⟩
    | none =>
      (index funcArgs 0).bind fun a0 =>
      (index funcArgs 1).bind fun a1 =>
      (deref d.Instance).bind fun inst =>
      let toAddr := common.HexToAddress a0
      let amount : big.IntPtr := some (big.SetString a1)
      let r := I.Mint inst auth toAddr amount w
      match r.1.2 with
      | some err1 => .returned ⟨some err1, d, r.2⟩
      | none =>
        .returned ⟨none, { d with
          LastTx := r.1.1
          StrToPrint := "info: Minted " ++ fmt.d_bigInt amount ++ " tokens to "
              ++ fmt.s_Address keccak256 toAddr
            ++ " at DetailedTestToken (" ++ fmt.s_Address keccak256 d.Address ++ ")\n" }, r.2⟩
  else if funcName = "burn" then
    match utils.ValidateLength funcArgs 2 with
    | some err => .returned ⟨some err, d, w⟩
    | none =>
      (index funcArgs 0).bind fun a0 =>
      (index funcArgs 1).bind fun a1 =>
      (deref d.Instance).bind fun inst =>
      let fromAddr := common.HexToAddress a0
      let amount : big.IntPtr := some (big.SetString a1)
      let r := I.Burn inst auth fromAddr amount w
      match r.1.2 with
      | some err1 => .returned ⟨some err1, d, r.2⟩
      | none =>
        .returned ⟨none, { d with
          LastTx := r.1.1
          StrToPrint := "info: Burned " ++ fmt.d_bigInt amount ++ " tokens from "
              ++ fmt.s_Address keccak256 fromAddr
            ++ " at DetailedTestToken (" ++ fmt.s_Address keccak256 d.Address ++ ")\n" }, r.2⟩
  else
    .returned ⟨none, d, w⟩

/-- QueryContract. -/
def QueryContract (keccak256 : List UInt8 → List UInt8) (I : IInstance ι W Auth CallOpts Tx E)
    (d : DetailedTestTokenContract ι Tx) (funcName : String)
    (funcArgs : List String) (w : W) : Run (Result (DetailedTestTokenContract ι Tx) W E) :=
  if funcName = "name" then
    match utils.ValidateLength funcArgs 0 with
    | some err => .returned ⟨some err, d, w⟩
    | none =>
      (deref d.Instance).bind fun inst =>
      let r := I.Name inst none w
      match r.1.2 with
      | some err1 => .returned ⟨some err1, d, r.2⟩
      | none =>
        .returned ⟨none, { d with
          Name := r.1.1
          StrToPrint := "info: Token Name: " ++ fmt.s_string r.1.1 ++ " for DetailedTestToken ("
            ++ fmt.s_Address keccak256 d.Address ++ ")\n" }, r.2⟩
  else if funcName = "symbol" then
    match utils.ValidateLength funcArgs 0 with
    | some err => .returned ⟨some err, d, w⟩
    | none =>
      (deref d.Instance).bind fun inst =>
      let r := I.Symbol inst none w
      match r.1.2 with
      | some err1 => .returned ⟨some err1, d, r.2⟩
      | none =>
        .returned ⟨none, { d with
          Symbol := r.1.1
          StrToPrint := "info: Token Symbol: " ++ fmt.s_string r.1.1 ++ " for DetailedTestToken ("
            ++ fmt.s_Address keccak256 d.Address ++ ")\n" }, r.2⟩
  else if funcName = "decimals" then
    match utils.ValidateLength funcArgs 0 with
    | some err => .returned ⟨some err, d, w⟩
    | none =>
      (deref d.Instance).bind fun inst =>
      let r := I.Decimals inst none w
      match r.1.2 with
      | some err1 => .returned ⟨some err1, d, r.2⟩
      | none =>
        .returned ⟨none, { d with
          Decimals := r.1.1
          StrToPrint := "info: Token Decimals: " ++ fmt.d_uint8 r.1.1 ++ " for DetailedTestToken ("
            ++ fmt.s_Address keccak256 d.Address ++ ")\n" }, r.2⟩
  else if funcName = "totalsupply" then
    match utils.ValidateLength funcArgs 0 with
    | some err => .returned ⟨some err, d, w⟩
    | none =>
      (deref d.Instance).bind fun inst =>
      let r := I.TotalSupply inst none w
      match r.1.2 with
      | some err1 => .returned ⟨some err1, d, r.2⟩
      | none =>
        .returned ⟨none, { d with
          TotalSupply := r.1.1
          StrToPrint := "info: Token TotalSupply: " ++ fmt.d_bigInt r.1.1
              ++ " for DetailedTestToken ("
            ++ fmt.s_Address keccak256 d.Address ++ ")\n" }, r.2⟩
  else if funcName = "balanceof" then
    match utils.ValidateLength funcArgs 1 with
    | some err => .returned ⟨some err, d, w⟩
    | none =>
      (index funcArgs 0).bind fun a0 =>
      (deref d.Instance).bind fun inst =>
      let account := common.HexToAddress a0
      let r := I.BalanceOf inst none account w
      match r.1.2 with
      | some err1 => .returned ⟨some err1, d, r.2⟩
      | none =>
        (d.BalanceOf.assign account r.1.1).bind fun balanceOf =>
        .returned ⟨none, { d with
          BalanceOf := balanceOf
          StrToPrint := "info: Token Balance of " ++ fmt.s_Address keccak256 account ++ " : "
            ++ fmt.d_bigInt r.1.1 ++ " for DetailedTestToken ("
            ++ fmt.s_Address keccak256 d.Address ++ ")\n" }, r.2⟩
  else if funcName = "allowance" then
    match utils.ValidateLength funcArgs 2 with
    | some err => .returned ⟨some err, d, w⟩
    | none =>
      (index funcArgs 0).bind fun a0 =>
      (index funcArgs 1).bind fun a1 =>
      (deref d.Instance).bind fun inst =>
      let owner := common.HexToAddress a0
      let spender := common.HexToAddress a1
      let r := I.Allowance inst none owner spender w
      match r.1.2 with
      | some err1 => .returned ⟨some err1, d, r.2⟩
      | none =>
        (match d.Allowance.lookup owner with
          | none => d.Allowance.assign owner GoMap.empty
          | some _ => .returned d.Allowance).bind fun allowance =>
        (GoMap.assignNested allowance owner spender r.1.1).bind fun allowance =>
        .returned ⟨none, { d with
          Allowance := allowance
          StrToPrint := "info: Token Allowance of spender " ++ fmt.s_Address keccak256 spender
            ++ " from owner " ++ fmt.s_Address keccak256 owner ++ " is "
            ++ fmt.d_bigInt r.1.1 ++ " for DetailedTestToken ("
            ++ fmt.s_Address keccak256 d.Address ++ ")\n" }, r.2⟩
  else
    .returned ⟨none, d, w⟩

/-! ### Vocabulary of the statements about the DetailedTestToken template -/

/-- A request to the chain connector: the method and the arguments it is called
with. -/
inductive Call (Auth CallOpts : Type) where
  | Transfer (opts : Auth) (recipient : common.Address) (amount : big.IntPtr)
  | Approve (opts : Auth) (spender : common.Address) (amount : big.IntPtr)
  | TransferFrom (opts : Auth) (sender recipient : common.Address) (amount : big.IntPtr)
  | IncreaseAllowance (opts : Auth) (spender : common.Address) (addedValue : big.IntPtr)
  | DecreaseAllowance (opts : Auth) (spender : common.Address) (subtractedValue : big.IntPtr)
  | Mint (opts : Auth) (toAddr : common.Address) (amount : big.IntPtr)
  | Burn (opts : Auth) (fromAddr : common.Address) (amount : big.IntPtr)
  | Name (opts : Option CallOpts)
  | Symbol (opts : Option CallOpts)
  | Decimals (opts : Option CallOpts)
  | TotalSupply (opts : Option CallOpts)
  | BalanceOf (opts : Option CallOpts) (account : common.Address)
  | Allowance (opts : Option CallOpts) (owner spender : common.Address)

/-- Serving a request: the one method of the connector that the request names
is called once with the arguments of the request. -/
def IInstance.invoke (I : IInstance ι W Auth CallOpts Tx E) (inst : ι)
    (c : Call Auth CallOpts) (w : W) : (Reply Tx × Option (GoError E)) × W :=
  match c with
  | .Transfer o a x => let r := I.Transfer inst o a x w; ((.tx r.1.1, r.1.2), r.2)
  | .Approve o a x => let r := I.Approve inst o a x w; ((.tx r.1.1, r.1.2), r.2)
  | .TransferFrom o a b x => let r := I.TransferFrom inst o a b x w; ((.tx r.1.1, r.1.2), r.2)
  | .IncreaseAllowance o a x =>
    let r := I.IncreaseAllowance inst o a x w; ((.tx r.1.1, r.1.2), r.2)
  | .DecreaseAllowance o a x =>
    let r := I.DecreaseAllowance inst o a x w; ((.tx r.1.1, r.1.2), r.2)
  | .Mint o a x => let r := I.Mint inst o a x w; ((.tx r.1.1, r.1.2), r.2)
  | .Burn o a x => let r := I.Burn inst o a x w; ((.tx r.1.1, r.1.2), r.2)
  | .Name o => let r := I.Name inst o w; ((.str r.1.1, r.1.2), r.2)
  | .Symbol o => let r := I.Symbol inst o w; ((.str r.1.1, r.1.2), r.2)
  | .Decimals o => let r := I.Decimals inst o w; ((.u8 r.1.1, r.1.2), r.2)
  | .TotalSupply o => let r := I.TotalSupply inst o w; ((.int r.1.1, r.1.2), r.2)
  | .BalanceOf o a => let r := I.BalanceOf inst o a w; ((.int r.1.1, r.1.2), r.2)
  | .Allowance o a b => let r := I.Allowance inst o a b w; ((.int r.1.1, r.1.2), r.2)

/-- The connector of the tests, after `MockContractInstance`: every method
records the request in the list of calls received, which is the whole of its
world, and hands back the values configured for it. -/
def MockContractInstance (ret : MockReturns Tx E) :
    IInstance Unit (List (Call Auth CallOpts)) Auth CallOpts Tx E where
  Transfer := fun _ o a x log => ((ret.tx, ret.err), log ++ [.Transfer o a x])
  Approve := fun _ o a x log => ((ret.tx, ret.err), log ++ [.Approve o a x])
  TransferFrom := fun _ o a b x log => ((ret.tx, ret.err), log ++ [.TransferFrom o a b x])
  IncreaseAllowance := fun _ o a x log => ((ret.tx, ret.err), log ++ [.IncreaseAllowance o a x])
  DecreaseAllowance := fun _ o a x log => ((ret.tx, ret.err), log ++ [.DecreaseAllowance o a x])
  Mint := fun _ o a x log => ((ret.tx, ret.err), log ++ [.Mint o a x])
  Burn := fun _ o a x log => ((ret.tx, ret.err), log ++ [.Burn o a x])
  Name := fun _ o log => ((ret.str, ret.err), log ++ [.Name o])
  Symbol := fun _ o log => ((ret.str, ret.err), log ++ [.Symbol o])
  Decimals := fun _ o log => ((ret.u8, ret.err), log ++ [.Decimals o])
  TotalSupply := fun _ o log => ((ret.int, ret.err), log ++ [.TotalSupply o])
  BalanceOf := fun _ o a log => ((ret.int, ret.err), log ++ [.BalanceOf o a])
  Allowance := fun _ o a b log => ((ret.int, ret.err), log ++ [.Allowance o a b])

/-- The case labels of the switch in QueryContract, each with the length its
case hands to ValidateLength; none for a name the switch sends to default. -/
def queryArity (funcName : String) : Option Nat :=
  if funcName ∈ ["name", "symbol", "decimals", "totalsupply"] then some 0
  else if funcName = "balanceof" then some 1
  else if funcName = "allowance" then some 2
  else none

/-- The case labels of the switch in WriteContract, each with the length its
case hands to ValidateLength; none for a name the switch sends to default. -/
def writeArity (funcName : String) : Option Nat :=
  if funcName ∈ ["transfer", "approve", "increaseallowance", "decreaseallowance", "mint", "burn"] then
    some 2
  else if funcName = "transferfrom" then some 3
  else none

/-- The connector call written in each case of the switch in QueryContract, for
a list of arguments of the length the case checks: the method of the same
name, called with nil options and the arguments converted to addresses in
order. -/
def queryCall (funcName : String) (funcArgs : List String) : Option (Call Auth CallOpts) :=
  if funcName = "name" then
    match funcArgs with
    | [] => some (.Name none)
    | _ => none
  else if funcName = "symbol" then
    match funcArgs with
    | [] => some (.Symbol none)
    | _ => none
  else if funcName = "decimals" then
    match funcArgs with
    | [] => some (.Decimals none)
    | _ => none
  else if funcName = "totalsupply" then
    match funcArgs with
    | [] => some (.TotalSupply none)
    | _ => none
  else if funcName = "balanceof" then
    match funcArgs with
    | [a] => some (.BalanceOf none (common.HexToAddress a))
    | _ => none
  else if funcName = "allowance" then
    match funcArgs with
    | [o, s] => some (.Allowance none (common.HexToAddress o) (common.HexToAddress s))
    | _ => none
  else none

/-- The connector call written in each case of the switch in WriteContract, for
a list of arguments of the length the case checks: the method of the same
name, called with the auth of the caller, the leading arguments converted to
addresses in order and the last argument read as a base-10 amount. -/
def writeCall (auth : Auth) (funcName : String) (funcArgs : List String) :
    Option (Call Auth CallOpts) :=
  if funcName = "transfer" then
    match funcArgs with
    | [a, m] => some (.Transfer auth (common.HexToAddress a) (some (big.SetString m)))
    | _ => none
  else if funcName = "approve" then
    match funcArgs with
    | [a, m] => some (.Approve auth (common.HexToAddress a) (some (big.SetString m)))
    | _ => none
  else if funcName = "transferfrom" then
    match funcArgs with
    | [a, b, m] =>
      some (.TransferFrom auth (common.HexToAddress a) (common.HexToAddress b)
        (some (big.SetString m)))
    | _ => none
  else if funcName = "increaseallowance" then
    match funcArgs with
    | [a, m] => some (.IncreaseAllowance auth (common.HexToAddress a) (some (big.SetString m)))
    | _ => none
  else if funcName = "decreaseallowance" then
    match funcArgs with
    | [a, m] => some (.DecreaseAllowance auth (common.HexToAddress a) (some (big.SetString m)))
    | _ => none
  else if funcName = "mint" then
    match funcArgs with
    | [a, m] => some (.Mint auth (common.HexToAddress a) (some (big.SetString m)))
    | _ => none
  else if funcName = "burn" then
    match funcArgs with
    | [a, m] => some (.Burn auth (common.HexToAddress a) (some (big.SetString m)))
    | _ => none
  else none

/-- A loaded instance: the connector is bound and the two caches are maps, as
LoadContract leaves them; no owner of the allowance cache holds a nil inner
map, as QueryContract only ever stores map values there. QueryContract and
WriteContract keep an instance loaded. -/
def Loaded (d : DetailedTestTokenContract ι Tx) : Prop :=
  d.Instance ≠ none ∧ d.BalanceOf ≠ .nil ∧ d.Allowance ≠ .nil ∧
    ∀ o, d.Allowance.lookup o ≠ some .nil

/-- The entry `m[o][s]` of a nested cache, present or absent. -/
def allowanceAt (d : DetailedTestTokenContract ι Tx) (o s : common.Address) : Option big.IntPtr :=
  ((d.Allowance.lookup o).getD .nil).lookup s

/-! ### The fixtures of the tests -/

/-- The values a successful case of the tests configures. -/
def testReturns : MockReturns Unit Empty :=
  { tx := some (), str := "DetailedTestToken", u8 := 18, int := some 100000000000, err := none }

/-- The values a failing case of the tests configures. -/
def failingReturns : MockReturns Unit Empty :=
  { tx := none, str := "", u8 := 0, int := none,
    err := some (.errorf "error: something bad happened") }

/-- The mocked connector over the types of the tests. -/
def mockInstance (ret : MockReturns Unit Empty) :
    IInstance Unit (List (Call Unit Unit)) Unit Unit Unit Empty :=
  MockContractInstance ret

/-- The zero value `DetailedTestTokenContract{}` with the mocked connector bound. -/
def testContract : DetailedTestTokenContract Unit Unit :=
  { Name := "", Symbol := "", Decimals := 0, TotalSupply := none, BalanceOf := .nil,
    Allowance := .nil, ConstructorArgs := ⟨"", "", none⟩, Address := common.zeroAddress,
    LastTx := none, Instance := some (), StrToPrint := "" }

/-- The same with the two caches made, as LoadContract leaves them. -/
def loadedContract : DetailedTestTokenContract Unit Unit :=
  { testContract with BalanceOf := .empty, Allowance := .empty }

end detailed_test_token

/-! ## pkg/contracts/fast_test_token -/

namespace fast_test_token

/-- The method set `IInstance` of the chain connector. A method takes the
receiver handle, its Go arguments and the world, and gives back its two Go
results and the world afterwards. -/
structure IInstance (ι W Auth CallOpts Tx E : Type) where
  Transfer : ι → Auth → common.Address → big.IntPtr → W → (Option Tx × Option (GoError E)) × W
  Approve : ι → Auth → common.Address → big.IntPtr → W → (Option Tx × Option (GoError E)) × W
  TransferFrom : ι → Auth → common.Address → common.Address → big.IntPtr → W →
    (Option Tx × Option (GoError E)) × W
  IncreaseAllowance : ι → Auth → common.Address → big.IntPtr → W →
    (Option Tx × Option (GoError E)) × W
  DecreaseAllowance : ι → Auth → common.Address → big.IntPtr → W →
    (Option Tx × Option (GoError E)) × W
  Name : ι → Option CallOpts → W → (String × Option (GoError E)) × W
  Symbol : ι → Option CallOpts → W → (String × Option (GoError E)) × W
  Decimals : ι → Option CallOpts → W → (UInt8 × Option (GoError E)) × W
  TotalSupply : ι → Option CallOpts → W → (big.IntPtr × Option (GoError E)) × W
  BalanceOf : ι → Option CallOpts → common.Address → W → (big.IntPtr × Option (GoError E)) × W
  Allowance : ι → Option CallOpts → common.Address → common.Address → W →
    (big.IntPtr × Option (GoError E)) × W

/-- The constructor arguments of the FastTestToken: none. -/
structure contractConstructorArgs where

/-- The data that can be queried from the contract. -/
structure fastQueriableContractData where
  Name : String
  Symbol : String
  Decimals : UInt8
  TotalSupply : big.IntPtr
  BalanceOf : GoMap common.Address big.IntPtr
  Allowance : GoMap common.Address (GoMap common.Address big.IntPtr)

/-- FastTestTokenContract. The embedded `cc.Contract` holder, which no method
of the template reads or writes, is left out. -/
structure FastTestTokenContract (ι Tx : Type) extends fastQueriableContractData where
  ConstructorArgs : contractConstructorArgs
  Address : common.Address
  LastTx : Option Tx
  Instance : Option ι
  StrToPrint : String

variable {ι W Auth CallOpts Tx E : Type}

/-- WriteContract. -/
def WriteContract (keccak256 : List UInt8 → List UInt8) (I : IInstance ι W Auth CallOpts Tx E)
    (d : FastTestTokenContract ι Tx) (auth : Auth) (funcName : String)
    (funcArgs : List String) (w : W) : Run (Result (FastTestTokenContract ι Tx) W E) :=
  if funcName = "transfer" then
    match utils.ValidateLength funcArgs 2 with
    | some err => .returned ⟨some err, d, w⟩
    | none =>
      (index funcArgs 0).bind fun a0 =>
      (index funcArgs 1).bind fun a1 =>
      (deref d.Instance).bind fun inst =>
      let recipient := common.HexToAddress a0
      let amount : big.IntPtr := some (big.SetString a1)
      let r := I.Transfer inst auth recipient amount w
      match r.1.2 with
      | some err1 => .returned ⟨some err1, d, r.2⟩
      | none =>
        .returned ⟨none, { d with
          LastTx := r.1.1
          StrToPrint := "info: Transferred " ++ fmt.d_bigInt amount ++ " tokens at FastTestToken ("
            ++ fmt.s_Address keccak256 d.Address ++ ") to address "
                ++ fmt.s_Address keccak256 recipient ++ "\n" }, r.2⟩
  else if funcName = "approve" then
    match utils.ValidateLength funcArgs 2 with
    | some err => .returned ⟨some err, d, w⟩
    | none =>
      (index funcArgs 0).bind fun a0 =>
      (index funcArgs 1).bind fun a1 =>
      (deref d.Instance).bind fun inst =>
      let recipient := common.HexToAddress a0
      let amount : big.IntPtr := some (big.SetString a1)
      let r := I.Approve inst auth recipient amount w
      match r.1.2 with
      | some err1 => .returned ⟨some err1, d, r.2⟩
      | none =>
        .returned ⟨none, { d with
          LastTx := r.1.1
          StrToPrint := "info: Approved " ++ fmt.d_bigInt amount ++ " tokens at FastTestToken ("
            ++ fmt.s_Address keccak256 d.Address ++ ") to address "
                ++ fmt.s_Address keccak256 recipient ++ "\n" }, r.2⟩
  else if funcName = "transferfrom" then
    match utils.ValidateLength funcArgs 3 with
    | some err => .returned ⟨some err, d, w⟩
    | none =>
      (index funcArgs 0).bind fun a0 =>
      (index funcArgs 1).bind fun a1 =>
      (index funcArgs 2).bind fun a2 =>
      (deref d.Instance).bind fun inst =>
      let sender := common.HexToAddress a0
      let recipient := common.HexToAddress a1
      let amount : big.IntPtr := some (big.SetString a2)
      let r := I.TransferFrom inst auth sender recipient amount w
      match r.1.2 with
      | some err1 => .returned ⟨some err1, d, r.2⟩
      | none =>
        .returned ⟨none, { d with
          LastTx := r.1.1
          StrToPrint := "info: Transferred From " ++ fmt.s_Address keccak256 sender ++ " "
              ++ fmt.d_bigInt amount
            ++ " tokens at FastTestToken (" ++ fmt.s_Address keccak256 d.Address ++ ") to address "
            ++ fmt.s_Address keccak256 recipient ++ "\n" }, r.2⟩
  else if funcName = "increaseallowance" then
    match utils.ValidateLength funcArgs 2 with
    | some err => .returned ⟨some err, d, w⟩
    | none =>
      (index funcArgs 0).bind fun a0 =>
      (index funcArgs 1).bind fun a1 =>
      (deref d.Instance).bind fun inst =>
      let spender := common.HexToAddress a0
      let amount : big.IntPtr := some (big.SetString a1)
      let r := I.IncreaseAllowance inst auth spender amount w
      match r.1.2 with
      | some err1 => .returned ⟨some err1, d, r.2⟩
      | none =>
        .returned ⟨none, { d with
          LastTx := r.1.1
          StrToPrint := "info: Increased Allowance by " ++ fmt.d_bigInt amount
              ++ " tokens at FastTestToken ("
            ++ fmt.s_Address keccak256 d.Address ++ ") to address "
                ++ fmt.s_Address keccak256 spender ++ "\n" }, r.2⟩
  else if funcName = "decreaseallowance" then
    match utils.ValidateLength funcArgs 2 with
    | some err => .returned ⟨some err, d, w⟩
    | none =>
      (index funcArgs 0).bind fun a0 =>
      (index funcArgs 1).bind fun a1 =>
      (deref d.Instance).bind fun inst =>
      let spender := common.HexToAddress a0
      let amount : big.IntPtr := some (big.SetString a1)
      let r := I.DecreaseAllowance inst auth spender amount w
      match r.1.2 with
      | some err1 => .returned ⟨some err1, d, r.2⟩
      | none =>
        .returned ⟨none, { d with
          LastTx := r.1.1
          StrToPrint := "info: Decreased Allowance by " ++ fmt.d_bigInt amount
              ++ " tokens at FastTestToken ("
            ++ fmt.s_Address keccak256 d.Address ++ ") from address "
                ++ fmt.s_Address keccak256 spender ++ "\n" }, r.2⟩
  else
    .returned ⟨none, d, w⟩

/-- QueryContract. -/
def QueryContract (keccak256 : List UInt8 → List UInt8) (I : IInstance ι W Auth CallOpts Tx E)
    (d : FastTestTokenContract ι Tx) (funcName : String)
    (funcArgs : List String) (w : W) : Run (Result (FastTestTokenContract ι Tx) W E) :=
  if funcName = "name" then
    match utils.ValidateLength funcArgs 0 with
    | some err => .returned ⟨some err, d, w⟩
    | none =>
      (deref d.Instance).bind fun inst =>
      let r := I.Name inst none w
      match r.1.2 with
      | some err1 => .returned ⟨some err1, d, r.2⟩
      | none =>
        .returned ⟨none, { d with
          Name := r.1.1
          StrToPrint := "info: Token Name: " ++ fmt.s_string r.1.1 ++ " for FastTestToken ("
            ++ fmt.s_Address keccak256 d.Address ++ ")\n" }, r.2⟩
  else if funcName = "symbol" then
    match utils.ValidateLength funcArgs 0 with
    | some err => .returned ⟨some err, d, w⟩
    | none =>
      (deref d.Instance).bind fun inst =>
      let r := I.Symbol inst none w
      match r.1.2 with
      | some err1 => .returned ⟨some err1, d, r.2⟩
      | none =>
        .returned ⟨none, { d with
          Symbol := r.1.1
          StrToPrint := "info: Token Symbol: " ++ fmt.s_string r.1.1 ++ " for FastTestToken ("
            ++ fmt.s_Address keccak256 d.Address ++ ")\n" }, r.2⟩
  else if funcName = "decimals" then
    match utils.ValidateLength funcArgs 0 with
    | some err => .returned ⟨some err, d, w⟩
    | none =>
      (deref d.Instance).bind fun inst =>
      let r := I.Decimals inst none w
      match r.1.2 with
      | some err1 => .returned ⟨some err1, d, r.2⟩
      | none =>
        .returned ⟨none, { d with
          Decimals := r.1.1
          StrToPrint := "info: Token Decimals: " ++ fmt.d_uint8 r.1.1 ++ " for FastTestToken ("
            ++ fmt.s_Address keccak256 d.Address ++ ")\n" }, r.2⟩
  else if funcName = "totalsupply" then
    match utils.ValidateLength funcArgs 0 with
    | some err => .returned ⟨some err, d, w⟩
    | none =>
      (deref d.Instance).bind fun inst =>
      let r := I.TotalSupply inst none w
      match r.1.2 with
      | some err1 => .returned ⟨some err1, d, r.2⟩
      | none =>
        .returned ⟨none, { d with
          TotalSupply := r.1.1
          StrToPrint := "info: Token TotalSupply: " ++ fmt.d_bigInt r.1.1 ++ " for FastTestToken ("
            ++ fmt.s_Address keccak256 d.Address ++ ")\n" }, r.2⟩
  else if funcName = "balanceof" then
    match utils.ValidateLength funcArgs 1 with
    | some err => .returned ⟨some err, d, w⟩
    | none =>
      (index funcArgs 0).bind fun a0 =>
      (deref d.Instance).bind fun inst =>
      let account := common.HexToAddress a0
      let r := I.BalanceOf inst none account w
      match r.1.2 with
      | some err1 => .returned ⟨some err1, d, r.2⟩
      | none =>
        (d.BalanceOf.assign account r.1.1).bind fun balanceOf =>
        .returned ⟨none, { d with
          BalanceOf := balanceOf
          StrToPrint := "info: Token Balance of " ++ fmt.s_Address keccak256 account ++ " : "
            ++ fmt.d_bigInt r.1.1 ++ " for FastTestToken ("
            ++ fmt.s_Address keccak256 d.Address ++ ")\n" }, r.2⟩
  else if funcName = "allowance" then
    match utils.ValidateLength funcArgs 2 with
    | some err => .returned ⟨some err, d, w⟩
    | none =>
      (index funcArgs 0).bind fun a0 =>
      (index funcArgs 1).bind fun a1 =>
      (deref d.Instance).bind fun inst =>
      let owner := common.HexToAddress a0
      let spender := common.HexToAddress a1
      let r := I.Allowance inst none owner spender w
      match r.1.2 with
      | some err1 => .returned ⟨some err1, d, r.2⟩
      | none =>
        (match d.Allowance.lookup owner with
          | none => d.Allowance.assign owner GoMap.empty
          | some _ => .returned d.Allowance).bind fun allowance =>
        (GoMap.assignNested allowance owner spender r.1.1).bind fun allowance =>
        .returned ⟨none, { d with
          Allowance := allowance
          StrToPrint := "info: Token Allowance of spender " ++ fmt.s_Address keccak256 spender
            ++ " from owner " ++ fmt.s_Address keccak256 owner ++ " is "
            ++ fmt.d_bigInt r.1.1 ++ " for FastTestToken ("
            ++ fmt.s_Address keccak256 d.Address ++ ")\n" }, r.2⟩
  else
    .returned ⟨none, d, w⟩

/-! ### Vocabulary of the statements about the FastTestToken template -/

/-- A request to the chain connector: the method and the arguments it is called
with. -/
inductive Call (Auth CallOpts : Type) where
  | Transfer (opts : Auth) (recipient : common.Address) (amount : big.IntPtr)
  | Approve (opts : Auth) (spender : common.Address) (amount : big.IntPtr)
  | TransferFrom (opts : Auth) (sender recipient : common.Address) (amount : big.IntPtr)
  | IncreaseAllowance (opts : Auth) (spender : common.Address) (addedValue : big.IntPtr)
  | DecreaseAllowance (opts : Auth) (spender : common.Address) (subtractedValue : big.IntPtr)
  | Name (opts : Option CallOpts)
  | Symbol (opts : Option CallOpts)
  | Decimals (opts : Option CallOpts)
  | TotalSupply (opts : Option CallOpts)
  | BalanceOf (opts : Option CallOpts) (account : common.Address)
  | Allowance (opts : Option CallOpts) (owner spender : common.Address)

/-- Serving a request: the one method of the connector that the request names
is called once with the arguments of the request. -/
def IInstance.invoke (I : IInstance ι W Auth CallOpts Tx E) (inst : ι)
    (c : Call Auth CallOpts) (w : W) : (Reply Tx × Option (GoError E)) × W :=
  match c with
  | .Transfer o a x => let r := I.Transfer inst o a x w; ((.tx r.1.1, r.1.2), r.2)
  | .Approve o a x => let r := I.Approve inst o a x w; ((.tx r.1.1, r.1.2), r.2)
  | .TransferFrom o a b x => let r := I.TransferFrom inst o a b x w; ((.tx r.1.1, r.1.2), r.2)
  | .IncreaseAllowance o a x =>
    let r := I.IncreaseAllowance inst o a x w; ((.tx r.1.1, r.1.2), r.2)
  | .DecreaseAllowance o a x =>
    let r := I.DecreaseAllowance inst o a x w; ((.tx r.1.1, r.1.2), r.2)
  | .Name o => let r := I.Name inst o w; ((.str r.1.1, r.1.2), r.2)
  | .Symbol o => let r := I.Symbol inst o w; ((.str r.1.1, r.1.2), r.2)
  | .Decimals o => let r := I.Decimals inst o w; ((.u8 r.1.1, r.1.2), r.2)
  | .TotalSupply o => let r := I.TotalSupply inst o w; ((.int r.1.1, r.1.2), r.2)
  | .BalanceOf o a => let r := I.BalanceOf inst o a w; ((.int r.1.1, r.1.2), r.2)
  | .Allowance o a b => let r := I.Allowance inst o a b w; ((.int r.1.1, r.1.2), r.2)

/-- The connector of the tests, after `MockContractInstance`: every method
records the request in the list of calls received, which is the whole of its
world, and hands back the values configured for it. -/
def MockContractInstance (ret : MockReturns Tx E) :
    IInstance Unit (List (Call Auth CallOpts)) Auth CallOpts Tx E where
  Transfer := fun _ o a x log => ((ret.tx, ret.err), log ++ [.Transfer o a x])
  Approve := fun _ o a x log => ((ret.tx, ret.err), log ++ [.Approve o a x])
  TransferFrom := fun _ o a b x log => ((ret.tx, ret.err), log ++ [.TransferFrom o a b x])
  IncreaseAllowance := fun _ o a x log => ((ret.tx, ret.err), log ++ [.IncreaseAllowance o a x])
  DecreaseAllowance := fun _ o a x log => ((ret.tx, ret.err), log ++ [.DecreaseAllowance o a x])
  Name := fun _ o log => ((ret.str, ret.err), log ++ [.Name o])
  Symbol := fun _ o log => ((ret.str, ret.err), log ++ [.Symbol o])
  Decimals := fun _ o log => ((ret.u8, ret.err), log ++ [.Decimals o])
  TotalSupply := fun _ o log => ((ret.int, ret.err), log ++ [.TotalSupply o])
  BalanceOf := fun _ o a log => ((ret.int, ret.err), log ++ [.BalanceOf o a])
  Allowance := fun _ o a b log => ((ret.int, ret.err), log ++ [.Allowance o a b])

/-- The case labels of the switch in QueryContract, each with the length its
case hands to ValidateLength; none for a name the switch sends to default. -/
def queryArity (funcName : String) : Option Nat :=
  if funcName ∈ ["name", "symbol", "decimals", "totalsupply"] then some 0
  else if funcName = "balanceof" then some 1
  else if funcName = "allowance" then some 2
  else none

/-- The case labels of the switch in WriteContract, each with the length its
case hands to ValidateLength; none for a name the switch sends to default. -/
def writeArity (funcName : String) : Option Nat :=
  if funcName ∈ ["transfer", "approve", "increaseallowance", "decreaseallowance"] then
    some 2
  else if funcName = "transferfrom" then some 3
  else none

/-- The connector call written in each case of the switch in QueryContract, for
a list of arguments of the length the case checks: the method of the same
name, called with nil options and the arguments converted to addresses in
order. -/
def queryCall (funcName : String) (funcArgs : List String) : Option (Call Auth CallOpts) :=
  if funcName = "name" then
    match funcArgs with
    | [] => some (.Name none)
    | _ => none
  else if funcName = "symbol" then
    match funcArgs with
    | [] => some (.Symbol none)
    | _ => none
  else if funcName = "decimals" then
    match funcArgs with
    | [] => some (.Decimals none)
    | _ => none
  else if funcName = "totalsupply" then
    match funcArgs with
    | [] => some (.TotalSupply none)
    | _ => none
  else if funcName = "balanceof" then
    match funcArgs with
    | [a] => some (.BalanceOf none (common.HexToAddress a))
    | _ => none
  else if funcName = "allowance" then
    match funcArgs with
    | [o, s] => some (.Allowance none (common.HexToAddress o) (common.HexToAddress s))
    | _ => none
  else none

/-- The connector call written in each case of the switch in WriteContract, for
a list of arguments of the length the case checks: the method of the same
name, called with the auth of the caller, the leading arguments converted to
addresses in order and the last argument read as a base-10 amount. -/
def writeCall (auth : Auth) (funcName : String) (funcArgs : List String) :
    Option (Call Auth CallOpts) :=
  if funcName = "transfer" then
    match funcArgs with
    | [a, m] => some (.Transfer auth (common.HexToAddress a) (some (big.SetString m)))
    | _ => none
  else if funcName = "approve" then
    match funcArgs with
    | [a, m] => some (.Approve auth (common.HexToAddress a) (some (big.SetString m)))
    | _ => none
  else if funcName = "transferfrom" then
    match funcArgs with
    | [a, b, m] =>
      some (.TransferFrom auth (common.HexToAddress a) (common.HexToAddress b)
        (some (big.SetString m)))
    | _ => none
  else if funcName = "increaseallowance" then
    match funcArgs with
    | [a, m] => some (.IncreaseAllowance auth (common.HexToAddress a) (some (big.SetString m)))
    | _ => none
  else if funcName = "decreaseallowance" then
    match funcArgs with
    | [a, m] => some (.DecreaseAllowance auth (common.HexToAddress a) (some (big.SetString m)))
    | _ => none
  else none

/-- A loaded instance: the connector is bound and the two caches are maps, as
LoadContract leaves them; no owner of the allowance cache holds a nil inner
map, as QueryContract only ever stores map values there. QueryContract and
WriteContract keep an instance loaded. -/
def Loaded (d : FastTestTokenContract ι Tx) : Prop :=
  d.Instance ≠ none ∧ d.BalanceOf ≠ .nil ∧ d.Allowance ≠ .nil ∧
    ∀ o, d.Allowance.lookup o ≠ some .nil

/-- The entry `m[o][s]` of a nested cache, present or absent. -/
def allowanceAt (d : FastTestTokenContract ι Tx) (o s : common.Address) : Option big.IntPtr :=
  ((d.Allowance.lookup o).getD .nil).lookup s

/-! ### The fixtures of the tests -/

/-- The values a successful case of the tests configures. -/
def testReturns : MockReturns Unit Empty :=
  { tx := some (), str := "FastTestToken", u8 := 18, int := some 100000000000, err := none }

/-- The values a failing case of the tests configures. -/
def failingReturns : MockReturns Unit Empty :=
  { tx := none, str := "", u8 := 0, int := none,
    err := some (.errorf "error: something bad happened") }

/-- The mocked connector over the types of the tests. -/
def mockInstance (ret : MockReturns Unit Empty) :
    IInstance Unit (List (Call Unit Unit)) Unit Unit Unit Empty :=
  MockContractInstance ret

/-- The zero value `FastTestTokenContract{}` with the mocked connector bound. -/
def testContract : FastTestTokenContract Unit Unit :=
  { Name := "", Symbol := "", Decimals := 0, TotalSupply := none, BalanceOf := .nil,
    Allowance := .nil, ConstructorArgs := ⟨⟩, Address := common.zeroAddress,
    LastTx := none, Instance := some (), StrToPrint := "" }

/-- The same with the two caches made, as LoadContract leaves them. -/
def loadedContract : FastTestTokenContract Unit Unit :=
  { testContract with BalanceOf := .empty, Allowance := .empty }

end fast_test_token

/-! ## internal/utils: membership in a slice -/

namespace utils

/-- Contains: whether the string is an element of the slice. The slice is
handed over by a pointer to a local variable, which is never nil. -/
def Contains (s : List String) (str : String) : Bool :=
  match s with
  | [] => false
  | v :: rest => if v = str then true else Contains rest str

end utils

/-! ## Reading a map with the zero value for an absent key -/

namespace GoMap

/-- The plain read `m[k]`: the value under the key, or the zero value of the
value type, handed over as `zero`, when the key is absent or the map is nil. -/
def read {K V : Type} (m : GoMap K V) (k : K) (zero : V) : V :=
  (m.lookup k).getD zero

end GoMap

/-! ## go-ethereum accounts/abi and accounts/abi/bind

The generated binding files call four functions of these packages. They are
taken as given: what they do is not code of this repository. -/

namespace bind

/-- A constructor argument handed to `bind.DeployContract`. -/
inductive Param where
  | str (s : String)
  | bigInt (x : big.IntPtr)

/-- The type `bind.MetaData`, as far as the generated files fill it: the ABI
text and the bytecode in hex. -/
structure MetaData where
  ABI : String
  Bin : String

/-- The functions of go-ethereum that the generated files call: `abi.JSON` on
the reader of a string, `(*MetaData).GetAbi`, `bind.NewBoundContract` and
`bind.DeployContract`, which sends the deployment to the chain. -/
structure Lib (ABI B W Auth Backend Tx E : Type) where
  JSON : String → ABI × Option (GoError E)
  GetAbi : MetaData → Option ABI × Option (GoError E)
  NewBoundContract : common.Address → ABI → Backend → Backend → Backend → B
  DeployContract : Auth → ABI → List UInt8 → Backend → List Param → W →
    ((common.Address × Option Tx × Option B) × Option (GoError E)) × W

end bind

/-! ## pkg/contracts/detailed_test_token: deploying, loading and printing -/

namespace detailed_test_token

/-- DetailedTestTokenCaller: the read-only binding. -/
structure DetailedTestTokenCaller (B : Type) where
  contract : Option B

/-- DetailedTestTokenTransactor: the write-only binding. -/
structure DetailedTestTokenTransactor (B : Type) where
  contract : Option B

/-- DetailedTestTokenFilterer: the log filterer. -/
structure DetailedTestTokenFilterer (B : Type) where
  contract : Option B

/-- DetailedTestToken: the generated binding around the contract. -/
structure DetailedTestToken (B : Type) where
  caller : DetailedTestTokenCaller B
  transactor : DetailedTestTokenTransactor B
  filterer : DetailedTestTokenFilterer B

variable {ι W Auth CallOpts Backend ABI B Tx E : Type}

/-- The function `bindDetailedTestToken` of the generated file. The ABI text is the
constant `DetailedTestTokenABI`, which is the ABI of the metadata. -/
def bindDetailedTestToken (L : bind.Lib ABI B W Auth Backend Tx E)
    (DetailedTestTokenMetaData : bind.MetaData) (address : common.Address)
    (caller transactor filterer : Backend) : Option B × Option (GoError E) :=
  match L.JSON DetailedTestTokenMetaData.ABI with
  | (_, some err) => (none, some err)
  | (parsed, none) => (some (L.NewBoundContract address parsed caller transactor filterer), none)

/-- The function `NewDetailedTestToken` of the generated file. -/
def NewDetailedTestToken (L : bind.Lib ABI B W Auth Backend Tx E)
    (DetailedTestTokenMetaData : bind.MetaData) (address : common.Address) (backend : Backend) :
    Option (DetailedTestToken B) × Option (GoError E) :=
  match bindDetailedTestToken L DetailedTestTokenMetaData address backend backend backend with
  | (_, some err) => (none, some err)
  | (contract, none) => (some ⟨⟨contract⟩, ⟨contract⟩, ⟨contract⟩⟩, none)

/-- The function `DeployDetailedTestToken` of the generated file. The bytecode is the
constant `DetailedTestTokenBin`, which is the bytecode of the metadata. -/
def DeployDetailedTestToken (L : bind.Lib ABI B W Auth Backend Tx E)
    (DetailedTestTokenMetaData : bind.MetaData) (auth : Auth) (backend : Backend)
    (_name _symbol : String) (_amount : big.IntPtr)
    (w : W) :
    ((common.Address × Option Tx × Option (DetailedTestToken B)) × Option (GoError E)) × W :=
  match L.GetAbi DetailedTestTokenMetaData with
  | (_, some err) => (((common.zeroAddress, none, none), some err), w)
  | (none, none) =>
    (((common.zeroAddress, none, none), some (.errorf "GetABI returned nil")), w)
  | (some parsed, none) =>
    match L.DeployContract auth parsed
        (common.FromHex (common.goBytes DetailedTestTokenMetaData.Bin)) backend
        [.str _name, .str _symbol, .bigInt _amount] w with
    | ((_, some err), w1) => (((common.zeroAddress, none, none), some err), w1)
    | (((address, tx, contract), none), w1) =>
      (((address, tx, some ⟨⟨contract⟩, ⟨contract⟩, ⟨contract⟩⟩), none), w1)

/-- The two functions of the generated file that the template calls. The
template keeps its connector in a field of interface type, so its methods are
written over any implementor `ι`; `generated` below is the record of the
functions of the generated file itself. -/
structure Generated (ι W Auth Backend Tx E : Type) where
  NewDetailedTestToken : common.Address → Backend → Option ι × Option (GoError E)
  DeployDetailedTestToken : Auth → Backend → String → String → big.IntPtr → W →
    ((common.Address × Option Tx × Option ι) × Option (GoError E)) × W

/-- The generated file over the go-ethereum functions and its metadata. -/
def generated (L : bind.Lib ABI B W Auth Backend Tx E) (DetailedTestTokenMetaData : bind.MetaData) :
    Generated (DetailedTestToken B) W Auth Backend Tx E where
  NewDetailedTestToken := NewDetailedTestToken L DetailedTestTokenMetaData
  DeployDetailedTestToken := DeployDetailedTestToken L DetailedTestTokenMetaData

/-- The number of fields of `contractConstructorArgs`, which reflection reports. -/
def contractConstructorArgs.NumField : Int := 3

/-- ParseConstructorArguments: three arguments are needed; the third is read as
a base-10 amount. -/
def ParseConstructorArguments (d : DetailedTestTokenContract ι Tx) (contractArgs : List String) :
    Run (Option (GoError E) × DetailedTestTokenContract ι Tx) :=
  let neededArgs : Int := contractConstructorArgs.NumField
  let recArgs : Int := contractArgs.length
  if recArgs ≠ neededArgs then
    .returned (some (.errorf ("error: incorrect amount of arguments, args needed : "
      ++ fmt.d_int neededArgs ++ " != args received " ++ fmt.d_int recArgs)), d)
  else
    (index contractArgs 2).bind fun a2 =>
    let amount : big.IntPtr := some (big.SetString a2)
    (index contractArgs 0).bind fun a0 =>
    (index contractArgs 1).bind fun a1 =>
    .returned (none, { d with ConstructorArgs := { name := a0, symbol := a1, amount := amount } })

/-- DeployContract: deploys the contract and saves its instance, the transaction
of the deployment and the address. -/
def DeployContract (G : Generated ι W Auth Backend Tx E) (d : DetailedTestTokenContract ι Tx)
    (auth : Auth) (client : Backend) (w : W) : Run (Result (DetailedTestTokenContract ι Tx) W E) :=
  match G.DeployDetailedTestToken auth client d.ConstructorArgs.name d.ConstructorArgs.symbol
    d.ConstructorArgs.amount w with
  | ((_, some err), w1) => .returned ⟨some err, d, w1⟩
  | (((address, tx, inst), none), w1) =>
    .returned ⟨none, { d with Address := address, LastTx := tx, Instance := inst }, w1⟩

/-- LoadContract: binds the contract at the address and saves its instance and
the address; the two caches become empty maps. The address comes by pointer. -/
def LoadContract (G : Generated ι W Auth Backend Tx E) (d : DetailedTestTokenContract ι Tx)
    (address : Option common.Address) (client : Backend) :
    Run (Option (GoError E) × DetailedTestTokenContract ι Tx) :=
  (deref address).bind fun a =>
  match G.NewDetailedTestToken a client with
  | (_, some err) => .returned (some err, d)
  | (inst, none) =>
    .returned (none,
      { d with Instance := inst, Address := a, BalanceOf := .empty, Allowance := .empty })

/-- PrintDeploymentData: writes the address and the transaction of the deployed
contract to the standard output, whose text so far is `out`. The hash of the
transaction in hex is given by `txHashHex`. -/
def PrintDeploymentData (keccak256 : List UInt8 → List UInt8) (txHashHex : Tx → String)
    (d : DetailedTestTokenContract ι Tx) (out : String) : Run String :=
  (deref d.LastTx).bind fun tx =>
  .returned (out ++ ("Detailed Test Token Contract successfully deployed at "
    ++ fmt.s_string (d.Address.Hex keccak256) ++ ", see transaction here "
    ++ fmt.s_string (txHashHex tx) ++ " \n"))

/-- PrintLoadedContractData: writes the success message of loading and the
address the contract is loaded at. -/
def PrintLoadedContractData (keccak256 : List UInt8 → List UInt8)
    (d : DetailedTestTokenContract ι Tx) (out : String) : String :=
  out ++ ("Detailed Test Token Contract successfully loaded at "
    ++ fmt.s_string (d.Address.Hex keccak256) ++ " \n")

/-- PrintContractDataAfterExecution: writes whatever was saved in StrToPrint. -/
def PrintContractDataAfterExecution (d : DetailedTestTokenContract ι Tx) (out : String) : String :=
  out ++ fmt.s_string d.StrToPrint

end detailed_test_token

/-! ## pkg/contracts/fast_test_token: deploying, loading and printing -/

namespace fast_test_token

/-- FastTestTokenCaller: the read-only binding. -/
structure FastTestTokenCaller (B : Type) where
  contract : Option B

/-- FastTestTokenTransactor: the write-only binding. -/
structure FastTestTokenTransactor (B : Type) where
  contract : Option B

/-- FastTestTokenFilterer: the log filterer. -/
structure FastTestTokenFilterer (B : Type) where
  contract : Option B

/-- FastTestToken: the generated binding around the contract. -/
structure FastTestToken (B : Type) where
  caller : FastTestTokenCaller B
  transactor : FastTestTokenTransactor B
  filterer : FastTestTokenFilterer B

variable {ι W Auth CallOpts Backend ABI B Tx E : Type}

/-- The function `bindFastTestToken` of the generated file. The ABI text is the
constant `FastTestTokenABI`, which is the ABI of the metadata. -/
def bindFastTestToken (L : bind.Lib ABI B W Auth Backend Tx E)
    (FastTestTokenMetaData : bind.MetaData) (address : common.Address)
    (caller transactor filterer : Backend) : Option B × Option (GoError E) :=
  match L.JSON FastTestTokenMetaData.ABI with
  | (_, some err) => (none, some err)
  | (parsed, none) => (some (L.NewBoundContract address parsed caller transactor filterer), none)

/-- The function `NewFastTestToken` of the generated file. -/
def NewFastTestToken (L : bind.Lib ABI B W Auth Backend Tx E)
    (FastTestTokenMetaData : bind.MetaData) (address : common.Address) (backend : Backend) :
    Option (FastTestToken B) × Option (GoError E) :=
  match bindFastTestToken L FastTestTokenMetaData address backend backend backend with
  | (_, some err) => (none, some err)
  | (contract, none) => (some ⟨⟨contract⟩, ⟨contract⟩, ⟨contract⟩⟩, none)

/-- The function `DeployFastTestToken` of the generated file. The bytecode is the
constant `FastTestTokenBin`, which is the bytecode of the metadata. -/
def DeployFastTestToken (L : bind.Lib ABI B W Auth Backend Tx E)
    (FastTestTokenMetaData : bind.MetaData) (auth : Auth) (backend : Backend)
    (w : W) :
    ((common.Address × Option Tx × Option (FastTestToken B)) × Option (GoError E)) × W :=
  match L.GetAbi FastTestTokenMetaData with
  | (_, some err) => (((common.zeroAddress, none, none), some err), w)
  | (none, none) =>
    (((common.zeroAddress, none, none), some (.errorf "GetABI returned nil")), w)
  | (some parsed, none) =>
    match L.DeployContract auth parsed
        (common.FromHex (common.goBytes FastTestTokenMetaData.Bin)) backend
        [] w with
    | ((_, some err), w1) => (((common.zeroAddress, none, none), some err), w1)
    | (((address, tx, contract), none), w1) =>
      (((address, tx, some ⟨⟨contract⟩, ⟨contract⟩, ⟨contract⟩⟩), none), w1)

/-- The two functions of the generated file that the template calls. The
template keeps its connector in a field of interface type, so its methods are
written over any implementor `ι`; `generated` below is the record of the
functions of the generated file itself. -/
structure Generated (ι W Auth Backend Tx E : Type) where
  NewFastTestToken : common.Address → Backend → Option ι × Option (GoError E)
  DeployFastTestToken : Auth → Backend → W →
    ((common.Address × Option Tx × Option ι) × Option (GoError E)) × W

/-- The generated file over the go-ethereum functions and its metadata. -/
def generated (L : bind.Lib ABI B W Auth Backend Tx E) (FastTestTokenMetaData : bind.MetaData) :
    Generated (FastTestToken B) W Auth Backend Tx E where
  NewFastTestToken := NewFastTestToken L FastTestTokenMetaData
  DeployFastTestToken := DeployFastTestToken L FastTestTokenMetaData

/-- ParseConstructorArguments: the argument is not looked at; the method is
there so that the contract fits the templated Contract. -/
def ParseConstructorArguments (f : FastTestTokenContract ι Tx) (_ : List String) :
    Run (Option (GoError E) × FastTestTokenContract ι Tx) :=
  .returned (none, f)

/-- DeployContract: deploys the contract and saves its instance, the transaction
of the deployment and the address. -/
def DeployContract (G : Generated ι W Auth Backend Tx E) (f : FastTestTokenContract ι Tx)
    (auth : Auth) (client : Backend) (w : W) : Run (Result (FastTestTokenContract ι Tx) W E) :=
  match G.DeployFastTestToken auth client w with
  | ((_, some err), w1) => .returned ⟨some err, f, w1⟩
  | (((address, tx, inst), none), w1) =>
    .returned ⟨none, { f with Address := address, LastTx := tx, Instance := inst }, w1⟩

/-- LoadContract: binds the contract at the address and saves its instance and
the address; the two caches become empty maps. The address comes by pointer. -/
def LoadContract (G : Generated ι W Auth Backend Tx E) (f : FastTestTokenContract ι Tx)
    (address : Option common.Address) (client : Backend) :
    Run (Option (GoError E) × FastTestTokenContract ι Tx) :=
  (deref address).bind fun a =>
  match G.NewFastTestToken a client with
  | (_, some err) => .returned (some err, f)
  | (inst, none) =>
    .returned (none,
      { f with Instance := inst, Address := a, BalanceOf := .empty, Allowance := .empty })

/-- PrintDeploymentData: writes the address and the transaction of the deployed
contract to the standard output, whose text so far is `out`. The hash of the
transaction in hex is given by `txHashHex`. -/
def PrintDeploymentData (keccak256 : List UInt8 → List UInt8) (txHashHex : Tx → String)
    (f : FastTestTokenContract ι Tx) (out : String) : Run String :=
  (deref f.LastTx).bind fun tx =>
  .returned (out ++ ("Fast Test Token Contract successfully deployed at "
    ++ fmt.s_string (f.Address.Hex keccak256) ++ ", see transaction here "
    ++ fmt.s_string (txHashHex tx) ++ "\n"))

/-- PrintLoadedContractData: writes the success message of loading and the
address the contract is loaded at. -/
def PrintLoadedContractData (keccak256 : List UInt8 → List UInt8)
    (f : FastTestTokenContract ι Tx) (out : String) : String :=
  out ++ ("Fast Test Token Contract successfully loaded at "
    ++ fmt.s_string (f.Address.Hex keccak256) ++ "\n")

/-- PrintContractDataAfterExecution: writes whatever was saved in StrToPrint. -/
def PrintContractDataAfterExecution (f : FastTestTokenContract ι Tx) (out : String) : String :=
  out ++ fmt.s_string f.StrToPrint

end fast_test_token


/-! ## The state of the running program -/

/-- What the program works on besides its local variables: the objects that
package-level variables point to, the world outside the process, and the text
written to the standard output so far. -/
structure Sys (H W : Type) where
  heap : H
  world : W
  stdout : String

/-- The call `fmt.Println(a)` with one string: the string and a line feed are
written to the standard output. -/
def Sys.Println {H W : Type} (s : Sys H W) (a : String) : Sys H W :=
  { s with stdout := s.stdout ++ a ++ "\n" }

/-! ## internal/contracts_template_interface -/

namespace contracts_template_interface

/-- IContract: the deployer and executor interfaces. A value of the interface
type carries the methods of the object behind it; each method runs on the
state `S` of the program, which holds that object. -/
structure IContract (S Auth Backend E : Type) where
  DeployContract : Auth → Backend → S → Run (Option (GoError E) × S)
  ParseConstructorArguments : List String → S → Run (Option (GoError E) × S)
  PrintDeploymentData : S → Run S
  LoadContract : Option common.Address → Backend → S → Run (Option (GoError E) × S)
  WriteContract : Auth → String → List String → S → Run (Option (GoError E) × S)
  QueryContract : String → List String → S → Run (Option (GoError E) × S)
  PrintLoadedContractData : S → Run S
  PrintContractDataAfterExecution : S → Run S

/-- Contract: the holder of a value of the interface type, nil when `none`. -/
structure Contract (S Auth Backend E : Type) where
  IContract : Option (IContract S Auth Backend E)

variable {S Auth Backend E : Type}

/-- DeployContract: parses the constructor arguments, deploys, and prints the
address and the transaction. -/
def Contract.DeployContract (i : Contract S Auth Backend E) (contractArgs : List String)
    (auth : Auth) (client : Backend) (s : S) : Run (Option (GoError E) × S) :=
  (deref i.IContract).bind fun T =>
  (T.ParseConstructorArguments contractArgs s).bind fun r =>
  match r.1 with
  | some err => .returned (some err, r.2)
  | none =>
    (T.DeployContract auth client r.2).bind fun r1 =>
    match r1.1 with
    | some err1 => .returned (some err1, r1.2)
    | none => (T.PrintDeploymentData r1.2).bind fun s1 => .returned (none, s1)

/-- LoadContract: loads the contract at the address and prints its loaded data. -/
def Contract.LoadContract (i : Contract S Auth Backend E) (address : Option common.Address)
    (client : Backend) (s : S) : Run (Option (GoError E) × S) :=
  (deref i.IContract).bind fun T =>
  (T.LoadContract address client s).bind fun r =>
  match r.1 with
  | some err => .returned (some err, r.2)
  | none => (T.PrintLoadedContractData r.2).bind fun s1 => .returned (none, s1)

/-- QueryContract: runs the view function of the given name and prints. -/
def Contract.QueryContract (i : Contract S Auth Backend E) (funcName : String)
    (funcArgs : List String) (s : S) : Run (Option (GoError E) × S) :=
  (deref i.IContract).bind fun T =>
  (T.QueryContract funcName funcArgs s).bind fun r =>
  match r.1 with
  | some err => .returned (some err, r.2)
  | none =>
    (T.PrintLoadedContractData r.2).bind fun s1 =>
    (T.PrintContractDataAfterExecution s1).bind fun s2 => .returned (none, s2)

/-- WriteContract: runs the write function of the given name and prints. -/
def Contract.WriteContract (i : Contract S Auth Backend E) (auth : Auth) (funcName : String)
    (funcArgs : List String) (s : S) : Run (Option (GoError E) × S) :=
  (deref i.IContract).bind fun T =>
  (T.WriteContract auth funcName funcArgs s).bind fun r =>
  match r.1 with
  | some err => .returned (some err, r.2)
  | none =>
    (T.PrintLoadedContractData r.2).bind fun s1 =>
    (T.PrintContractDataAfterExecution s1).bind fun s2 => .returned (none, s2)

end contracts_template_interface

/-! ## internal/constants -/

namespace constants

/-- The accepted base queries of an ERC-20 token. -/
def baseERC20Queries : List String :=
  ["name", "symbol", "decimals", "totalsupply", "balanceof", "allowance"]

/-- The accepted base writes of an ERC-20 token. -/
def baseERC20Writes : List String :=
  ["transfer", "approve", "transferfrom", "increaseallowance", "decreaseallowance"]

/-- ContractNamesToFuncNames: the query and write functions of each contract.
The slice literals are full, so every `append` makes a new slice: the lists
share nothing. -/
def ContractNamesToFuncNames : GoMap String (GoMap String (List String)) :=
  .entries fun contractType =>
    if contractType = "detailed_test_token" then
      some (.entries fun kind =>
        if kind = "query" then some baseERC20Queries
        else if kind = "write" then some (baseERC20Writes ++ ["mint", "burn"])
        else if kind = "all" then some (baseERC20Queries ++ (baseERC20Writes ++ ["mint", "burn"]))
        else none)
    else if contractType = "fast_test_token" then
      some (.entries fun kind =>
        if kind = "query" then some baseERC20Queries
        else if kind = "write" then some baseERC20Writes
        else if kind = "all" then some (baseERC20Queries ++ baseERC20Writes)
        else none)
    else none

/-- The loop of VerifyFunctionNameExists over the list of all functions: true at
the first element equal to the function name, false when the list ends. -/
def rangeFind (funcName : String) (allFunctions : List String) : Bool :=
  match allFunctions with
  | [] => false
  | v :: rest => if v = funcName then true else rangeFind funcName rest

/-- VerifyFunctionNameExists: whether the function name is in the list of all
functions of the contract type. -/
def VerifyFunctionNameExists (contractType funcName : String) : Bool :=
  let allFunctions := (ContractNamesToFuncNames.read contractType .nil).read "all" []
  rangeFind funcName allFunctions

/-- The list `ContractNamesToFuncNames[contractType][kind]` as the program reads
it: the nil slice, which has no element, when a key is absent. -/
def funcNames (contractType kind : String) : List String :=
  (ContractNamesToFuncNames.read contractType .nil).read kind []

/-- The two objects that the values of ContractNamesDict point to. -/
structure Templates (ιd ιf Tx : Type) where
  dtt : detailed_test_token.DetailedTestTokenContract ιd Tx
  ftt : fast_test_token.FastTestTokenContract ιf Tx

/-- The two objects as the composite literals of the dictionary make them: every
field holds its zero value. -/
def Templates.zero {ιd ιf Tx : Type} : Templates ιd ιf Tx where
  dtt := { Name := "", Symbol := "", Decimals := 0, TotalSupply := none, BalanceOf := .nil,
           Allowance := .nil, ConstructorArgs := ⟨"", "", none⟩, Address := common.zeroAddress,
           LastTx := none, Instance := none, StrToPrint := "" }
  ftt := { Name := "", Symbol := "", Decimals := 0, TotalSupply := none, BalanceOf := .nil,
           Allowance := .nil, ConstructorArgs := ⟨⟩, Address := common.zeroAddress,
           LastTx := none, Instance := none, StrToPrint := "" }

/-- What the two templates use and this repository does not define: Keccak-256,
the hash of a transaction in hex, and per template the methods of the bound
connector and the two functions of the generated file. -/
structure Externals (ιd ιf W Auth CallOpts Backend Tx E : Type) where
  keccak256 : List UInt8 → List UInt8
  txHashHex : Tx → String
  dttInstance : detailed_test_token.IInstance ιd W Auth CallOpts Tx E
  dttGenerated : detailed_test_token.Generated ιd W Auth Backend Tx E
  fttInstance : fast_test_token.IInstance ιf W Auth CallOpts Tx E
  fttGenerated : fast_test_token.Generated ιf W Auth Backend Tx E

variable {ιd ιf W Auth CallOpts Backend Tx E : Type}

open contracts_template_interface

/-- The value `&dtt.DetailedTestTokenContract{}` of the dictionary as an IContract:
the methods of the template, run on the object kept in the state. -/
def detailedObject (X : Externals ιd ιf W Auth CallOpts Backend Tx E) :
    IContract (Sys (Templates ιd ιf Tx) W) Auth Backend E where
  DeployContract := fun auth client s =>
    (detailed_test_token.DeployContract X.dttGenerated s.heap.dtt auth client s.world).bind
      fun r => .returned (r.err, { s with heap := { s.heap with dtt := r.self }, world := r.world })
  ParseConstructorArguments := fun contractArgs s =>
    (detailed_test_token.ParseConstructorArguments s.heap.dtt contractArgs).bind
      fun r => .returned (r.1, { s with heap := { s.heap with dtt := r.2 } })
  PrintDeploymentData := fun s =>
    (detailed_test_token.PrintDeploymentData X.keccak256 X.txHashHex s.heap.dtt s.stdout).bind
      fun out => .returned { s with stdout := out }
  LoadContract := fun address client s =>
    (detailed_test_token.LoadContract X.dttGenerated s.heap.dtt address client).bind
      fun r => .returned (r.1, { s with heap := { s.heap with dtt := r.2 } })
  WriteContract := fun auth funcName funcArgs s =>
    (detailed_test_token.WriteContract X.keccak256 X.dttInstance s.heap.dtt auth funcName funcArgs
      s.world).bind
      fun r => .returned (r.err, { s with heap := { s.heap with dtt := r.self }, world := r.world })
  QueryContract := fun funcName funcArgs s =>
    (detailed_test_token.QueryContract X.keccak256 X.dttInstance s.heap.dtt funcName funcArgs
      s.world).bind
      fun r => .returned (r.err, { s with heap := { s.heap with dtt := r.self }, world := r.world })
  PrintLoadedContractData := fun s =>
    .returned { s with stdout :=
      detailed_test_token.PrintLoadedContractData X.keccak256 s.heap.dtt s.stdout }
  PrintContractDataAfterExecution := fun s =>
    .returned { s with stdout :=
      detailed_test_token.PrintContractDataAfterExecution s.heap.dtt s.stdout }

/-- The value `&ftt.FastTestTokenContract{}` of the dictionary as an IContract:
the methods of the template, run on the object kept in the state. -/
def fastObject (X : Externals ιd ιf W Auth CallOpts Backend Tx E) :
    IContract (Sys (Templates ιd ιf Tx) W) Auth Backend E where
  DeployContract := fun auth client s =>
    (fast_test_token.DeployContract X.fttGenerated s.heap.ftt auth client s.world).bind
      fun r => .returned (r.err, { s with heap := { s.heap with ftt := r.self }, world := r.world })
  ParseConstructorArguments := fun contractArgs s =>
    (fast_test_token.ParseConstructorArguments s.heap.ftt contractArgs).bind
      fun r => .returned (r.1, { s with heap := { s.heap with ftt := r.2 } })
  PrintDeploymentData := fun s =>
    (fast_test_token.PrintDeploymentData X.keccak256 X.txHashHex s.heap.ftt s.stdout).bind
      fun out => .returned { s with stdout := out }
  LoadContract := fun address client s =>
    (fast_test_token.LoadContract X.fttGenerated s.heap.ftt address client).bind
      fun r => .returned (r.1, { s with heap := { s.heap with ftt := r.2 } })
  WriteContract := fun auth funcName funcArgs s =>
    (fast_test_token.WriteContract X.keccak256 X.fttInstance s.heap.ftt auth funcName funcArgs
      s.world).bind
      fun r => .returned (r.err, { s with heap := { s.heap with ftt := r.self }, world := r.world })
  QueryContract := fun funcName funcArgs s =>
    (fast_test_token.QueryContract X.keccak256 X.fttInstance s.heap.ftt funcName funcArgs
      s.world).bind
      fun r => .returned (r.err, { s with heap := { s.heap with ftt := r.self }, world := r.world })
  PrintLoadedContractData := fun s =>
    .returned { s with stdout :=
      fast_test_token.PrintLoadedContractData X.keccak256 s.heap.ftt s.stdout }
  PrintContractDataAfterExecution := fun s =>
    .returned { s with stdout :=
      fast_test_token.PrintContractDataAfterExecution s.heap.ftt s.stdout }

/-- ContractNamesDict: the contract name to the contract object. Reading a name
that is not a key gives the nil interface value, which is `none` here. -/
def ContractNamesDict (X : Externals ιd ιf W Auth CallOpts Backend Tx E) :
    GoMap String (contracts_template_interface.IContract (Sys (Templates ιd ιf Tx) W) Auth
      Backend E) :=
  .entries fun key =>
    if key = "detailed_test_token" then some (detailedObject X)
    else if key = "fast_test_token" then some (fastObject X)
    else none

/-- VerifyContractTypeExists: whether the contract type requested exists. -/
def VerifyContractTypeExists (X : Externals ιd ιf W Auth CallOpts Backend Tx E)
    (key : String) : Bool :=
  ((ContractNamesDict X).lookup key).isSome

end constants

/-! ## internal/contract_interactor_facade -/

namespace contract_interactor_facade

/-- The data common to the deployer and executor facades. The account, the
client and the chain state are pointers to objects of other packages. -/
structure baseContractInteractorFacade (UserAccount EthRpcClient BlockChainState Auth : Type) where
  userAccount : Option UserAccount
  ethClient : Option EthRpcClient
  currBlockchainState : Option BlockChainState
  auth : Auth
  contractType : String

/-- The data needed to handle contract execution. -/
structure contractExecutorFacade (UserAccount EthRpcClient BlockChainState Auth : Type) extends
    baseContractInteractorFacade UserAccount EthRpcClient BlockChainState Auth where
  contractAddress : common.Address
  funcName : String
  funcArguments : List String

variable {ιd ιf W Auth CallOpts Backend Tx E UserAccount EthRpcClient BlockChainState : Type}

open constants contracts_template_interface

/-- ExecuteContract: runs the given function on a loaded contract, as a query
when its name is in the query list of the contract type and as a write when
it is in the write list; there is no branch for a name in neither. -/
def ExecuteContract (X : Externals ιd ιf W Auth CallOpts Backend Tx E)
    (c : contractExecutorFacade UserAccount EthRpcClient BlockChainState Auth)
    (s : Sys (Templates ιd ιf Tx) W) : Run (Option (GoError E) × Sys (Templates ιd ιf Tx) W) :=
  let s0 := s.Println "Starting contract executor process."
  let queryFuncs := (ContractNamesToFuncNames.read c.contractType .nil).read "query" []
  let writeFuncs := (ContractNamesToFuncNames.read c.contractType .nil).read "write" []
  let contract : Contract (Sys (Templates ιd ιf Tx) W) Auth Backend E :=
    { IContract := (ContractNamesDict X).lookup c.contractType }
  if utils.Contains queryFuncs c.funcName then
    (contract.QueryContract c.funcName c.funcArguments s0).bind fun r =>
    match r.1 with
    | some err => .returned (some err, r.2)
    | none => .returned (none, r.2.Println "Successfully completed contract execution process.")
  else if utils.Contains writeFuncs c.funcName then
    (contract.WriteContract c.auth c.funcName c.funcArguments s0).bind fun r =>
    match r.1 with
    | some err => .returned (some err, r.2)
    | none => .returned (none, r.2.Println "Successfully completed contract execution process.")
  else
    .returned (none, s0.Println "Successfully completed contract execution process.")

end contract_interactor_facade

/-! ## Vocabulary and fixtures for loading, the registry and the facade -/

namespace detailed_test_token

variable {ι W V Auth CallOpts Backend Tx E : Type}

/-- A connector working on one part of a larger world: `get` reads the part and
`put` writes it back. -/
def IInstance.within (I : IInstance ι W Auth CallOpts Tx E) (get : V → W) (put : W → V → V) :
    IInstance ι V Auth CallOpts Tx E where
  Transfer := fun i o a x v => let r := I.Transfer i o a x (get v); (r.1, put r.2 v)
  Approve := fun i o a x v => let r := I.Approve i o a x (get v); (r.1, put r.2 v)
  TransferFrom := fun i o a b x v => let r := I.TransferFrom i o a b x (get v); (r.1, put r.2 v)
  IncreaseAllowance := fun i o a x v => let r := I.IncreaseAllowance i o a x (get v); (r.1, put r.2 v)
  DecreaseAllowance := fun i o a x v => let r := I.DecreaseAllowance i o a x (get v); (r.1, put r.2 v)
  Mint := fun i o a x v => let r := I.Mint i o a x (get v); (r.1, put r.2 v)
  Burn := fun i o a x v => let r := I.Burn i o a x (get v); (r.1, put r.2 v)
  Name := fun i o v => let r := I.Name i o (get v); (r.1, put r.2 v)
  Symbol := fun i o v => let r := I.Symbol i o (get v); (r.1, put r.2 v)
  Decimals := fun i o v => let r := I.Decimals i o (get v); (r.1, put r.2 v)
  TotalSupply := fun i o v => let r := I.TotalSupply i o (get v); (r.1, put r.2 v)
  BalanceOf := fun i o a v => let r := I.BalanceOf i o a (get v); (r.1, put r.2 v)
  Allowance := fun i o a b v => let r := I.Allowance i o a b (get v); (r.1, put r.2 v)

/-- The amount a request to a write method carries; a request to a query method
carries none. -/
def Call.amount (c : Call Auth CallOpts) : Option big.IntPtr :=
  match c with
  | .Transfer _ _ x => some x
  | .Approve _ _ x => some x
  | .TransferFrom _ _ _ x => some x
  | .IncreaseAllowance _ _ x => some x
  | .DecreaseAllowance _ _ x => some x
  | .Mint _ _ x => some x
  | .Burn _ _ x => some x
  | _ => none

/-- A generated file for the mocked connector: binding always succeeds with the
one handle there is; deploying answers the address it is given and records
nothing. -/
def mockGenerated (address : common.Address) : Generated Unit W Unit Unit Unit Empty where
  NewDetailedTestToken := fun _ _ => (some (), none)
  DeployDetailedTestToken := fun _ _ _ _ _ w => (((address, some (), some ()), none), w)

end detailed_test_token

namespace fast_test_token

variable {ι W V Auth CallOpts Backend Tx E : Type}

/-- A connector working on one part of a larger world: `get` reads the part and
`put` writes it back. -/
def IInstance.within (I : IInstance ι W Auth CallOpts Tx E) (get : V → W) (put : W → V → V) :
    IInstance ι V Auth CallOpts Tx E where
  Transfer := fun i o a x v => let r := I.Transfer i o a x (get v); (r.1, put r.2 v)
  Approve := fun i o a x v => let r := I.Approve i o a x (get v); (r.1, put r.2 v)
  TransferFrom := fun i o a b x v => let r := I.TransferFrom i o a b x (get v); (r.1, put r.2 v)
  IncreaseAllowance := fun i o a x v => let r := I.IncreaseAllowance i o a x (get v); (r.1, put r.2 v)
  DecreaseAllowance := fun i o a x v => let r := I.DecreaseAllowance i o a x (get v); (r.1, put r.2 v)
  Name := fun i o v => let r := I.Name i o (get v); (r.1, put r.2 v)
  Symbol := fun i o v => let r := I.Symbol i o (get v); (r.1, put r.2 v)
  Decimals := fun i o v => let r := I.Decimals i o (get v); (r.1, put r.2 v)
  TotalSupply := fun i o v => let r := I.TotalSupply i o (get v); (r.1, put r.2 v)
  BalanceOf := fun i o a v => let r := I.BalanceOf i o a (get v); (r.1, put r.2 v)
  Allowance := fun i o a b v => let r := I.Allowance i o a b (get v); (r.1, put r.2 v)

/-- The amount a request to a write method carries; a request to a query method
carries none. -/
def Call.amount (c : Call Auth CallOpts) : Option big.IntPtr :=
  match c with
  | .Transfer _ _ x => some x
  | .Approve _ _ x => some x
  | .TransferFrom _ _ _ x => some x
  | .IncreaseAllowance _ _ x => some x
  | .DecreaseAllowance _ _ x => some x
  | _ => none

/-- A generated file for the mocked connector: binding always succeeds with the
one handle there is; deploying answers the address it is given and records
nothing. -/
def mockGenerated (address : common.Address) : Generated Unit W Unit Unit Unit Empty where
  NewFastTestToken := fun _ _ => (some (), none)
  DeployFastTestToken := fun _ _ w => (((address, some (), some ()), none), w)

end fast_test_token

namespace constants

/-- The world of the fixtures: the calls received by the mocked connector of the
DetailedTestToken and by that of the FastTestToken. -/
abbrev TestWorld : Type :=
  List (detailed_test_token.Call Unit Unit) × List (fast_test_token.Call Unit Unit)

/-- The externals of the fixtures: both templates on mocked connectors with the
values of a successful case, a Keccak-256 that hashes everything to nothing,
and transactions printed as the empty string. -/
def testExternals : Externals Unit Unit TestWorld Unit Unit Unit Unit Empty where
  keccak256 := fun _ => []
  txHashHex := fun _ => ""
  dttInstance := (detailed_test_token.mockInstance detailed_test_token.testReturns).within
    Prod.fst (fun l v => (l, v.2))
  dttGenerated := detailed_test_token.mockGenerated common.zeroAddress
  fttInstance := (fast_test_token.mockInstance fast_test_token.testReturns).within
    Prod.snd (fun l v => (v.1, l))
  fttGenerated := fast_test_token.mockGenerated common.zeroAddress

/-- The state the program starts in: the objects of the dictionary as made,
nothing received by a connector and nothing printed. -/
def testSys : Sys (Templates Unit Unit Unit) TestWorld :=
  { heap := Templates.zero, world := ([], []), stdout := "" }

/-- A state in which both objects of the dictionary are loaded on the mocked
connectors; nothing received by a connector and nothing printed. -/
def loadedSys : Sys (Templates Unit Unit Unit) TestWorld :=
  { heap := { dtt := detailed_test_token.loadedContract, ftt := fast_test_token.loadedContract },
    world := ([], []), stdout := "" }

end constants

namespace contract_interactor_facade

/-- An executor facade for a contract type, a function name and its arguments;
what the executor does not read is left nil. -/
def testFacade (contractType funcName : String) (funcArguments : List String) :
    contractExecutorFacade Unit Unit Unit Unit :=
  { userAccount := none, ethClient := none, currBlockchainState := none, auth := (),
    contractType := contractType, contractAddress := common.zeroAddress,
    funcName := funcName, funcArguments := funcArguments }

end contract_interactor_facade

/-! ## Vocabulary for comparing the two templates -/

/-- A connector of the DetailedTestToken seen as a connector of the FastTestToken:
the same methods without Mint and Burn. -/
def detailed_test_token.IInstance.toFast {ι W Auth CallOpts Tx E : Type}
    (I : detailed_test_token.IInstance ι W Auth CallOpts Tx E) :
    fast_test_token.IInstance ι W Auth CallOpts Tx E where
  Transfer := I.Transfer
  Approve := I.Approve
  TransferFrom := I.TransferFrom
  IncreaseAllowance := I.IncreaseAllowance
  DecreaseAllowance := I.DecreaseAllowance
  Name := I.Name
  Symbol := I.Symbol
  Decimals := I.Decimals
  TotalSupply := I.TotalSupply
  BalanceOf := I.BalanceOf
  Allowance := I.Allowance

namespace fast_test_token

variable {ι W Auth CallOpts Tx E : Type}

/-- Corresponding instance states of the two templates: every field that both
have holds the same value, the report string apart. -/
def Corresponds (f : FastTestTokenContract ι Tx)
    (d : detailed_test_token.DetailedTestTokenContract ι Tx) : Prop :=
  f.Name = d.Name ∧ f.Symbol = d.Symbol ∧ f.Decimals = d.Decimals ∧
    f.TotalSupply = d.TotalSupply ∧ f.BalanceOf = d.BalanceOf ∧ f.Allowance = d.Allowance ∧
    f.Address = d.Address ∧ f.LastTx = d.LastTx ∧ f.Instance = d.Instance

/-- Two report strings that are the same text around the label of the template. -/
def SameReport (a b : String) : Prop :=
  ∃ pre post, a = pre ++ "FastTestToken" ++ post ∧ b = pre ++ "DetailedTestToken" ++ post

/-- The outcomes of one operation on corresponding states `f` and `d` agree: both
calls panic for the same reason, or both return, with the same error, the
same world, corresponding states, and report strings that are both as before
or are the same text around the label. -/
def Agree (f : FastTestTokenContract ι Tx) (d : detailed_test_token.DetailedTestTokenContract ι Tx)
    (rf : Run (Result (FastTestTokenContract ι Tx) W E))
    (rd : Run (Result (detailed_test_token.DetailedTestTokenContract ι Tx) W E)) : Prop :=
  match rf, rd with
  | .returned a, .returned b =>
    a.err = b.err ∧ a.world = b.world ∧ Corresponds a.self b.self ∧
      ((a.self.StrToPrint = f.StrToPrint ∧ b.self.StrToPrint = d.StrToPrint) ∨
        SameReport a.self.StrToPrint b.self.StrToPrint)
  | .panicked p, .panicked q => p = q
  | _, _ => False

end fast_test_token

/-! ## Integer conversions, and more of fmt -/

/-- The conversion `int64(x)` of an integer value: the value modulo 2^64, read as
a signed integer of 64 bits. -/
def toInt64 (x : Int) : Int := (x + 2 ^ 63) % 2 ^ 64 - 2 ^ 63

/-- The conversion `uint64(x)` of an integer value: the value modulo 2^64. -/
def toUint64 (x : Int) : Nat := (x % 2 ^ 64).toNat

/-- The method `Error` of an error value; `ErrorString` gives it for the errors
that come from elsewhere. -/
def GoError.Error {E : Type} (ErrorString : E → String) (err : GoError E) : String :=
  match err with
  | .errorf msg => msg
  | .foreign e => ErrorString e

namespace fmt

/-- The verb %d on a `uint64`. -/
def d_uint64 (n : Nat) : String := toString n

/-- The verb %v on a value of type `error`: the text of `Error`, and `<nil>` for
the nil error. -/
def v_error {E : Type} (ErrorString : E → String) (err : Option (GoError E)) : String :=
  match err with
  | none => "<nil>"
  | some e => e.Error ErrorString

end fmt

/-- A call of `fmt.Printf`, given the text that the format and the operands
make: the text is written to the standard output. -/
def Sys.Printf {H W : Type} (s : Sys H W) (text : String) : Sys H W :=
  { s with stdout := s.stdout ++ text }

namespace bind

/-- The type `bind.TransactOpts`, as far as this repository sets it: the nonce,
the value, the gas price and the gas limit; `rest` holds the other fields. -/
structure TransactOpts (R : Type) where
  Nonce : big.IntPtr
  Value : big.IntPtr
  GasPrice : big.IntPtr
  GasLimit : Nat
  rest : R

end bind

/-! ## internal/utils: the required flags -/

namespace utils

/-- RequiredFlagVerification: whether no string of the slice is empty. -/
def RequiredFlagVerification (flags : List String) : Bool :=
  match flags with
  | [] => true
  | flag :: rest => if flag.utf8ByteSize = 0 then false else RequiredFlagVerification rest

end utils

/-! ## pkg/eth_account -/

namespace eth_account

/-- UserAccount: the address and the two keys of the user. -/
structure UserAccount (PublicKey PrivateKey : Type) where
  Account : common.Address
  PublicKey : Option PublicKey
  PrivateKey : Option PrivateKey

/-- What CreateAccount takes from go-ethereum `crypto` and from `crypto/ecdsa`:
`HexToECDSA`, the public key of a private key as a `*ecdsa.PublicKey` (none when
the type assertion fails), and `PubkeyToAddress`. -/
structure Crypto (PublicKey PrivateKey E : Type) where
  HexToECDSA : String → Option PrivateKey × Option (GoError E)
  Public : PrivateKey → Option PublicKey
  PubkeyToAddress : PublicKey → common.Address

variable {PublicKey PrivateKey E : Type}

/-- CreateAccount: from a private key in hex, the keys and the address. -/
def CreateAccount (C : Crypto PublicKey PrivateKey E) (privateHexKey : String) :
    Run (Option (UserAccount PublicKey PrivateKey) × Option (GoError E)) :=
  match C.HexToECDSA privateHexKey with
  | (_, some err) => .returned (none, some err)
  | (privateKey, none) =>
    (deref privateKey).bind fun key =>
    match C.Public key with
    | none =>
      .returned (none, some (.errorf
        ("error: cannot assert type: publicKey is " ++ "not of type *ecdsa.PublicKey")))
    | some publicKeyECDSA =>
      let userAddress := C.PubkeyToAddress publicKeyECDSA
      .returned (some ⟨userAddress, some publicKeyECDSA, privateKey⟩, none)

end eth_account

/-! ## pkg/eth_rpc_client -/

namespace eth_rpc_client

/-- The methods of `IEthClient` that this repository calls itself: a method takes
the receiver handle, its Go arguments and the world, and gives back its Go
results and the world afterwards. `CodeAt` belongs to the embedded
`bind.ContractBackend`; a nil byte slice is the empty list. -/
structure IEthClient (κ Ctx W E : Type) where
  ChainID : κ → Ctx → W → (big.IntPtr × Option (GoError E)) × W
  BlockNumber : κ → Ctx → W → (Nat × Option (GoError E)) × W
  PendingNonceAt : κ → Ctx → common.Address → W → (Nat × Option (GoError E)) × W
  CodeAt : κ → Ctx → common.Address → big.IntPtr → W → (List UInt8 × Option (GoError E)) × W
  Close : κ → W → W

/-- EthRpcClient: the connected client, nil when `none`, and the url. -/
structure EthRpcClient (κ : Type) where
  EthClient : Option κ
  RawUrl : String

/-- BlockChainState: the block height and the chain id of the connected node. -/
structure BlockChainState where
  BlockNumber : Nat
  ChainId : big.IntPtr

variable {κ Ctx W H E R PublicKey PrivateKey : Type}

/-- CreateClient: dials the node at the url. `dialClient` is the package
variable of that name. -/
def CreateClient (dialClient : String → W → (Option κ × Option (GoError E)) × W)
    (RawUrl : String) (w : W) : (Option (EthRpcClient κ) × Option (GoError E)) × W :=
  match dialClient RawUrl w with
  | ((_, some err), w1) => ((none, some err), w1)
  | ((ethConnection, none), w1) => ((some ⟨ethConnection, RawUrl⟩, none), w1)

/-- CloseClient: closes the connection with the client. -/
def CloseClient (I : IEthClient κ Ctx W E) (e : EthRpcClient κ) (w : W) : Run W :=
  (deref e.EthClient).bind fun client => .returned (I.Close client w)

/-- LoadBlockChainState: asks the node for its chain id and block height. -/
def LoadBlockChainState (I : IEthClient κ Ctx W E) (e : EthRpcClient κ) (ctx : Ctx) (w : W) :
    Run ((Option BlockChainState × Option (GoError E)) × W) :=
  (deref e.EthClient).bind fun client =>
  match I.ChainID client ctx w with
  | ((_, some err), w1) => .returned ((none, some err), w1)
  | ((chainId, none), w1) =>
    match I.BlockNumber client ctx w1 with
    | ((_, some err1), w2) => .returned ((none, some err1), w2)
    | ((blockNumber, none), w2) => .returned ((some ⟨blockNumber, chainId⟩, none), w2)

/-- GetDataForTransaction: the authorization data to process transactions at a
given gas limit and gas price. `newKeyedTransactionWithChainID` is the package
variable of that name. -/
def GetDataForTransaction (I : IEthClient κ Ctx W E)
    (newKeyedTransactionWithChainID :
      Option PrivateKey → big.IntPtr → Option (bind.TransactOpts R) × Option (GoError E))
    (e : EthRpcClient κ) (ctx : Ctx)
    (userAccount : Option (eth_account.UserAccount PublicKey PrivateKey))
    (chainId : big.IntPtr) (gasLimit gasPrice : Int) (s : Sys H W) :
    Run ((Option (bind.TransactOpts R) × Option (GoError E)) × Sys H W) :=
  (deref e.EthClient).bind fun client =>
  (deref userAccount).bind fun ua =>
  match I.PendingNonceAt client ctx ua.Account s.world with
  | ((_, some err), w1) => .returned ((none, some err), { s with world := w1 })
  | ((nonce, none), w1) =>
    let s1 := Sys.Printf { s with world := w1 }
      ("Retrieved Account nonce " ++ fmt.d_uint64 nonce ++ " \n")
    match newKeyedTransactionWithChainID ua.PrivateKey chainId with
    | (_, some err1) => .returned ((none, some err1), s1)
    | (auth, none) =>
      (deref auth).bind fun a =>
      .returned ((some { a with
        Nonce := some (toInt64 nonce)
        Value := some 0
        GasLimit := toUint64 gasLimit
        GasPrice := some (toInt64 gasPrice) }, none), s1)

/-- VerifyContractExistsAtAddress: whether there is code at the address. -/
def VerifyContractExistsAtAddress (I : IEthClient κ Ctx W E) (e : EthRpcClient κ) (ctx : Ctx)
    (blockNumber : big.IntPtr) (contractAddress : common.Address) (w : W) : Run (Bool × W) :=
  (deref e.EthClient).bind fun client =>
  match I.CodeAt client ctx contractAddress blockNumber w with
  | ((code, err), w1) =>
    if err.isSome ∨ code.length = 0 then .returned (false, w1) else .returned (true, w1)

end eth_rpc_client

/-! ## internal/contract_interactor_facade: building the facades, deploying and loading -/

namespace contract_interactor_facade

/-- The data needed to handle contract deployment. -/
structure contractDeployerFacade (UserAccount EthRpcClient BlockChainState Auth : Type) extends
    baseContractInteractorFacade UserAccount EthRpcClient BlockChainState Auth where
  contractArgs : List String

/-- What the facade and the two programs take from outside this repository, and
the two package variables of `eth_rpc_client`: the text of the errors that come
from elsewhere, the `crypto` functions, `dialClient`, the methods of the
dialled client, `newKeyedTransactionWithChainID`, `context.Background()` and
`strings.ToLower`. -/
structure Packages (κ Ctx W PublicKey PrivateKey R E : Type) where
  ErrorString : E → String
  crypto : eth_account.Crypto PublicKey PrivateKey E
  dialClient : String → W → (Option κ × Option (GoError E)) × W
  ethClient : eth_rpc_client.IEthClient κ Ctx W E
  newKeyedTransactionWithChainID :
    Option PrivateKey → big.IntPtr → Option (bind.TransactOpts R) × Option (GoError E)
  Background : Ctx
  ToLower : String → String

variable {ιd ιf κ Ctx W H CallOpts Tx PublicKey PrivateKey R E : Type}

open constants contracts_template_interface eth_account eth_rpc_client

/-- The statements of NewContractDeployerFacade after the one that defers the
closing of the client: the chain state is loaded and the data for the
transaction is fetched. -/
def NewContractDeployerFacade.afterDefer (P : Packages κ Ctx W PublicKey PrivateKey R E)
    (userAccount : Option (UserAccount PublicKey PrivateKey))
    (ethClient : Option (EthRpcClient κ)) (contractArgs : List String) (contractType : String)
    (gasLimit gasPrice : Int) (s : Sys H W) :
    Run ((Option (contractDeployerFacade (UserAccount PublicKey PrivateKey) (EthRpcClient κ)
      BlockChainState (Option (bind.TransactOpts R))) × Option (GoError E)) × Sys H W) :=
  (deref ethClient).bind fun ec =>
  (LoadBlockChainState P.ethClient ec P.Background s.world).bind fun rb =>
  match rb with
  | ((_, some err2), w1) =>
    .returned ((none, some (.errorf ("error: failed to retrieve account using "
      ++ "provided private key : " ++ fmt.v_error P.ErrorString (some err2) ++ "\n"))),
      { s with world := w1 })
  | ((currBlockchainState, none), w1) =>
    (deref currBlockchainState).bind fun bs =>
    let s1 := Sys.Printf { s with world := w1 }
      ("Succesfully connected to RPC client " ++ fmt.s_string ec.RawUrl
        ++ ". Current Block Height " ++ fmt.d_uint64 bs.BlockNumber ++ " "
        ++ ", for chain id: " ++ fmt.d_bigInt bs.ChainId ++ "\n")
    (GetDataForTransaction P.ethClient P.newKeyedTransactionWithChainID ec P.Background
      userAccount bs.ChainId gasLimit gasPrice s1).bind fun rg =>
    match rg with
    | ((_, some err3), s2) =>
      .returned ((none, some (.errorf ("error: failed to get data for transaction "
        ++ "processing: " ++ fmt.v_error P.ErrorString (some err3) ++ "\n"))), s2)
    | ((auth, none), s2) =>
      .returned ((some {
          userAccount := userAccount
          ethClient := ethClient
          currBlockchainState := currBlockchainState
          auth := auth
          contractType := contractType
          contractArgs := contractArgs }, none),
        s2.Println ("Successfully completed account and blockchain connection "
          ++ "process."))

/-- NewContractDeployerFacade: creates the account, connects to the node, loads
the chain state and the data for the transaction, and builds the deployer
facade. The deferred call of CloseClient runs when the statements after it
have returned. -/
def NewContractDeployerFacade (keccak256 : List UInt8 → List UInt8)
    (P : Packages κ Ctx W PublicKey PrivateKey R E) (privateKey rpc : String)
    (contractArgs : List String) (contractType : String) (gasLimit gasPrice : Int)
    (s : Sys H W) :
    Run ((Option (contractDeployerFacade (UserAccount PublicKey PrivateKey) (EthRpcClient κ)
      BlockChainState (Option (bind.TransactOpts R))) × Option (GoError E)) × Sys H W) :=
  let s0 := s.Println "Starting account and blockchain connection process."
  (CreateAccount P.crypto privateKey).bind fun ra =>
  match ra with
  | (_, some err) => .returned ((none, some err), s0)
  | (userAccount, none) =>
    (deref userAccount).bind fun ua =>
    let s1 := s0.Printf ("Successfully accessed account for Public Key: "
      ++ fmt.s_Address keccak256 ua.Account ++ "\n")
    match CreateClient P.dialClient rpc s1.world with
    | ((_, some err1), w2) =>
      .returned ((none, some (.errorf ("error: failed to connect to given " ++ "rpc url : "
        ++ fmt.v_error P.ErrorString (some err1) ++ " \n"))), { s1 with world := w2 })
    | ((ethClient, none), w2) =>
      (NewContractDeployerFacade.afterDefer P userAccount ethClient contractArgs contractType
        gasLimit gasPrice { s1 with world := w2 }).bind fun r =>
      (deref ethClient).bind fun ec =>
      (CloseClient P.ethClient ec r.2.world).bind fun w3 =>
      .returned (r.1, { r.2 with world := w3 })

/-- DeployContract: deploys the contract by the procedure of its contract type. -/
def DeployContract (X : Externals ιd ιf W (Option (bind.TransactOpts R)) CallOpts (Option κ) Tx E)
    (c : contractDeployerFacade (UserAccount PublicKey PrivateKey) (EthRpcClient κ)
      BlockChainState (Option (bind.TransactOpts R)))
    (s : Sys (Templates ιd ιf Tx) W) : Run (Option (GoError E) × Sys (Templates ιd ιf Tx) W) :=
  let s0 := s.Println "Starting contract deployer process."
  let contract : Contract (Sys (Templates ιd ιf Tx) W) (Option (bind.TransactOpts R))
      (Option κ) E :=
    { IContract := (ContractNamesDict X).lookup c.contractType }
  (deref c.ethClient).bind fun ec =>
  (contract.DeployContract c.contractArgs c.auth ec.EthClient s0).bind fun r =>
  match r.1 with
  | some err => .returned (some err, r.2)
  | none => .returned (none, r.2.Println "Successfully completed contract deployer process.")

/-- The statements of NewContractExecutionFacade after the one that defers the
closing of the client: the chain state is loaded, the contract is looked for at
its address and the data for the transaction is fetched. -/
def NewContractExecutionFacade.afterDefer (P : Packages κ Ctx W PublicKey PrivateKey R E)
    (userAccount : Option (UserAccount PublicKey PrivateKey))
    (ethClient : Option (EthRpcClient κ)) (contractType contractAddress funcName : String)
    (funcArguments : List String) (gasLimit gasPrice : Int) (s : Sys H W) :
    Run ((Option (contractExecutorFacade (UserAccount PublicKey PrivateKey) (EthRpcClient κ)
      BlockChainState (Option (bind.TransactOpts R))) × Option (GoError E)) × Sys H W) :=
  (deref ethClient).bind fun ec =>
  (LoadBlockChainState P.ethClient ec P.Background s.world).bind fun rb =>
  match rb with
  | ((_, some err2), w1) =>
    .returned ((none, some (.errorf ("error: failed to retrieve account using "
      ++ "provided private key : " ++ fmt.v_error P.ErrorString (some err2) ++ "\n"))),
      { s with world := w1 })
  | ((currBlockchainState, none), w1) =>
    (deref currBlockchainState).bind fun bs =>
    let s1 := Sys.Printf { s with world := w1 }
      ("Succesfully connected to RPC client " ++ fmt.s_string ec.RawUrl
        ++ ". Current Block " ++ "Height " ++ fmt.d_uint64 bs.BlockNumber
        ++ ", for chain id: " ++ fmt.d_bigInt bs.ChainId ++ "\n")
    let contAddress := common.HexToAddress contractAddress
    (VerifyContractExistsAtAddress P.ethClient ec P.Background
      (some (toInt64 bs.BlockNumber)) contAddress s1.world).bind fun rv =>
    let s2 : Sys H W := { s1 with world := rv.2 }
    if !rv.1 then
      .returned ((none, some (.errorf ("error: contract doesn't exist at given address "
        ++ ": " ++ fmt.s_string contractAddress ++ "\n"))), s2)
    else
      (GetDataForTransaction P.ethClient P.newKeyedTransactionWithChainID ec P.Background
        userAccount bs.ChainId gasLimit gasPrice s2).bind fun rg =>
      match rg with
      | ((_, some err3), s3) =>
        .returned ((none, some (.errorf ("error: failed to get data for transaction "
          ++ "processing: " ++ fmt.v_error P.ErrorString (some err3) ++ "\n"))), s3)
      | ((auth, none), s3) =>
        .returned ((some {
            userAccount := userAccount
            ethClient := ethClient
            currBlockchainState := currBlockchainState
            auth := auth
            contractType := contractType
            contractAddress := contAddress
            funcName := funcName
            funcArguments := funcArguments }, none),
          s3.Println ("Successfully completed account and blockchain connection "
            ++ "process."))

/-- NewContractExecutionFacade: creates the account, connects to the node, loads
the chain state, checks that the contract exists, loads the data for the
transaction, and builds the executor facade. The deferred call of CloseClient
runs when the statements after it have returned. -/
def NewContractExecutionFacade (keccak256 : List UInt8 → List UInt8)
    (P : Packages κ Ctx W PublicKey PrivateKey R E)
    (privateKey rpc contractType contractAddress funcName : String)
    (funcArguments : List String) (gasLimit gasPrice : Int) (s : Sys H W) :
    Run ((Option (contractExecutorFacade (UserAccount PublicKey PrivateKey) (EthRpcClient κ)
      BlockChainState (Option (bind.TransactOpts R))) × Option (GoError E)) × Sys H W) :=
  let s0 := s.Println "Starting account and blockchain connection process."
  (CreateAccount P.crypto privateKey).bind fun ra =>
  match ra with
  | (_, some err) => .returned ((none, some err), s0)
  | (userAccount, none) =>
    (deref userAccount).bind fun ua =>
    let s1 := s0.Printf ("Succesfully accessed account returned Public Key: "
      ++ fmt.s_Address keccak256 ua.Account ++ "\n")
    match CreateClient P.dialClient rpc s1.world with
    | ((_, some err1), w2) =>
      .returned ((none, some (.errorf ("error: failed to connect to given " ++ "rpc url : "
        ++ fmt.v_error P.ErrorString (some err1) ++ " \n"))), { s1 with world := w2 })
    | ((ethClient, none), w2) =>
      (NewContractExecutionFacade.afterDefer P userAccount ethClient contractType
        contractAddress funcName funcArguments gasLimit gasPrice
        { s1 with world := w2 }).bind fun r =>
      (deref ethClient).bind fun ec =>
      (CloseClient P.ethClient ec r.2.world).bind fun w3 =>
      .returned (r.1, { r.2 with world := w3 })

/-- LoadContract: loads the contract by the procedure of its contract type. -/
def LoadContract (X : Externals ιd ιf W (Option (bind.TransactOpts R)) CallOpts (Option κ) Tx E)
    (c : contractExecutorFacade (UserAccount PublicKey PrivateKey) (EthRpcClient κ)
      BlockChainState (Option (bind.TransactOpts R)))
    (s : Sys (Templates ιd ιf Tx) W) : Run (Option (GoError E) × Sys (Templates ιd ιf Tx) W) :=
  let s0 := s.Println "Starting contract loader process."
  let contract : Contract (Sys (Templates ιd ιf Tx) W) (Option (bind.TransactOpts R))
      (Option κ) E :=
    { IContract := (ContractNamesDict X).lookup c.contractType }
  (deref c.ethClient).bind fun ec =>
  (contract.LoadContract (some c.contractAddress) ec.EthClient s0).bind fun r =>
  match r.1 with
  | some err => .returned (some err, r.2)
  | none => .returned (none, r.2.Println "Successfully completed contract loading process.")

end contract_interactor_facade

/-! ## cmd/contract_deployer -/

namespace contract_deployer

variable {ιd ιf κ Ctx W CallOpts Tx PublicKey PrivateKey R E : Type}

open constants contract_interactor_facade

/-- The function `exitProgramMsg` of the deployer. -/
def exitProgramMsg {H : Type} (s : Sys H W) : Sys H W :=
  s.Println "Failed deployment exiting program!"

/-- The function `main` of the deployer, from the values of the flags; it ends
in a call of `os.Exit`, whose code is the first result. -/
def main (X : Externals ιd ιf W (Option (bind.TransactOpts R)) CallOpts (Option κ) Tx E)
    (P : Packages κ Ctx W PublicKey PrivateKey R E) (privateKey rpc contractType : String)
    (gasLimit gasPrice : Int) (contractArguments : List String)
    (s : Sys (Templates ιd ιf Tx) W) : Run (Int × Sys (Templates ιd ιf Tx) W) :=
  let okFlag := utils.RequiredFlagVerification [privateKey, rpc, contractType]
  if !okFlag then
    let err : Option (GoError E) := some (.errorf "error: Missing required arguments")
    .returned (1, exitProgramMsg (s.Printf (fmt.v_error P.ErrorString err ++ " \n")))
  else
    let okType := VerifyContractTypeExists X contractType
    if !okType then
      let err : Option (GoError E) :=
        some (.errorf ("error: Unsupported contract type " ++ fmt.s_string contractType))
      .returned (1, exitProgramMsg (s.Printf (fmt.v_error P.ErrorString err ++ " \n")))
    else
      (NewContractDeployerFacade X.keccak256 P privateKey rpc contractArguments contractType
        gasLimit gasPrice s).bind fun r =>
      match r with
      | ((_, some err), s1) =>
        .returned (1, exitProgramMsg (s1.Printf (fmt.v_error P.ErrorString (some err)
          ++ " \n")))
      | ((contractInteractor, none), s1) =>
        let err : Option (GoError E) := none
        (deref contractInteractor).bind fun c =>
        (DeployContract X c s1).bind fun r1 =>
        match r1 with
        | (some _, s2) =>
          .returned (1, exitProgramMsg (s2.Printf (fmt.v_error P.ErrorString err ++ " \n")))
        | (none, s2) => .returned (0, s2.Println "Contract deployer finished successfully!")

end contract_deployer

/-! ## cmd/contract_interactor -/

namespace contract_interactor

variable {ιd ιf κ Ctx W CallOpts Tx PublicKey PrivateKey R E : Type}

open constants contract_interactor_facade

/-- The function `exitProgramMsg` of the interactor. -/
def exitProgramMsg {H : Type} (s : Sys H W) : Sys H W :=
  s.Println "Failed contract interaction exiting program!"

/-- The function `main` of the interactor, from the values of the flags. It
ends in a call of `os.Exit` with code 1, or by returning, which is code 0. -/
def main (X : Externals ιd ιf W (Option (bind.TransactOpts R)) CallOpts (Option κ) Tx E)
    (P : Packages κ Ctx W PublicKey PrivateKey R E)
    (privateKey rpc contractType contractAddress funcName0 : String)
    (gasLimit gasPrice : Int) (funcArguments : List String)
    (s : Sys (Templates ιd ιf Tx) W) : Run (Int × Sys (Templates ιd ιf Tx) W) :=
  let funcName := P.ToLower funcName0
  let okFlag := utils.RequiredFlagVerification
    [privateKey, rpc, contractType, contractAddress, funcName]
  if !okFlag then
    let err : Option (GoError E) := some (.errorf "error: Missing required arguments")
    .returned (1, exitProgramMsg (s.Printf (fmt.v_error P.ErrorString err ++ "\n")))
  else
    let okType := VerifyContractTypeExists X contractType
    if !okType then
      let err : Option (GoError E) :=
        some (.errorf ("error: Unsupported contract type " ++ fmt.s_string contractType))
      .returned (1, exitProgramMsg (s.Printf (fmt.v_error P.ErrorString err ++ "\n")))
    else
      let okFuncName := VerifyFunctionNameExists contractType funcName
      if !okFuncName then
        let err : Option (GoError E) :=
          some (.errorf ("error: Unsupported function name " ++ fmt.s_string funcName
            ++ " for contract " ++ "type " ++ fmt.s_string contractType))
        .returned (1, exitProgramMsg (s.Printf (fmt.v_error P.ErrorString err ++ "\n")))
      else
        (NewContractExecutionFacade X.keccak256 P privateKey rpc contractType contractAddress
          funcName funcArguments gasLimit gasPrice s).bind fun r =>
        match r with
        | ((_, some err), s1) =>
          .returned (1, exitProgramMsg (s1.Printf (fmt.v_error P.ErrorString (some err)
            ++ "\n")))
        | ((contractExecutor, none), s1) =>
          (deref contractExecutor).bind fun c =>
          (LoadContract X c s1).bind fun r1 =>
          match r1 with
          | (some err1, s2) =>
            .returned (1, exitProgramMsg (s2.Printf (fmt.v_error P.ErrorString (some err1)
              ++ "\n")))
          | (none, s2) =>
            (ExecuteContract X c s2).bind fun r2 =>
            match r2 with
            | (some err2, s3) =>
              .returned (1, exitProgramMsg (s3.Printf (fmt.v_error P.ErrorString (some err2)
                ++ "\n")))
            | (none, s3) => .returned (0, s3)

end contract_interactor

/-! ## Vocabulary and fixtures for the client, the facades and the two programs -/

namespace eth_rpc_client

/-- What a recording client has been asked, in order; `Template` stands for a
request that a contract template made to its connector. -/
inductive Event (C : Type) where
  | Dial (url : String)
  | ChainID
  | BlockNumber
  | PendingNonceAt (account : common.Address)
  | CodeAt (contract : common.Address) (blockNumber : big.IntPtr)
  | Close
  | Template (c : C)

/-- The values a recording client answers with. -/
structure ClientReturns (E : Type) where
  chainId : big.IntPtr
  chainIdErr : Option (GoError E)
  blockNumber : Nat
  blockNumberErr : Option (GoError E)
  nonce : Nat
  nonceErr : Option (GoError E)
  code : List UInt8
  codeErr : Option (GoError E)

variable {C Ctx E : Type}

/-- Whether the event is one of the questions BlockNumber, PendingNonceAt and
CodeAt to the connected client. -/
def Event.isRead : Event C → Bool
  | .BlockNumber => true
  | .PendingNonceAt _ => true
  | .CodeAt _ _ => true
  | _ => false

/-- A client that records every call it receives in the list of events, which
is the whole of its world, and answers with the values configured for it. -/
def recordingClient (ret : ClientReturns E) : IEthClient Unit Ctx (List (Event C)) E where
  ChainID := fun _ _ log => ((ret.chainId, ret.chainIdErr), log ++ [.ChainID])
  BlockNumber := fun _ _ log => ((ret.blockNumber, ret.blockNumberErr), log ++ [.BlockNumber])
  PendingNonceAt := fun _ _ a log => ((ret.nonce, ret.nonceErr), log ++ [.PendingNonceAt a])
  CodeAt := fun _ _ a b log => ((ret.code, ret.codeErr), log ++ [.CodeAt a b])
  Close := fun _ log => log ++ [.Close]

/-- A `dialClient` that records the dialling and answers with the connection and
the error given. -/
def recordingDial (conn : Option Unit) (err : Option (GoError E)) (url : String)
    (log : List (Event C)) : (Option Unit × Option (GoError E)) × List (Event C) :=
  ((conn, err), log ++ [.Dial url])

/-- The values of the successful case of the tests: chain id 9001, block 3000,
nonce 1; and some code at every address. -/
def testClientReturns : ClientReturns Empty :=
  { chainId := some 9001, chainIdErr := none, blockNumber := 3000, blockNumberErr := none,
    nonce := 1, nonceErr := none, code := [0x60], codeErr := none }

/-- The values of a node that fails to give its chain id. -/
def noChainIdReturns : ClientReturns Empty :=
  { testClientReturns with chainIdErr := some (.errorf "no chain id") }

end eth_rpc_client

namespace contract_interactor_facade

open eth_rpc_client

/-- The requests of the two templates, as one type. -/
abbrev TemplateCall : Type :=
  detailed_test_token.Call (Option (bind.TransactOpts Unit)) Unit ⊕
    fast_test_token.Call (Option (bind.TransactOpts Unit)) Unit

/-- The world of the fixtures of a whole run: the events received so far. -/
abbrev SessionWorld : Type := List (Event TemplateCall)

/-- The order of the group of the curve secp256k1. -/
def secp256k1N : Nat := 0xFFFFFFFFFFFFFFFFFFFFFFFFFFFFFFFEBAAEDCE6AF48A03BBFD25E8CD0364141

/-- Whether the string is a private key in hex: 64 hex digits that spell a
number from 1 to the order of the curve less one. -/
def isPrivateKeyHex (hexkey : String) : Bool :=
  let b := common.goBytes hexkey
  let d : Nat := (hex.DecodeString b).foldl (fun n x => n * 256 + x.toNat) 0
  decide (b.length = 64) && b.all (fun c => (hex.fromHexChar c).isSome) &&
    decide (0 < d) && decide (d < secp256k1N)

/-- The private key of the fixtures: the number 1. -/
def testKey : String := "0000000000000000000000000000000000000000000000000000000000000001"

/-- Packages for the fixtures, doubles of the libraries as the mocks of the
tests are. A string is taken as a private key exactly when it is a private key
in hex, and any other is answered with an error; the keys have one value and
every account is at the zero address; the dial and the client record what they
are asked; the transactor has every field at its zero value. `ToLower`
lower-cases the letters A to Z and leaves every other character as it is, as
`strings.ToLower` does on text that is all ASCII; the fixtures pass such text
only. -/
def testPackages (conn : Option Unit) (dialErr : Option (GoError Empty))
    (ret : ClientReturns Empty) : Packages Unit Unit SessionWorld Unit Unit Unit Empty where
  ErrorString := fun e => nomatch e
  crypto :=
    { HexToECDSA := fun hexkey =>
        if isPrivateKeyHex hexkey then (some (), none)
        else (none, some (.errorf "invalid private key"))
      Public := fun _ => some ()
      PubkeyToAddress := fun _ => common.zeroAddress }
  dialClient := recordingDial conn dialErr
  ethClient := recordingClient ret
  newKeyedTransactionWithChainID := fun _ _ =>
    (some { Nonce := none, Value := none, GasPrice := none, GasLimit := 0, rest := () }, none)
  Background := ()
  ToLower := String.toLower

/-- Externals for the fixtures of a whole run: both templates on mocked
connectors whose requests go into the list of events; binding and deploying
always succeed, at the zero address, and record nothing. -/
def sessionExternals :
    constants.Externals Unit Unit SessionWorld (Option (bind.TransactOpts Unit)) Unit
      (Option Unit) Unit Empty where
  keccak256 := fun _ => []
  txHashHex := fun _ => ""
  dttInstance :=
    (detailed_test_token.MockContractInstance
      { tx := some (), str := "DetailedTestToken", u8 := 18, int := some 100000000000,
        err := none }).within
      (fun _ => []) (fun l v => v ++ l.map fun c => .Template (.inl c))
  dttGenerated :=
    { NewDetailedTestToken := fun _ _ => (some (), none)
      DeployDetailedTestToken := fun _ _ _ _ _ w =>
        (((common.zeroAddress, some (), some ()), none), w) }
  fttInstance :=
    (fast_test_token.MockContractInstance
      { tx := some (), str := "FastTestToken", u8 := 18, int := some 100000000000,
        err := none }).within
      (fun _ => []) (fun l v => v ++ l.map fun c => .Template (.inr c))
  fttGenerated :=
    { NewFastTestToken := fun _ _ => (some (), none)
      DeployFastTestToken := fun _ _ w => (((common.zeroAddress, some (), some ()), none), w) }

/-- The state a program of the fixtures starts in. -/
def sessionSys : Sys (constants.Templates Unit Unit Unit) SessionWorld :=
  { heap := constants.Templates.zero, world := [], stdout := "" }

end contract_interactor_facade

/-! ## Facts about the library models -/

variable {ι W Auth CallOpts Tx E : Type}

theorem fmt.d_int_natCast (n : Nat) : fmt.d_int (n : Int) = toString n := rfl

theorem utils.ValidateLength_ne (s : List String) (expected : Int) (m : Nat)
    (he : expected = (m : Int)) (h : s.length ≠ m) :
    (utils.ValidateLength s expected : Option (GoError E)) =
      some (.errorf ("error: " ++ toString s.length ++ " arguments does not match required "
        ++ toString m)) := by
  subst he
  unfold utils.ValidateLength
  have : ((s.length : Int) ≠ (m : Int)) := by exact_mod_cast h
  simp only [this, ne_eq, not_false_eq_true, if_true, fmt.d_int_natCast]

theorem utils.ValidateLength_nil :
    (utils.ValidateLength [] 0 : Option (GoError E)) = none := by
  simp [utils.ValidateLength]

theorem utils.ValidateLength_one (a : String) :
    (utils.ValidateLength [a] 1 : Option (GoError E)) = none := by
  simp [utils.ValidateLength]

theorem utils.ValidateLength_two (a b : String) :
    (utils.ValidateLength [a, b] 2 : Option (GoError E)) = none := by
  simp [utils.ValidateLength]

theorem utils.ValidateLength_three (a b c : String) :
    (utils.ValidateLength [a, b, c] 3 : Option (GoError E)) = none := by
  simp [utils.ValidateLength]

theorem big.scan_eq_foldl (l : List Char) (acc : Nat) (h : ∀ c ∈ l, c.isDigit = true) :
    big.scan acc l = l.foldl (fun n c => n * 10 + (c.toNat - '0'.toNat)) acc := by
  induction l generalizing acc with
  | nil => rfl
  | cons c rest ih =>
    have hc : c.isDigit = true := h c (List.mem_cons_self _ _)
    have hc2 : '0' ≤ c ∧ c ≤ '9' := by
      simp only [Char.isDigit, Bool.and_eq_true, decide_eq_true_eq] at hc
      exact ⟨hc.1, hc.2⟩
    simp only [big.scan, hc2, and_self, if_true, List.foldl_cons]
    exact ih _ (fun x hx => h x (List.mem_cons_of_mem _ hx))

theorem big.SetString_of_toNat (m : String) (n : Nat) (h : m.toNat? = some n) :
    big.SetString m = (n : Int) := by
  unfold String.toNat? at h
  split at h
  · rename_i hnat
    simp only [Option.some.injEq] at h
    simp only [String.isNat, Bool.and_eq_true, Bool.not_eq_true', String.all_eq,
      List.all_eq_true] at hnat
    obtain ⟨hne, hall⟩ := hnat
    rw [String.foldl_eq] at h
    unfold big.SetString
    rcases hd : m.data with _ | ⟨c, rest⟩
    · exfalso
      have hm : m = "" := by
        cases m; simp_all
      have he : m.isEmpty = true := (String.isEmpty_iff m).2 hm
      rw [he] at hne
      cases hne
    · have hc : c.isDigit = true := hall c (by rw [hd]; exact List.mem_cons_self _ _)
      have h1 : c ≠ '-' := by rintro rfl; revert hc; decide
      have h2 : c ≠ '+' := by rintro rfl; revert hc; decide
      simp only [h1, h2, or_self, if_false]
      rw [big.scan_eq_foldl _ _ (by rw [← hd]; exact hall), ← hd, h]
  · cases h


namespace hex
theorem Encode_length (bs : List UInt8) : (Encode bs).length = 2 * bs.length := by
  induction bs with
  | nil => rfl
  | cons b rest ih => simp only [Encode, List.length_cons, ih]; omega
end hex

namespace common

theorem checksumFrom_length (hash : List UInt8) (i : Nat) (cs : List Char) :
    (checksumFrom hash i cs).length = cs.length := by
  induction cs generalizing i with
  | nil => rfl
  | cons c rest ih => simp only [checksumFrom, List.length_cons, ih]

theorem checksumChar_cases (hash : List UInt8) (i : Nat) (c : Char) :
    checksumChar hash i c = c ∨ (c > '9' ∧ checksumChar hash i c = Char.ofNat (c.toNat - 32)) := by
  unfold checksumChar
  simp only
  generalize (if i % 2 = 0 then (hash.getD (i / 2) 0).toNat / 16
    else (hash.getD (i / 2) 0).toNat % 16) = hb
  by_cases h : c > '9' ∧ hb > 7
  · rw [if_pos h]; exact Or.inr ⟨h.1, rfl⟩
  · rw [if_neg h]; exact Or.inl rfl

theorem hextable_cases (n : Nat) (h : n < 16) :
    isHexDigit (hex.hextable n) ∧
      (hex.hextable n > '9' → isHexDigit (Char.ofNat ((hex.hextable n).toNat - 32))) := by
  interval_cases n <;> decide

theorem checksumChar_isHexDigit (hash : List UInt8) (i n : Nat) (h : n < 16) :
    isHexDigit (checksumChar hash i (hex.hextable n)) := by
  rcases checksumChar_cases hash i (hex.hextable n) with h1 | ⟨h1, h2⟩
  · rw [h1]; exact (hextable_cases n h).1
  · rw [h2]; exact (hextable_cases n h).2 h1

theorem checksumFrom_isHexDigit (hash : List UInt8) (i : Nat) (bs : List UInt8) :
    ∀ c ∈ checksumFrom hash i (hex.Encode bs), isHexDigit c := by
  induction bs generalizing i with
  | nil => intro c hc; simp [hex.Encode, checksumFrom] at hc
  | cons b rest ih =>
    intro c hc
    simp only [hex.Encode, checksumFrom, List.mem_cons] at hc
    rcases hc with rfl | rfl | hc
    · exact checksumChar_isHexDigit _ _ _ (by have := b.toNat_lt; omega)
    · exact checksumChar_isHexDigit _ _ _ (by omega)
    · exact ih _ c hc

theorem Hex_zeroAddress (keccak256 : List UInt8 → List UInt8) :
    zeroAddress.Hex keccak256 = "0x0000000000000000000000000000000000000000" := by
  have h0 : ∀ hash i, checksumChar hash i '0' = '0' := by
    intro hash i
    rcases checksumChar_cases hash i '0' with h | ⟨h, _⟩
    · exact h
    · exact absurd h (by decide)
  have he : hex.Encode zeroAddress.bytes = List.replicate 40 '0' := by decide
  have hr : ∀ hash (k i : Nat), checksumFrom hash i (List.replicate k '0')
      = List.replicate k '0' := by
    intro hash k
    induction k with
    | zero => intro i; rfl
    | succ k ih => intro i; simp only [List.replicate_succ, checksumFrom, h0, ih]
  unfold Address.Hex
  simp only [he, hr]
  decide

theorem Hex_shape (keccak256 : List UInt8 → List UInt8) (a : Address) :
    ∃ cs, (a.Hex keccak256).data = '0' :: 'x' :: cs ∧ cs.length = 40 ∧ ∀ c ∈ cs, isHexDigit c := by
  refine ⟨_, rfl, ?_, checksumFrom_isHexDigit _ _ _⟩
  rw [checksumFrom_length, hex.Encode_length, a.size]

theorem utf8EncodeChar_ascii (c : Char) (h : c.val ≤ 0x7f) :
    String.utf8EncodeChar c = [c.val.toUInt8] := by
  simp [String.utf8EncodeChar, h]

theorem isHexDigit_ascii (c : Char) (h : isHexDigit c) : c.val ≤ 0x7f := by
  have e9 : ('9' : Char).val = 57 := rfl
  have ef : ('f' : Char).val = 102 := rfl
  have eF : ('F' : Char).val = 70 := rfl
  rcases h with ⟨_, h⟩ | ⟨_, h⟩ | ⟨_, h⟩
  · have : c.val ≤ ('9' : Char).val := h
    rw [e9] at this; exact UInt32.le_trans this (by decide)
  · have : c.val ≤ ('f' : Char).val := h
    rw [ef] at this; exact UInt32.le_trans this (by decide)
  · have : c.val ≤ ('F' : Char).val := h
    rw [eF] at this; exact UInt32.le_trans this (by decide)

theorem fromHexChar_hextable (n : Nat) (h : n < 16) :
    hex.fromHexChar (hex.hextable n).val.toUInt8 = some n ∧
      (hex.hextable n > '9' →
        hex.fromHexChar (Char.ofNat ((hex.hextable n).toNat - 32)).val.toUInt8 = some n) := by
  interval_cases n <;> decide

theorem fromHexChar_checksumChar (hash : List UInt8) (i n : Nat) (h : n < 16) :
    hex.fromHexChar (checksumChar hash i (hex.hextable n)).val.toUInt8 = some n := by
  rcases checksumChar_cases hash i (hex.hextable n) with h1 | ⟨h1, h2⟩
  · rw [h1]; exact (fromHexChar_hextable n h).1
  · rw [h2]; exact (fromHexChar_hextable n h).2 h1

theorem goBytes_checksumFrom (hash : List UInt8) (i : Nat) (bs : List UInt8) :
    (checksumFrom hash i (hex.Encode bs)).flatMap String.utf8EncodeChar
      = (checksumFrom hash i (hex.Encode bs)).map fun c => c.val.toUInt8 := by
  have h := checksumFrom_isHexDigit hash i bs
  generalize checksumFrom hash i (hex.Encode bs) = cs at h
  induction cs with
  | nil => rfl
  | cons c rest ih =>
    rw [List.flatMap_cons, List.map_cons,
      utf8EncodeChar_ascii c (isHexDigit_ascii c (h c (List.mem_cons_self _ _))),
      ih (fun x hx => h x (List.mem_cons_of_mem _ hx))]
    rfl

theorem DecodeString_checksumFrom (hash : List UInt8) (i : Nat) (bs : List UInt8) :
    hex.DecodeString ((checksumFrom hash i (hex.Encode bs)).map fun c => c.val.toUInt8) = bs := by
  induction bs generalizing i with
  | nil => rfl
  | cons b rest ih =>
    have hb := b.toNat_lt
    have h1 := fromHexChar_checksumChar hash i (b.toNat / 16) (by omega)
    have h2 := fromHexChar_checksumChar hash (i + 1) (b.toNat % 16) (by omega)
    simp only [hex.Encode, checksumFrom, List.map_cons, hex.DecodeString, h1, h2, ih]
    congr 1
    apply UInt8.ext
    rw [UInt8.toNat_ofNat_of_lt (by rw [Nat.div_add_mod']; exact hb), Nat.div_add_mod']

theorem BytesToAddress_bytes (a : Address) : BytesToAddress a.bytes = a := by
  have h := a.size
  cases a with
  | mk bs hs =>
    simp only at h
    simp only [BytesToAddress, crop, h, gt_iff_lt, lt_self_iff_false, if_false, Nat.sub_self,
      List.replicate_zero, List.nil_append]

/-- Reading back what Address.Hex prints gives the address. -/
theorem HexToAddress_Hex (keccak256 : List UInt8 → List UInt8) (a : Address) :
    HexToAddress (a.Hex keccak256) = a := by
  have hl : (checksumFrom (keccak256 ((hex.Encode a.bytes).map fun c => UInt8.ofNat c.toNat)) 0
      (hex.Encode a.bytes)).length = 40 := by
    rw [checksumFrom_length, hex.Encode_length, a.size]
  unfold HexToAddress Address.Hex goBytes
  simp only [List.flatMap_cons, goBytes_checksumFrom]
  have e0 : String.utf8EncodeChar '0' = [48] := by decide
  have ex : String.utf8EncodeChar 'x' = [120] := by decide
  rw [e0, ex]
  simp [FromHex, has0xPrefix, hl, DecodeString_checksumFrom, BytesToAddress_bytes]

end common

/-! ### The DetailedTestToken template, case by case -/

namespace detailed_test_token

variable {ι W Auth CallOpts Tx E : Type}

theorem dtt_QueryContract_wrong_arity (keccak256 : List UInt8 → List UInt8)
    (I : IInstance ι W Auth CallOpts Tx E) (d : DetailedTestTokenContract ι Tx) (funcName : String)
    (funcArgs : List String) (w : W) (m : Nat)
    (hm : queryArity funcName = some m) (hn : funcArgs.length ≠ m) :
    QueryContract keccak256 I d funcName funcArgs w =
      .returned ⟨some (.errorf ("error: " ++ toString funcArgs.length
        ++ " arguments does not match required " ++ toString m)), d, w⟩ := by
  unfold queryArity at hm
  split_ifs at hm with h1 h2 h3
  · simp only [List.mem_cons, List.mem_singleton, List.not_mem_nil, or_false] at h1
    cases hm
    have hv := utils.ValidateLength_ne (E := E) funcArgs 0 0 rfl hn
    rcases h1 with rfl | rfl | rfl | rfl <;> simp [QueryContract, hv]
  · cases hm
    have hv := utils.ValidateLength_ne (E := E) funcArgs 1 1 rfl hn
    subst h2
    simp [QueryContract, hv]
  · cases hm
    have hv := utils.ValidateLength_ne (E := E) funcArgs 2 2 rfl hn
    subst h3
    simp [QueryContract, hv]

theorem dtt_WriteContract_wrong_arity (keccak256 : List UInt8 → List UInt8)
    (I : IInstance ι W Auth CallOpts Tx E) (d : DetailedTestTokenContract ι Tx) (auth : Auth)
    (funcName : String) (funcArgs : List String) (w : W) (m : Nat)
    (hm : writeArity funcName = some m) (hn : funcArgs.length ≠ m) :
    WriteContract keccak256 I d auth funcName funcArgs w =
      .returned ⟨some (.errorf ("error: " ++ toString funcArgs.length
        ++ " arguments does not match required " ++ toString m)), d, w⟩ := by
  unfold writeArity at hm
  split_ifs at hm with h1 h2
  · simp only [List.mem_cons, List.mem_singleton, List.not_mem_nil, or_false] at h1
    cases hm
    have hv := utils.ValidateLength_ne (E := E) funcArgs 2 2 rfl hn
    rcases h1 with rfl | rfl | rfl | rfl | rfl | rfl <;> simp [WriteContract, hv]
  · cases hm
    have hv := utils.ValidateLength_ne (E := E) funcArgs 3 3 rfl hn
    subst h2
    simp [WriteContract, hv]

theorem dtt_QueryContract_unknown (keccak256 : List UInt8 → List UInt8)
    (I : IInstance ι W Auth CallOpts Tx E) (d : DetailedTestTokenContract ι Tx) (funcName : String)
    (funcArgs : List String) (w : W)
    (hf : funcName ∉ ["name", "symbol", "decimals", "totalsupply", "balanceof", "allowance"]) :
    QueryContract keccak256 I d funcName funcArgs w = .returned ⟨none, d, w⟩ := by
  simp only [List.mem_cons, List.mem_singleton, List.not_mem_nil, or_false, not_or] at hf
  simp [QueryContract, hf]

theorem dtt_WriteContract_unknown (keccak256 : List UInt8 → List UInt8)
    (I : IInstance ι W Auth CallOpts Tx E) (d : DetailedTestTokenContract ι Tx) (auth : Auth)
    (funcName : String) (funcArgs : List String) (w : W)
    (hf : funcName ∉ ["transfer", "approve", "transferfrom", "increaseallowance",
      "decreaseallowance", "mint", "burn"]) :
    WriteContract keccak256 I d auth funcName funcArgs w = .returned ⟨none, d, w⟩ := by
  simp only [List.mem_cons, List.mem_singleton, List.not_mem_nil, or_false, not_or] at hf
  simp [WriteContract, hf]

theorem dtt_QueryContract_err (keccak256 : List UInt8 → List UInt8)
    (I : IInstance ι W Auth CallOpts Tx E) (d : DetailedTestTokenContract ι Tx) (funcName : String)
    (funcArgs : List String) (w : W) (inst : ι) (c : Call Auth CallOpts) (e : GoError E)
    (hi : d.Instance = some inst) (hc : queryCall funcName funcArgs = some c)
    (he : (I.invoke inst c w).1.2 = some e) :
    QueryContract keccak256 I d funcName funcArgs w =
      .returned ⟨some e, d, (I.invoke inst c w).2⟩ := by
  unfold queryCall at hc
  split_ifs at hc with h1 h2 h3 h4 h5 h6 <;> split at hc <;> cases hc <;> subst_vars <;>
    simp only [IInstance.invoke] at he ⊢ <;>
    simp only [QueryContract, String.reduceEq, if_false, if_true, utils.ValidateLength_nil,
      utils.ValidateLength_one, utils.ValidateLength_two] <;>
    (try simp only [index, List.getElem?_cons_zero, List.getElem?_cons_succ]) <;>
    dsimp only [deref, Run.bind] <;>
    rw [hi] <;> dsimp only <;> rw [he]

theorem dtt_WriteContract_err (keccak256 : List UInt8 → List UInt8)
    (I : IInstance ι W Auth CallOpts Tx E) (d : DetailedTestTokenContract ι Tx) (auth : Auth)
    (funcName : String) (funcArgs : List String) (w : W) (inst : ι) (c : Call Auth CallOpts)
    (e : GoError E) (hi : d.Instance = some inst)
    (hc : writeCall auth funcName funcArgs = some c)
    (he : (I.invoke inst c w).1.2 = some e) :
    WriteContract keccak256 I d auth funcName funcArgs w =
      .returned ⟨some e, d, (I.invoke inst c w).2⟩ := by
  unfold writeCall at hc
  split_ifs at hc with h1 h2 h3 h4 h5 h6 h7 <;> split at hc <;> cases hc <;> subst_vars <;>
    simp [IInstance.invoke] at he <;>
    simp [WriteContract, utils.ValidateLength_two, utils.ValidateLength_three, index, deref,
      Run.bind, hi, IInstance.invoke, he]

theorem dtt_WriteContract_ok (keccak256 : List UInt8 → List UInt8)
    (I : IInstance ι W Auth CallOpts Tx E) (d : DetailedTestTokenContract ι Tx) (auth : Auth)
    (funcName : String) (funcArgs : List String) (w : W) (inst : ι) (c : Call Auth CallOpts)
    (tx : Option Tx) (hi : d.Instance = some inst)
    (hc : writeCall auth funcName funcArgs = some c)
    (he : (I.invoke inst c w).1 = (.tx tx, none)) :
    ∃ s, WriteContract keccak256 I d auth funcName funcArgs w =
      .returned ⟨none, { d with LastTx := tx, StrToPrint := s }, (I.invoke inst c w).2⟩ := by
  unfold writeCall at hc
  split_ifs at hc with h1 h2 h3 h4 h5 h6 h7 <;> split at hc <;> cases hc <;> subst_vars <;>
    simp [IInstance.invoke, Prod.ext_iff] at he <;>
    simp [WriteContract, utils.ValidateLength_two, utils.ValidateLength_three, index, deref,
      Run.bind, hi, IInstance.invoke, he]

end detailed_test_token

/-! ### The FastTestToken template, case by case -/

namespace fast_test_token

variable {ι W Auth CallOpts Tx E : Type}

theorem ftt_QueryContract_wrong_arity (keccak256 : List UInt8 → List UInt8)
    (I : IInstance ι W Auth CallOpts Tx E) (d : FastTestTokenContract ι Tx) (funcName : String)
    (funcArgs : List String) (w : W) (m : Nat)
    (hm : queryArity funcName = some m) (hn : funcArgs.length ≠ m) :
    QueryContract keccak256 I d funcName funcArgs w =
      .returned ⟨some (.errorf ("error: " ++ toString funcArgs.length
        ++ " arguments does not match required " ++ toString m)), d, w⟩ := by
  unfold queryArity at hm
  split_ifs at hm with h1 h2 h3
  · simp only [List.mem_cons, List.mem_singleton, List.not_mem_nil, or_false] at h1
    cases hm
    have hv := utils.ValidateLength_ne (E := E) funcArgs 0 0 rfl hn
    rcases h1 with rfl | rfl | rfl | rfl <;> simp [QueryContract, hv]
  · cases hm
    have hv := utils.ValidateLength_ne (E := E) funcArgs 1 1 rfl hn
    subst h2
    simp [QueryContract, hv]
  · cases hm
    have hv := utils.ValidateLength_ne (E := E) funcArgs 2 2 rfl hn
    subst h3
    simp [QueryContract, hv]

theorem ftt_WriteContract_wrong_arity (keccak256 : List UInt8 → List UInt8)
    (I : IInstance ι W Auth CallOpts Tx E) (d : FastTestTokenContract ι Tx) (auth : Auth)
    (funcName : String) (funcArgs : List String) (w : W) (m : Nat)
    (hm : writeArity funcName = some m) (hn : funcArgs.length ≠ m) :
    WriteContract keccak256 I d auth funcName funcArgs w =
      .returned ⟨some (.errorf ("error: " ++ toString funcArgs.length
        ++ " arguments does not match required " ++ toString m)), d, w⟩ := by
  unfold writeArity at hm
  split_ifs at hm with h1 h2
  · simp only [List.mem_cons, List.mem_singleton, List.not_mem_nil, or_false] at h1
    cases hm
    have hv := utils.ValidateLength_ne (E := E) funcArgs 2 2 rfl hn
    rcases h1 with rfl | rfl | rfl | rfl <;> simp [WriteContract, hv]
  · cases hm
    have hv := utils.ValidateLength_ne (E := E) funcArgs 3 3 rfl hn
    subst h2
    simp [WriteContract, hv]

theorem ftt_QueryContract_unknown (keccak256 : List UInt8 → List UInt8)
    (I : IInstance ι W Auth CallOpts Tx E) (d : FastTestTokenContract ι Tx) (funcName : String)
    (funcArgs : List String) (w : W)
    (hf : funcName ∉ ["name", "symbol", "decimals", "totalsupply", "balanceof", "allowance"]) :
    QueryContract keccak256 I d funcName funcArgs w = .returned ⟨none, d, w⟩ := by
  simp only [List.mem_cons, List.mem_singleton, List.not_mem_nil, or_false, not_or] at hf
  simp [QueryContract, hf]

theorem ftt_WriteContract_unknown (keccak256 : List UInt8 → List UInt8)
    (I : IInstance ι W Auth CallOpts Tx E) (d : FastTestTokenContract ι Tx) (auth : Auth)
    (funcName : String) (funcArgs : List String) (w : W)
    (hf : funcName ∉ ["transfer", "approve", "transferfrom", "increaseallowance",
      "decreaseallowance"]) :
    WriteContract keccak256 I d auth funcName funcArgs w = .returned ⟨none, d, w⟩ := by
  simp only [List.mem_cons, List.mem_singleton, List.not_mem_nil, or_false, not_or] at hf
  simp [WriteContract, hf]

theorem ftt_QueryContract_err (keccak256 : List UInt8 → List UInt8)
    (I : IInstance ι W Auth CallOpts Tx E) (d : FastTestTokenContract ι Tx) (funcName : String)
    (funcArgs : List String) (w : W) (inst : ι) (c : Call Auth CallOpts) (e : GoError E)
    (hi : d.Instance = some inst) (hc : queryCall funcName funcArgs = some c)
    (he : (I.invoke inst c w).1.2 = some e) :
    QueryContract keccak256 I d funcName funcArgs w =
      .returned ⟨some e, d, (I.invoke inst c w).2⟩ := by
  unfold queryCall at hc
  split_ifs at hc with h1 h2 h3 h4 h5 h6 <;> split at hc <;> cases hc <;> subst_vars <;>
    simp only [IInstance.invoke] at he ⊢ <;>
    simp only [QueryContract, String.reduceEq, if_false, if_true, utils.ValidateLength_nil,
      utils.ValidateLength_one, utils.ValidateLength_two] <;>
    (try simp only [index, List.getElem?_cons_zero, List.getElem?_cons_succ]) <;>
    dsimp only [deref, Run.bind] <;>
    rw [hi] <;> dsimp only <;> rw [he]

theorem ftt_WriteContract_err (keccak256 : List UInt8 → List UInt8)
    (I : IInstance ι W Auth CallOpts Tx E) (d : FastTestTokenContract ι Tx) (auth : Auth)
    (funcName : String) (funcArgs : List String) (w : W) (inst : ι) (c : Call Auth CallOpts)
    (e : GoError E) (hi : d.Instance = some inst)
    (hc : writeCall auth funcName funcArgs = some c)
    (he : (I.invoke inst c w).1.2 = some e) :
    WriteContract keccak256 I d auth funcName funcArgs w =
      .returned ⟨some e, d, (I.invoke inst c w).2⟩ := by
  unfold writeCall at hc
  split_ifs at hc with h1 h2 h3 h4 h5 <;> split at hc <;> cases hc <;> subst_vars <;>
    simp [IInstance.invoke] at he <;>
    simp [WriteContract, utils.ValidateLength_two, utils.ValidateLength_three, index, deref,
      Run.bind, hi, IInstance.invoke, he]

theorem ftt_WriteContract_ok (keccak256 : List UInt8 → List UInt8)
    (I : IInstance ι W Auth CallOpts Tx E) (d : FastTestTokenContract ι Tx) (auth : Auth)
    (funcName : String) (funcArgs : List String) (w : W) (inst : ι) (c : Call Auth CallOpts)
    (tx : Option Tx) (hi : d.Instance = some inst)
    (hc : writeCall auth funcName funcArgs = some c)
    (he : (I.invoke inst c w).1 = (.tx tx, none)) :
    ∃ s, WriteContract keccak256 I d auth funcName funcArgs w =
      .returned ⟨none, { d with LastTx := tx, StrToPrint := s }, (I.invoke inst c w).2⟩ := by
  unfold writeCall at hc
  split_ifs at hc with h1 h2 h3 h4 h5 <;> split at hc <;> cases hc <;> subst_vars <;>
    simp [IInstance.invoke, Prod.ext_iff] at he <;>
    simp [WriteContract, utils.ValidateLength_two, utils.ValidateLength_three, index, deref,
      Run.bind, hi, IInstance.invoke, he]

end fast_test_token


/-! ### Successful queries of the DetailedTestToken template -/

namespace detailed_test_token

variable {ι W Auth CallOpts Tx E : Type}

theorem dtt_QueryContract_name (keccak256 : List UInt8 → List UInt8)
    (I : IInstance ι W Auth CallOpts Tx E) (d : DetailedTestTokenContract ι Tx) (w : W) (inst : ι)
        (v : String)
    (hi : d.Instance = some inst) (he : (I.Name inst none w).1 = (v, none)) :
    QueryContract keccak256 I d "name" [] w =
      .returned ⟨none, { d with
        Name := v
        StrToPrint := "info: Token Name: " ++ v ++ " for DetailedTestToken ("
          ++ d.Address.Hex keccak256 ++ ")\n" }, (I.Name inst none w).2⟩ := by
  simp only [Prod.ext_iff] at he
  simp [QueryContract, utils.ValidateLength_nil, deref, Run.bind, hi, he, fmt.s_string, fmt.s_Address]

theorem dtt_QueryContract_symbol (keccak256 : List UInt8 → List UInt8)
    (I : IInstance ι W Auth CallOpts Tx E) (d : DetailedTestTokenContract ι Tx) (w : W) (inst : ι)
        (v : String)
    (hi : d.Instance = some inst) (he : (I.Symbol inst none w).1 = (v, none)) :
    QueryContract keccak256 I d "symbol" [] w =
      .returned ⟨none, { d with
        Symbol := v
        StrToPrint := "info: Token Symbol: " ++ v ++ " for DetailedTestToken ("
          ++ d.Address.Hex keccak256 ++ ")\n" }, (I.Symbol inst none w).2⟩ := by
  simp only [Prod.ext_iff] at he
  simp [QueryContract, utils.ValidateLength_nil, deref, Run.bind, hi, he, fmt.s_string, fmt.s_Address]

theorem dtt_QueryContract_decimals (keccak256 : List UInt8 → List UInt8)
    (I : IInstance ι W Auth CallOpts Tx E) (d : DetailedTestTokenContract ι Tx) (w : W) (inst : ι)
        (v : UInt8)
    (hi : d.Instance = some inst) (he : (I.Decimals inst none w).1 = (v, none)) :
    QueryContract keccak256 I d "decimals" [] w =
      .returned ⟨none, { d with
        Decimals := v
        StrToPrint := "info: Token Decimals: " ++ fmt.d_uint8 v ++ " for DetailedTestToken ("
          ++ d.Address.Hex keccak256 ++ ")\n" }, (I.Decimals inst none w).2⟩ := by
  simp only [Prod.ext_iff] at he
  simp [QueryContract, utils.ValidateLength_nil, deref, Run.bind, hi, he, fmt.s_Address]

theorem dtt_QueryContract_totalsupply (keccak256 : List UInt8 → List UInt8)
    (I : IInstance ι W Auth CallOpts Tx E) (d : DetailedTestTokenContract ι Tx) (w : W) (inst : ι)
        (v : big.IntPtr)
    (hi : d.Instance = some inst) (he : (I.TotalSupply inst none w).1 = (v, none)) :
    QueryContract keccak256 I d "totalsupply" [] w =
      .returned ⟨none, { d with
        TotalSupply := v
        StrToPrint := "info: Token TotalSupply: " ++ fmt.d_bigInt v ++ " for DetailedTestToken ("
          ++ d.Address.Hex keccak256 ++ ")\n" }, (I.TotalSupply inst none w).2⟩ := by
  simp only [Prod.ext_iff] at he
  simp [QueryContract, utils.ValidateLength_nil, deref, Run.bind, hi, he, fmt.s_Address]

theorem dtt_QueryContract_balanceof (keccak256 : List UInt8 → List UInt8)
    (I : IInstance ι W Auth CallOpts Tx E) (d : DetailedTestTokenContract ι Tx) (w : W) (inst : ι)
    (a : String) (v : big.IntPtr) (f : common.Address → Option big.IntPtr)
    (hi : d.Instance = some inst) (hb : d.BalanceOf = .entries f)
    (he : (I.BalanceOf inst none (common.HexToAddress a) w).1 = (v, none)) :
    QueryContract keccak256 I d "balanceof" [a] w =
      .returned ⟨none, { d with
        BalanceOf := .entries (Function.update f (common.HexToAddress a) (some v))
        StrToPrint := "info: Token Balance of " ++ (common.HexToAddress a).Hex keccak256
          ++ " : " ++ fmt.d_bigInt v ++ " for DetailedTestToken (" ++ d.Address.Hex keccak256
              ++ ")\n" },
        (I.BalanceOf inst none (common.HexToAddress a) w).2⟩ := by
  simp only [Prod.ext_iff] at he
  simp [QueryContract, utils.ValidateLength_one, index, deref, Run.bind, hi, he, hb,
    GoMap.assign, fmt.s_Address]

theorem dtt_QueryContract_allowance (keccak256 : List UInt8 → List UInt8)
    (I : IInstance ι W Auth CallOpts Tx E) (d : DetailedTestTokenContract ι Tx) (w : W) (inst : ι)
    (o s : String) (v : big.IntPtr)
    (g : common.Address → Option (GoMap common.Address big.IntPtr))
    (hi : d.Instance = some inst) (ha : d.Allowance = .entries g)
    (hn : g (common.HexToAddress o) ≠ some .nil)
    (he : (I.Allowance inst none (common.HexToAddress o) (common.HexToAddress s) w).1
      = (v, none)) :
    QueryContract keccak256 I d "allowance" [o, s] w =
      .returned ⟨none, { d with
        Allowance := .entries (Function.update g (common.HexToAddress o)
          (some (.entries (Function.update (GoMap.innerEntries (g (common.HexToAddress o)))
            (common.HexToAddress s) (some v)))))
        StrToPrint := "info: Token Allowance of spender "
          ++ (common.HexToAddress s).Hex keccak256 ++ " from owner "
          ++ (common.HexToAddress o).Hex keccak256 ++ " is " ++ fmt.d_bigInt v
          ++ " for DetailedTestToken (" ++ d.Address.Hex keccak256 ++ ")\n" },
        (I.Allowance inst none (common.HexToAddress o) (common.HexToAddress s) w).2⟩ := by
  simp only [Prod.ext_iff] at he
  obtain ⟨he1, he2⟩ := he
  simp only [QueryContract, String.reduceEq, if_false, if_true, utils.ValidateLength_two]
  simp only [index, List.getElem?_cons_zero, List.getElem?_cons_succ]
  dsimp only [deref, Run.bind]
  rw [hi]
  dsimp only
  rw [he2, he1, ha]
  dsimp only [GoMap.lookup, fmt.s_Address]
  rcases hg : g (common.HexToAddress o) with _ | (_ | h)
  · dsimp only [GoMap.assign, GoMap.empty, GoMap.assignNested, GoMap.lookup, Run.bind,
      GoMap.innerEntries]
    simp only [Function.update_same, Option.getD_some, Function.update_idem]
  · exact absurd hg hn
  · dsimp only [GoMap.assign, GoMap.empty, GoMap.assignNested, GoMap.lookup, Run.bind,
      GoMap.innerEntries]
    simp only [hg, Option.getD_some]

theorem Loaded.dtt_maps {d : DetailedTestTokenContract ι Tx} (h : Loaded d) :
    ∃ f g, d.BalanceOf = .entries f ∧ d.Allowance = .entries g ∧ ∀ o, g o ≠ some .nil := by
  obtain ⟨_, hb, ha, hn⟩ := h
  rcases hB : d.BalanceOf with _ | f
  · exact absurd hB hb
  rcases hA : d.Allowance with _ | g
  · exact absurd hA ha
  refine ⟨f, g, rfl, rfl, fun o => ?_⟩
  have := hn o
  rwa [hA] at this

theorem dtt_allowanceAt_entries (d : DetailedTestTokenContract ι Tx)
    (g : common.Address → Option (GoMap common.Address big.IntPtr))
    (ha : d.Allowance = .entries g) (o s : common.Address) :
    allowanceAt d o s = GoMap.innerEntries (g o) s := by
  unfold allowanceAt
  rw [ha]
  rcases hg : g o with _ | (_ | h) <;> simp [GoMap.lookup, GoMap.innerEntries, hg]

theorem dtt_writeCall_of_arity (auth : Auth) (funcName : String) (funcArgs : List String) (m : Nat)
    (hm : writeArity funcName = some m) (hn : funcArgs.length = m) :
    ∃ c : Call Auth CallOpts, writeCall auth funcName funcArgs = some c := by
  unfold writeArity at hm
  split_ifs at hm with h1 h2
  · simp only [List.mem_cons, List.mem_singleton, List.not_mem_nil, or_false] at h1
    cases hm
    obtain ⟨a, b, rfl⟩ := List.length_eq_two.1 hn
    rcases h1 with rfl | rfl | rfl | rfl | rfl | rfl <;> simp [writeCall]
  · cases hm
    obtain ⟨a, b, c, rfl⟩ := List.length_eq_three.1 hn
    subst h2
    simp [writeCall]

theorem dtt_queryCall_of_arity (funcName : String) (funcArgs : List String) (m : Nat)
    (hm : queryArity funcName = some m) (hn : funcArgs.length = m) :
    ∃ c : Call Auth CallOpts, queryCall funcName funcArgs = some c := by
  unfold queryArity at hm
  split_ifs at hm with h1 h2 h3
  · simp only [List.mem_cons, List.mem_singleton, List.not_mem_nil, or_false] at h1
    cases hm
    obtain rfl := List.length_eq_zero.1 hn
    rcases h1 with rfl | rfl | rfl | rfl <;> simp [queryCall]
  · cases hm
    obtain ⟨a, rfl⟩ := List.length_eq_one.1 hn
    subst h2
    simp [queryCall]
  · cases hm
    obtain ⟨a, b, rfl⟩ := List.length_eq_two.1 hn
    subst h3
    simp [queryCall]

theorem dtt_writeCall_reply (I : IInstance ι W Auth CallOpts Tx E) (inst : ι) (auth : Auth)
    (funcName : String) (funcArgs : List String) (c : Call Auth CallOpts) (w : W)
    (hc : writeCall auth funcName funcArgs = some c) :
    ∃ tx, (I.invoke inst c w).1.1 = .tx tx := by
  unfold writeCall at hc
  split_ifs at hc <;> split at hc <;> cases hc <;> exact ⟨_, rfl⟩

end detailed_test_token

/-! ### Successful queries of the FastTestToken template -/

namespace fast_test_token

variable {ι W Auth CallOpts Tx E : Type}

theorem ftt_QueryContract_name (keccak256 : List UInt8 → List UInt8)
    (I : IInstance ι W Auth CallOpts Tx E) (d : FastTestTokenContract ι Tx) (w : W) (inst : ι)
        (v : String)
    (hi : d.Instance = some inst) (he : (I.Name inst none w).1 = (v, none)) :
    QueryContract keccak256 I d "name" [] w =
      .returned ⟨none, { d with
        Name := v
        StrToPrint := "info: Token Name: " ++ v ++ " for FastTestToken ("
          ++ d.Address.Hex keccak256 ++ ")\n" }, (I.Name inst none w).2⟩ := by
  simp only [Prod.ext_iff] at he
  simp [QueryContract, utils.ValidateLength_nil, deref, Run.bind, hi, he, fmt.s_string, fmt.s_Address]

theorem ftt_QueryContract_symbol (keccak256 : List UInt8 → List UInt8)
    (I : IInstance ι W Auth CallOpts Tx E) (d : FastTestTokenContract ι Tx) (w : W) (inst : ι)
        (v : String)
    (hi : d.Instance = some inst) (he : (I.Symbol inst none w).1 = (v, none)) :
    QueryContract keccak256 I d "symbol" [] w =
      .returned ⟨none, { d with
        Symbol := v
        StrToPrint := "info: Token Symbol: " ++ v ++ " for FastTestToken ("
          ++ d.Address.Hex keccak256 ++ ")\n" }, (I.Symbol inst none w).2⟩ := by
  simp only [Prod.ext_iff] at he
  simp [QueryContract, utils.ValidateLength_nil, deref, Run.bind, hi, he, fmt.s_string, fmt.s_Address]

theorem ftt_QueryContract_decimals (keccak256 : List UInt8 → List UInt8)
    (I : IInstance ι W Auth CallOpts Tx E) (d : FastTestTokenContract ι Tx) (w : W) (inst : ι)
        (v : UInt8)
    (hi : d.Instance = some inst) (he : (I.Decimals inst none w).1 = (v, none)) :
    QueryContract keccak256 I d "decimals" [] w =
      .returned ⟨none, { d with
        Decimals := v
        StrToPrint := "info: Token Decimals: " ++ fmt.d_uint8 v ++ " for FastTestToken ("
          ++ d.Address.Hex keccak256 ++ ")\n" }, (I.Decimals inst none w).2⟩ := by
  simp only [Prod.ext_iff] at he
  simp [QueryContract, utils.ValidateLength_nil, deref, Run.bind, hi, he, fmt.s_Address]

theorem ftt_QueryContract_totalsupply (keccak256 : List UInt8 → List UInt8)
    (I : IInstance ι W Auth CallOpts Tx E) (d : FastTestTokenContract ι Tx) (w : W) (inst : ι)
        (v : big.IntPtr)
    (hi : d.Instance = some inst) (he : (I.TotalSupply inst none w).1 = (v, none)) :
    QueryContract keccak256 I d "totalsupply" [] w =
      .returned ⟨none, { d with
        TotalSupply := v
        StrToPrint := "info: Token TotalSupply: " ++ fmt.d_bigInt v ++ " for FastTestToken ("
          ++ d.Address.Hex keccak256 ++ ")\n" }, (I.TotalSupply inst none w).2⟩ := by
  simp only [Prod.ext_iff] at he
  simp [QueryContract, utils.ValidateLength_nil, deref, Run.bind, hi, he, fmt.s_Address]

theorem ftt_QueryContract_balanceof (keccak256 : List UInt8 → List UInt8)
    (I : IInstance ι W Auth CallOpts Tx E) (d : FastTestTokenContract ι Tx) (w : W) (inst : ι)
    (a : String) (v : big.IntPtr) (f : common.Address → Option big.IntPtr)
    (hi : d.Instance = some inst) (hb : d.BalanceOf = .entries f)
    (he : (I.BalanceOf inst none (common.HexToAddress a) w).1 = (v, none)) :
    QueryContract keccak256 I d "balanceof" [a] w =
      .returned ⟨none, { d with
        BalanceOf := .entries (Function.update f (common.HexToAddress a) (some v))
        StrToPrint := "info: Token Balance of " ++ (common.HexToAddress a).Hex keccak256
          ++ " : " ++ fmt.d_bigInt v ++ " for FastTestToken (" ++ d.Address.Hex keccak256
              ++ ")\n" },
        (I.BalanceOf inst none (common.HexToAddress a) w).2⟩ := by
  simp only [Prod.ext_iff] at he
  simp [QueryContract, utils.ValidateLength_one, index, deref, Run.bind, hi, he, hb,
    GoMap.assign, fmt.s_Address]

theorem ftt_QueryContract_allowance (keccak256 : List UInt8 → List UInt8)
    (I : IInstance ι W Auth CallOpts Tx E) (d : FastTestTokenContract ι Tx) (w : W) (inst : ι)
    (o s : String) (v : big.IntPtr)
    (g : common.Address → Option (GoMap common.Address big.IntPtr))
    (hi : d.Instance = some inst) (ha : d.Allowance = .entries g)
    (hn : g (common.HexToAddress o) ≠ some .nil)
    (he : (I.Allowance inst none (common.HexToAddress o) (common.HexToAddress s) w).1
      = (v, none)) :
    QueryContract keccak256 I d "allowance" [o, s] w =
      .returned ⟨none, { d with
        Allowance := .entries (Function.update g (common.HexToAddress o)
          (some (.entries (Function.update (GoMap.innerEntries (g (common.HexToAddress o)))
            (common.HexToAddress s) (some v)))))
        StrToPrint := "info: Token Allowance of spender "
          ++ (common.HexToAddress s).Hex keccak256 ++ " from owner "
          ++ (common.HexToAddress o).Hex keccak256 ++ " is " ++ fmt.d_bigInt v
          ++ " for FastTestToken (" ++ d.Address.Hex keccak256 ++ ")\n" },
        (I.Allowance inst none (common.HexToAddress o) (common.HexToAddress s) w).2⟩ := by
  simp only [Prod.ext_iff] at he
  obtain ⟨he1, he2⟩ := he
  simp only [QueryContract, String.reduceEq, if_false, if_true, utils.ValidateLength_two]
  simp only [index, List.getElem?_cons_zero, List.getElem?_cons_succ]
  dsimp only [deref, Run.bind]
  rw [hi]
  dsimp only
  rw [he2, he1, ha]
  dsimp only [GoMap.lookup, fmt.s_Address]
  rcases hg : g (common.HexToAddress o) with _ | (_ | h)
  · dsimp only [GoMap.assign, GoMap.empty, GoMap.assignNested, GoMap.lookup, Run.bind,
      GoMap.innerEntries]
    simp only [Function.update_same, Option.getD_some, Function.update_idem]
  · exact absurd hg hn
  · dsimp only [GoMap.assign, GoMap.empty, GoMap.assignNested, GoMap.lookup, Run.bind,
      GoMap.innerEntries]
    simp only [hg, Option.getD_some]

theorem Loaded.ftt_maps {d : FastTestTokenContract ι Tx} (h : Loaded d) :
    ∃ f g, d.BalanceOf = .entries f ∧ d.Allowance = .entries g ∧ ∀ o, g o ≠ some .nil := by
  obtain ⟨_, hb, ha, hn⟩ := h
  rcases hB : d.BalanceOf with _ | f
  · exact absurd hB hb
  rcases hA : d.Allowance with _ | g
  · exact absurd hA ha
  refine ⟨f, g, rfl, rfl, fun o => ?_⟩
  have := hn o
  rwa [hA] at this

theorem ftt_allowanceAt_entries (d : FastTestTokenContract ι Tx)
    (g : common.Address → Option (GoMap common.Address big.IntPtr))
    (ha : d.Allowance = .entries g) (o s : common.Address) :
    allowanceAt d o s = GoMap.innerEntries (g o) s := by
  unfold allowanceAt
  rw [ha]
  rcases hg : g o with _ | (_ | h) <;> simp [GoMap.lookup, GoMap.innerEntries, hg]

theorem ftt_writeCall_of_arity (auth : Auth) (funcName : String) (funcArgs : List String) (m : Nat)
    (hm : writeArity funcName = some m) (hn : funcArgs.length = m) :
    ∃ c : Call Auth CallOpts, writeCall auth funcName funcArgs = some c := by
  unfold writeArity at hm
  split_ifs at hm with h1 h2
  · simp only [List.mem_cons, List.mem_singleton, List.not_mem_nil, or_false] at h1
    cases hm
    obtain ⟨a, b, rfl⟩ := List.length_eq_two.1 hn
    rcases h1 with rfl | rfl | rfl | rfl <;> simp [writeCall]
  · cases hm
    obtain ⟨a, b, c, rfl⟩ := List.length_eq_three.1 hn
    subst h2
    simp [writeCall]

theorem ftt_queryCall_of_arity (funcName : String) (funcArgs : List String) (m : Nat)
    (hm : queryArity funcName = some m) (hn : funcArgs.length = m) :
    ∃ c : Call Auth CallOpts, queryCall funcName funcArgs = some c := by
  unfold queryArity at hm
  split_ifs at hm with h1 h2 h3
  · simp only [List.mem_cons, List.mem_singleton, List.not_mem_nil, or_false] at h1
    cases hm
    obtain rfl := List.length_eq_zero.1 hn
    rcases h1 with rfl | rfl | rfl | rfl <;> simp [queryCall]
  · cases hm
    obtain ⟨a, rfl⟩ := List.length_eq_one.1 hn
    subst h2
    simp [queryCall]
  · cases hm
    obtain ⟨a, b, rfl⟩ := List.length_eq_two.1 hn
    subst h3
    simp [queryCall]

theorem ftt_writeCall_reply (I : IInstance ι W Auth CallOpts Tx E) (inst : ι) (auth : Auth)
    (funcName : String) (funcArgs : List String) (c : Call Auth CallOpts) (w : W)
    (hc : writeCall auth funcName funcArgs = some c) :
    ∃ tx, (I.invoke inst c w).1.1 = .tx tx := by
  unfold writeCall at hc
  split_ifs at hc <;> split at hc <;> cases hc <;> exact ⟨_, rfl⟩

end fast_test_token

/-! ## A fact about strings -/

theorem append_ne_empty (a b : String) (h : b ≠ "") : a ++ b ≠ "" := by
  intro he
  apply h
  have h1 : (a ++ b).data = [] := by rw [he]
  rw [String.data_append] at h1
  have h2 : b.data = [] := (List.append_eq_nil.1 h1).2
  exact String.ext h2

/-! ### Frame lemmas of the DetailedTestToken template -/

namespace detailed_test_token

variable {ι W Auth CallOpts Tx E : Type}

theorem dtt_QueryContract_balanceof_frame (keccak256 : List UInt8 → List UInt8)
    (I : IInstance ι W Auth CallOpts Tx E) (d : DetailedTestTokenContract ι Tx) (w : W) (inst : ι)
    (a : String) (v : big.IntPtr) (hL : Loaded d) (hi : d.Instance = some inst)
    (he : (I.BalanceOf inst none (common.HexToAddress a) w).1 = (v, none)) :
    ∃ r, QueryContract keccak256 I d "balanceof" [a] w = .returned r ∧
      r.err = none ∧ r.self.BalanceOf.lookup (common.HexToAddress a) = some v ∧
      (∀ b, b ≠ common.HexToAddress a → r.self.BalanceOf.lookup b = d.BalanceOf.lookup b) ∧
      r.self.StrToPrint ≠ "" ∧
      r.self = { d with BalanceOf := r.self.BalanceOf, StrToPrint := r.self.StrToPrint } := by
  obtain ⟨f, g, hb, -, -⟩ := hL.dtt_maps
  refine ⟨_, dtt_QueryContract_balanceof keccak256 I d w inst a v f hi hb he, rfl, ?_, ?_,
    append_ne_empty _ _ (by decide), rfl⟩
  · simp only [GoMap.lookup, Function.update_same]
  · intro b hne
    simp only [GoMap.lookup, hb, Function.update_noteq hne]

theorem dtt_QueryContract_allowance_frame (keccak256 : List UInt8 → List UInt8)
    (I : IInstance ι W Auth CallOpts Tx E) (d : DetailedTestTokenContract ι Tx) (w : W) (inst : ι)
    (o s : String) (v : big.IntPtr) (hL : Loaded d) (hi : d.Instance = some inst)
    (he : (I.Allowance inst none (common.HexToAddress o) (common.HexToAddress s) w).1
      = (v, none)) :
    ∃ r, QueryContract keccak256 I d "allowance" [o, s] w = .returned r ∧
      r.err = none ∧
      allowanceAt r.self (common.HexToAddress o) (common.HexToAddress s) = some v ∧
      (∀ o1 s1, (o1, s1) ≠ (common.HexToAddress o, common.HexToAddress s) →
        allowanceAt r.self o1 s1 = allowanceAt d o1 s1) ∧
      (∀ o1, o1 ≠ common.HexToAddress o → r.self.Allowance.lookup o1 = d.Allowance.lookup o1) ∧
      r.self.StrToPrint ≠ "" ∧
      r.self = { d with Allowance := r.self.Allowance, StrToPrint := r.self.StrToPrint } := by
  obtain ⟨f, g, -, ha, hn⟩ := hL.dtt_maps
  refine ⟨_, dtt_QueryContract_allowance keccak256 I d w inst o s v g hi ha (hn _) he, rfl, ?_, ?_,
    ?_, append_ne_empty _ _ (by decide), rfl⟩
  · rw [dtt_allowanceAt_entries _ _ rfl]
    simp only [Function.update_same, GoMap.innerEntries]
  · intro o1 s1 hne
    rw [dtt_allowanceAt_entries _ _ rfl, dtt_allowanceAt_entries d g ha]
    by_cases ho : o1 = common.HexToAddress o
    · subst ho
      have hs : s1 ≠ common.HexToAddress s := fun h => hne (by rw [h])
      simp only [Function.update_same, GoMap.innerEntries, Function.update_noteq hs]
    · simp only [Function.update_noteq ho]
  · intro o1 hne
    simp only [GoMap.lookup, ha, Function.update_noteq hne]

theorem dtt_WriteContract_transfer (keccak256 : List UInt8 → List UInt8)
    (I : IInstance ι W Auth CallOpts Tx E) (d : DetailedTestTokenContract ι Tx) (auth : Auth)
        (w : W) (inst : ι)
    (r m : String) (tx : Option Tx) (hi : d.Instance = some inst)
    (he : (I.Transfer inst auth (common.HexToAddress r) (some (big.SetString m)) w).1
      = (tx, none)) :
    WriteContract keccak256 I d auth "transfer" [r, m] w =
      .returned ⟨none, { d with
        LastTx := tx
        StrToPrint := "info: Transferred " ++ fmt.d_bigInt (some (big.SetString m))
          ++ " tokens at DetailedTestToken (" ++ d.Address.Hex keccak256 ++ ") to address "
          ++ (common.HexToAddress r).Hex keccak256 ++ "\n" },
        (I.Transfer inst auth (common.HexToAddress r) (some (big.SetString m)) w).2⟩ := by
  simp only [Prod.ext_iff] at he
  simp [WriteContract, utils.ValidateLength_two, index, deref, Run.bind, hi, he, fmt.s_Address]

end detailed_test_token

/-! ### Frame lemmas of the FastTestToken template -/

namespace fast_test_token

variable {ι W Auth CallOpts Tx E : Type}

theorem ftt_QueryContract_balanceof_frame (keccak256 : List UInt8 → List UInt8)
    (I : IInstance ι W Auth CallOpts Tx E) (d : FastTestTokenContract ι Tx) (w : W) (inst : ι)
    (a : String) (v : big.IntPtr) (hL : Loaded d) (hi : d.Instance = some inst)
    (he : (I.BalanceOf inst none (common.HexToAddress a) w).1 = (v, none)) :
    ∃ r, QueryContract keccak256 I d "balanceof" [a] w = .returned r ∧
      r.err = none ∧ r.self.BalanceOf.lookup (common.HexToAddress a) = some v ∧
      (∀ b, b ≠ common.HexToAddress a → r.self.BalanceOf.lookup b = d.BalanceOf.lookup b) ∧
      r.self.StrToPrint ≠ "" ∧
      r.self = { d with BalanceOf := r.self.BalanceOf, StrToPrint := r.self.StrToPrint } := by
  obtain ⟨f, g, hb, -, -⟩ := hL.ftt_maps
  refine ⟨_, ftt_QueryContract_balanceof keccak256 I d w inst a v f hi hb he, rfl, ?_, ?_,
    append_ne_empty _ _ (by decide), rfl⟩
  · simp only [GoMap.lookup, Function.update_same]
  · intro b hne
    simp only [GoMap.lookup, hb, Function.update_noteq hne]

theorem ftt_QueryContract_allowance_frame (keccak256 : List UInt8 → List UInt8)
    (I : IInstance ι W Auth CallOpts Tx E) (d : FastTestTokenContract ι Tx) (w : W) (inst : ι)
    (o s : String) (v : big.IntPtr) (hL : Loaded d) (hi : d.Instance = some inst)
    (he : (I.Allowance inst none (common.HexToAddress o) (common.HexToAddress s) w).1
      = (v, none)) :
    ∃ r, QueryContract keccak256 I d "allowance" [o, s] w = .returned r ∧
      r.err = none ∧
      allowanceAt r.self (common.HexToAddress o) (common.HexToAddress s) = some v ∧
      (∀ o1 s1, (o1, s1) ≠ (common.HexToAddress o, common.HexToAddress s) →
        allowanceAt r.self o1 s1 = allowanceAt d o1 s1) ∧
      (∀ o1, o1 ≠ common.HexToAddress o → r.self.Allowance.lookup o1 = d.Allowance.lookup o1) ∧
      r.self.StrToPrint ≠ "" ∧
      r.self = { d with Allowance := r.self.Allowance, StrToPrint := r.self.StrToPrint } := by
  obtain ⟨f, g, -, ha, hn⟩ := hL.ftt_maps
  refine ⟨_, ftt_QueryContract_allowance keccak256 I d w inst o s v g hi ha (hn _) he, rfl, ?_, ?_,
    ?_, append_ne_empty _ _ (by decide), rfl⟩
  · rw [ftt_allowanceAt_entries _ _ rfl]
    simp only [Function.update_same, GoMap.innerEntries]
  · intro o1 s1 hne
    rw [ftt_allowanceAt_entries _ _ rfl, ftt_allowanceAt_entries d g ha]
    by_cases ho : o1 = common.HexToAddress o
    · subst ho
      have hs : s1 ≠ common.HexToAddress s := fun h => hne (by rw [h])
      simp only [Function.update_same, GoMap.innerEntries, Function.update_noteq hs]
    · simp only [Function.update_noteq ho]
  · intro o1 hne
    simp only [GoMap.lookup, ha, Function.update_noteq hne]

theorem ftt_WriteContract_transfer (keccak256 : List UInt8 → List UInt8)
    (I : IInstance ι W Auth CallOpts Tx E) (d : FastTestTokenContract ι Tx) (auth : Auth) (w : W)
        (inst : ι)
    (r m : String) (tx : Option Tx) (hi : d.Instance = some inst)
    (he : (I.Transfer inst auth (common.HexToAddress r) (some (big.SetString m)) w).1
      = (tx, none)) :
    WriteContract keccak256 I d auth "transfer" [r, m] w =
      .returned ⟨none, { d with
        LastTx := tx
        StrToPrint := "info: Transferred " ++ fmt.d_bigInt (some (big.SetString m))
          ++ " tokens at FastTestToken (" ++ d.Address.Hex keccak256 ++ ") to address "
          ++ (common.HexToAddress r).Hex keccak256 ++ "\n" },
        (I.Transfer inst auth (common.HexToAddress r) (some (big.SetString m)) w).2⟩ := by
  simp only [Prod.ext_iff] at he
  simp [WriteContract, utils.ValidateLength_two, index, deref, Run.bind, hi, he, fmt.s_Address]

end fast_test_token

/-! ### What the operations of the DetailedTestToken template keep -/

namespace detailed_test_token

variable {ι W Auth CallOpts Tx E : Type}

theorem dtt_mock_invoke (ret : MockReturns Tx E) (c : Call Auth CallOpts)
    (log : List (Call Auth CallOpts)) :
    ((MockContractInstance ret).invoke () c log).2 = log ++ [c] := by
  cases c <;> rfl

theorem dtt_queryArity_of_mem (funcName : String)
    (h : funcName ∈ ["name", "symbol", "decimals", "totalsupply", "balanceof", "allowance"]) :
    ∃ m, queryArity funcName = some m := by
  simp only [List.mem_cons, List.mem_singleton, List.not_mem_nil, or_false] at h
  rcases h with rfl | rfl | rfl | rfl | rfl | rfl <;> simp [queryArity]

theorem dtt_writeArity_of_mem (funcName : String)
    (h : funcName ∈ ["transfer", "approve", "transferfrom", "increaseallowance",
      "decreaseallowance", "mint", "burn"]) :
    ∃ m, writeArity funcName = some m := by
  simp only [List.mem_cons, List.mem_singleton, List.not_mem_nil, or_false] at h
  rcases h with rfl | rfl | rfl | rfl | rfl | rfl | rfl <;> simp [writeArity]

theorem dtt_QueryContract_ok_Loaded (keccak256 : List UInt8 → List UInt8)
    (I : IInstance ι W Auth CallOpts Tx E) (d : DetailedTestTokenContract ι Tx)
    (funcName : String) (funcArgs : List String) (w : W) (inst : ι) (c : Call Auth CallOpts)
    (hL : Loaded d) (hi : d.Instance = some inst) (hc : queryCall funcName funcArgs = some c)
    (he : (I.invoke inst c w).1.2 = none) :
    ∃ r, QueryContract keccak256 I d funcName funcArgs w = .returned r ∧ Loaded r.self := by
  obtain ⟨f, g, hb, ha, hn⟩ := hL.dtt_maps
  unfold queryCall at hc
  split_ifs at hc with h1 h2 h3 h4 h5 h6 <;> split at hc <;> cases hc <;> subst_vars <;>
    simp only [IInstance.invoke] at he
  · exact ⟨_, dtt_QueryContract_name keccak256 I d w inst _ hi (Prod.ext rfl he), hL⟩
  · exact ⟨_, dtt_QueryContract_symbol keccak256 I d w inst _ hi (Prod.ext rfl he), hL⟩
  · exact ⟨_, dtt_QueryContract_decimals keccak256 I d w inst _ hi (Prod.ext rfl he), hL⟩
  · exact ⟨_, dtt_QueryContract_totalsupply keccak256 I d w inst _ hi (Prod.ext rfl he), hL⟩
  · refine ⟨_, dtt_QueryContract_balanceof keccak256 I d w inst _ _ f hi hb (Prod.ext rfl he),
      hL.1, ?_, hL.2.2.1, hL.2.2.2⟩
    intro h
    cases h
  · rename_i fa oh sh
    refine ⟨_, dtt_QueryContract_allowance keccak256 I d w inst oh sh _ g hi ha (hn _)
      (Prod.ext rfl he), hL.1, hL.2.1, ?_, ?_⟩
    · intro h
      cases h
    · intro o h
      simp only [GoMap.lookup] at h
      by_cases ho : o = common.HexToAddress oh
      · subst ho
        rw [Function.update_same] at h
        cases h
      · rw [Function.update_noteq ho] at h
        exact hn o h

theorem dtt_QueryContract_Loaded (keccak256 : List UInt8 → List UInt8)
    (I : IInstance ι W Auth CallOpts Tx E) (d : DetailedTestTokenContract ι Tx)
    (funcName : String) (funcArgs : List String) (w : W)
    (r : Result (DetailedTestTokenContract ι Tx) W E) (hL : Loaded d)
    (h : QueryContract keccak256 I d funcName funcArgs w = .returned r) : Loaded r.self := by
  obtain ⟨inst, hi⟩ : ∃ inst, d.Instance = some inst := Option.ne_none_iff_exists'.1 hL.1
  by_cases hq : funcName ∈ ["name", "symbol", "decimals", "totalsupply", "balanceof", "allowance"]
  · obtain ⟨m, hm⟩ := dtt_queryArity_of_mem funcName hq
    by_cases hn : funcArgs.length = m
    · obtain ⟨c, hc⟩ : ∃ c : Call Auth CallOpts, queryCall funcName funcArgs = some c :=
        dtt_queryCall_of_arity funcName funcArgs m hm hn
      rcases he : (I.invoke inst c w).1.2 with _ | e
      · obtain ⟨r1, h1, hL1⟩ :=
          dtt_QueryContract_ok_Loaded keccak256 I d funcName funcArgs w inst c hL hi hc he
        rw [h1] at h
        cases h
        exact hL1
      · rw [dtt_QueryContract_err keccak256 I d funcName funcArgs w inst c e hi hc he] at h
        cases h
        exact hL
    · rw [dtt_QueryContract_wrong_arity keccak256 I d funcName funcArgs w m hm hn] at h
      cases h
      exact hL
  · rw [dtt_QueryContract_unknown keccak256 I d funcName funcArgs w hq] at h
    cases h
    exact hL

theorem dtt_WriteContract_Loaded (keccak256 : List UInt8 → List UInt8)
    (I : IInstance ι W Auth CallOpts Tx E) (d : DetailedTestTokenContract ι Tx) (auth : Auth)
    (funcName : String) (funcArgs : List String) (w : W)
    (r : Result (DetailedTestTokenContract ι Tx) W E) (hL : Loaded d)
    (h : WriteContract keccak256 I d auth funcName funcArgs w = .returned r) :
    Loaded r.self := by
  obtain ⟨inst, hi⟩ : ∃ inst, d.Instance = some inst := Option.ne_none_iff_exists'.1 hL.1
  by_cases hq : funcName ∈ ["transfer", "approve", "transferfrom", "increaseallowance",
      "decreaseallowance", "mint", "burn"]
  · obtain ⟨m, hm⟩ := dtt_writeArity_of_mem funcName hq
    by_cases hn : funcArgs.length = m
    · obtain ⟨c, hc⟩ : ∃ c : Call Auth CallOpts, writeCall auth funcName funcArgs = some c :=
        dtt_writeCall_of_arity auth funcName funcArgs m hm hn
      obtain ⟨tx0, ht⟩ := dtt_writeCall_reply I inst auth funcName funcArgs c w hc
      rcases he : (I.invoke inst c w).1.2 with _ | e
      · obtain ⟨s, hs⟩ := dtt_WriteContract_ok keccak256 I d auth funcName funcArgs w inst c tx0
          hi hc (Prod.ext ht he)
        rw [hs] at h
        cases h
        exact hL
      · rw [dtt_WriteContract_err keccak256 I d auth funcName funcArgs w inst c e hi hc he] at h
        cases h
        exact hL
    · rw [dtt_WriteContract_wrong_arity keccak256 I d auth funcName funcArgs w m hm hn] at h
      cases h
      exact hL
  · rw [dtt_WriteContract_unknown keccak256 I d auth funcName funcArgs w hq] at h
    cases h
    exact hL


theorem dtt_WriteContract_world (keccak256 : List UInt8 → List UInt8)
    (I : IInstance ι W Auth CallOpts Tx E) (d : DetailedTestTokenContract ι Tx) (auth : Auth)
    (funcName : String) (funcArgs : List String) (w : W) (inst : ι) (c : Call Auth CallOpts)
    (hi : d.Instance = some inst) (hc : writeCall auth funcName funcArgs = some c) :
    ∃ r, WriteContract keccak256 I d auth funcName funcArgs w = .returned r ∧
      r.world = (I.invoke inst c w).2 ∧ r.err = (I.invoke inst c w).1.2 ∧
      ∀ tx, (I.invoke inst c w).1 = (.tx tx, none) →
        r.err = none ∧ r.self.LastTx = tx ∧
          r.self = { d with LastTx := tx, StrToPrint := r.self.StrToPrint } := by
  obtain ⟨tx0, ht⟩ := dtt_writeCall_reply I inst auth funcName funcArgs c w hc
  rcases he : (I.invoke inst c w).1.2 with _ | e
  · have h1 : (I.invoke inst c w).1 = (.tx tx0, none) := Prod.ext ht he
    obtain ⟨s, hs⟩ :=
      dtt_WriteContract_ok keccak256 I d auth funcName funcArgs w inst c tx0 hi hc h1
    refine ⟨_, hs, rfl, rfl, ?_⟩
    intro tx htx
    rw [h1] at htx
    cases htx
    exact ⟨rfl, rfl, rfl⟩
  · have hs := dtt_WriteContract_err keccak256 I d auth funcName funcArgs w inst c e hi hc he
    refine ⟨_, hs, rfl, rfl, ?_⟩
    intro tx htx
    rw [htx] at he
    cases he

end detailed_test_token

/-! ### What the operations of the FastTestToken template keep -/

namespace fast_test_token

variable {ι W Auth CallOpts Tx E : Type}

theorem ftt_mock_invoke (ret : MockReturns Tx E) (c : Call Auth CallOpts)
    (log : List (Call Auth CallOpts)) :
    ((MockContractInstance ret).invoke () c log).2 = log ++ [c] := by
  cases c <;> rfl

theorem ftt_queryArity_of_mem (funcName : String)
    (h : funcName ∈ ["name", "symbol", "decimals", "totalsupply", "balanceof", "allowance"]) :
    ∃ m, queryArity funcName = some m := by
  simp only [List.mem_cons, List.mem_singleton, List.not_mem_nil, or_false] at h
  rcases h with rfl | rfl | rfl | rfl | rfl | rfl <;> simp [queryArity]

theorem ftt_writeArity_of_mem (funcName : String)
    (h : funcName ∈ ["transfer", "approve", "transferfrom", "increaseallowance",
      "decreaseallowance"]) :
    ∃ m, writeArity funcName = some m := by
  simp only [List.mem_cons, List.mem_singleton, List.not_mem_nil, or_false] at h
  rcases h with rfl | rfl | rfl | rfl | rfl <;> simp [writeArity]

theorem ftt_QueryContract_ok_Loaded (keccak256 : List UInt8 → List UInt8)
    (I : IInstance ι W Auth CallOpts Tx E) (d : FastTestTokenContract ι Tx)
    (funcName : String) (funcArgs : List String) (w : W) (inst : ι) (c : Call Auth CallOpts)
    (hL : Loaded d) (hi : d.Instance = some inst) (hc : queryCall funcName funcArgs = some c)
    (he : (I.invoke inst c w).1.2 = none) :
    ∃ r, QueryContract keccak256 I d funcName funcArgs w = .returned r ∧ Loaded r.self := by
  obtain ⟨f, g, hb, ha, hn⟩ := hL.ftt_maps
  unfold queryCall at hc
  split_ifs at hc with h1 h2 h3 h4 h5 h6 <;> split at hc <;> cases hc <;> subst_vars <;>
    simp only [IInstance.invoke] at he
  · exact ⟨_, ftt_QueryContract_name keccak256 I d w inst _ hi (Prod.ext rfl he), hL⟩
  · exact ⟨_, ftt_QueryContract_symbol keccak256 I d w inst _ hi (Prod.ext rfl he), hL⟩
  · exact ⟨_, ftt_QueryContract_decimals keccak256 I d w inst _ hi (Prod.ext rfl he), hL⟩
  · exact ⟨_, ftt_QueryContract_totalsupply keccak256 I d w inst _ hi (Prod.ext rfl he), hL⟩
  · refine ⟨_, ftt_QueryContract_balanceof keccak256 I d w inst _ _ f hi hb (Prod.ext rfl he),
      hL.1, ?_, hL.2.2.1, hL.2.2.2⟩
    intro h
    cases h
  · rename_i fa oh sh
    refine ⟨_, ftt_QueryContract_allowance keccak256 I d w inst oh sh _ g hi ha (hn _)
      (Prod.ext rfl he), hL.1, hL.2.1, ?_, ?_⟩
    · intro h
      cases h
    · intro o h
      simp only [GoMap.lookup] at h
      by_cases ho : o = common.HexToAddress oh
      · subst ho
        rw [Function.update_same] at h
        cases h
      · rw [Function.update_noteq ho] at h
        exact hn o h

theorem ftt_QueryContract_Loaded (keccak256 : List UInt8 → List UInt8)
    (I : IInstance ι W Auth CallOpts Tx E) (d : FastTestTokenContract ι Tx)
    (funcName : String) (funcArgs : List String) (w : W)
    (r : Result (FastTestTokenContract ι Tx) W E) (hL : Loaded d)
    (h : QueryContract keccak256 I d funcName funcArgs w = .returned r) : Loaded r.self := by
  obtain ⟨inst, hi⟩ : ∃ inst, d.Instance = some inst := Option.ne_none_iff_exists'.1 hL.1
  by_cases hq : funcName ∈ ["name", "symbol", "decimals", "totalsupply", "balanceof", "allowance"]
  · obtain ⟨m, hm⟩ := ftt_queryArity_of_mem funcName hq
    by_cases hn : funcArgs.length = m
    · obtain ⟨c, hc⟩ : ∃ c : Call Auth CallOpts, queryCall funcName funcArgs = some c :=
        ftt_queryCall_of_arity funcName funcArgs m hm hn
      rcases he : (I.invoke inst c w).1.2 with _ | e
      · obtain ⟨r1, h1, hL1⟩ :=
          ftt_QueryContract_ok_Loaded keccak256 I d funcName funcArgs w inst c hL hi hc he
        rw [h1] at h
        cases h
        exact hL1
      · rw [ftt_QueryContract_err keccak256 I d funcName funcArgs w inst c e hi hc he] at h
        cases h
        exact hL
    · rw [ftt_QueryContract_wrong_arity keccak256 I d funcName funcArgs w m hm hn] at h
      cases h
      exact hL
  · rw [ftt_QueryContract_unknown keccak256 I d funcName funcArgs w hq] at h
    cases h
    exact hL

theorem ftt_WriteContract_Loaded (keccak256 : List UInt8 → List UInt8)
    (I : IInstance ι W Auth CallOpts Tx E) (d : FastTestTokenContract ι Tx) (auth : Auth)
    (funcName : String) (funcArgs : List String) (w : W)
    (r : Result (FastTestTokenContract ι Tx) W E) (hL : Loaded d)
    (h : WriteContract keccak256 I d auth funcName funcArgs w = .returned r) :
    Loaded r.self := by
  obtain ⟨inst, hi⟩ : ∃ inst, d.Instance = some inst := Option.ne_none_iff_exists'.1 hL.1
  by_cases hq : funcName ∈ ["transfer", "approve", "transferfrom", "increaseallowance",
      "decreaseallowance"]
  · obtain ⟨m, hm⟩ := ftt_writeArity_of_mem funcName hq
    by_cases hn : funcArgs.length = m
    · obtain ⟨c, hc⟩ : ∃ c : Call Auth CallOpts, writeCall auth funcName funcArgs = some c :=
        ftt_writeCall_of_arity auth funcName funcArgs m hm hn
      obtain ⟨tx0, ht⟩ := ftt_writeCall_reply I inst auth funcName funcArgs c w hc
      rcases he : (I.invoke inst c w).1.2 with _ | e
      · obtain ⟨s, hs⟩ := ftt_WriteContract_ok keccak256 I d auth funcName funcArgs w inst c tx0
          hi hc (Prod.ext ht he)
        rw [hs] at h
        cases h
        exact hL
      · rw [ftt_WriteContract_err keccak256 I d auth funcName funcArgs w inst c e hi hc he] at h
        cases h
        exact hL
    · rw [ftt_WriteContract_wrong_arity keccak256 I d auth funcName funcArgs w m hm hn] at h
      cases h
      exact hL
  · rw [ftt_WriteContract_unknown keccak256 I d auth funcName funcArgs w hq] at h
    cases h
    exact hL


theorem ftt_WriteContract_world (keccak256 : List UInt8 → List UInt8)
    (I : IInstance ι W Auth CallOpts Tx E) (d : FastTestTokenContract ι Tx) (auth : Auth)
    (funcName : String) (funcArgs : List String) (w : W) (inst : ι) (c : Call Auth CallOpts)
    (hi : d.Instance = some inst) (hc : writeCall auth funcName funcArgs = some c) :
    ∃ r, WriteContract keccak256 I d auth funcName funcArgs w = .returned r ∧
      r.world = (I.invoke inst c w).2 ∧ r.err = (I.invoke inst c w).1.2 ∧
      ∀ tx, (I.invoke inst c w).1 = (.tx tx, none) →
        r.err = none ∧ r.self.LastTx = tx ∧
          r.self = { d with LastTx := tx, StrToPrint := r.self.StrToPrint } := by
  obtain ⟨tx0, ht⟩ := ftt_writeCall_reply I inst auth funcName funcArgs c w hc
  rcases he : (I.invoke inst c w).1.2 with _ | e
  · have h1 : (I.invoke inst c w).1 = (.tx tx0, none) := Prod.ext ht he
    obtain ⟨s, hs⟩ :=
      ftt_WriteContract_ok keccak256 I d auth funcName funcArgs w inst c tx0 hi hc h1
    refine ⟨_, hs, rfl, rfl, ?_⟩
    intro tx htx
    rw [h1] at htx
    cases htx
    exact ⟨rfl, rfl, rfl⟩
  · have hs := ftt_WriteContract_err keccak256 I d auth funcName funcArgs w inst c e hi hc he
    refine ⟨_, hs, rfl, rfl, ?_⟩
    intro tx htx
    rw [htx] at he
    cases he

end fast_test_token

/-! ## The claims -/

/-- C1. For both templates and every operation of QueryContract and WriteContract
(name, symbol, decimals, totalsupply with 0 arguments, balanceof with 1, allowance
with 2; transfer, approve, increaseallowance, decreaseallowance and, for the
DetailedTestToken, mint and burn with 2, transferfrom with 3): given a number `n`
of arguments other than the number `m` the operation requires, the call returns
and its error is the one whose message reads
"error: n arguments does not match required m", both numbers in decimal. -/
theorem arity_mismatch_error_message (keccak256 : List UInt8 → List UInt8) :
    (∀ (I : detailed_test_token.IInstance ι W Auth CallOpts Tx E)
        (d : detailed_test_token.DetailedTestTokenContract ι Tx) (funcName : String)
            (funcArgs : List String) (w : W) (m : Nat),
        detailed_test_token.queryArity funcName = some m → funcArgs.length ≠ m →
        ∃ r, detailed_test_token.QueryContract keccak256 I d funcName funcArgs w = .returned r ∧
          r.err = some (.errorf ("error: " ++ toString funcArgs.length
            ++ " arguments does not match required " ++ toString m))) ∧
    (∀ (I : detailed_test_token.IInstance ι W Auth CallOpts Tx E)
        (d : detailed_test_token.DetailedTestTokenContract ι Tx) (auth : Auth) (funcName : String)
            (funcArgs : List String)
        (w : W) (m : Nat),
        detailed_test_token.writeArity funcName = some m → funcArgs.length ≠ m →
        ∃ r, detailed_test_token.WriteContract keccak256 I d auth funcName funcArgs w
            = .returned r ∧
          r.err = some (.errorf ("error: " ++ toString funcArgs.length
            ++ " arguments does not match required " ++ toString m))) ∧
    (∀ (I : fast_test_token.IInstance ι W Auth CallOpts Tx E)
        (d : fast_test_token.FastTestTokenContract ι Tx) (funcName : String)
            (funcArgs : List String) (w : W) (m : Nat),
        fast_test_token.queryArity funcName = some m → funcArgs.length ≠ m →
        ∃ r, fast_test_token.QueryContract keccak256 I d funcName funcArgs w = .returned r ∧
          r.err = some (.errorf ("error: " ++ toString funcArgs.length
            ++ " arguments does not match required " ++ toString m))) ∧
    (∀ (I : fast_test_token.IInstance ι W Auth CallOpts Tx E)
        (d : fast_test_token.FastTestTokenContract ι Tx) (auth : Auth) (funcName : String)
            (funcArgs : List String)
        (w : W) (m : Nat),
        fast_test_token.writeArity funcName = some m → funcArgs.length ≠ m →
        ∃ r, fast_test_token.WriteContract keccak256 I d auth funcName funcArgs w = .returned r ∧
          r.err = some (.errorf ("error: " ++ toString funcArgs.length
            ++ " arguments does not match required " ++ toString m))) := by
  refine ⟨?_, ?_, ?_, ?_⟩
  · intro I d funcName funcArgs w m hm hn
    exact ⟨_, detailed_test_token.dtt_QueryContract_wrong_arity keccak256 I d funcName funcArgs w m
      hm hn, rfl⟩
  · intro I d auth funcName funcArgs w m hm hn
    exact ⟨_, detailed_test_token.dtt_WriteContract_wrong_arity keccak256 I d auth funcName funcArgs
      w m hm hn, rfl⟩
  · intro I d funcName funcArgs w m hm hn
    exact ⟨_, fast_test_token.ftt_QueryContract_wrong_arity keccak256 I d funcName funcArgs w m
      hm hn, rfl⟩
  · intro I d auth funcName funcArgs w m hm hn
    exact ⟨_, fast_test_token.ftt_WriteContract_wrong_arity keccak256 I d auth funcName funcArgs
      w m hm hn, rfl⟩

theorem arity_mismatch_error_message_witness :
    detailed_test_token.queryArity "name" = some 0 ∧ ["fail"].length ≠ 0 ∧
    ∃ r, detailed_test_token.QueryContract (fun _ => [])
        (detailed_test_token.mockInstance detailed_test_token.testReturns)
        detailed_test_token.testContract "name" ["fail"] [] = .returned r ∧
      r.err = some (.errorf "error: 1 arguments does not match required 0") :=
  ⟨by decide, by decide,
    (arity_mismatch_error_message (fun _ => [])).1 _ _ "name" ["fail"] [] 0
      (by decide) (by decide)⟩

/-- C2. For both templates, when QueryContract or WriteContract is called with one
of its operation names and a list of arguments of the wrong length, the call
returns an error, the instance is the instance of before in every field, and
the world is the world of before, whatever the connector is: no method of the
connector has been called. -/
theorem arity_mismatch_touches_nothing (keccak256 : List UInt8 → List UInt8) :
    (∀ (I : detailed_test_token.IInstance ι W Auth CallOpts Tx E)
        (d : detailed_test_token.DetailedTestTokenContract ι Tx) (funcName : String)
            (funcArgs : List String) (w : W) (m : Nat),
        detailed_test_token.queryArity funcName = some m → funcArgs.length ≠ m →
        ∃ r, detailed_test_token.QueryContract keccak256 I d funcName funcArgs w = .returned r ∧
          r.err ≠ none ∧ r.self = d ∧ r.world = w) ∧
    (∀ (I : detailed_test_token.IInstance ι W Auth CallOpts Tx E)
        (d : detailed_test_token.DetailedTestTokenContract ι Tx) (auth : Auth) (funcName : String)
            (funcArgs : List String)
        (w : W) (m : Nat),
        detailed_test_token.writeArity funcName = some m → funcArgs.length ≠ m →
        ∃ r, detailed_test_token.WriteContract keccak256 I d auth funcName funcArgs w
            = .returned r ∧
          r.err ≠ none ∧ r.self = d ∧ r.world = w) ∧
    (∀ (I : fast_test_token.IInstance ι W Auth CallOpts Tx E)
        (d : fast_test_token.FastTestTokenContract ι Tx) (funcName : String)
            (funcArgs : List String) (w : W) (m : Nat),
        fast_test_token.queryArity funcName = some m → funcArgs.length ≠ m →
        ∃ r, fast_test_token.QueryContract keccak256 I d funcName funcArgs w = .returned r ∧
          r.err ≠ none ∧ r.self = d ∧ r.world = w) ∧
    (∀ (I : fast_test_token.IInstance ι W Auth CallOpts Tx E)
        (d : fast_test_token.FastTestTokenContract ι Tx) (auth : Auth) (funcName : String)
            (funcArgs : List String)
        (w : W) (m : Nat),
        fast_test_token.writeArity funcName = some m → funcArgs.length ≠ m →
        ∃ r, fast_test_token.WriteContract keccak256 I d auth funcName funcArgs w = .returned r ∧
          r.err ≠ none ∧ r.self = d ∧ r.world = w) := by
  refine ⟨?_, ?_, ?_, ?_⟩
  · intro I d funcName funcArgs w m hm hn
    exact ⟨_, detailed_test_token.dtt_QueryContract_wrong_arity keccak256 I d funcName funcArgs w m
      hm hn, Option.some_ne_none _, rfl, rfl⟩
  · intro I d auth funcName funcArgs w m hm hn
    exact ⟨_, detailed_test_token.dtt_WriteContract_wrong_arity keccak256 I d auth funcName funcArgs
      w m hm hn, Option.some_ne_none _, rfl, rfl⟩
  · intro I d funcName funcArgs w m hm hn
    exact ⟨_, fast_test_token.ftt_QueryContract_wrong_arity keccak256 I d funcName funcArgs w m
      hm hn, Option.some_ne_none _, rfl, rfl⟩
  · intro I d auth funcName funcArgs w m hm hn
    exact ⟨_, fast_test_token.ftt_WriteContract_wrong_arity keccak256 I d auth funcName funcArgs
      w m hm hn, Option.some_ne_none _, rfl, rfl⟩

theorem arity_mismatch_touches_nothing_witness :
    fast_test_token.writeArity "transferfrom" = some 3 ∧ ["a", "1"].length ≠ 3 ∧
    ∃ r, fast_test_token.WriteContract (fun _ => [])
        (fast_test_token.mockInstance fast_test_token.testReturns)
        fast_test_token.loadedContract () "transferfrom" ["a", "1"] [] = .returned r ∧
      r.err ≠ none ∧ r.self = fast_test_token.loadedContract ∧ r.world = [] :=
  ⟨by decide, by decide,
    (arity_mismatch_touches_nothing (fun _ => [])).2.2.2 _ _ () "transferfrom" ["a", "1"] [] 3
      (by decide) (by decide)⟩

/-- C3. For both templates, every operation name of QueryContract or WriteContract
and every list of arguments of the right length: the call stands for one
request to the connector, and if the connector answers that request with an
error `e`, the call returns exactly `e` and the instance is the instance of
before in every field (StrToPrint, LastTx and every cache included). -/
theorem connector_error_is_returned_as_is (keccak256 : List UInt8 → List UInt8) :
    (∀ (I : detailed_test_token.IInstance ι W Auth CallOpts Tx E)
        (d : detailed_test_token.DetailedTestTokenContract ι Tx) (funcName : String)
            (funcArgs : List String) (w : W) (inst : ι) (m : Nat),
        d.Instance = some inst → detailed_test_token.queryArity funcName = some m → funcArgs.length
            = m →
        ∃ c, detailed_test_token.queryCall funcName funcArgs = some c ∧
          ∀ e, (I.invoke inst c w).1.2 = some e →
            detailed_test_token.QueryContract keccak256 I d funcName funcArgs w =
              .returned ⟨some e, d, (I.invoke inst c w).2⟩) ∧
    (∀ (I : detailed_test_token.IInstance ι W Auth CallOpts Tx E)
        (d : detailed_test_token.DetailedTestTokenContract ι Tx) (auth : Auth) (funcName : String)
            (funcArgs : List String)
        (w : W) (inst : ι) (m : Nat),
        d.Instance = some inst → detailed_test_token.writeArity funcName = some m → funcArgs.length
            = m →
        ∃ c, detailed_test_token.writeCall auth funcName funcArgs = some c ∧
          ∀ e, (I.invoke inst c w).1.2 = some e →
            detailed_test_token.WriteContract keccak256 I d auth funcName funcArgs w =
              .returned ⟨some e, d, (I.invoke inst c w).2⟩) ∧
    (∀ (I : fast_test_token.IInstance ι W Auth CallOpts Tx E)
        (d : fast_test_token.FastTestTokenContract ι Tx) (funcName : String)
            (funcArgs : List String) (w : W) (inst : ι) (m : Nat),
        d.Instance = some inst → fast_test_token.queryArity funcName = some m → funcArgs.length
            = m →
        ∃ c, fast_test_token.queryCall funcName funcArgs = some c ∧
          ∀ e, (I.invoke inst c w).1.2 = some e →
            fast_test_token.QueryContract keccak256 I d funcName funcArgs w =
              .returned ⟨some e, d, (I.invoke inst c w).2⟩) ∧
    (∀ (I : fast_test_token.IInstance ι W Auth CallOpts Tx E)
        (d : fast_test_token.FastTestTokenContract ι Tx) (auth : Auth) (funcName : String)
            (funcArgs : List String)
        (w : W) (inst : ι) (m : Nat),
        d.Instance = some inst → fast_test_token.writeArity funcName = some m → funcArgs.length
            = m →
        ∃ c, fast_test_token.writeCall auth funcName funcArgs = some c ∧
          ∀ e, (I.invoke inst c w).1.2 = some e →
            fast_test_token.WriteContract keccak256 I d auth funcName funcArgs w =
              .returned ⟨some e, d, (I.invoke inst c w).2⟩) := by
  refine ⟨?_, ?_, ?_, ?_⟩
  · intro I d funcName funcArgs w inst m hi hm hn
    obtain ⟨c, hc⟩ : ∃ c : detailed_test_token.Call Auth CallOpts,
        detailed_test_token.queryCall funcName funcArgs = some c :=
      detailed_test_token.dtt_queryCall_of_arity funcName funcArgs m hm hn
    exact ⟨c, hc, fun e he =>
      detailed_test_token.dtt_QueryContract_err keccak256 I d funcName funcArgs w inst c e hi hc he⟩
  · intro I d auth funcName funcArgs w inst m hi hm hn
    obtain ⟨c, hc⟩ : ∃ c : detailed_test_token.Call Auth CallOpts,
        detailed_test_token.writeCall auth funcName funcArgs = some c :=
      detailed_test_token.dtt_writeCall_of_arity auth funcName funcArgs m hm hn
    exact ⟨c, hc, fun e he =>
      detailed_test_token.dtt_WriteContract_err keccak256 I d auth funcName funcArgs w inst c e
        hi hc he⟩
  · intro I d funcName funcArgs w inst m hi hm hn
    obtain ⟨c, hc⟩ : ∃ c : fast_test_token.Call Auth CallOpts,
        fast_test_token.queryCall funcName funcArgs = some c :=
      fast_test_token.ftt_queryCall_of_arity funcName funcArgs m hm hn
    exact ⟨c, hc, fun e he =>
      fast_test_token.ftt_QueryContract_err keccak256 I d funcName funcArgs w inst c e hi hc he⟩
  · intro I d auth funcName funcArgs w inst m hi hm hn
    obtain ⟨c, hc⟩ : ∃ c : fast_test_token.Call Auth CallOpts,
        fast_test_token.writeCall auth funcName funcArgs = some c :=
      fast_test_token.ftt_writeCall_of_arity auth funcName funcArgs m hm hn
    exact ⟨c, hc, fun e he =>
      fast_test_token.ftt_WriteContract_err keccak256 I d auth funcName funcArgs w inst c e
        hi hc he⟩

theorem connector_error_is_returned_as_is_witness :
    detailed_test_token.QueryContract (fun _ => [])
        (detailed_test_token.mockInstance detailed_test_token.failingReturns)
        detailed_test_token.loadedContract "allowance"
        ["0x86Be6FC9B05B55CBD04F3161f9b481f27F90a8Df",
          "0xfd6f5A60D2D8b12039F906D112f10Fb66F881087"] [] =
      .returned ⟨some (.errorf "error: something bad happened"),
        detailed_test_token.loadedContract,
        [.Allowance none (common.HexToAddress "0x86Be6FC9B05B55CBD04F3161f9b481f27F90a8Df")
          (common.HexToAddress "0xfd6f5A60D2D8b12039F906D112f10Fb66F881087")]⟩ := by
  obtain ⟨c, hc, h⟩ := (connector_error_is_returned_as_is (fun _ => [])).1
    (detailed_test_token.mockInstance detailed_test_token.failingReturns)
    detailed_test_token.loadedContract "allowance"
    ["0x86Be6FC9B05B55CBD04F3161f9b481f27F90a8Df",
      "0xfd6f5A60D2D8b12039F906D112f10Fb66F881087"] [] () 2 rfl (by decide) rfl
  cases hc
  exact h _ rfl

/-- C4. For both templates, on a loaded instance, each query operation called with
the right number of arguments while the connector answers with a value `v` and
no error: the call returns nil; the cache of the operation holds `v` afterwards
(Name, Symbol, Decimals, TotalSupply, the entry of BalanceOf under the converted
account, or the entry of Allowance under the converted owner and spender);
StrToPrint is not empty; and every other field of the instance (the other
caches, ConstructorArgs, Address, LastTx, Instance) and every other entry of
the map written to is as before. -/
theorem query_success_updates_its_cache_only (keccak256 : List UInt8 → List UInt8) :
    (∀ (I : detailed_test_token.IInstance ι W Auth CallOpts Tx E)
        (d : detailed_test_token.DetailedTestTokenContract ι Tx) (w : W) (inst : ι),
        detailed_test_token.Loaded d → d.Instance = some inst →
        (∀ v, (I.Name inst none w).1 = (v, none) →
          ∃ r, detailed_test_token.QueryContract keccak256 I d "name" [] w = .returned r ∧
            r.err = none ∧ r.self.Name = v ∧ r.self.StrToPrint ≠ "" ∧
            r.self = { d with Name := v, StrToPrint := r.self.StrToPrint }) ∧
        (∀ v, (I.Symbol inst none w).1 = (v, none) →
          ∃ r, detailed_test_token.QueryContract keccak256 I d "symbol" [] w = .returned r ∧
            r.err = none ∧ r.self.Symbol = v ∧ r.self.StrToPrint ≠ "" ∧
            r.self = { d with Symbol := v, StrToPrint := r.self.StrToPrint }) ∧
        (∀ v, (I.Decimals inst none w).1 = (v, none) →
          ∃ r, detailed_test_token.QueryContract keccak256 I d "decimals" [] w = .returned r ∧
            r.err = none ∧ r.self.Decimals = v ∧ r.self.StrToPrint ≠ "" ∧
            r.self = { d with Decimals := v, StrToPrint := r.self.StrToPrint }) ∧
        (∀ v, (I.TotalSupply inst none w).1 = (v, none) →
          ∃ r, detailed_test_token.QueryContract keccak256 I d "totalsupply" [] w = .returned r ∧
            r.err = none ∧ r.self.TotalSupply = v ∧ r.self.StrToPrint ≠ "" ∧
            r.self = { d with TotalSupply := v, StrToPrint := r.self.StrToPrint }) ∧
        (∀ a v, (I.BalanceOf inst none (common.HexToAddress a) w).1 = (v, none) →
          ∃ r, detailed_test_token.QueryContract keccak256 I d "balanceof" [a] w = .returned r ∧
            r.err = none ∧ r.self.BalanceOf.lookup (common.HexToAddress a) = some v ∧
            (∀ b, b ≠ common.HexToAddress a →
              r.self.BalanceOf.lookup b = d.BalanceOf.lookup b) ∧
            r.self.StrToPrint ≠ "" ∧
            r.self = { d with BalanceOf := r.self.BalanceOf, StrToPrint := r.self.StrToPrint }) ∧
        (∀ o s v,
          (I.Allowance inst none (common.HexToAddress o) (common.HexToAddress s) w).1
            = (v, none) →
          ∃ r, detailed_test_token.QueryContract keccak256 I d "allowance" [o, s] w = .returned r ∧
            r.err = none ∧
            detailed_test_token.allowanceAt r.self (common.HexToAddress o) (common.HexToAddress s)
                = some v ∧
            (∀ o1 s1, (o1, s1) ≠ (common.HexToAddress o, common.HexToAddress s) →
              detailed_test_token.allowanceAt r.self o1 s1
                  = detailed_test_token.allowanceAt d o1 s1) ∧
            r.self.StrToPrint ≠ "" ∧
            r.self = { d with Allowance := r.self.Allowance, StrToPrint := r.self.StrToPrint })) ∧
    (∀ (I : fast_test_token.IInstance ι W Auth CallOpts Tx E)
        (d : fast_test_token.FastTestTokenContract ι Tx) (w : W) (inst : ι),
        fast_test_token.Loaded d → d.Instance = some inst →
        (∀ v, (I.Name inst none w).1 = (v, none) →
          ∃ r, fast_test_token.QueryContract keccak256 I d "name" [] w = .returned r ∧
            r.err = none ∧ r.self.Name = v ∧ r.self.StrToPrint ≠ "" ∧
            r.self = { d with Name := v, StrToPrint := r.self.StrToPrint }) ∧
        (∀ v, (I.Symbol inst none w).1 = (v, none) →
          ∃ r, fast_test_token.QueryContract keccak256 I d "symbol" [] w = .returned r ∧
            r.err = none ∧ r.self.Symbol = v ∧ r.self.StrToPrint ≠ "" ∧
            r.self = { d with Symbol := v, StrToPrint := r.self.StrToPrint }) ∧
        (∀ v, (I.Decimals inst none w).1 = (v, none) →
          ∃ r, fast_test_token.QueryContract keccak256 I d "decimals" [] w = .returned r ∧
            r.err = none ∧ r.self.Decimals = v ∧ r.self.StrToPrint ≠ "" ∧
            r.self = { d with Decimals := v, StrToPrint := r.self.StrToPrint }) ∧
        (∀ v, (I.TotalSupply inst none w).1 = (v, none) →
          ∃ r, fast_test_token.QueryContract keccak256 I d "totalsupply" [] w = .returned r ∧
            r.err = none ∧ r.self.TotalSupply = v ∧ r.self.StrToPrint ≠ "" ∧
            r.self = { d with TotalSupply := v, StrToPrint := r.self.StrToPrint }) ∧
        (∀ a v, (I.BalanceOf inst none (common.HexToAddress a) w).1 = (v, none) →
          ∃ r, fast_test_token.QueryContract keccak256 I d "balanceof" [a] w = .returned r ∧
            r.err = none ∧ r.self.BalanceOf.lookup (common.HexToAddress a) = some v ∧
            (∀ b, b ≠ common.HexToAddress a →
              r.self.BalanceOf.lookup b = d.BalanceOf.lookup b) ∧
            r.self.StrToPrint ≠ "" ∧
            r.self = { d with BalanceOf := r.self.BalanceOf, StrToPrint := r.self.StrToPrint }) ∧
        (∀ o s v,
          (I.Allowance inst none (common.HexToAddress o) (common.HexToAddress s) w).1
            = (v, none) →
          ∃ r, fast_test_token.QueryContract keccak256 I d "allowance" [o, s] w = .returned r ∧
            r.err = none ∧
            fast_test_token.allowanceAt r.self (common.HexToAddress o) (common.HexToAddress s)
                = some v ∧
            (∀ o1 s1, (o1, s1) ≠ (common.HexToAddress o, common.HexToAddress s) →
              fast_test_token.allowanceAt r.self o1 s1 = fast_test_token.allowanceAt d o1 s1) ∧
            r.self.StrToPrint ≠ "" ∧
            r.self = { d with Allowance := r.self.Allowance, StrToPrint := r.self.StrToPrint })) := by
  refine ⟨?_, ?_⟩
  · intro I d w inst hL hi
    refine ⟨?_, ?_, ?_, ?_, ?_, ?_⟩
    · intro v he
      exact ⟨_, detailed_test_token.dtt_QueryContract_name keccak256 I d w inst v hi he, rfl, rfl,
        append_ne_empty _ _ (by decide), rfl⟩
    · intro v he
      exact ⟨_, detailed_test_token.dtt_QueryContract_symbol keccak256 I d w inst v hi he, rfl, rfl,
        append_ne_empty _ _ (by decide), rfl⟩
    · intro v he
      exact ⟨_, detailed_test_token.dtt_QueryContract_decimals keccak256 I d w inst v hi he, rfl, rfl,
        append_ne_empty _ _ (by decide), rfl⟩
    · intro v he
      exact ⟨_, detailed_test_token.dtt_QueryContract_totalsupply keccak256 I d w inst v hi he, rfl, rfl,
        append_ne_empty _ _ (by decide), rfl⟩
    · intro a v he
      exact detailed_test_token.dtt_QueryContract_balanceof_frame keccak256 I d w inst a v hL hi he
    · intro o s v he
      obtain ⟨r, h1, h2, h3, h4, -, h6, h7⟩ :=
        detailed_test_token.dtt_QueryContract_allowance_frame keccak256 I d w inst o s v hL hi he
      exact ⟨r, h1, h2, h3, h4, h6, h7⟩
  · intro I d w inst hL hi
    refine ⟨?_, ?_, ?_, ?_, ?_, ?_⟩
    · intro v he
      exact ⟨_, fast_test_token.ftt_QueryContract_name keccak256 I d w inst v hi he, rfl, rfl,
        append_ne_empty _ _ (by decide), rfl⟩
    · intro v he
      exact ⟨_, fast_test_token.ftt_QueryContract_symbol keccak256 I d w inst v hi he, rfl, rfl,
        append_ne_empty _ _ (by decide), rfl⟩
    · intro v he
      exact ⟨_, fast_test_token.ftt_QueryContract_decimals keccak256 I d w inst v hi he, rfl, rfl,
        append_ne_empty _ _ (by decide), rfl⟩
    · intro v he
      exact ⟨_, fast_test_token.ftt_QueryContract_totalsupply keccak256 I d w inst v hi he, rfl, rfl,
        append_ne_empty _ _ (by decide), rfl⟩
    · intro a v he
      exact fast_test_token.ftt_QueryContract_balanceof_frame keccak256 I d w inst a v hL hi he
    · intro o s v he
      obtain ⟨r, h1, h2, h3, h4, -, h6, h7⟩ :=
        fast_test_token.ftt_QueryContract_allowance_frame keccak256 I d w inst o s v hL hi he
      exact ⟨r, h1, h2, h3, h4, h6, h7⟩

theorem query_success_updates_its_cache_only_witness :
    detailed_test_token.Loaded detailed_test_token.loadedContract ∧
    ∃ r, detailed_test_token.QueryContract (fun _ => [])
        (detailed_test_token.mockInstance detailed_test_token.testReturns)
        detailed_test_token.loadedContract "decimals" [] [] = .returned r ∧
      r.err = none ∧ r.self.Decimals = 18 ∧ r.self.StrToPrint ≠ "" ∧
      r.self = { detailed_test_token.loadedContract with
        Decimals := 18, StrToPrint := r.self.StrToPrint } :=
  have hL : detailed_test_token.Loaded detailed_test_token.loadedContract :=
    ⟨by decide, by simp [detailed_test_token.loadedContract, GoMap.empty],
      by simp [detailed_test_token.loadedContract, GoMap.empty],
      by simp [detailed_test_token.loadedContract, GoMap.empty, GoMap.lookup]⟩
  ⟨hL, ((query_success_updates_its_cache_only (fun _ => [])).1
    (detailed_test_token.mockInstance detailed_test_token.testReturns)
    detailed_test_token.loadedContract [] () hL rfl).2.2.1 18 rfl⟩

/-- C5. For both templates and every write operation called with the right number
of arguments: the call stands for one request (the connector method of the
same name, the auth of the caller, the leading arguments converted to addresses
in order and the last one read as a base-10 amount), the world after the call
is the world after that one request, and the returned error is the error of
the request; with the recording connector of the tests, the calls received
afterwards are those received before followed by that one request; if the
request is answered with a transaction handle `tx` and no
error, the call returns nil, LastTx is `tx` and no field other than LastTx and
StrToPrint has changed. -/
theorem write_makes_one_request_and_keeps_tx (keccak256 : List UInt8 → List UInt8) :
    (∀ (I : detailed_test_token.IInstance ι W Auth CallOpts Tx E)
        (d : detailed_test_token.DetailedTestTokenContract ι Tx) (auth : Auth) (funcName : String)
            (funcArgs : List String)
        (w : W) (inst : ι) (m : Nat),
        d.Instance = some inst → detailed_test_token.writeArity funcName = some m → funcArgs.length
            = m →
        ∃ c r, detailed_test_token.writeCall auth funcName funcArgs = some c ∧
          detailed_test_token.WriteContract keccak256 I d auth funcName funcArgs w = .returned r ∧
          r.world = (I.invoke inst c w).2 ∧ r.err = (I.invoke inst c w).1.2 ∧
          ∀ tx, (I.invoke inst c w).1 = (.tx tx, none) →
            r.err = none ∧ r.self.LastTx = tx ∧
              r.self = { d with LastTx := tx, StrToPrint := r.self.StrToPrint }) ∧
    (∀ (ret : MockReturns Tx E) (d : detailed_test_token.DetailedTestTokenContract Unit Tx)
        (auth : Auth) (funcName : String)
        (funcArgs : List String) (log : List (detailed_test_token.Call Auth CallOpts)) (m : Nat),
        d.Instance = some () → detailed_test_token.writeArity funcName = some m → funcArgs.length
            = m →
        ∃ c r, detailed_test_token.writeCall auth funcName funcArgs = some c ∧
          detailed_test_token.WriteContract keccak256
              (detailed_test_token.MockContractInstance ret) d auth funcName funcArgs
            log = .returned r ∧
          r.world = log ++ [c]) ∧
    (∀ (I : fast_test_token.IInstance ι W Auth CallOpts Tx E)
        (d : fast_test_token.FastTestTokenContract ι Tx) (auth : Auth) (funcName : String)
            (funcArgs : List String)
        (w : W) (inst : ι) (m : Nat),
        d.Instance = some inst → fast_test_token.writeArity funcName = some m → funcArgs.length
            = m →
        ∃ c r, fast_test_token.writeCall auth funcName funcArgs = some c ∧
          fast_test_token.WriteContract keccak256 I d auth funcName funcArgs w = .returned r ∧
          r.world = (I.invoke inst c w).2 ∧ r.err = (I.invoke inst c w).1.2 ∧
          ∀ tx, (I.invoke inst c w).1 = (.tx tx, none) →
            r.err = none ∧ r.self.LastTx = tx ∧
              r.self = { d with LastTx := tx, StrToPrint := r.self.StrToPrint }) ∧
    (∀ (ret : MockReturns Tx E) (d : fast_test_token.FastTestTokenContract Unit Tx) (auth : Auth)
        (funcName : String)
        (funcArgs : List String) (log : List (fast_test_token.Call Auth CallOpts)) (m : Nat),
        d.Instance = some () → fast_test_token.writeArity funcName = some m → funcArgs.length = m →
        ∃ c r, fast_test_token.writeCall auth funcName funcArgs = some c ∧
          fast_test_token.WriteContract keccak256
              (fast_test_token.MockContractInstance ret) d auth funcName funcArgs
            log = .returned r ∧
          r.world = log ++ [c]) := by
  refine ⟨?_, ?_, ?_, ?_⟩
  · intro I d auth funcName funcArgs w inst m hi hm hn
    obtain ⟨c, hc⟩ : ∃ c : detailed_test_token.Call Auth CallOpts,
        detailed_test_token.writeCall auth funcName funcArgs = some c :=
      detailed_test_token.dtt_writeCall_of_arity auth funcName funcArgs m hm hn
    obtain ⟨r, hr, hw, he, h⟩ :=
      detailed_test_token.dtt_WriteContract_world keccak256 I d auth funcName funcArgs w inst c hi hc
    exact ⟨c, r, hc, hr, hw, he, h⟩
  · intro ret d auth funcName funcArgs log m hi hm hn
    obtain ⟨c, hc⟩ : ∃ c : detailed_test_token.Call Auth CallOpts,
        detailed_test_token.writeCall auth funcName funcArgs = some c :=
      detailed_test_token.dtt_writeCall_of_arity auth funcName funcArgs m hm hn
    obtain ⟨r, hr, hw, -, -⟩ :=
      detailed_test_token.dtt_WriteContract_world keccak256
          (detailed_test_token.MockContractInstance ret) d auth funcName
        funcArgs log () c hi hc
    exact ⟨c, r, hc, hr, hw.trans (detailed_test_token.dtt_mock_invoke ret c log)⟩
  · intro I d auth funcName funcArgs w inst m hi hm hn
    obtain ⟨c, hc⟩ : ∃ c : fast_test_token.Call Auth CallOpts,
        fast_test_token.writeCall auth funcName funcArgs = some c :=
      fast_test_token.ftt_writeCall_of_arity auth funcName funcArgs m hm hn
    obtain ⟨r, hr, hw, he, h⟩ :=
      fast_test_token.ftt_WriteContract_world keccak256 I d auth funcName funcArgs w inst c hi hc
    exact ⟨c, r, hc, hr, hw, he, h⟩
  · intro ret d auth funcName funcArgs log m hi hm hn
    obtain ⟨c, hc⟩ : ∃ c : fast_test_token.Call Auth CallOpts,
        fast_test_token.writeCall auth funcName funcArgs = some c :=
      fast_test_token.ftt_writeCall_of_arity auth funcName funcArgs m hm hn
    obtain ⟨r, hr, hw, -, -⟩ :=
      fast_test_token.ftt_WriteContract_world keccak256
          (fast_test_token.MockContractInstance ret) d auth funcName
        funcArgs log () c hi hc
    exact ⟨c, r, hc, hr, hw.trans (fast_test_token.ftt_mock_invoke ret c log)⟩

theorem write_makes_one_request_and_keeps_tx_witness :
    ∃ r, detailed_test_token.WriteContract (fun _ => [])
        (detailed_test_token.mockInstance detailed_test_token.testReturns)
        detailed_test_token.testContract
            () "transferfrom" ["0x86Be6FC9B05B55CBD04F3161f9b481f27F90a8Df", "0xfd6f5A60D2D8b12039F906D112f10Fb66F881087", "100000000000"] []
        = .returned r ∧
      r.world = [.TransferFrom ()
          (common.HexToAddress "0x86Be6FC9B05B55CBD04F3161f9b481f27F90a8Df")
              (common.HexToAddress "0xfd6f5A60D2D8b12039F906D112f10Fb66F881087")
        (some (big.SetString "100000000000"))] ∧
      r.err = none ∧ r.self.LastTx = some () := by
  obtain ⟨c, r, hc, hr, hw, -, h⟩ := (write_makes_one_request_and_keeps_tx (fun _ => [])).1
    (detailed_test_token.mockInstance detailed_test_token.testReturns)
    detailed_test_token.testContract
        () "transferfrom" ["0x86Be6FC9B05B55CBD04F3161f9b481f27F90a8Df", "0xfd6f5A60D2D8b12039F906D112f10Fb66F881087", "100000000000"] [] () 3
    rfl (by decide) rfl
  cases hc
  exact ⟨r, hr, hw, (h (some ()) rfl).1, (h (some ()) rfl).2.1⟩

/-- C6. For every string `n` the Name call of the connector returns without error
and every address of the instance, QueryContract of the DetailedTestToken with
"name" and no arguments sets Name to `n` and StrToPrint to exactly
"info: Token Name: " ++ n ++ " for DetailedTestToken (" ++ hex ++ ")\n", where hex is
Address.Hex of the address of the instance: 0x followed by 40 hex digits that
read back as the address, and for the zero address 0x followed by forty 0. -/
theorem detailed_name_query_report (keccak256 : List UInt8 → List UInt8) :
    (∀ (I : detailed_test_token.IInstance ι W Auth CallOpts Tx E)
        (d : detailed_test_token.DetailedTestTokenContract ι Tx) (w : W) (inst : ι)
        (n : String),
        d.Instance = some inst → (I.Name inst none w).1 = (n, none) →
        ∃ r, detailed_test_token.QueryContract keccak256 I d "name" [] w = .returned r ∧
          r.err = none ∧ r.self.Name = n ∧
          r.self.StrToPrint = "info: Token Name: " ++ n ++ " for DetailedTestToken ("
            ++ d.Address.Hex keccak256 ++ ")\n") ∧
    (∀ a : common.Address,
      (∃ cs, (a.Hex keccak256).data = '0' :: 'x' :: cs ∧ cs.length = 40 ∧
        ∀ c ∈ cs, common.isHexDigit c) ∧
      common.HexToAddress (a.Hex keccak256) = a) ∧
    common.zeroAddress.Hex keccak256 = "0x0000000000000000000000000000000000000000" := by
  refine ⟨?_, ?_, common.Hex_zeroAddress keccak256⟩
  · intro I d w inst n hi he
    exact ⟨_, detailed_test_token.dtt_QueryContract_name keccak256 I d w inst n hi he, rfl, rfl, rfl⟩
  · intro a
    exact ⟨common.Hex_shape keccak256 a, common.HexToAddress_Hex keccak256 a⟩

theorem detailed_name_query_report_witness :
    ∃ r, detailed_test_token.QueryContract (fun _ => [])
        (detailed_test_token.mockInstance detailed_test_token.testReturns)
        detailed_test_token.testContract "name" [] [] = .returned r ∧
      r.err = none ∧ r.self.Name = "DetailedTestToken" ∧
      r.self.StrToPrint = "info: Token Name: DetailedTestToken for DetailedTestToken "
        ++ "(0x0000000000000000000000000000000000000000)\n" := by
  obtain ⟨r, h1, h2, h3, h4⟩ := (detailed_name_query_report (fun _ => [])).1
    (detailed_test_token.mockInstance detailed_test_token.testReturns)
    detailed_test_token.testContract [] () "DetailedTestToken" rfl rfl
  refine ⟨r, h1, h2, h3, ?_⟩
  rw [h4]
  have hz : detailed_test_token.testContract.Address = common.zeroAddress := rfl
  rw [hz, common.Hex_zeroAddress]
  decide

/-- C7. For every recipient string `r` (a well-formed address in particular), every
decimal numeral `m` denoting the natural number `n`, and every address of the
instance: when the Transfer call of the connector, made with the converted
recipient and the amount `n`, succeeds with the handle `tx`, WriteContract of
the DetailedTestToken with "transfer" and the arguments `r`, `m` sets LastTx to
`tx` and StrToPrint to exactly "info: Transferred " ++ decimal n ++
" tokens at DetailedTestToken (" ++ hex of the instance address ++ ") to address "
++ hex of the converted recipient ++ "\n". -/
theorem detailed_transfer_report (keccak256 : List UInt8 → List UInt8) :
    ∀ (I : detailed_test_token.IInstance ι W Auth CallOpts Tx E)
      (d : detailed_test_token.DetailedTestTokenContract ι Tx) (auth : Auth) (w : W) (inst : ι)
      (r m : String) (n : Nat) (tx : Option Tx),
      d.Instance = some inst → m.toNat? = some n →
      (I.Transfer inst auth (common.HexToAddress r) (some (n : Int)) w).1 = (tx, none) →
      ∃ res, detailed_test_token.WriteContract keccak256 I d auth "transfer" [r, m] w
          = .returned res ∧
        res.err = none ∧ res.self.LastTx = tx ∧
        res.self.StrToPrint = "info: Transferred " ++ toString n
          ++ " tokens at DetailedTestToken (" ++ d.Address.Hex keccak256 ++ ") to address "
          ++ (common.HexToAddress r).Hex keccak256 ++ "\n" := by
  intro I d auth w inst r m n tx hi hm he
  have hs := big.SetString_of_toNat m n hm
  rw [← hs] at he
  refine ⟨_, detailed_test_token.dtt_WriteContract_transfer keccak256 I d auth w inst r m tx hi he,
    rfl, rfl, ?_⟩
  simp only [hs]
  rfl

theorem detailed_transfer_report_witness :
    "100000000000".toNat? = some 100000000000 ∧
    ∃ res, detailed_test_token.WriteContract (fun _ => [])
        (detailed_test_token.mockInstance detailed_test_token.testReturns)
        detailed_test_token.testContract
            () "transfer" ["0x86Be6FC9B05B55CBD04F3161f9b481f27F90a8Df", "100000000000"] []
        = .returned res ∧
      res.err = none ∧ res.self.LastTx = some () ∧
      res.self.StrToPrint = "info: Transferred " ++ toString 100000000000
        ++ " tokens at DetailedTestToken ("
        ++ detailed_test_token.testContract.Address.Hex (fun _ => []) ++ ") to address "
        ++ (common.HexToAddress "0x86Be6FC9B05B55CBD04F3161f9b481f27F90a8Df").Hex (fun _ => [])
            ++ "\n" :=
  have hm : "100000000000".toNat? = some 100000000000 := by
    simp [String.toNat?, String.isNat, String.all_eq, String.foldl_eq, String.isEmpty_iff]
  ⟨hm, detailed_transfer_report (fun _ => [])
    (detailed_test_token.mockInstance detailed_test_token.testReturns)
    detailed_test_token.testContract () []
        () "0x86Be6FC9B05B55CBD04F3161f9b481f27F90a8Df" "100000000000" 100000000000 (some ())
    rfl hm rfl⟩

/-- C8. For both templates, on a loaded instance: a successful QueryContract of
"allowance" with the arguments ownerHex, spenderHex and the connector result `v`
leaves `v` at Allowance[owner][spender]; for every pair (o, s) other than (owner,
spender) the entry Allowance[o][s], present or absent, is as before; and what
the cache holds under every other owner is as before. -/
theorem allowance_query_keeps_other_entries (keccak256 : List UInt8 → List UInt8) :
    (∀ (I : detailed_test_token.IInstance ι W Auth CallOpts Tx E)
        (d : detailed_test_token.DetailedTestTokenContract ι Tx) (w : W) (inst : ι)
        (ownerHex spenderHex : String) (v : big.IntPtr),
        detailed_test_token.Loaded d → d.Instance = some inst →
        (I.Allowance inst none (common.HexToAddress ownerHex)
          (common.HexToAddress spenderHex) w).1 = (v, none) →
        ∃ r, detailed_test_token.QueryContract keccak256 I d "allowance" [ownerHex, spenderHex] w
            = .returned r ∧ r.err = none ∧
          detailed_test_token.allowanceAt r.self (common.HexToAddress ownerHex)
            (common.HexToAddress spenderHex) = some v ∧
          (∀ o s, (o, s) ≠ (common.HexToAddress ownerHex, common.HexToAddress spenderHex) →
            detailed_test_token.allowanceAt r.self o s = detailed_test_token.allowanceAt d o s) ∧
          (∀ o, o ≠ common.HexToAddress ownerHex →
            r.self.Allowance.lookup o = d.Allowance.lookup o)) ∧
    (∀ (I : fast_test_token.IInstance ι W Auth CallOpts Tx E)
        (d : fast_test_token.FastTestTokenContract ι Tx) (w : W) (inst : ι)
        (ownerHex spenderHex : String) (v : big.IntPtr),
        fast_test_token.Loaded d → d.Instance = some inst →
        (I.Allowance inst none (common.HexToAddress ownerHex)
          (common.HexToAddress spenderHex) w).1 = (v, none) →
        ∃ r, fast_test_token.QueryContract keccak256 I d "allowance" [ownerHex, spenderHex] w
            = .returned r ∧ r.err = none ∧
          fast_test_token.allowanceAt r.self (common.HexToAddress ownerHex)
            (common.HexToAddress spenderHex) = some v ∧
          (∀ o s, (o, s) ≠ (common.HexToAddress ownerHex, common.HexToAddress spenderHex) →
            fast_test_token.allowanceAt r.self o s = fast_test_token.allowanceAt d o s) ∧
          (∀ o, o ≠ common.HexToAddress ownerHex →
            r.self.Allowance.lookup o = d.Allowance.lookup o)) := by
  refine ⟨?_, ?_⟩
  · intro I d w inst ownerHex spenderHex v hL hi he
    obtain ⟨r, h1, h2, h3, h4, h5, -, -⟩ :=
      detailed_test_token.dtt_QueryContract_allowance_frame keccak256 I d w inst ownerHex spenderHex v hL hi he
    exact ⟨r, h1, h2, h3, h4, h5⟩
  · intro I d w inst ownerHex spenderHex v hL hi he
    obtain ⟨r, h1, h2, h3, h4, h5, -, -⟩ :=
      fast_test_token.ftt_QueryContract_allowance_frame keccak256 I d w inst ownerHex spenderHex v hL hi he
    exact ⟨r, h1, h2, h3, h4, h5⟩

theorem allowance_query_keeps_other_entries_witness :
    ∃ r, fast_test_token.QueryContract (fun _ => [])
        (fast_test_token.mockInstance fast_test_token.testReturns)
        fast_test_token.loadedContract "allowance" ["0x86Be6FC9B05B55CBD04F3161f9b481f27F90a8Df", "0xfd6f5A60D2D8b12039F906D112f10Fb66F881087"] [] = .returned r ∧
      r.err = none ∧
      fast_test_token.allowanceAt r.self
          (common.HexToAddress "0x86Be6FC9B05B55CBD04F3161f9b481f27F90a8Df")
              (common.HexToAddress "0xfd6f5A60D2D8b12039F906D112f10Fb66F881087")
        = some (some 100000000000) ∧
      fast_test_token.allowanceAt r.self
          (common.HexToAddress "0xfd6f5A60D2D8b12039F906D112f10Fb66F881087")
              (common.HexToAddress "0x86Be6FC9B05B55CBD04F3161f9b481f27F90a8Df")
        = none := by
  have hL : fast_test_token.Loaded fast_test_token.loadedContract :=
    ⟨by decide, by simp [fast_test_token.loadedContract, GoMap.empty],
      by simp [fast_test_token.loadedContract, GoMap.empty],
      by simp [fast_test_token.loadedContract, GoMap.empty, GoMap.lookup]⟩
  obtain ⟨r, h1, h2, h3, h4, -⟩ := (allowance_query_keeps_other_entries (fun _ => [])).2
    (fast_test_token.mockInstance fast_test_token.testReturns)
    fast_test_token.loadedContract []
        () "0x86Be6FC9B05B55CBD04F3161f9b481f27F90a8Df" "0xfd6f5A60D2D8b12039F906D112f10Fb66F881087" (some 100000000000) hL rfl rfl
  refine ⟨r, h1, h2, h3, ?_⟩
  rw [h4 _ _ (by decide)]
  rfl

/-- C9. For both templates, every loaded instance, every address string and every
connector that answers BalanceOf with the same value `v` and no error both
times: QueryContract of "balanceof" run a second time, on the instance and the
world the first run left, returns nil like the first and leaves the very
instance the first run left (every cache, the map contents and StrToPrint). -/
theorem balanceof_query_twice_is_once (keccak256 : List UInt8 → List UInt8) :
    (∀ (I : detailed_test_token.IInstance ι W Auth CallOpts Tx E)
        (d : detailed_test_token.DetailedTestTokenContract ι Tx) (w : W) (inst : ι)
        (addr : String) (v : big.IntPtr),
        detailed_test_token.Loaded d → d.Instance = some inst →
        (I.BalanceOf inst none (common.HexToAddress addr) w).1 = (v, none) →
        (I.BalanceOf inst none (common.HexToAddress addr)
          (I.BalanceOf inst none (common.HexToAddress addr) w).2).1 = (v, none) →
        ∃ r1 r2, detailed_test_token.QueryContract keccak256 I d "balanceof" [addr] w
            = .returned r1 ∧
          detailed_test_token.QueryContract keccak256 I r1.self "balanceof" [addr] r1.world
              = .returned r2 ∧
          r1.err = none ∧ r2.err = none ∧ r2.self = r1.self) ∧
    (∀ (I : fast_test_token.IInstance ι W Auth CallOpts Tx E)
        (d : fast_test_token.FastTestTokenContract ι Tx) (w : W) (inst : ι)
        (addr : String) (v : big.IntPtr),
        fast_test_token.Loaded d → d.Instance = some inst →
        (I.BalanceOf inst none (common.HexToAddress addr) w).1 = (v, none) →
        (I.BalanceOf inst none (common.HexToAddress addr)
          (I.BalanceOf inst none (common.HexToAddress addr) w).2).1 = (v, none) →
        ∃ r1 r2, fast_test_token.QueryContract keccak256 I d "balanceof" [addr] w = .returned r1 ∧
          fast_test_token.QueryContract keccak256 I r1.self "balanceof" [addr] r1.world
              = .returned r2 ∧
          r1.err = none ∧ r2.err = none ∧ r2.self = r1.self) := by
  refine ⟨?_, ?_⟩
  · intro I d w inst addr v hL hi he1 he2
    obtain ⟨f, g, hb, -, -⟩ := hL.dtt_maps
    have h1 := detailed_test_token.dtt_QueryContract_balanceof keccak256 I d w inst addr v f hi hb he1
    refine ⟨_, ?_, h1, ?h2, rfl, ?e2, ?same⟩
    case h2 =>
      refine detailed_test_token.dtt_QueryContract_balanceof keccak256 I _ _ inst addr v
        (Function.update f (common.HexToAddress addr) (some v)) ?_ ?_ he2
      · exact hi
      · rfl
    case e2 => rfl
    case same => simp only [Function.update_idem]
  · intro I d w inst addr v hL hi he1 he2
    obtain ⟨f, g, hb, -, -⟩ := hL.ftt_maps
    have h1 := fast_test_token.ftt_QueryContract_balanceof keccak256 I d w inst addr v f hi hb he1
    refine ⟨_, ?_, h1, ?h2, rfl, ?e2, ?same⟩
    case h2 =>
      refine fast_test_token.ftt_QueryContract_balanceof keccak256 I _ _ inst addr v
        (Function.update f (common.HexToAddress addr) (some v)) ?_ ?_ he2
      · exact hi
      · rfl
    case e2 => rfl
    case same => simp only [Function.update_idem]

theorem balanceof_query_twice_is_once_witness :
    ∃ r1 r2, detailed_test_token.QueryContract (fun _ => [])
        (detailed_test_token.mockInstance detailed_test_token.testReturns)
        detailed_test_token.loadedContract "balanceof" ["0x86Be6FC9B05B55CBD04F3161f9b481f27F90a8Df"] [] = .returned r1 ∧
      detailed_test_token.QueryContract (fun _ => [])
        (detailed_test_token.mockInstance detailed_test_token.testReturns)
        r1.self "balanceof" ["0x86Be6FC9B05B55CBD04F3161f9b481f27F90a8Df"] r1.world = .returned r2 ∧
      r1.err = none ∧ r2.err = none ∧ r2.self = r1.self :=
  have hL : detailed_test_token.Loaded detailed_test_token.loadedContract :=
    ⟨by decide, by simp [detailed_test_token.loadedContract, GoMap.empty],
      by simp [detailed_test_token.loadedContract, GoMap.empty],
      by simp [detailed_test_token.loadedContract, GoMap.empty, GoMap.lookup]⟩
  (balanceof_query_twice_is_once (fun _ => [])).1
    (detailed_test_token.mockInstance detailed_test_token.testReturns)
    detailed_test_token.loadedContract [] () "0x86Be6FC9B05B55CBD04F3161f9b481f27F90a8Df"
        (some 100000000000) hL rfl rfl rfl

/-- C10. For both templates, every function name that is not an operation name of
QueryContract (respectively of WriteContract) and every list of arguments, of
any length: the call returns nil, the instance is the instance of before in
every field, and the world is the world of before, whatever the connector is:
no method of the connector has been called. -/
theorem unknown_name_is_a_silent_no_op (keccak256 : List UInt8 → List UInt8) :
    (∀ (I : detailed_test_token.IInstance ι W Auth CallOpts Tx E)
        (d : detailed_test_token.DetailedTestTokenContract ι Tx) (funcName : String)
            (funcArgs : List String) (w : W),
        funcName ∉ ["name", "symbol", "decimals", "totalsupply", "balanceof", "allowance"] →
        detailed_test_token.QueryContract keccak256 I d funcName funcArgs w
            = .returned ⟨none, d, w⟩) ∧
    (∀ (I : detailed_test_token.IInstance ι W Auth CallOpts Tx E)
        (d : detailed_test_token.DetailedTestTokenContract ι Tx) (auth : Auth) (funcName : String)
            (funcArgs : List String)
        (w : W),
        funcName ∉ ["transfer", "approve", "transferfrom", "increaseallowance",
          "decreaseallowance", "mint", "burn"] →
        detailed_test_token.WriteContract keccak256 I d auth funcName funcArgs w
            = .returned ⟨none, d, w⟩) ∧
    (∀ (I : fast_test_token.IInstance ι W Auth CallOpts Tx E)
        (d : fast_test_token.FastTestTokenContract ι Tx) (funcName : String)
            (funcArgs : List String) (w : W),
        funcName ∉ ["name", "symbol", "decimals", "totalsupply", "balanceof", "allowance"] →
        fast_test_token.QueryContract keccak256 I d funcName funcArgs w = .returned ⟨none, d, w⟩) ∧
    (∀ (I : fast_test_token.IInstance ι W Auth CallOpts Tx E)
        (d : fast_test_token.FastTestTokenContract ι Tx) (auth : Auth) (funcName : String)
            (funcArgs : List String)
        (w : W),
        funcName ∉ ["transfer", "approve", "transferfrom", "increaseallowance",
          "decreaseallowance"] →
        fast_test_token.WriteContract keccak256 I d auth funcName funcArgs w
            = .returned ⟨none, d, w⟩) := by
  refine ⟨?_, ?_, ?_, ?_⟩
  · intro I d funcName funcArgs w hf
    exact detailed_test_token.dtt_QueryContract_unknown keccak256 I d funcName funcArgs w hf
  · intro I d auth funcName funcArgs w hf
    exact detailed_test_token.dtt_WriteContract_unknown keccak256 I d auth funcName funcArgs w hf
  · intro I d funcName funcArgs w hf
    exact fast_test_token.ftt_QueryContract_unknown keccak256 I d funcName funcArgs w hf
  · intro I d auth funcName funcArgs w hf
    exact fast_test_token.ftt_WriteContract_unknown keccak256 I d auth funcName funcArgs w hf

theorem unknown_name_is_a_silent_no_op_witness :
    "mint" ∉ ["transfer", "approve", "transferfrom", "increaseallowance", "decreaseallowance"] ∧
    fast_test_token.WriteContract (fun _ => [])
        (fast_test_token.mockInstance fast_test_token.testReturns)
        fast_test_token.testContract () "mint" ["0x01", "5", "extra"] [] =
      .returned ⟨none, fast_test_token.testContract, []⟩ :=
  ⟨by decide, (unknown_name_is_a_silent_no_op (fun _ => [])).2.2.2 _ _ () "mint"
    ["0x01", "5", "extra"] [] (by decide)⟩

variable {ιd ιf Backend : Type}

/-! ## Facts about the registry -/

section

open constants



theorem utils.Contains_iff (s : List String) (str : String) :
    utils.Contains s str = true ↔ str ∈ s := by
  induction s with
  | nil => simp [utils.Contains]
  | cons v rest ih =>
    unfold utils.Contains
    by_cases h : v = str
    · simp [h]
    · simp [h, ih, Ne.symm h]

theorem constants.rangeFind_iff (funcName : String) (l : List String) :
    rangeFind funcName l = true ↔ funcName ∈ l := by
  induction l with
  | nil => simp [rangeFind]
  | cons v rest ih =>
    unfold rangeFind
    by_cases h : v = funcName
    · simp [h]
    · simp [h, ih, Ne.symm h]

theorem constants.lookup_funcNames (k : String) :
    (ContractNamesToFuncNames.lookup k = none ∧ ∀ kind, funcNames k kind = []) ∨
    (k = "detailed_test_token" ∧ funcNames k "query" = baseERC20Queries ∧
      funcNames k "write" = baseERC20Writes ++ ["mint", "burn"] ∧
      funcNames k "all" = baseERC20Queries ++ (baseERC20Writes ++ ["mint", "burn"])) ∨
    (k = "fast_test_token" ∧ funcNames k "query" = baseERC20Queries ∧
      funcNames k "write" = baseERC20Writes ∧
      funcNames k "all" = baseERC20Queries ++ baseERC20Writes) := by
  by_cases h1 : k = "detailed_test_token"
  · right; left
    subst h1
    simp [funcNames, ContractNamesToFuncNames, GoMap.read, GoMap.lookup]
  · by_cases h2 : k = "fast_test_token"
    · right; right
      subst h2
      simp [funcNames, ContractNamesToFuncNames, GoMap.read, GoMap.lookup]
    · left
      simp [funcNames, ContractNamesToFuncNames, GoMap.read, GoMap.lookup, h1, h2]

theorem constants.dict_lookup (X : Externals ιd ιf W Auth CallOpts Backend Tx E) (k : String) :
    ((ContractNamesDict X).lookup k).isSome = true ↔
      (k = "detailed_test_token" ∨ k = "fast_test_token") := by
  by_cases h1 : k = "detailed_test_token"
  · simp [ContractNamesDict, GoMap.lookup, h1]
  · by_cases h2 : k = "fast_test_token"
    · simp [ContractNamesDict, GoMap.lookup, h2]
    · simp [ContractNamesDict, GoMap.lookup, h1, h2]

theorem constants.names_lookup (k : String) :
    ContractNamesToFuncNames.lookup k ≠ none ↔
      (k = "detailed_test_token" ∨ k = "fast_test_token") := by
  by_cases h1 : k = "detailed_test_token"
  · simp [ContractNamesToFuncNames, GoMap.lookup, h1]
  · by_cases h2 : k = "fast_test_token"
    · simp [ContractNamesToFuncNames, GoMap.lookup, h2]
    · simp [ContractNamesToFuncNames, GoMap.lookup, h1, h2]

/-- C11. In every contract kind of ContractNamesToFuncNames, which are
detailed_test_token and fast_test_token, no name is in both the query list and
the write list, and the list of all names is the query list followed by the
write list, so a name is in it exactly when it is in one of the two. -/
theorem registry_lists_disjoint_and_all_is_their_union (k : String)
    (hk : ContractNamesToFuncNames.lookup k ≠ none) :
    (k = "detailed_test_token" ∨ k = "fast_test_token") ∧
    (∀ n, ¬ (n ∈ funcNames k "query" ∧ n ∈ funcNames k "write")) ∧
    (∀ n, n ∈ funcNames k "all" ↔ (n ∈ funcNames k "query" ∨ n ∈ funcNames k "write")) ∧
    funcNames k "all" = funcNames k "query" ++ funcNames k "write" := by
  refine ⟨(constants.names_lookup k).1 hk, ?_⟩
  rcases constants.lookup_funcNames k with ⟨h, _⟩ | ⟨_, hq, hw, ha⟩ | ⟨_, hq, hw, ha⟩
  · exact absurd h hk
  · rw [hq, hw, ha]
    refine ⟨?_, fun n => List.mem_append, rfl⟩
    intro n ⟨h1, h2⟩
    simp only [baseERC20Queries, baseERC20Writes, List.mem_cons, List.mem_append,
      List.mem_singleton, List.not_mem_nil, or_false] at h1 h2
    rcases h1 with rfl | rfl | rfl | rfl | rfl | rfl <;> simp at h2
  · rw [hq, hw, ha]
    refine ⟨?_, fun n => List.mem_append, rfl⟩
    intro n ⟨h1, h2⟩
    simp only [baseERC20Queries, baseERC20Writes, List.mem_cons, List.mem_append,
      List.mem_singleton, List.not_mem_nil, or_false] at h1 h2
    rcases h1 with rfl | rfl | rfl | rfl | rfl | rfl <;> simp at h2

theorem registry_lists_disjoint_and_all_is_their_union_witness :
    ContractNamesToFuncNames.lookup "detailed_test_token" ≠ none ∧
    ("detailed_test_token" = "detailed_test_token" ∨ "detailed_test_token" = "fast_test_token") ∧
    (∀ n, ¬ (n ∈ funcNames "detailed_test_token" "query" ∧
      n ∈ funcNames "detailed_test_token" "write")) ∧
    (∀ n, n ∈ funcNames "detailed_test_token" "all" ↔
      (n ∈ funcNames "detailed_test_token" "query" ∨
        n ∈ funcNames "detailed_test_token" "write")) ∧
    funcNames "detailed_test_token" "all" =
      funcNames "detailed_test_token" "query" ++ funcNames "detailed_test_token" "write" :=
  ⟨by simp [ContractNamesToFuncNames, GoMap.lookup],
    registry_lists_disjoint_and_all_is_their_union "detailed_test_token"
      (by simp [ContractNamesToFuncNames, GoMap.lookup])⟩

theorem constants.VerifyFunctionNameExists_iff (k f : String) :
    VerifyFunctionNameExists k f = true ↔ f ∈ funcNames k "all" := by
  unfold VerifyFunctionNameExists
  exact constants.rangeFind_iff f _

/-- C12. VerifyFunctionNameExists answers true exactly when the kind is registered
and the name is in the query list or the write list of the kind; for a kind
that is not registered it answers false for every name; the function is
total, so no input makes it panic; names are compared exactly, so a name in
another case is not found. -/
theorem verify_function_name_is_membership (X : Externals ιd ιf W Auth CallOpts Backend Tx E)
    (k f : String) :
    (VerifyFunctionNameExists k f = true ↔
      (VerifyContractTypeExists X k = true ∧
        (f ∈ funcNames k "query" ∨ f ∈ funcNames k "write"))) ∧
    (VerifyContractTypeExists X k = false → VerifyFunctionNameExists k f = false) ∧
    (VerifyContractTypeExists X k = true ↔ ContractNamesToFuncNames.lookup k ≠ none) ∧
    VerifyFunctionNameExists "detailed_test_token" "mint" = true ∧
    VerifyFunctionNameExists "detailed_test_token" "Mint" = false ∧
    VerifyFunctionNameExists "detailed_test_token" "MINT" = false ∧
    VerifyFunctionNameExists "Detailed_test_token" "mint" = false ∧
    VerifyFunctionNameExists "fast_test_token" "balanceof" = true ∧
    VerifyFunctionNameExists "fast_test_token" "balanceOf" = false ∧
    VerifyFunctionNameExists "fast_test_token" " name" = false := by
  have hreg : VerifyContractTypeExists X k = true ↔
      (k = "detailed_test_token" ∨ k = "fast_test_token") := constants.dict_lookup X k
  have hiff : VerifyFunctionNameExists k f = true ↔
      (VerifyContractTypeExists X k = true ∧
        (f ∈ funcNames k "query" ∨ f ∈ funcNames k "write")) := by
    rw [constants.VerifyFunctionNameExists_iff, hreg]
    rcases constants.lookup_funcNames k with ⟨h, h0⟩ | ⟨hk, hq, hw, ha⟩ | ⟨hk, hq, hw, ha⟩
    · have hn : ¬ (k = "detailed_test_token" ∨ k = "fast_test_token") := fun hc =>
        (constants.names_lookup k).2 hc h
      simp [h0, hn]
    · rw [hq, hw, ha]; simp [hk]
    · rw [hq, hw, ha]; simp [hk]
  refine ⟨hiff, ?_, ?_, ?_⟩
  · intro hno
    cases hv : VerifyFunctionNameExists k f
    · rfl
    · rw [(hiff.1 hv).1] at hno; cases hno
  · rw [hreg, constants.names_lookup]
  · simp [VerifyFunctionNameExists, rangeFind, ContractNamesToFuncNames, GoMap.read, GoMap.lookup,
      baseERC20Queries, baseERC20Writes]

theorem verify_function_name_is_membership_witness :
    VerifyContractTypeExists testExternals "nope" = false ∧
    VerifyFunctionNameExists "nope" "name" = false :=
  ⟨by simp [VerifyContractTypeExists, ContractNamesDict, GoMap.lookup],
    (verify_function_name_is_membership testExternals "nope" "name").2.1
      (by simp [VerifyContractTypeExists, ContractNamesDict, GoMap.lookup])⟩

/-- C13. The names mint and burn are operations of the DetailedTestToken only:
VerifyFunctionNameExists accepts them for detailed_test_token and not for
fast_test_token, and WriteContract of the FastTestToken template, called with
either name and any arguments, returns nil without a call to the connector,
bound or not, and leaves the receiver, LastTx included, as it was. -/
theorem mint_and_burn_are_detailed_only (keccak256 : List UInt8 → List UInt8)
    (I : fast_test_token.IInstance ι W Auth CallOpts Tx E)
    (f : fast_test_token.FastTestTokenContract ι Tx) (auth : Auth) (n : String)
    (funcArgs : List String) (w : W) (hn : n = "mint" ∨ n = "burn") :
    VerifyFunctionNameExists "detailed_test_token" n = true ∧
    VerifyFunctionNameExists "fast_test_token" n = false ∧
    n ∈ funcNames "detailed_test_token" "write" ∧
    n ∉ funcNames "fast_test_token" "write" ∧
    fast_test_token.writeArity n = none ∧
    fast_test_token.WriteContract keccak256 I f auth n funcArgs w = .returned ⟨none, f, w⟩ ∧
    ∀ (ret : MockReturns Tx E) (g : fast_test_token.FastTestTokenContract Unit Tx)
      (log : List (fast_test_token.Call Auth CallOpts)),
      fast_test_token.WriteContract keccak256 (fast_test_token.MockContractInstance ret) g auth n
        funcArgs log = .returned ⟨none, g, log⟩ := by
  have ha : fast_test_token.writeArity n = none := by
    rcases hn with rfl | rfl <;> simp [fast_test_token.writeArity]
  have hm : n ∉ ["transfer", "approve", "transferfrom", "increaseallowance",
      "decreaseallowance"] := by
    rcases hn with rfl | rfl <;> simp
  refine ⟨?_, ?_, ?_, ?_, ha, fast_test_token.ftt_WriteContract_unknown keccak256 I f auth n
    funcArgs w hm, fun ret g log => fast_test_token.ftt_WriteContract_unknown keccak256 _ g auth n
    funcArgs log hm⟩
  all_goals
    rcases hn with rfl | rfl <;>
    simp [VerifyFunctionNameExists, rangeFind, funcNames, ContractNamesToFuncNames, GoMap.read,
      GoMap.lookup, baseERC20Queries, baseERC20Writes]

theorem mint_and_burn_are_detailed_only_witness :
    ("mint" = "mint" ∨ "mint" = "burn") ∧
    fast_test_token.WriteContract id (fast_test_token.mockInstance fast_test_token.testReturns)
      fast_test_token.loadedContract () "mint"
      ["0x0000000000000000000000000000000000000001", "5"] [] =
        .returned ⟨none, fast_test_token.loadedContract, []⟩ :=
  ⟨Or.inl rfl, (mint_and_burn_are_detailed_only id
    (fast_test_token.mockInstance fast_test_token.testReturns) fast_test_token.loadedContract ()
    "mint" ["0x0000000000000000000000000000000000000001", "5"] [] (Or.inl rfl)).2.2.2.2.2.1⟩

end

/-! ## What deploying, loading, querying and writing keep -/

namespace detailed_test_token

theorem dtt_WriteContract_keeps (keccak256 : List UInt8 → List UInt8)
    (I : IInstance ι W Auth CallOpts Tx E) (d : DetailedTestTokenContract ι Tx) (auth : Auth)
    (funcName : String) (funcArgs : List String) (w : W)
    (r : Result (DetailedTestTokenContract ι Tx) W E)
    (h : WriteContract keccak256 I d auth funcName funcArgs w = .returned r) :
    r.self.Address = d.Address ∧ r.self.Instance = d.Instance ∧
      r.self.ConstructorArgs = d.ConstructorArgs ∧
      r.self.todetailedQueriableContractData = d.todetailedQueriableContractData := by
  unfold WriteContract at h
  dsimp only [Run.bind, index, deref] at h
  split_ifs at h <;> (repeat' split at h) <;>
    first
    | (cases h; exact ⟨rfl, rfl, rfl, rfl⟩)
    | (cases h)

theorem dtt_QueryContract_keeps (keccak256 : List UInt8 → List UInt8)
    (I : IInstance ι W Auth CallOpts Tx E) (d : DetailedTestTokenContract ι Tx)
    (funcName : String) (funcArgs : List String) (w : W)
    (r : Result (DetailedTestTokenContract ι Tx) W E)
    (h : QueryContract keccak256 I d funcName funcArgs w = .returned r) :
    r.self.Address = d.Address ∧ r.self.Instance = d.Instance ∧
      r.self.ConstructorArgs = d.ConstructorArgs ∧ r.self.LastTx = d.LastTx := by
  unfold QueryContract at h
  dsimp only [Run.bind, index, deref] at h
  split_ifs at h <;> (repeat' split at h) <;>
    first
    | (cases h; exact ⟨rfl, rfl, rfl, rfl⟩)
    | (cases h)

theorem dtt_LoadContract_ok (G : Generated ι W Auth Backend Tx E)
    (d : DetailedTestTokenContract ι Tx) (a : common.Address) (client : Backend) (inst : Option ι)
    (h : G.NewDetailedTestToken a client = (inst, none)) :
    LoadContract G d (some a) client = .returned (none,
      { d with Instance := inst, Address := a, BalanceOf := .empty, Allowance := .empty }) := by
  simp only [LoadContract, deref, Run.bind, h]

theorem dtt_LoadContract_err (G : Generated ι W Auth Backend Tx E)
    (d : DetailedTestTokenContract ι Tx) (a : common.Address) (client : Backend) (inst : Option ι)
    (e : GoError E) (h : G.NewDetailedTestToken a client = (inst, some e)) :
    LoadContract G d (some a) client = .returned (some e, d) := by
  simp only [LoadContract, deref, Run.bind, h]

theorem dtt_DeployContract_ok (G : Generated ι W Auth Backend Tx E)
    (d : DetailedTestTokenContract ι Tx) (auth : Auth) (client : Backend) (w w1 : W)
    (a : common.Address) (tx : Option Tx) (inst : Option ι)
    (h : G.DeployDetailedTestToken auth client d.ConstructorArgs.name d.ConstructorArgs.symbol
      d.ConstructorArgs.amount w = (((a, tx, inst), none), w1)) :
    DeployContract G d auth client w =
      .returned ⟨none, { d with Address := a, LastTx := tx, Instance := inst }, w1⟩ := by
  simp only [DeployContract, h]

theorem dtt_DeployContract_err (G : Generated ι W Auth Backend Tx E)
    (d : DetailedTestTokenContract ι Tx) (auth : Auth) (client : Backend) (w w1 : W)
    (x : common.Address × Option Tx × Option ι) (e : GoError E)
    (h : G.DeployDetailedTestToken auth client d.ConstructorArgs.name d.ConstructorArgs.symbol
      d.ConstructorArgs.amount w = ((x, some e), w1)) :
    DeployContract G d auth client w = .returned ⟨some e, d, w1⟩ := by
  simp only [DeployContract, h]

end detailed_test_token

namespace fast_test_token

theorem ftt_WriteContract_keeps (keccak256 : List UInt8 → List UInt8)
    (I : IInstance ι W Auth CallOpts Tx E) (d : FastTestTokenContract ι Tx) (auth : Auth)
    (funcName : String) (funcArgs : List String) (w : W)
    (r : Result (FastTestTokenContract ι Tx) W E)
    (h : WriteContract keccak256 I d auth funcName funcArgs w = .returned r) :
    r.self.Address = d.Address ∧ r.self.Instance = d.Instance ∧
      r.self.ConstructorArgs = d.ConstructorArgs ∧
      r.self.tofastQueriableContractData = d.tofastQueriableContractData := by
  unfold WriteContract at h
  dsimp only [Run.bind, index, deref] at h
  split_ifs at h <;> (repeat' split at h) <;>
    first
    | (cases h; exact ⟨rfl, rfl, rfl, rfl⟩)
    | (cases h)

theorem ftt_QueryContract_keeps (keccak256 : List UInt8 → List UInt8)
    (I : IInstance ι W Auth CallOpts Tx E) (d : FastTestTokenContract ι Tx)
    (funcName : String) (funcArgs : List String) (w : W)
    (r : Result (FastTestTokenContract ι Tx) W E)
    (h : QueryContract keccak256 I d funcName funcArgs w = .returned r) :
    r.self.Address = d.Address ∧ r.self.Instance = d.Instance ∧
      r.self.ConstructorArgs = d.ConstructorArgs ∧ r.self.LastTx = d.LastTx := by
  unfold QueryContract at h
  dsimp only [Run.bind, index, deref] at h
  split_ifs at h <;> (repeat' split at h) <;>
    first
    | (cases h; exact ⟨rfl, rfl, rfl, rfl⟩)
    | (cases h)

theorem ftt_LoadContract_ok (G : Generated ι W Auth Backend Tx E)
    (d : FastTestTokenContract ι Tx) (a : common.Address) (client : Backend) (inst : Option ι)
    (h : G.NewFastTestToken a client = (inst, none)) :
    LoadContract G d (some a) client = .returned (none,
      { d with Instance := inst, Address := a, BalanceOf := .empty, Allowance := .empty }) := by
  simp only [LoadContract, deref, Run.bind, h]

theorem ftt_LoadContract_err (G : Generated ι W Auth Backend Tx E)
    (d : FastTestTokenContract ι Tx) (a : common.Address) (client : Backend) (inst : Option ι)
    (e : GoError E) (h : G.NewFastTestToken a client = (inst, some e)) :
    LoadContract G d (some a) client = .returned (some e, d) := by
  simp only [LoadContract, deref, Run.bind, h]

theorem ftt_DeployContract_ok (G : Generated ι W Auth Backend Tx E)
    (d : FastTestTokenContract ι Tx) (auth : Auth) (client : Backend) (w w1 : W)
    (a : common.Address) (tx : Option Tx) (inst : Option ι)
    (h : G.DeployFastTestToken auth client w = (((a, tx, inst), none), w1)) :
    DeployContract G d auth client w =
      .returned ⟨none, { d with Address := a, LastTx := tx, Instance := inst }, w1⟩ := by
  simp only [DeployContract, h]

theorem ftt_DeployContract_err (G : Generated ι W Auth Backend Tx E)
    (d : FastTestTokenContract ι Tx) (auth : Auth) (client : Backend) (w w1 : W)
    (x : common.Address × Option Tx × Option ι) (e : GoError E)
    (h : G.DeployFastTestToken auth client w = ((x, some e), w1)) :
    DeployContract G d auth client w = .returned ⟨some e, d, w1⟩ := by
  simp only [DeployContract, h]

end fast_test_token

/-! ## The claims about constructor arguments, loading and the address -/

/-- C16. ParseConstructorArguments of the DetailedTestToken always returns, and
returns an error exactly when the number of arguments is not 3. On an error
the instance, ConstructorArgs included, is as before and the message names 3
and the number received. With three arguments the result is the instance
with ConstructorArgs made of the first argument as name, the second as symbol
and the third read in base 10 as amount, no other field changed; for a
decimal numeral the amount is the number it spells. -/
theorem detailed_parse_constructor_arguments
    (d : detailed_test_token.DetailedTestTokenContract ι Tx) (args : List String) :
    ∃ (e : Option (GoError E)) (d1 : detailed_test_token.DetailedTestTokenContract ι Tx),
      detailed_test_token.ParseConstructorArguments d args = .returned (e, d1) ∧
      (e ≠ none ↔ args.length ≠ 3) ∧
      (args.length ≠ 3 → d1 = d ∧
        e = some (.errorf ("error: incorrect amount of arguments, args needed : 3"
          ++ " != args received " ++ toString args.length))) ∧
      (∀ a0 a1 a2, args = [a0, a1, a2] →
        e = none ∧
        d1 = { d with ConstructorArgs :=
          { name := a0, symbol := a1, amount := some (big.SetString a2) } } ∧
        ∀ n : Nat, a2.toNat? = some n → d1.ConstructorArgs.amount = some (n : Int)) := by
  by_cases h : args.length = 3
  · obtain ⟨a0, a1, a2, rfl⟩ := List.length_eq_three.1 h
    refine ⟨none, { d with ConstructorArgs :=
      { name := a0, symbol := a1, amount := some (big.SetString a2) } }, ?_, ?_, ?_, ?_⟩
    · simp [detailed_test_token.ParseConstructorArguments,
        detailed_test_token.contractConstructorArgs.NumField, index, Run.bind]
    · simp
    · intro hne; exact absurd h hne
    · intro b0 b1 b2 hb
      simp only [List.cons.injEq, and_true] at hb
      obtain ⟨rfl, rfl, rfl⟩ := hb
      refine ⟨rfl, rfl, fun n hn => ?_⟩
      exact congrArg some (big.SetString_of_toNat _ n hn)
  · have hne : (args.length : Int) ≠ 3 := by exact_mod_cast h
    refine ⟨some (.errorf ("error: incorrect amount of arguments, args needed : "
      ++ fmt.d_int 3 ++ " != args received " ++ fmt.d_int args.length)), d, ?_, ?_, ?_, ?_⟩
    · simp only [detailed_test_token.ParseConstructorArguments,
        detailed_test_token.contractConstructorArgs.NumField, hne, ne_eq, not_false_eq_true,
        if_true]
    · simp [h]
    · intro _
      refine ⟨rfl, ?_⟩
      rw [fmt.d_int_natCast]
      have h3 : fmt.d_int 3 = "3" := by decide
      rw [h3]
      simp [String.append_assoc]
    · intro a0 a1 a2 ha
      rw [ha] at h
      exact absurd rfl h

theorem detailed_parse_constructor_arguments_witness :
    (["Tok", "TK", "1000"] : List String) = ["Tok", "TK", "1000"] ∧
    "1000".toNat? = some 1000 ∧
    ∃ d1, (detailed_test_token.ParseConstructorArguments detailed_test_token.testContract
        ["Tok", "TK", "1000"] : Run (Option (GoError Empty) × _)) = .returned (none, d1) ∧
      d1.ConstructorArgs.name = "Tok" ∧ d1.ConstructorArgs.symbol = "TK" ∧
      d1.ConstructorArgs.amount = some 1000 := by
  have hn : "1000".toNat? = some 1000 := by
    simp [String.toNat?, String.isNat, String.all_eq, String.foldl_eq, String.isEmpty_iff]
  obtain ⟨e, d1, h1, -, -, h4⟩ :=
    detailed_parse_constructor_arguments detailed_test_token.testContract
      ["Tok", "TK", "1000"]
  obtain ⟨he, hd, ha⟩ := h4 "Tok" "TK" "1000" rfl
  refine ⟨rfl, hn, d1, ?_, ?_, ?_, ha 1000 hn⟩
  · rw [h1, he]
  · rw [hd]
  · rw [hd]

/-- C17, the claim as stated fails. ParseConstructorArguments of the FastTestToken
returns nil for a list of one argument. -/
theorem fast_parse_accepts_a_non_empty_list :
    (["1000"] : List String) ≠ [] ∧
    (fast_test_token.ParseConstructorArguments fast_test_token.testContract ["1000"] :
      Run (Option (GoError Empty) × _)) = .returned (none, fast_test_token.testContract) :=
  ⟨by decide, rfl⟩

/-- C17, amended. ParseConstructorArguments of the FastTestToken does not look at
its argument: for every list, empty or not, it returns nil and leaves the
instance as it was. -/
theorem fast_parse_constructor_arguments_ignores_its_argument
    (f : fast_test_token.FastTestTokenContract ι Tx) (args : List String) :
    (fast_test_token.ParseConstructorArguments f args : Run (Option (GoError E) × _)) =
      .returned (none, f) :=
  rfl

theorem fast_parse_constructor_arguments_ignores_its_argument_witness :
    (fast_test_token.ParseConstructorArguments fast_test_token.testContract [] :
      Run (Option (GoError Empty) × _)) = .returned (none, fast_test_token.testContract) ∧
    (fast_test_token.ParseConstructorArguments fast_test_token.testContract ["a", "b", "c"] :
      Run (Option (GoError Empty) × _)) = .returned (none, fast_test_token.testContract) :=
  ⟨fast_parse_constructor_arguments_ignores_its_argument fast_test_token.testContract [],
    fast_parse_constructor_arguments_ignores_its_argument fast_test_token.testContract
      ["a", "b", "c"]⟩

/-- C19. For both templates, LoadContract with an address: when the binding
constructor answers a binding and no error, LoadContract returns nil and the
instance differs from before in exactly Instance, which is the new binding,
Address, which is the given address, and BalanceOf and Allowance, which are
maps without any entry; when the binding constructor answers an error,
LoadContract returns that error and the instance is as before. -/
theorem load_contract_binds_and_resets_caches :
    (∀ (G : detailed_test_token.Generated ι W Auth Backend Tx E)
        (d : detailed_test_token.DetailedTestTokenContract ι Tx) (a : common.Address)
        (client : Backend) (inst : Option ι),
        G.NewDetailedTestToken a client = (inst, none) →
        ∃ d1, detailed_test_token.LoadContract G d (some a) client = .returned (none, d1) ∧
          d1 = { d with Instance := inst, Address := a, BalanceOf := .empty,
                        Allowance := .empty } ∧
          d1.Address = a ∧ d1.Instance = inst ∧
          (∀ x, d1.BalanceOf.lookup x = none) ∧ d1.BalanceOf ≠ .nil ∧
          (∀ x, d1.Allowance.lookup x = none) ∧ d1.Allowance ≠ .nil) ∧
    (∀ (G : detailed_test_token.Generated ι W Auth Backend Tx E)
        (d : detailed_test_token.DetailedTestTokenContract ι Tx) (a : common.Address)
        (client : Backend) (inst : Option ι) (e : GoError E),
        G.NewDetailedTestToken a client = (inst, some e) →
        detailed_test_token.LoadContract G d (some a) client = .returned (some e, d)) ∧
    (∀ (G : fast_test_token.Generated ι W Auth Backend Tx E)
        (f : fast_test_token.FastTestTokenContract ι Tx) (a : common.Address)
        (client : Backend) (inst : Option ι),
        G.NewFastTestToken a client = (inst, none) →
        ∃ f1, fast_test_token.LoadContract G f (some a) client = .returned (none, f1) ∧
          f1 = { f with Instance := inst, Address := a, BalanceOf := .empty,
                        Allowance := .empty } ∧
          f1.Address = a ∧ f1.Instance = inst ∧
          (∀ x, f1.BalanceOf.lookup x = none) ∧ f1.BalanceOf ≠ .nil ∧
          (∀ x, f1.Allowance.lookup x = none) ∧ f1.Allowance ≠ .nil) ∧
    (∀ (G : fast_test_token.Generated ι W Auth Backend Tx E)
        (f : fast_test_token.FastTestTokenContract ι Tx) (a : common.Address)
        (client : Backend) (inst : Option ι) (e : GoError E),
        G.NewFastTestToken a client = (inst, some e) →
        fast_test_token.LoadContract G f (some a) client = .returned (some e, f)) := by
  refine ⟨?_, ?_, ?_, ?_⟩
  · intro G d a client inst h
    refine ⟨_, detailed_test_token.dtt_LoadContract_ok G d a client inst h, rfl, rfl, rfl,
      fun _ => rfl, ?_, fun _ => rfl, ?_⟩ <;> simp [GoMap.empty]
  · intro G d a client inst e h
    exact detailed_test_token.dtt_LoadContract_err G d a client inst e h
  · intro G f a client inst h
    refine ⟨_, fast_test_token.ftt_LoadContract_ok G f a client inst h, rfl, rfl, rfl,
      fun _ => rfl, ?_, fun _ => rfl, ?_⟩ <;> simp [GoMap.empty]
  · intro G f a client inst e h
    exact fast_test_token.ftt_LoadContract_err G f a client inst e h

theorem load_contract_binds_and_resets_caches_witness :
    (detailed_test_token.mockGenerated common.zeroAddress :
      detailed_test_token.Generated Unit Unit Unit Unit Unit Empty).NewDetailedTestToken
        (common.BytesToAddress [1]) () = (some (), none) ∧
    ∃ d1, detailed_test_token.LoadContract
        (detailed_test_token.mockGenerated common.zeroAddress :
          detailed_test_token.Generated Unit Unit Unit Unit Unit Empty)
        detailed_test_token.testContract (some (common.BytesToAddress [1])) () =
          .returned (none, d1) ∧
      d1.Address = common.BytesToAddress [1] ∧ d1.Instance = some () ∧
      (∀ x, d1.BalanceOf.lookup x = none) ∧ (∀ x, d1.Allowance.lookup x = none) := by
  obtain ⟨d1, h1, -, h3, h4, h5, -, h6, -⟩ := load_contract_binds_and_resets_caches.1
    (detailed_test_token.mockGenerated common.zeroAddress :
      detailed_test_token.Generated Unit Unit Unit Unit Unit Empty)
    detailed_test_token.testContract (common.BytesToAddress [1]) () (some ()) rfl
  exact ⟨rfl, d1, h1, h3, h4, h5, h6⟩

/-- C20, the claim as stated fails. An instance of the DetailedTestToken loaded at
one address and then loaded at another: the second LoadContract returns nil
and Address is the second address, not the first. -/
theorem second_load_changes_the_address :
    ∃ d1 d2,
      detailed_test_token.LoadContract
        (detailed_test_token.mockGenerated common.zeroAddress :
          detailed_test_token.Generated Unit Unit Unit Unit Unit Empty)
        detailed_test_token.testContract (some (common.BytesToAddress [1])) () =
          .returned (none, d1) ∧
      d1.Address = common.BytesToAddress [1] ∧
      detailed_test_token.LoadContract
        (detailed_test_token.mockGenerated common.zeroAddress :
          detailed_test_token.Generated Unit Unit Unit Unit Unit Empty)
        d1 (some (common.BytesToAddress [2])) () = .returned (none, d2) ∧
      d2.Address = common.BytesToAddress [2] ∧ d2.Address ≠ d1.Address :=
  ⟨_, _, rfl, rfl, rfl, rfl, by decide⟩

/-- C20, amended. For both templates: QueryContract and WriteContract, whenever
they return, leave Address as it was, and so do a LoadContract whose binding
constructor fails and a DeployContract whose deployment fails; a LoadContract
whose binding constructor succeeds sets Address to the address it is given and
a DeployContract whose deployment succeeds sets it to the address deployed
at, whatever Address was before. -/
theorem address_changes_only_on_successful_load_or_deploy
    (keccak256 : List UInt8 → List UInt8) :
    (∀ (I : detailed_test_token.IInstance ι W Auth CallOpts Tx E)
        (G : detailed_test_token.Generated ι W Auth Backend Tx E)
        (d : detailed_test_token.DetailedTestTokenContract ι Tx),
        (∀ funcName funcArgs w r,
          detailed_test_token.QueryContract keccak256 I d funcName funcArgs w = .returned r →
          r.self.Address = d.Address) ∧
        (∀ auth funcName funcArgs w r,
          detailed_test_token.WriteContract keccak256 I d auth funcName funcArgs w = .returned r →
          r.self.Address = d.Address) ∧
        (∀ a client inst e, G.NewDetailedTestToken a client = (inst, some e) →
          detailed_test_token.LoadContract G d (some a) client = .returned (some e, d)) ∧
        (∀ a client inst, G.NewDetailedTestToken a client = (inst, none) →
          ∃ d1, detailed_test_token.LoadContract G d (some a) client = .returned (none, d1) ∧
            d1.Address = a) ∧
        (∀ auth client w x e w1,
          G.DeployDetailedTestToken auth client d.ConstructorArgs.name d.ConstructorArgs.symbol
            d.ConstructorArgs.amount w = ((x, some e), w1) →
          detailed_test_token.DeployContract G d auth client w = .returned ⟨some e, d, w1⟩) ∧
        (∀ auth client w a tx inst w1,
          G.DeployDetailedTestToken auth client d.ConstructorArgs.name d.ConstructorArgs.symbol
            d.ConstructorArgs.amount w = (((a, tx, inst), none), w1) →
          ∃ d1, detailed_test_token.DeployContract G d auth client w = .returned ⟨none, d1, w1⟩ ∧
            d1.Address = a)) ∧
    (∀ (I : fast_test_token.IInstance ι W Auth CallOpts Tx E)
        (G : fast_test_token.Generated ι W Auth Backend Tx E)
        (f : fast_test_token.FastTestTokenContract ι Tx),
        (∀ funcName funcArgs w r,
          fast_test_token.QueryContract keccak256 I f funcName funcArgs w = .returned r →
          r.self.Address = f.Address) ∧
        (∀ auth funcName funcArgs w r,
          fast_test_token.WriteContract keccak256 I f auth funcName funcArgs w = .returned r →
          r.self.Address = f.Address) ∧
        (∀ a client inst e, G.NewFastTestToken a client = (inst, some e) →
          fast_test_token.LoadContract G f (some a) client = .returned (some e, f)) ∧
        (∀ a client inst, G.NewFastTestToken a client = (inst, none) →
          ∃ f1, fast_test_token.LoadContract G f (some a) client = .returned (none, f1) ∧
            f1.Address = a) ∧
        (∀ auth client w x e w1,
          G.DeployFastTestToken auth client w = ((x, some e), w1) →
          fast_test_token.DeployContract G f auth client w = .returned ⟨some e, f, w1⟩) ∧
        (∀ auth client w a tx inst w1,
          G.DeployFastTestToken auth client w = (((a, tx, inst), none), w1) →
          ∃ f1, fast_test_token.DeployContract G f auth client w = .returned ⟨none, f1, w1⟩ ∧
            f1.Address = a)) := by
  refine ⟨fun I G d => ⟨?_, ?_, ?_, ?_, ?_, ?_⟩, fun I G f => ⟨?_, ?_, ?_, ?_, ?_, ?_⟩⟩
  · intro funcName funcArgs w r h
    exact (detailed_test_token.dtt_QueryContract_keeps keccak256 I d funcName funcArgs w r h).1
  · intro auth funcName funcArgs w r h
    exact (detailed_test_token.dtt_WriteContract_keeps keccak256 I d auth funcName funcArgs w r
      h).1
  · intro a client inst e h
    exact detailed_test_token.dtt_LoadContract_err G d a client inst e h
  · intro a client inst h
    exact ⟨_, detailed_test_token.dtt_LoadContract_ok G d a client inst h, rfl⟩
  · intro auth client w x e w1 h
    exact detailed_test_token.dtt_DeployContract_err G d auth client w w1 x e h
  · intro auth client w a tx inst w1 h
    exact ⟨_, detailed_test_token.dtt_DeployContract_ok G d auth client w w1 a tx inst h, rfl⟩
  · intro funcName funcArgs w r h
    exact (fast_test_token.ftt_QueryContract_keeps keccak256 I f funcName funcArgs w r h).1
  · intro auth funcName funcArgs w r h
    exact (fast_test_token.ftt_WriteContract_keeps keccak256 I f auth funcName funcArgs w r h).1
  · intro a client inst e h
    exact fast_test_token.ftt_LoadContract_err G f a client inst e h
  · intro a client inst h
    exact ⟨_, fast_test_token.ftt_LoadContract_ok G f a client inst h, rfl⟩
  · intro auth client w x e w1 h
    exact fast_test_token.ftt_DeployContract_err G f auth client w w1 x e h
  · intro auth client w a tx inst w1 h
    exact ⟨_, fast_test_token.ftt_DeployContract_ok G f auth client w w1 a tx inst h, rfl⟩

theorem address_changes_only_on_successful_load_or_deploy_witness :
    (detailed_test_token.mockGenerated common.zeroAddress :
      detailed_test_token.Generated Unit (List (detailed_test_token.Call Unit Unit)) Unit Unit
        Unit Empty).NewDetailedTestToken (common.BytesToAddress [1]) () = (some (), none) ∧
    ∃ d1, detailed_test_token.LoadContract
        (detailed_test_token.mockGenerated common.zeroAddress :
          detailed_test_token.Generated Unit (List (detailed_test_token.Call Unit Unit)) Unit Unit
            Unit Empty)
        detailed_test_token.loadedContract (some (common.BytesToAddress [1])) () =
          .returned (none, d1) ∧
      d1.Address = common.BytesToAddress [1] :=
  ⟨rfl, ((address_changes_only_on_successful_load_or_deploy (fun _ => [])).1
    (detailed_test_token.mockInstance detailed_test_token.testReturns)
    (detailed_test_token.mockGenerated common.zeroAddress)
    detailed_test_token.loadedContract).2.2.2.1 (common.BytesToAddress [1]) () (some ()) rfl⟩

/-! ## The amount of a write request -/

theorem big.scan_append (ds rest : List Char) (acc : Nat) (hd : ∀ c ∈ ds, c.isDigit = true)
    (hr : ∀ c ∈ rest.head?, c.isDigit = false) :
    big.scan acc (ds ++ rest) = big.scan acc ds := by
  induction ds generalizing acc with
  | nil =>
    cases rest with
    | nil => rfl
    | cons c tl =>
      have hc : c.isDigit = false := hr c (by simp)
      have hc2 : ¬ ('0' ≤ c ∧ c ≤ '9') := by
        intro h
        have ht : c.isDigit = true := by
          simp only [Char.isDigit, Bool.and_eq_true, decide_eq_true_eq]
          exact ⟨h.1, h.2⟩
        rw [ht] at hc
        cases hc
      simp only [List.nil_append, big.scan, hc2, if_false]
  | cons c tl ih =>
    have hc : c.isDigit = true := hd c (List.mem_cons_self _ _)
    have hc2 : '0' ≤ c ∧ c ≤ '9' := by
      simp only [Char.isDigit, Bool.and_eq_true, decide_eq_true_eq] at hc
      exact ⟨hc.1, hc.2⟩
    simp only [List.cons_append, big.scan, hc2, and_self, if_true]
    exact ih _ (fun x hx => hd x (List.mem_cons_of_mem _ hx))

theorem big.SetString_no_digits (s : String)
    (h : ∀ c ∈ s.data.head?, c.isDigit = false ∧ c ≠ '-' ∧ c ≠ '+') : big.SetString s = 0 := by
  unfold big.SetString
  rcases hs : s.data with _ | ⟨c, rest⟩
  · rfl
  · obtain ⟨h1, h2, h3⟩ := h c (by simp [hs])
    have hc2 : ¬ ('0' ≤ c ∧ c ≤ '9') := by
      intro h
      have ht : c.isDigit = true := by
        simp only [Char.isDigit, Bool.and_eq_true, decide_eq_true_eq]
        exact ⟨h.1, h.2⟩
      rw [ht] at h1
      cases h1
    simp [h2, h3, big.scan, hc2]

theorem big.SetString_leading_digits (p : String) (n : Nat) (rest : List Char)
    (hp : p.toNat? = some n) (hr : ∀ c ∈ rest.head?, c.isDigit = false) :
    big.SetString (String.mk (p.data ++ rest)) = (n : Int) := by
  have h0 := big.SetString_of_toNat p n hp
  unfold String.toNat? at hp
  split at hp
  · rename_i hnat
    simp only [String.isNat, Bool.and_eq_true, Bool.not_eq_true', String.all_eq,
      List.all_eq_true] at hnat
    obtain ⟨hne, hall⟩ := hnat
    unfold big.SetString at h0 ⊢
    rcases hd : p.data with _ | ⟨c, tl⟩
    · exfalso
      have hm : p = "" := by
        cases p; simp_all
      have he : p.isEmpty = true := (String.isEmpty_iff p).2 hm
      rw [he] at hne
      cases hne
    · have hc : c.isDigit = true := hall c (by rw [hd]; exact List.mem_cons_self _ _)
      have hm : c ≠ '-' := by
        rintro rfl; simp [Char.isDigit] at hc
      have hpl : c ≠ '+' := by
        rintro rfl; simp [Char.isDigit] at hc
      rw [hd] at h0
      simp only [List.cons_append, hm, hpl, or_self, if_false, decide_False,
        Bool.false_eq_true] at h0 ⊢
      rw [← h0]
      have := big.scan_append (c :: tl) rest 0 (fun x hx => hall x (by rw [hd]; exact hx)) hr
      simp only [List.cons_append] at this
      rw [this]
  · cases hp

namespace detailed_test_token

theorem dtt_writeCall_amount (auth : Auth) (funcName : String) (funcArgs : List String)
    (c : Call Auth CallOpts) (s : String) (hc : writeCall auth funcName funcArgs = some c)
    (hs : funcArgs.getLast? = some s) : c.amount = some (some (big.SetString s)) := by
  unfold writeCall at hc
  split_ifs at hc <;> split at hc <;>
    first
    | (cases hc; cases hs; rfl)
    | (cases hc)

end detailed_test_token

namespace fast_test_token

theorem ftt_writeCall_amount (auth : Auth) (funcName : String) (funcArgs : List String)
    (c : Call Auth CallOpts) (s : String) (hc : writeCall auth funcName funcArgs = some c)
    (hs : funcArgs.getLast? = some s) : c.amount = some (some (big.SetString s)) := by
  unfold writeCall at hc
  split_ifs at hc <;> split at hc <;>
    first
    | (cases hc; cases hs; rfl)
    | (cases hc)

end fast_test_token


/-- C18, the claim as stated fails. The string "12abc" is not a numeral, and a
transfer of the DetailedTestToken given it as amount hands the amount 12 to
the connector, not zero. -/
theorem transfer_of_12abc_passes_twelve :
    "12abc".data.all Char.isDigit = false ∧
    ∃ r, detailed_test_token.WriteContract (fun _ => [])
        (detailed_test_token.mockInstance detailed_test_token.testReturns)
        detailed_test_token.loadedContract ()
        "transfer" ["0x86Be6FC9B05B55CBD04F3161f9b481f27F90a8Df", "12abc"] [] = .returned r ∧
      r.err = none ∧
      r.world = [.Transfer () (common.HexToAddress "0x86Be6FC9B05B55CBD04F3161f9b481f27F90a8Df")
        (some 12)] ∧
      r.world ≠ [.Transfer () (common.HexToAddress "0x86Be6FC9B05B55CBD04F3161f9b481f27F90a8Df")
        (some 0)] := by
  refine ⟨by decide, ?_⟩
  obtain ⟨r, hr, hw, he, -⟩ := detailed_test_token.dtt_WriteContract_world (fun _ => [])
    (detailed_test_token.mockInstance detailed_test_token.testReturns)
    detailed_test_token.loadedContract () "transfer"
    ["0x86Be6FC9B05B55CBD04F3161f9b481f27F90a8Df", "12abc"] [] ()
    (.Transfer () (common.HexToAddress "0x86Be6FC9B05B55CBD04F3161f9b481f27F90a8Df")
      (some (big.SetString "12abc"))) rfl rfl
  have h12 : big.SetString "12abc" = 12 := by decide
  rw [h12] at hw he
  have hw2 : r.world = [.Transfer ()
      (common.HexToAddress "0x86Be6FC9B05B55CBD04F3161f9b481f27F90a8Df") (some 12)] :=
    hw.trans (detailed_test_token.dtt_mock_invoke _ _ _)
  refine ⟨r, hr, he, hw2, ?_⟩
  rw [hw2]
  intro h
  simp only [List.cons.injEq, detailed_test_token.Call.Transfer.injEq, true_and, and_true,
    Option.some.injEq] at h
  cases h

/-- C18, amended. For both templates and every write operation called with the
right number of arguments, whatever string `s` the last argument is: the one
request made carries the amount `big.SetString s`, and the error returned is
the error of that request, so nothing fails on parsing. That amount is the
number spelled by the digits at the front of `s`: it is 0 when `s` is empty
or starts with a character that is neither a digit nor a sign, as "abc", and
it is `n` when `s` is a decimal numeral of `n` followed by anything that
does not start with a digit, as 12 for "12abc". -/
theorem write_passes_the_leading_digits_as_amount (keccak256 : List UInt8 → List UInt8) :
    (∀ (I : detailed_test_token.IInstance ι W Auth CallOpts Tx E)
        (d : detailed_test_token.DetailedTestTokenContract ι Tx) (auth : Auth)
        (funcName : String) (funcArgs : List String) (w : W) (inst : ι) (m : Nat) (s : String),
        d.Instance = some inst → detailed_test_token.writeArity funcName = some m →
        funcArgs.length = m → funcArgs.getLast? = some s →
        ∃ c r, detailed_test_token.writeCall auth funcName funcArgs = some c ∧
          c.amount = some (some (big.SetString s)) ∧
          detailed_test_token.WriteContract keccak256 I d auth funcName funcArgs w = .returned r ∧
          r.world = (I.invoke inst c w).2 ∧ r.err = (I.invoke inst c w).1.2) ∧
    (∀ (I : fast_test_token.IInstance ι W Auth CallOpts Tx E)
        (f : fast_test_token.FastTestTokenContract ι Tx) (auth : Auth)
        (funcName : String) (funcArgs : List String) (w : W) (inst : ι) (m : Nat) (s : String),
        f.Instance = some inst → fast_test_token.writeArity funcName = some m →
        funcArgs.length = m → funcArgs.getLast? = some s →
        ∃ c r, fast_test_token.writeCall auth funcName funcArgs = some c ∧
          c.amount = some (some (big.SetString s)) ∧
          fast_test_token.WriteContract keccak256 I f auth funcName funcArgs w = .returned r ∧
          r.world = (I.invoke inst c w).2 ∧ r.err = (I.invoke inst c w).1.2) ∧
    (∀ s : String, (∀ c ∈ s.data.head?, c.isDigit = false ∧ c ≠ '-' ∧ c ≠ '+') →
      big.SetString s = 0) ∧
    (∀ (p : String) (n : Nat) (rest : List Char), p.toNat? = some n →
      (∀ c ∈ rest.head?, c.isDigit = false) →
      big.SetString (String.mk (p.data ++ rest)) = (n : Int)) ∧
    big.SetString "abc" = 0 ∧ big.SetString "" = 0 ∧ big.SetString "12abc" = 12 := by
  refine ⟨?_, ?_, big.SetString_no_digits, big.SetString_leading_digits, by decide, by decide,
    by decide⟩
  · intro I d auth funcName funcArgs w inst m s hi hm hn hs
    obtain ⟨c, hc⟩ : ∃ c : detailed_test_token.Call Auth CallOpts,
        detailed_test_token.writeCall auth funcName funcArgs = some c :=
      detailed_test_token.dtt_writeCall_of_arity auth funcName funcArgs m hm hn
    obtain ⟨r, hr, hw, he, -⟩ :=
      detailed_test_token.dtt_WriteContract_world keccak256 I d auth funcName funcArgs w inst c
        hi hc
    exact ⟨c, r, hc, detailed_test_token.dtt_writeCall_amount auth funcName funcArgs c s hc hs,
      hr, hw, he⟩
  · intro I f auth funcName funcArgs w inst m s hi hm hn hs
    obtain ⟨c, hc⟩ : ∃ c : fast_test_token.Call Auth CallOpts,
        fast_test_token.writeCall auth funcName funcArgs = some c :=
      fast_test_token.ftt_writeCall_of_arity auth funcName funcArgs m hm hn
    obtain ⟨r, hr, hw, he, -⟩ :=
      fast_test_token.ftt_WriteContract_world keccak256 I f auth funcName funcArgs w inst c
        hi hc
    exact ⟨c, r, hc, fast_test_token.ftt_writeCall_amount auth funcName funcArgs c s hc hs,
      hr, hw, he⟩

theorem write_passes_the_leading_digits_as_amount_witness :
    "12".toNat? = some 12 ∧
    big.SetString (String.mk ("12".data ++ ['a', 'b', 'c'])) = 12 ∧
    ∃ c r, fast_test_token.writeCall () "approve"
        ["0x86Be6FC9B05B55CBD04F3161f9b481f27F90a8Df", "abc"] = some c ∧
      c.amount = some (some (big.SetString "abc")) ∧
      fast_test_token.WriteContract (fun _ => [])
        (fast_test_token.mockInstance fast_test_token.testReturns)
        fast_test_token.loadedContract () "approve"
        ["0x86Be6FC9B05B55CBD04F3161f9b481f27F90a8Df", "abc"] [] = .returned r ∧
      r.world = ((fast_test_token.mockInstance fast_test_token.testReturns).invoke () c []).2 ∧
      r.err = ((fast_test_token.mockInstance fast_test_token.testReturns).invoke () c []).1.2 := by
  have hn : "12".toNat? = some 12 := by
    simp [String.toNat?, String.isNat, String.all_eq, String.foldl_eq, String.isEmpty_iff]
  have h := @write_passes_the_leading_digits_as_amount Unit
    (List (fast_test_token.Call Unit Unit)) Unit Unit Unit Empty (fun _ => [])
  exact ⟨hn, h.2.2.2.1 "12" 12 ['a', 'b', 'c'] hn (by decide),
    h.2.1 (fast_test_token.mockInstance fast_test_token.testReturns) fast_test_token.loadedContract ()
      "approve" ["0x86Be6FC9B05B55CBD04F3161f9b481f27F90a8Df", "abc"] [] () 2 "abc" rfl
      (by decide) rfl rfl⟩

/-! ## The routing of the executor facade -/

namespace contract_interactor_facade

open constants contracts_template_interface

variable {UserAccount EthRpcClient BlockChainState : Type}

theorem ExecuteContract_query (X : Externals ιd ιf W Auth CallOpts Backend Tx E)
    (c : contractExecutorFacade UserAccount EthRpcClient BlockChainState Auth)
    (s : Sys (Templates ιd ιf Tx) W)
    (T : IContract (Sys (Templates ιd ιf Tx) W) Auth Backend E)
    (hT : (ContractNamesDict X).lookup c.contractType = some T)
    (hq : c.funcName ∈ funcNames c.contractType "query") :
    ExecuteContract X c s =
      (T.QueryContract c.funcName c.funcArguments
        (s.Println "Starting contract executor process.")).bind fun r =>
      match r.1 with
      | some err => .returned (some err, r.2)
      | none =>
        (T.PrintLoadedContractData r.2).bind fun s1 =>
        (T.PrintContractDataAfterExecution s1).bind fun s2 =>
        .returned (none, s2.Println "Successfully completed contract execution process.") := by
  have hc := (utils.Contains_iff _ _).2 hq
  simp only [funcNames] at hc
  simp only [ExecuteContract, hc, if_true, hT, Contract.QueryContract, deref, Run.bind]
  generalize T.QueryContract c.funcName c.funcArguments
      (s.Println "Starting contract executor process.") = res
  rcases res with ⟨e, s1⟩ | p
  · cases e with
    | some err => rfl
    | none =>
      dsimp only
      generalize T.PrintLoadedContractData s1 = res1
      rcases res1 with s2 | p
      · dsimp only
        generalize T.PrintContractDataAfterExecution s2 = res2
        rcases res2 with s3 | p
        · rfl
        · rfl
      · rfl
  · rfl

theorem ExecuteContract_write (X : Externals ιd ιf W Auth CallOpts Backend Tx E)
    (c : contractExecutorFacade UserAccount EthRpcClient BlockChainState Auth)
    (s : Sys (Templates ιd ιf Tx) W)
    (T : IContract (Sys (Templates ιd ιf Tx) W) Auth Backend E)
    (hT : (ContractNamesDict X).lookup c.contractType = some T)
    (hq : c.funcName ∉ funcNames c.contractType "query")
    (hw : c.funcName ∈ funcNames c.contractType "write") :
    ExecuteContract X c s =
      (T.WriteContract c.auth c.funcName c.funcArguments
        (s.Println "Starting contract executor process.")).bind fun r =>
      match r.1 with
      | some err => .returned (some err, r.2)
      | none =>
        (T.PrintLoadedContractData r.2).bind fun s1 =>
        (T.PrintContractDataAfterExecution s1).bind fun s2 =>
        .returned (none, s2.Println "Successfully completed contract execution process.") := by
  have hc : utils.Contains (funcNames c.contractType "query") c.funcName = false := by
    cases h : utils.Contains (funcNames c.contractType "query") c.funcName
    · rfl
    · exact absurd ((utils.Contains_iff _ _).1 h) hq
  have hd := (utils.Contains_iff _ _).2 hw
  simp only [funcNames] at hc hd
  simp only [ExecuteContract, hc, hd, if_true, if_false, Bool.false_eq_true, hT,
    Contract.WriteContract, deref, Run.bind]
  generalize T.WriteContract c.auth c.funcName c.funcArguments
      (s.Println "Starting contract executor process.") = res
  rcases res with ⟨e, s1⟩ | p
  · cases e with
    | some err => rfl
    | none =>
      dsimp only
      generalize T.PrintLoadedContractData s1 = res1
      rcases res1 with s2 | p
      · dsimp only
        generalize T.PrintContractDataAfterExecution s2 = res2
        rcases res2 with s3 | p
        · rfl
        · rfl
      · rfl
  · rfl

theorem ExecuteContract_neither (X : Externals ιd ιf W Auth CallOpts Backend Tx E)
    (c : contractExecutorFacade UserAccount EthRpcClient BlockChainState Auth)
    (s : Sys (Templates ιd ιf Tx) W)
    (hq : c.funcName ∉ funcNames c.contractType "query")
    (hw : c.funcName ∉ funcNames c.contractType "write") :
    ExecuteContract X c s =
      .returned (none, (s.Println "Starting contract executor process.").Println
        "Successfully completed contract execution process.") := by
  have hc : utils.Contains (funcNames c.contractType "query") c.funcName = false := by
    cases h : utils.Contains (funcNames c.contractType "query") c.funcName
    · rfl
    · exact absurd ((utils.Contains_iff _ _).1 h) hq
  have hd : utils.Contains (funcNames c.contractType "write") c.funcName = false := by
    cases h : utils.Contains (funcNames c.contractType "write") c.funcName
    · rfl
    · exact absurd ((utils.Contains_iff _ _).1 h) hw
  simp only [funcNames] at hc hd
  simp only [ExecuteContract, hc, hd, if_false, Bool.false_eq_true]

theorem write_not_query (k n : String) (hw : n ∈ funcNames k "write") :
    n ∉ funcNames k "query" := by
  rcases constants.lookup_funcNames k with ⟨_, h0⟩ | ⟨_, hq, hw1, _⟩ | ⟨_, hq, hw1, _⟩
  · rw [h0] at hw; cases hw
  · rw [hq]; rw [hw1] at hw
    simp only [baseERC20Queries, baseERC20Writes, List.mem_cons, List.mem_append,
      List.mem_singleton, List.not_mem_nil, or_false] at hw ⊢
    rcases hw with (rfl | rfl | rfl | rfl | rfl) | rfl | rfl <;> simp
  · rw [hq]; rw [hw1] at hw
    simp only [baseERC20Queries, baseERC20Writes, List.mem_cons, List.mem_append,
      List.mem_singleton, List.not_mem_nil, or_false] at hw ⊢
    rcases hw with rfl | rfl | rfl | rfl | rfl <;> simp

end contract_interactor_facade

section

open constants contracts_template_interface contract_interactor_facade

/-- C14. For a registered contract kind, whose template object is `T`, which is
the DetailedTestToken or the FastTestToken object of the dictionary:
ExecuteContract prints its first line and then, if the function name is in
the query list of the kind, runs QueryContract of `T` with the function name
and the arguments, and nothing of `T` besides its two print methods after a
nil result; if the name is in the write list, it runs WriteContract of `T`
with the auth, the name and the arguments in the same way; an error of that
call is returned as it is, with the state the call left; if the name is in
neither list, no method of `T` runs and nil is returned. -/
theorem execute_contract_routes_on_the_function_name
    {UserAccount EthRpcClient BlockChainState : Type}
    (X : Externals ιd ιf W Auth CallOpts Backend Tx E)
    (c : contractExecutorFacade UserAccount EthRpcClient BlockChainState Auth)
    (s : Sys (Templates ιd ιf Tx) W)
    (T : IContract (Sys (Templates ιd ιf Tx) W) Auth Backend E)
    (hT : (ContractNamesDict X).lookup c.contractType = some T) :
    ((c.contractType = "detailed_test_token" ∧ T = detailedObject X) ∨
      (c.contractType = "fast_test_token" ∧ T = fastObject X)) ∧
    (c.funcName ∈ funcNames c.contractType "query" →
      ExecuteContract X c s =
        ((T.QueryContract c.funcName c.funcArguments
          (s.Println "Starting contract executor process.")).bind fun r =>
        match r.1 with
        | some err => .returned (some err, r.2)
        | none =>
          (T.PrintLoadedContractData r.2).bind fun s1 =>
          (T.PrintContractDataAfterExecution s1).bind fun s2 =>
          .returned (none, s2.Println "Successfully completed contract execution process.")) ∧
      ∀ e s1, T.QueryContract c.funcName c.funcArguments
          (s.Println "Starting contract executor process.") = .returned (some e, s1) →
        ExecuteContract X c s = .returned (some e, s1)) ∧
    (c.funcName ∈ funcNames c.contractType "write" →
      c.funcName ∉ funcNames c.contractType "query" ∧
      ExecuteContract X c s =
        ((T.WriteContract c.auth c.funcName c.funcArguments
          (s.Println "Starting contract executor process.")).bind fun r =>
        match r.1 with
        | some err => .returned (some err, r.2)
        | none =>
          (T.PrintLoadedContractData r.2).bind fun s1 =>
          (T.PrintContractDataAfterExecution s1).bind fun s2 =>
          .returned (none, s2.Println "Successfully completed contract execution process.")) ∧
      ∀ e s1, T.WriteContract c.auth c.funcName c.funcArguments
          (s.Println "Starting contract executor process.") = .returned (some e, s1) →
        ExecuteContract X c s = .returned (some e, s1)) ∧
    (c.funcName ∉ funcNames c.contractType "query" →
      c.funcName ∉ funcNames c.contractType "write" →
      ExecuteContract X c s =
        .returned (none, (s.Println "Starting contract executor process.").Println
          "Successfully completed contract execution process.")) := by
  refine ⟨?_, ?_, ?_, ?_⟩
  · by_cases h1 : c.contractType = "detailed_test_token"
    · left
      refine ⟨h1, ?_⟩
      simp only [ContractNamesDict, GoMap.lookup, h1, if_true, Option.some.injEq] at hT
      exact hT.symm
    · by_cases h2 : c.contractType = "fast_test_token"
      · right
        refine ⟨h2, ?_⟩
        simp only [ContractNamesDict, GoMap.lookup, h2, String.reduceEq, if_false, if_true,
          Option.some.injEq] at hT
        exact hT.symm
      · simp [ContractNamesDict, GoMap.lookup, h1, h2] at hT
  · intro hq
    have h := ExecuteContract_query X c s T hT hq
    refine ⟨h, fun e s1 he => ?_⟩
    rw [h, he]
    rfl
  · intro hw
    have hq := write_not_query c.contractType c.funcName hw
    have h := ExecuteContract_write X c s T hT hq hw
    refine ⟨hq, h, fun e s1 he => ?_⟩
    rw [h, he]
    rfl
  · intro hq hw
    exact ExecuteContract_neither X c s hq hw

theorem execute_contract_routes_on_the_function_name_witness :
    (ContractNamesDict testExternals).lookup
      (testFacade "fast_test_token" "mint" ["0x01", "5"]).contractType =
        some (fastObject testExternals) ∧
    (testFacade "fast_test_token" "mint" ["0x01", "5"]).funcName ∉
      funcNames "fast_test_token" "query" ∧
    (testFacade "fast_test_token" "mint" ["0x01", "5"]).funcName ∉
      funcNames "fast_test_token" "write" ∧
    ExecuteContract testExternals (testFacade "fast_test_token" "mint" ["0x01", "5"]) testSys =
      .returned (none, (testSys.Println "Starting contract executor process.").Println
        "Successfully completed contract execution process.") := by
  have hq : (testFacade "fast_test_token" "mint" ["0x01", "5"]).funcName ∉
      funcNames "fast_test_token" "query" := by decide
  have hw : (testFacade "fast_test_token" "mint" ["0x01", "5"]).funcName ∉
      funcNames "fast_test_token" "write" := by decide
  exact ⟨rfl, hq, hw, (execute_contract_routes_on_the_function_name testExternals
    (testFacade "fast_test_token" "mint" ["0x01", "5"]) testSys (fastObject testExternals)
    rfl).2.2.2 hq hw⟩

/-- C15, the claim as stated fails. The kind "nope" is not registered, and
ExecuteContract for it returns nil: it prints its two lines and touches
neither the template objects nor the world. -/
theorem execute_contract_returns_nil_for_an_unregistered_kind :
    VerifyContractTypeExists testExternals "nope" = false ∧
    ExecuteContract testExternals (testFacade "nope" "name" []) testSys =
      .returned (none, { testSys with stdout := "Starting contract executor process.\n"
        ++ "Successfully completed contract execution process.\n" }) := by
  refine ⟨by simp [VerifyContractTypeExists, ContractNamesDict, GoMap.lookup], ?_⟩
  rw [ExecuteContract_neither testExternals (testFacade "nope" "name" []) testSys
    (by decide) (by decide)]
  rfl

/-- C15, amended. For a contract kind that is not registered in
ContractNamesDict, VerifyContractTypeExists answers false and
VerifyFunctionNameExists answers false for every function name, and
ExecuteContract does not fail: for every function name and argument list it
returns nil, having printed its two lines and run no method of a template,
so the template objects and the world are as before. -/
theorem unregistered_kind_fails_the_checks_and_executes_to_nil
    {UserAccount EthRpcClient BlockChainState : Type}
    (X : Externals ιd ιf W Auth CallOpts Backend Tx E)
    (c : contractExecutorFacade UserAccount EthRpcClient BlockChainState Auth)
    (s : Sys (Templates ιd ιf Tx) W)
    (h : (ContractNamesDict X).lookup c.contractType = none) :
    VerifyContractTypeExists X c.contractType = false ∧
    (∀ f, VerifyFunctionNameExists c.contractType f = false) ∧
    ExecuteContract X c s =
      .returned (none, { s with stdout := s.stdout ++ "Starting contract executor process."
        ++ "\n" ++ "Successfully completed contract execution process." ++ "\n" }) := by
  have hv : VerifyContractTypeExists X c.contractType = false := by
    simp [VerifyContractTypeExists, h]
  have hk : ¬ (c.contractType = "detailed_test_token" ∨ c.contractType = "fast_test_token") := by
    intro hc
    have := (constants.dict_lookup X c.contractType).2 hc
    rw [h] at this
    cases this
  have h0 : ∀ kind, funcNames c.contractType kind = [] := by
    rcases constants.lookup_funcNames c.contractType with ⟨_, h0⟩ | ⟨hd, _⟩ | ⟨hf, _⟩
    · exact h0
    · exact absurd (Or.inl hd) hk
    · exact absurd (Or.inr hf) hk
  refine ⟨hv, fun f => ?_, ?_⟩
  · cases hf : VerifyFunctionNameExists c.contractType f
    · rfl
    · have := (constants.VerifyFunctionNameExists_iff _ _).1 hf
      rw [h0] at this
      cases this
  · rw [ExecuteContract_neither X c s (by rw [h0]; simp) (by rw [h0]; simp)]
    rfl

theorem unregistered_kind_fails_the_checks_and_executes_to_nil_witness :
    (ContractNamesDict testExternals).lookup (testFacade "nope" "transfer" ["a"]).contractType =
      none ∧
    VerifyFunctionNameExists "nope" "transfer" = false ∧
    ExecuteContract testExternals (testFacade "nope" "transfer" ["a"]) testSys =
      .returned (none, { testSys with stdout := testSys.stdout
        ++ "Starting contract executor process." ++ "\n"
        ++ "Successfully completed contract execution process." ++ "\n" }) :=
  ⟨rfl, ((unregistered_kind_fails_the_checks_and_executes_to_nil testExternals
      (testFacade "nope" "transfer" ["a"]) testSys rfl).2.1 "transfer"),
    (unregistered_kind_fails_the_checks_and_executes_to_nil testExternals
      (testFacade "nope" "transfer" ["a"]) testSys rfl).2.2⟩

end

/-! ## Panics and returns of the two templates -/

namespace detailed_test_token

theorem dtt_QueryContract_nil_instance (keccak256 : List UInt8 → List UInt8)
    (I : IInstance ι W Auth CallOpts Tx E) (d : DetailedTestTokenContract ι Tx) (funcName : String)
    (funcArgs : List String) (w : W) (c : Call Auth CallOpts)
    (hi : d.Instance = none) (hc : queryCall funcName funcArgs = some c) :
    QueryContract keccak256 I d funcName funcArgs w =
      .panicked "invalid memory address or nil pointer dereference" := by
  unfold queryCall at hc
  split_ifs at hc with h1 h2 h3 h4 h5 h6 <;> split at hc <;> cases hc <;> subst_vars <;>
    simp only [QueryContract, String.reduceEq, if_false, if_true, utils.ValidateLength_nil,
      utils.ValidateLength_one, utils.ValidateLength_two] <;>
    (try simp only [index, List.getElem?_cons_zero, List.getElem?_cons_succ]) <;>
    dsimp only [deref, Run.bind] <;>
    rw [hi]

theorem dtt_WriteContract_nil_instance (keccak256 : List UInt8 → List UInt8)
    (I : IInstance ι W Auth CallOpts Tx E) (d : DetailedTestTokenContract ι Tx) (auth : Auth)
    (funcName : String) (funcArgs : List String) (w : W) (c : Call Auth CallOpts)
    (hi : d.Instance = none) (hc : writeCall auth funcName funcArgs = some c) :
    WriteContract keccak256 I d auth funcName funcArgs w =
      .panicked "invalid memory address or nil pointer dereference" := by
  unfold writeCall at hc
  split_ifs at hc <;> split at hc <;> cases hc <;> subst_vars <;>
    simp only [WriteContract, String.reduceEq, if_false, if_true,
      utils.ValidateLength_two, utils.ValidateLength_three] <;>
    (try simp only [index, List.getElem?_cons_zero, List.getElem?_cons_succ]) <;>
    dsimp only [deref, Run.bind] <;>
    rw [hi]

theorem dtt_QueryContract_bound (keccak256 : List UInt8 → List UInt8)
    (I : IInstance ι W Auth CallOpts Tx E) (d : DetailedTestTokenContract ι Tx) (funcName : String)
    (funcArgs : List String) (w : W) (inst : ι) (c : Call Auth CallOpts)
    (hi : d.Instance = some inst) (hc : queryCall funcName funcArgs = some c) :
    (∃ r, QueryContract keccak256 I d funcName funcArgs w = .returned r ∧
      r.world = (I.invoke inst c w).2 ∧ r.err = (I.invoke inst c w).1.2) ∨
    QueryContract keccak256 I d funcName funcArgs w =
      .panicked "assignment to entry in nil map" := by
  rcases he : (I.invoke inst c w).1.2 with _ | e
  · revert he
    unfold queryCall at hc
    split_ifs at hc with h1 h2 h3 h4 h5 h6 <;> split at hc <;> cases hc <;> subst_vars <;>
      intro he <;>
      simp only [IInstance.invoke] at he ⊢ <;>
      simp only [QueryContract, String.reduceEq, if_false, if_true, utils.ValidateLength_nil,
        utils.ValidateLength_one, utils.ValidateLength_two] <;>
      (try simp only [index, List.getElem?_cons_zero, List.getElem?_cons_succ]) <;>
      dsimp only [deref, Run.bind] <;>
      rw [hi] <;> dsimp only <;> rw [he] <;> dsimp only
    · exact Or.inl ⟨_, rfl, rfl, rfl⟩
    · exact Or.inl ⟨_, rfl, rfl, rfl⟩
    · exact Or.inl ⟨_, rfl, rfl, rfl⟩
    · exact Or.inl ⟨_, rfl, rfl, rfl⟩
    · rcases d.BalanceOf with _ | f
      · exact Or.inr rfl
      · exact Or.inl ⟨_, rfl, rfl, rfl⟩
    · rename_i fa oh sh
      rcases d.Allowance with _ | g
      · exact Or.inr rfl
      · dsimp only [GoMap.lookup]
        rcases hg : g (common.HexToAddress oh) with _ | (_ | h)
        · dsimp only [GoMap.assign, GoMap.empty, GoMap.assignNested, GoMap.lookup, Run.bind]
          simp only [Function.update_same, Option.getD_some]
          exact Or.inl ⟨_, rfl, rfl, rfl⟩
        · dsimp only [GoMap.assign, GoMap.empty, GoMap.assignNested, GoMap.lookup, Run.bind]
          simp only [hg, Option.getD_some]
          exact Or.inr trivial
        · dsimp only [GoMap.assign, GoMap.empty, GoMap.assignNested, GoMap.lookup, Run.bind]
          simp only [hg, Option.getD_some]
          exact Or.inl ⟨_, rfl, rfl, rfl⟩
  · exact Or.inl ⟨_, dtt_QueryContract_err keccak256 I d funcName funcArgs w inst c e hi hc he,
      rfl, rfl⟩

theorem dtt_QueryContract_returns (keccak256 : List UInt8 → List UInt8)
    (I : IInstance ι W Auth CallOpts Tx E) (d : DetailedTestTokenContract ι Tx) (funcName : String)
    (funcArgs : List String) (w : W) (hL : Loaded d) :
    ∃ r, QueryContract keccak256 I d funcName funcArgs w = .returned r := by
  obtain ⟨inst, hi⟩ : ∃ inst, d.Instance = some inst := Option.ne_none_iff_exists'.1 hL.1
  by_cases hq : funcName ∈ ["name", "symbol", "decimals", "totalsupply", "balanceof", "allowance"]
  · obtain ⟨m, hm⟩ := dtt_queryArity_of_mem funcName hq
    by_cases hn : funcArgs.length = m
    · obtain ⟨c, hc⟩ : ∃ c : Call Auth CallOpts, queryCall funcName funcArgs = some c :=
        dtt_queryCall_of_arity funcName funcArgs m hm hn
      rcases he : (I.invoke inst c w).1.2 with _ | e
      · obtain ⟨r1, h1, -⟩ :=
          dtt_QueryContract_ok_Loaded keccak256 I d funcName funcArgs w inst c hL hi hc he
        exact ⟨r1, h1⟩
      · exact ⟨_, dtt_QueryContract_err keccak256 I d funcName funcArgs w inst c e hi hc he⟩
    · exact ⟨_, dtt_QueryContract_wrong_arity keccak256 I d funcName funcArgs w m hm hn⟩
  · exact ⟨_, dtt_QueryContract_unknown keccak256 I d funcName funcArgs w hq⟩

theorem dtt_QueryContract_Loaded_world (keccak256 : List UInt8 → List UInt8)
    (I : IInstance ι W Auth CallOpts Tx E) (d : DetailedTestTokenContract ι Tx) (funcName : String)
    (funcArgs : List String) (w : W) (inst : ι) (c : Call Auth CallOpts) (hL : Loaded d)
    (hi : d.Instance = some inst) (hc : queryCall funcName funcArgs = some c) :
    ∃ r, QueryContract keccak256 I d funcName funcArgs w = .returned r ∧
      r.world = (I.invoke inst c w).2 ∧ r.err = (I.invoke inst c w).1.2 := by
  rcases dtt_QueryContract_bound keccak256 I d funcName funcArgs w inst c hi hc with h | h
  · exact h
  · obtain ⟨r, hr⟩ := dtt_QueryContract_returns keccak256 I d funcName funcArgs w hL
    rw [hr] at h
    cases h

theorem dtt_QueryContract_panics (keccak256 : List UInt8 → List UInt8)
    (I : IInstance ι W Auth CallOpts Tx E) (d : DetailedTestTokenContract ι Tx) (funcName : String)
    (funcArgs : List String) (w : W) (p : String)
    (h : QueryContract keccak256 I d funcName funcArgs w = .panicked p) :
    (d.Instance = none ∧ p = "invalid memory address or nil pointer dereference") ∨
    (d.Instance ≠ none ∧ ¬ Loaded d ∧ p = "assignment to entry in nil map") := by
  by_cases hq : funcName ∈ ["name", "symbol", "decimals", "totalsupply", "balanceof", "allowance"]
  · obtain ⟨m, hm⟩ := dtt_queryArity_of_mem funcName hq
    by_cases hn : funcArgs.length = m
    · obtain ⟨c, hc⟩ : ∃ c : Call Auth CallOpts, queryCall funcName funcArgs = some c :=
        dtt_queryCall_of_arity funcName funcArgs m hm hn
      rcases hi : d.Instance with _ | inst
      · rw [dtt_QueryContract_nil_instance keccak256 I d funcName funcArgs w c hi hc] at h
        cases h
        exact Or.inl ⟨rfl, rfl⟩
      · rcases dtt_QueryContract_bound keccak256 I d funcName funcArgs w inst c hi hc with
          ⟨r, hr, -⟩ | hp
        · rw [hr] at h
          cases h
        · right
          refine ⟨by simp, fun hL => ?_, ?_⟩
          · obtain ⟨r, hr⟩ := dtt_QueryContract_returns keccak256 I d funcName funcArgs w hL
            rw [hr] at h
            cases h
          · rw [hp] at h
            cases h
            rfl
    · rw [dtt_QueryContract_wrong_arity keccak256 I d funcName funcArgs w m hm hn] at h
      cases h
  · rw [dtt_QueryContract_unknown keccak256 I d funcName funcArgs w hq] at h
    cases h

theorem dtt_WriteContract_returns (keccak256 : List UInt8 → List UInt8)
    (I : IInstance ι W Auth CallOpts Tx E) (d : DetailedTestTokenContract ι Tx) (auth : Auth)
    (funcName : String) (funcArgs : List String) (w : W) (hi : d.Instance ≠ none) :
    ∃ r, WriteContract keccak256 I d auth funcName funcArgs w = .returned r := by
  obtain ⟨inst, hi⟩ : ∃ inst, d.Instance = some inst := Option.ne_none_iff_exists'.1 hi
  by_cases hq : funcName ∈ ["transfer", "approve", "transferfrom", "increaseallowance",
      "decreaseallowance", "mint", "burn"]
  · obtain ⟨m, hm⟩ := dtt_writeArity_of_mem funcName hq
    by_cases hn : funcArgs.length = m
    · obtain ⟨c, hc⟩ : ∃ c : Call Auth CallOpts, writeCall auth funcName funcArgs = some c :=
        dtt_writeCall_of_arity auth funcName funcArgs m hm hn
      obtain ⟨r, hr, -⟩ :=
        dtt_WriteContract_world keccak256 I d auth funcName funcArgs w inst c hi hc
      exact ⟨r, hr⟩
    · exact ⟨_, dtt_WriteContract_wrong_arity keccak256 I d auth funcName funcArgs w m hm hn⟩
  · exact ⟨_, dtt_WriteContract_unknown keccak256 I d auth funcName funcArgs w hq⟩

theorem dtt_WriteContract_panics (keccak256 : List UInt8 → List UInt8)
    (I : IInstance ι W Auth CallOpts Tx E) (d : DetailedTestTokenContract ι Tx) (auth : Auth)
    (funcName : String) (funcArgs : List String) (w : W) (p : String)
    (h : WriteContract keccak256 I d auth funcName funcArgs w = .panicked p) :
    d.Instance = none ∧ p = "invalid memory address or nil pointer dereference" := by
  rcases hi : d.Instance with _ | inst
  · by_cases hq : funcName ∈ ["transfer", "approve", "transferfrom", "increaseallowance",
      "decreaseallowance", "mint", "burn"]
    · obtain ⟨m, hm⟩ := dtt_writeArity_of_mem funcName hq
      by_cases hn : funcArgs.length = m
      · obtain ⟨c, hc⟩ : ∃ c : Call Auth CallOpts, writeCall auth funcName funcArgs = some c :=
          dtt_writeCall_of_arity auth funcName funcArgs m hm hn
        rw [dtt_WriteContract_nil_instance keccak256 I d auth funcName funcArgs w c hi hc] at h
        cases h
        exact ⟨rfl, rfl⟩
      · rw [dtt_WriteContract_wrong_arity keccak256 I d auth funcName funcArgs w m hm hn] at h
        cases h
    · rw [dtt_WriteContract_unknown keccak256 I d auth funcName funcArgs w hq] at h
      cases h
  · obtain ⟨r, hr⟩ := dtt_WriteContract_returns keccak256 I d auth funcName funcArgs w
      (by rw [hi]; simp)
    rw [hr] at h
    cases h

end detailed_test_token

namespace fast_test_token

theorem ftt_QueryContract_nil_instance (keccak256 : List UInt8 → List UInt8)
    (I : IInstance ι W Auth CallOpts Tx E) (d : FastTestTokenContract ι Tx) (funcName : String)
    (funcArgs : List String) (w : W) (c : Call Auth CallOpts)
    (hi : d.Instance = none) (hc : queryCall funcName funcArgs = some c) :
    QueryContract keccak256 I d funcName funcArgs w =
      .panicked "invalid memory address or nil pointer dereference" := by
  unfold queryCall at hc
  split_ifs at hc with h1 h2 h3 h4 h5 h6 <;> split at hc <;> cases hc <;> subst_vars <;>
    simp only [QueryContract, String.reduceEq, if_false, if_true, utils.ValidateLength_nil,
      utils.ValidateLength_one, utils.ValidateLength_two] <;>
    (try simp only [index, List.getElem?_cons_zero, List.getElem?_cons_succ]) <;>
    dsimp only [deref, Run.bind] <;>
    rw [hi]

theorem ftt_WriteContract_nil_instance (keccak256 : List UInt8 → List UInt8)
    (I : IInstance ι W Auth CallOpts Tx E) (d : FastTestTokenContract ι Tx) (auth : Auth)
    (funcName : String) (funcArgs : List String) (w : W) (c : Call Auth CallOpts)
    (hi : d.Instance = none) (hc : writeCall auth funcName funcArgs = some c) :
    WriteContract keccak256 I d auth funcName funcArgs w =
      .panicked "invalid memory address or nil pointer dereference" := by
  unfold writeCall at hc
  split_ifs at hc <;> split at hc <;> cases hc <;> subst_vars <;>
    simp only [WriteContract, String.reduceEq, if_false, if_true,
      utils.ValidateLength_two, utils.ValidateLength_three] <;>
    (try simp only [index, List.getElem?_cons_zero, List.getElem?_cons_succ]) <;>
    dsimp only [deref, Run.bind] <;>
    rw [hi]

theorem ftt_QueryContract_bound (keccak256 : List UInt8 → List UInt8)
    (I : IInstance ι W Auth CallOpts Tx E) (d : FastTestTokenContract ι Tx) (funcName : String)
    (funcArgs : List String) (w : W) (inst : ι) (c : Call Auth CallOpts)
    (hi : d.Instance = some inst) (hc : queryCall funcName funcArgs = some c) :
    (∃ r, QueryContract keccak256 I d funcName funcArgs w = .returned r ∧
      r.world = (I.invoke inst c w).2 ∧ r.err = (I.invoke inst c w).1.2) ∨
    QueryContract keccak256 I d funcName funcArgs w =
      .panicked "assignment to entry in nil map" := by
  rcases he : (I.invoke inst c w).1.2 with _ | e
  · revert he
    unfold queryCall at hc
    split_ifs at hc with h1 h2 h3 h4 h5 h6 <;> split at hc <;> cases hc <;> subst_vars <;>
      intro he <;>
      simp only [IInstance.invoke] at he ⊢ <;>
      simp only [QueryContract, String.reduceEq, if_false, if_true, utils.ValidateLength_nil,
        utils.ValidateLength_one, utils.ValidateLength_two] <;>
      (try simp only [index, List.getElem?_cons_zero, List.getElem?_cons_succ]) <;>
      dsimp only [deref, Run.bind] <;>
      rw [hi] <;> dsimp only <;> rw [he] <;> dsimp only
    · exact Or.inl ⟨_, rfl, rfl, rfl⟩
    · exact Or.inl ⟨_, rfl, rfl, rfl⟩
    · exact Or.inl ⟨_, rfl, rfl, rfl⟩
    · exact Or.inl ⟨_, rfl, rfl, rfl⟩
    · rcases d.BalanceOf with _ | f
      · exact Or.inr rfl
      · exact Or.inl ⟨_, rfl, rfl, rfl⟩
    · rename_i fa oh sh
      rcases d.Allowance with _ | g
      · exact Or.inr rfl
      · dsimp only [GoMap.lookup]
        rcases hg : g (common.HexToAddress oh) with _ | (_ | h)
        · dsimp only [GoMap.assign, GoMap.empty, GoMap.assignNested, GoMap.lookup, Run.bind]
          simp only [Function.update_same, Option.getD_some]
          exact Or.inl ⟨_, rfl, rfl, rfl⟩
        · dsimp only [GoMap.assign, GoMap.empty, GoMap.assignNested, GoMap.lookup, Run.bind]
          simp only [hg, Option.getD_some]
          exact Or.inr trivial
        · dsimp only [GoMap.assign, GoMap.empty, GoMap.assignNested, GoMap.lookup, Run.bind]
          simp only [hg, Option.getD_some]
          exact Or.inl ⟨_, rfl, rfl, rfl⟩
  · exact Or.inl ⟨_, ftt_QueryContract_err keccak256 I d funcName funcArgs w inst c e hi hc he,
      rfl, rfl⟩

theorem ftt_QueryContract_returns (keccak256 : List UInt8 → List UInt8)
    (I : IInstance ι W Auth CallOpts Tx E) (d : FastTestTokenContract ι Tx) (funcName : String)
    (funcArgs : List String) (w : W) (hL : Loaded d) :
    ∃ r, QueryContract keccak256 I d funcName funcArgs w = .returned r := by
  obtain ⟨inst, hi⟩ : ∃ inst, d.Instance = some inst := Option.ne_none_iff_exists'.1 hL.1
  by_cases hq : funcName ∈ ["name", "symbol", "decimals", "totalsupply", "balanceof", "allowance"]
  · obtain ⟨m, hm⟩ := ftt_queryArity_of_mem funcName hq
    by_cases hn : funcArgs.length = m
    · obtain ⟨c, hc⟩ : ∃ c : Call Auth CallOpts, queryCall funcName funcArgs = some c :=
        ftt_queryCall_of_arity funcName funcArgs m hm hn
      rcases he : (I.invoke inst c w).1.2 with _ | e
      · obtain ⟨r1, h1, -⟩ :=
          ftt_QueryContract_ok_Loaded keccak256 I d funcName funcArgs w inst c hL hi hc he
        exact ⟨r1, h1⟩
      · exact ⟨_, ftt_QueryContract_err keccak256 I d funcName funcArgs w inst c e hi hc he⟩
    · exact ⟨_, ftt_QueryContract_wrong_arity keccak256 I d funcName funcArgs w m hm hn⟩
  · exact ⟨_, ftt_QueryContract_unknown keccak256 I d funcName funcArgs w hq⟩

theorem ftt_QueryContract_Loaded_world (keccak256 : List UInt8 → List UInt8)
    (I : IInstance ι W Auth CallOpts Tx E) (d : FastTestTokenContract ι Tx) (funcName : String)
    (funcArgs : List String) (w : W) (inst : ι) (c : Call Auth CallOpts) (hL : Loaded d)
    (hi : d.Instance = some inst) (hc : queryCall funcName funcArgs = some c) :
    ∃ r, QueryContract keccak256 I d funcName funcArgs w = .returned r ∧
      r.world = (I.invoke inst c w).2 ∧ r.err = (I.invoke inst c w).1.2 := by
  rcases ftt_QueryContract_bound keccak256 I d funcName funcArgs w inst c hi hc with h | h
  · exact h
  · obtain ⟨r, hr⟩ := ftt_QueryContract_returns keccak256 I d funcName funcArgs w hL
    rw [hr] at h
    cases h

theorem ftt_QueryContract_panics (keccak256 : List UInt8 → List UInt8)
    (I : IInstance ι W Auth CallOpts Tx E) (d : FastTestTokenContract ι Tx) (funcName : String)
    (funcArgs : List String) (w : W) (p : String)
    (h : QueryContract keccak256 I d funcName funcArgs w = .panicked p) :
    (d.Instance = none ∧ p = "invalid memory address or nil pointer dereference") ∨
    (d.Instance ≠ none ∧ ¬ Loaded d ∧ p = "assignment to entry in nil map") := by
  by_cases hq : funcName ∈ ["name", "symbol", "decimals", "totalsupply", "balanceof", "allowance"]
  · obtain ⟨m, hm⟩ := ftt_queryArity_of_mem funcName hq
    by_cases hn : funcArgs.length = m
    · obtain ⟨c, hc⟩ : ∃ c : Call Auth CallOpts, queryCall funcName funcArgs = some c :=
        ftt_queryCall_of_arity funcName funcArgs m hm hn
      rcases hi : d.Instance with _ | inst
      · rw [ftt_QueryContract_nil_instance keccak256 I d funcName funcArgs w c hi hc] at h
        cases h
        exact Or.inl ⟨rfl, rfl⟩
      · rcases ftt_QueryContract_bound keccak256 I d funcName funcArgs w inst c hi hc with
          ⟨r, hr, -⟩ | hp
        · rw [hr] at h
          cases h
        · right
          refine ⟨by simp, fun hL => ?_, ?_⟩
          · obtain ⟨r, hr⟩ := ftt_QueryContract_returns keccak256 I d funcName funcArgs w hL
            rw [hr] at h
            cases h
          · rw [hp] at h
            cases h
            rfl
    · rw [ftt_QueryContract_wrong_arity keccak256 I d funcName funcArgs w m hm hn] at h
      cases h
  · rw [ftt_QueryContract_unknown keccak256 I d funcName funcArgs w hq] at h
    cases h

theorem ftt_WriteContract_returns (keccak256 : List UInt8 → List UInt8)
    (I : IInstance ι W Auth CallOpts Tx E) (d : FastTestTokenContract ι Tx) (auth : Auth)
    (funcName : String) (funcArgs : List String) (w : W) (hi : d.Instance ≠ none) :
    ∃ r, WriteContract keccak256 I d auth funcName funcArgs w = .returned r := by
  obtain ⟨inst, hi⟩ : ∃ inst, d.Instance = some inst := Option.ne_none_iff_exists'.1 hi
  by_cases hq : funcName ∈ ["transfer", "approve", "transferfrom", "increaseallowance",
      "decreaseallowance"]
  · obtain ⟨m, hm⟩ := ftt_writeArity_of_mem funcName hq
    by_cases hn : funcArgs.length = m
    · obtain ⟨c, hc⟩ : ∃ c : Call Auth CallOpts, writeCall auth funcName funcArgs = some c :=
        ftt_writeCall_of_arity auth funcName funcArgs m hm hn
      obtain ⟨r, hr, -⟩ :=
        ftt_WriteContract_world keccak256 I d auth funcName funcArgs w inst c hi hc
      exact ⟨r, hr⟩
    · exact ⟨_, ftt_WriteContract_wrong_arity keccak256 I d auth funcName funcArgs w m hm hn⟩
  · exact ⟨_, ftt_WriteContract_unknown keccak256 I d auth funcName funcArgs w hq⟩

theorem ftt_WriteContract_panics (keccak256 : List UInt8 → List UInt8)
    (I : IInstance ι W Auth CallOpts Tx E) (d : FastTestTokenContract ι Tx) (auth : Auth)
    (funcName : String) (funcArgs : List String) (w : W) (p : String)
    (h : WriteContract keccak256 I d auth funcName funcArgs w = .panicked p) :
    d.Instance = none ∧ p = "invalid memory address or nil pointer dereference" := by
  rcases hi : d.Instance with _ | inst
  · by_cases hq : funcName ∈ ["transfer", "approve", "transferfrom", "increaseallowance",
      "decreaseallowance"]
    · obtain ⟨m, hm⟩ := ftt_writeArity_of_mem funcName hq
      by_cases hn : funcArgs.length = m
      · obtain ⟨c, hc⟩ : ∃ c : Call Auth CallOpts, writeCall auth funcName funcArgs = some c :=
          ftt_writeCall_of_arity auth funcName funcArgs m hm hn
        rw [ftt_WriteContract_nil_instance keccak256 I d auth funcName funcArgs w c hi hc] at h
        cases h
        exact ⟨rfl, rfl⟩
      · rw [ftt_WriteContract_wrong_arity keccak256 I d auth funcName funcArgs w m hm hn] at h
        cases h
    · rw [ftt_WriteContract_unknown keccak256 I d auth funcName funcArgs w hq] at h
      cases h
  · obtain ⟨r, hr⟩ := ftt_WriteContract_returns keccak256 I d auth funcName funcArgs w
      (by rw [hi]; simp)
    rw [hr] at h
    cases h

end fast_test_token

/-! ## The two templates side by side -/

namespace fast_test_token

theorem SameReport.report_append {a b : String} (h : SameReport a b) (q : String) :
    SameReport (a ++ q) (b ++ q) := by
  obtain ⟨pre, post, h1, h2⟩ := h
  exact ⟨pre, post ++ q, by rw [h1, String.append_assoc], by rw [h2, String.append_assoc]⟩

theorem SameReport.report_base (p l1 l2 m1 m2 : String)
    (h1 : l1 = m1 ++ "FastTestToken" ++ m2) (h2 : l2 = m1 ++ "DetailedTestToken" ++ m2) :
    SameReport (p ++ l1) (p ++ l2) :=
  ⟨p ++ m1, m2, by rw [h1]; simp only [String.append_assoc],
    by rw [h2]; simp only [String.append_assoc]⟩

theorem ftt_QueryContract_agrees (keccak256 : List UInt8 → List UInt8)
    (I : detailed_test_token.IInstance ι W Auth CallOpts Tx E)
    (f : FastTestTokenContract ι Tx) (d : detailed_test_token.DetailedTestTokenContract ι Tx)
    (funcName : String) (funcArgs : List String) (w : W) (hc : Corresponds f d) :
    Agree f d (QueryContract keccak256 I.toFast f funcName funcArgs w)
      (detailed_test_token.QueryContract keccak256 I d funcName funcArgs w) := by
  obtain ⟨h1, h2, h3, h4, h5, h6, h7, h8, h9⟩ := hc
  have hc : Corresponds f d := ⟨h1, h2, h3, h4, h5, h6, h7, h8, h9⟩
  unfold QueryContract detailed_test_token.QueryContract
  simp only [h5, h6, h7, h9, detailed_test_token.IInstance.toFast]
  dsimp only [Run.bind, index, deref]
  split_ifs <;> (repeat' split) <;>
    first
    | exact rfl
    | exact ⟨rfl, rfl, hc, Or.inl ⟨rfl, rfl⟩⟩
    | (refine ⟨rfl, rfl, ⟨?_, ?_, ?_, ?_, ?_, ?_, ?_, ?_, ?_⟩, Or.inr ?_⟩
       iterate 9 (first | rfl | assumption)
       repeat (apply SameReport.report_append)
       exact SameReport.report_base _ _ _ " for " " (" (by decide) (by decide))

theorem ftt_WriteContract_agrees (keccak256 : List UInt8 → List UInt8)
    (I : detailed_test_token.IInstance ι W Auth CallOpts Tx E)
    (f : FastTestTokenContract ι Tx) (d : detailed_test_token.DetailedTestTokenContract ι Tx)
    (auth : Auth) (funcName : String) (funcArgs : List String) (w : W) (hc : Corresponds f d)
    (hm : funcName ≠ "mint") (hb : funcName ≠ "burn") :
    Agree f d (WriteContract keccak256 I.toFast f auth funcName funcArgs w)
      (detailed_test_token.WriteContract keccak256 I d auth funcName funcArgs w) := by
  obtain ⟨h1, h2, h3, h4, h5, h6, h7, h8, h9⟩ := hc
  have hc : Corresponds f d := ⟨h1, h2, h3, h4, h5, h6, h7, h8, h9⟩
  unfold WriteContract detailed_test_token.WriteContract
  simp only [h7, h9, hm, hb, if_false, detailed_test_token.IInstance.toFast]
  dsimp only [Run.bind, index, deref]
  split_ifs <;> (repeat' split) <;>
    first
    | exact rfl
    | exact ⟨rfl, rfl, hc, Or.inl ⟨rfl, rfl⟩⟩
    | (refine ⟨rfl, rfl, ⟨?_, ?_, ?_, ?_, ?_, ?_, ?_, ?_, ?_⟩, Or.inr ?_⟩
       iterate 9 (first | rfl | assumption)
       repeat (apply SameReport.report_append)
       exact SameReport.report_base _ _ _ " tokens at " " (" (by decide) (by decide))

end fast_test_token

/-! ## The claims about the registry and the templates together -/

section

open constants contracts_template_interface contract_interactor_facade

theorem dtt_query_mem_iff (n : String) :
    n ∈ funcNames "detailed_test_token" "query" ↔ detailed_test_token.queryArity n ≠ none := by
  simp only [funcNames, ContractNamesToFuncNames, GoMap.read, GoMap.lookup, if_true,
    String.reduceEq, if_false, Option.getD_some, baseERC20Queries, baseERC20Writes,
    detailed_test_token.queryArity, List.mem_cons, List.mem_singleton, List.not_mem_nil,
    or_false, List.mem_append]
  constructor
  · rintro (rfl | rfl | rfl | rfl | rfl | rfl) <;> simp
  · intro h
    split_ifs at h with h1 h2 h3
    · tauto
    · tauto
    · tauto
    · exact absurd rfl h

theorem dtt_write_mem_iff (n : String) :
    n ∈ funcNames "detailed_test_token" "write" ↔ detailed_test_token.writeArity n ≠ none := by
  simp only [funcNames, ContractNamesToFuncNames, GoMap.read, GoMap.lookup, if_true,
    String.reduceEq, if_false, Option.getD_some, baseERC20Queries, baseERC20Writes,
    detailed_test_token.writeArity, List.mem_cons, List.mem_singleton, List.not_mem_nil,
    or_false, List.mem_append]
  constructor
  · rintro ((rfl | rfl | rfl | rfl | rfl) | rfl | rfl) <;> simp
  · intro h
    split_ifs at h with h1 h2
    · tauto
    · tauto
    · exact absurd rfl h

theorem ftt_query_mem_iff (n : String) :
    n ∈ funcNames "fast_test_token" "query" ↔ fast_test_token.queryArity n ≠ none := by
  simp only [funcNames, ContractNamesToFuncNames, GoMap.read, GoMap.lookup, if_true,
    String.reduceEq, if_false, Option.getD_some, baseERC20Queries, baseERC20Writes,
    fast_test_token.queryArity, List.mem_cons, List.mem_singleton, List.not_mem_nil,
    or_false, List.mem_append]
  constructor
  · rintro (rfl | rfl | rfl | rfl | rfl | rfl) <;> simp
  · intro h
    split_ifs at h with h1 h2 h3
    · tauto
    · tauto
    · tauto
    · exact absurd rfl h

theorem ftt_write_mem_iff (n : String) :
    n ∈ funcNames "fast_test_token" "write" ↔ fast_test_token.writeArity n ≠ none := by
  simp only [funcNames, ContractNamesToFuncNames, GoMap.read, GoMap.lookup, if_true,
    String.reduceEq, if_false, Option.getD_some, baseERC20Queries, baseERC20Writes,
    fast_test_token.writeArity, List.mem_cons, List.mem_singleton, List.not_mem_nil,
    or_false, List.mem_append]
  constructor
  · rintro (rfl | rfl | rfl | rfl | rfl) <;> simp
  · intro h
    split_ifs at h with h1 h2
    · tauto
    · tauto
    · exact absurd rfl h

end

theorem dtt_QueryContract_default_iff (keccak256 : List UInt8 → List UInt8)
    (I : detailed_test_token.IInstance ι W Auth CallOpts Tx E) (d : detailed_test_token.DetailedTestTokenContract ι Tx)
    (n : String) (w : W) :
    detailed_test_token.queryArity n = none ↔
      ∀ funcArgs, detailed_test_token.QueryContract keccak256 I d n funcArgs w = .returned ⟨none, d, w⟩ := by
  constructor
  · intro h funcArgs
    refine detailed_test_token.dtt_QueryContract_unknown keccak256 I d n funcArgs w (fun hq => ?_)
    obtain ⟨m, hm⟩ := detailed_test_token.dtt_queryArity_of_mem n hq
    rw [h] at hm
    cases hm
  · intro h
    rcases hq : detailed_test_token.queryArity n with _ | m
    · rfl
    · have h1 := h (List.replicate (m + 1) "")
      rw [detailed_test_token.dtt_QueryContract_wrong_arity keccak256 I d n _ w m hq (by simp)] at h1
      cases h1

theorem dtt_WriteContract_default_iff (keccak256 : List UInt8 → List UInt8)
    (I : detailed_test_token.IInstance ι W Auth CallOpts Tx E) (d : detailed_test_token.DetailedTestTokenContract ι Tx) (auth : Auth)
    (n : String) (w : W) :
    detailed_test_token.writeArity n = none ↔
      ∀ funcArgs, detailed_test_token.WriteContract keccak256 I d auth n funcArgs w = .returned ⟨none, d, w⟩ := by
  constructor
  · intro h funcArgs
    refine detailed_test_token.dtt_WriteContract_unknown keccak256 I d auth n funcArgs w (fun hq => ?_)
    obtain ⟨m, hm⟩ := detailed_test_token.dtt_writeArity_of_mem n hq
    rw [h] at hm
    cases hm
  · intro h
    rcases hq : detailed_test_token.writeArity n with _ | m
    · rfl
    · have h1 := h (List.replicate (m + 1) "")
      rw [detailed_test_token.dtt_WriteContract_wrong_arity keccak256 I d auth n _ w m hq (by simp)] at h1
      cases h1

theorem ftt_QueryContract_default_iff (keccak256 : List UInt8 → List UInt8)
    (I : fast_test_token.IInstance ι W Auth CallOpts Tx E) (d : fast_test_token.FastTestTokenContract ι Tx)
    (n : String) (w : W) :
    fast_test_token.queryArity n = none ↔
      ∀ funcArgs, fast_test_token.QueryContract keccak256 I d n funcArgs w = .returned ⟨none, d, w⟩ := by
  constructor
  · intro h funcArgs
    refine fast_test_token.ftt_QueryContract_unknown keccak256 I d n funcArgs w (fun hq => ?_)
    obtain ⟨m, hm⟩ := fast_test_token.ftt_queryArity_of_mem n hq
    rw [h] at hm
    cases hm
  · intro h
    rcases hq : fast_test_token.queryArity n with _ | m
    · rfl
    · have h1 := h (List.replicate (m + 1) "")
      rw [fast_test_token.ftt_QueryContract_wrong_arity keccak256 I d n _ w m hq (by simp)] at h1
      cases h1

theorem ftt_WriteContract_default_iff (keccak256 : List UInt8 → List UInt8)
    (I : fast_test_token.IInstance ι W Auth CallOpts Tx E) (d : fast_test_token.FastTestTokenContract ι Tx) (auth : Auth)
    (n : String) (w : W) :
    fast_test_token.writeArity n = none ↔
      ∀ funcArgs, fast_test_token.WriteContract keccak256 I d auth n funcArgs w = .returned ⟨none, d, w⟩ := by
  constructor
  · intro h funcArgs
    refine fast_test_token.ftt_WriteContract_unknown keccak256 I d auth n funcArgs w (fun hq => ?_)
    obtain ⟨m, hm⟩ := fast_test_token.ftt_writeArity_of_mem n hq
    rw [h] at hm
    cases hm
  · intro h
    rcases hq : fast_test_token.writeArity n with _ | m
    · rfl
    · have h1 := h (List.replicate (m + 1) "")
      rw [fast_test_token.ftt_WriteContract_wrong_arity keccak256 I d auth n _ w m hq (by simp)] at h1
      cases h1

section

open constants contracts_template_interface contract_interactor_facade

variable {UserAccount EthRpcClient BlockChainState : Type}

theorem ExecuteContract_dtt_query (X : Externals ιd ιf W Auth CallOpts Backend Tx E)
    (c : contractExecutorFacade UserAccount EthRpcClient BlockChainState Auth)
    (s : Sys (Templates ιd ιf Tx) W) (hk : c.contractType = "detailed_test_token")
    (hq : c.funcName ∈ funcNames c.contractType "query") :
    ∃ m, detailed_test_token.queryArity c.funcName = some m ∧
      (c.funcArguments.length ≠ m →
        ExecuteContract X c s = .returned (some (.errorf ("error: "
          ++ toString c.funcArguments.length ++ " arguments does not match required "
          ++ toString m)), s.Println "Starting contract executor process.")) ∧
      (c.funcArguments.length = m → ∀ inst, s.heap.dtt.Instance = some inst →
        ∃ call : detailed_test_token.Call Auth CallOpts,
          detailed_test_token.queryCall c.funcName c.funcArguments = some call ∧
          ((∃ r, ExecuteContract X c s = .returned r ∧
              r.2.world = (X.dttInstance.invoke inst call s.world).2 ∧
              r.1 = (X.dttInstance.invoke inst call s.world).1.2) ∨
            ExecuteContract X c s = .panicked "assignment to entry in nil map")) := by
  have hT : (ContractNamesDict X).lookup c.contractType = some (detailedObject X) := by
    simp only [ContractNamesDict, GoMap.lookup, hk, String.reduceEq, if_true, if_false]
  have hne : detailed_test_token.queryArity c.funcName ≠ none := (dtt_query_mem_iff _).1 (hk ▸ hq)
  obtain ⟨m, hm⟩ := Option.ne_none_iff_exists'.1 hne
  have hE := ExecuteContract_query X c s _ hT hq
  refine ⟨m, hm, fun hn => ?_, fun hn inst hi => ?_⟩
  · rw [hE]
    simp only [detailedObject, Sys.Println]
    rw [detailed_test_token.dtt_QueryContract_wrong_arity _ _ _ _ _ _ m hm hn]
    rfl
  · obtain ⟨call, hcall⟩ : ∃ call : detailed_test_token.Call Auth CallOpts,
        detailed_test_token.queryCall c.funcName c.funcArguments = some call :=
      detailed_test_token.dtt_queryCall_of_arity c.funcName c.funcArguments m hm hn
    refine ⟨call, hcall, ?_⟩
    rw [hE]
    simp only [detailedObject, Sys.Println]
    rcases detailed_test_token.dtt_QueryContract_bound X.keccak256 X.dttInstance s.heap.dtt c.funcName
      c.funcArguments s.world inst call hi hcall with ⟨r, hr, hw, he⟩ | hp
    · left
      rw [hr]
      simp only [Run.bind]
      rcases hre : r.err with _ | err
      · exact ⟨_, rfl, hw, by rw [← he, hre]⟩
      · exact ⟨_, rfl, hw, by rw [← he, hre]⟩
    · right
      rw [hp]
      rfl

theorem ExecuteContract_dtt_write (X : Externals ιd ιf W Auth CallOpts Backend Tx E)
    (c : contractExecutorFacade UserAccount EthRpcClient BlockChainState Auth)
    (s : Sys (Templates ιd ιf Tx) W) (hk : c.contractType = "detailed_test_token")
    (hw : c.funcName ∈ funcNames c.contractType "write") :
    ∃ m, detailed_test_token.writeArity c.funcName = some m ∧
      (c.funcArguments.length ≠ m →
        ExecuteContract X c s = .returned (some (.errorf ("error: "
          ++ toString c.funcArguments.length ++ " arguments does not match required "
          ++ toString m)), s.Println "Starting contract executor process.")) ∧
      (c.funcArguments.length = m → ∀ inst, s.heap.dtt.Instance = some inst →
        ∃ call : detailed_test_token.Call Auth CallOpts,
          detailed_test_token.writeCall c.auth c.funcName c.funcArguments = some call ∧
          ∃ r, ExecuteContract X c s = .returned r ∧
            r.2.world = (X.dttInstance.invoke inst call s.world).2 ∧
            r.1 = (X.dttInstance.invoke inst call s.world).1.2) := by
  have hT : (ContractNamesDict X).lookup c.contractType = some (detailedObject X) := by
    simp only [ContractNamesDict, GoMap.lookup, hk, String.reduceEq, if_true, if_false]
  have hne : detailed_test_token.writeArity c.funcName ≠ none := (dtt_write_mem_iff _).1 (hk ▸ hw)
  obtain ⟨m, hm⟩ := Option.ne_none_iff_exists'.1 hne
  have hE := ExecuteContract_write X c s _ hT (write_not_query _ _ hw) hw
  refine ⟨m, hm, fun hn => ?_, fun hn inst hi => ?_⟩
  · rw [hE]
    simp only [detailedObject, Sys.Println]
    rw [detailed_test_token.dtt_WriteContract_wrong_arity _ _ _ _ _ _ _ m hm hn]
    rfl
  · obtain ⟨call, hcall⟩ : ∃ call : detailed_test_token.Call Auth CallOpts,
        detailed_test_token.writeCall c.auth c.funcName c.funcArguments = some call :=
      detailed_test_token.dtt_writeCall_of_arity c.auth c.funcName c.funcArguments m hm hn
    refine ⟨call, hcall, ?_⟩
    rw [hE]
    simp only [detailedObject, Sys.Println]
    obtain ⟨r, hr, hw1, he, -⟩ := detailed_test_token.dtt_WriteContract_world X.keccak256 X.dttInstance
      s.heap.dtt c.auth c.funcName c.funcArguments s.world inst call hi hcall
    rw [hr]
    simp only [Run.bind]
    rcases hre : r.err with _ | err
    · exact ⟨_, rfl, hw1, by rw [← he, hre]⟩
    · exact ⟨_, rfl, hw1, by rw [← he, hre]⟩

theorem ExecuteContract_ftt_query (X : Externals ιd ιf W Auth CallOpts Backend Tx E)
    (c : contractExecutorFacade UserAccount EthRpcClient BlockChainState Auth)
    (s : Sys (Templates ιd ιf Tx) W) (hk : c.contractType = "fast_test_token")
    (hq : c.funcName ∈ funcNames c.contractType "query") :
    ∃ m, fast_test_token.queryArity c.funcName = some m ∧
      (c.funcArguments.length ≠ m →
        ExecuteContract X c s = .returned (some (.errorf ("error: "
          ++ toString c.funcArguments.length ++ " arguments does not match required "
          ++ toString m)), s.Println "Starting contract executor process.")) ∧
      (c.funcArguments.length = m → ∀ inst, s.heap.ftt.Instance = some inst →
        ∃ call : fast_test_token.Call Auth CallOpts,
          fast_test_token.queryCall c.funcName c.funcArguments = some call ∧
          ((∃ r, ExecuteContract X c s = .returned r ∧
              r.2.world = (X.fttInstance.invoke inst call s.world).2 ∧
              r.1 = (X.fttInstance.invoke inst call s.world).1.2) ∨
            ExecuteContract X c s = .panicked "assignment to entry in nil map")) := by
  have hT : (ContractNamesDict X).lookup c.contractType = some (fastObject X) := by
    simp only [ContractNamesDict, GoMap.lookup, hk, String.reduceEq, if_true, if_false]
  have hne : fast_test_token.queryArity c.funcName ≠ none := (ftt_query_mem_iff _).1 (hk ▸ hq)
  obtain ⟨m, hm⟩ := Option.ne_none_iff_exists'.1 hne
  have hE := ExecuteContract_query X c s _ hT hq
  refine ⟨m, hm, fun hn => ?_, fun hn inst hi => ?_⟩
  · rw [hE]
    simp only [fastObject, Sys.Println]
    rw [fast_test_token.ftt_QueryContract_wrong_arity _ _ _ _ _ _ m hm hn]
    rfl
  · obtain ⟨call, hcall⟩ : ∃ call : fast_test_token.Call Auth CallOpts,
        fast_test_token.queryCall c.funcName c.funcArguments = some call :=
      fast_test_token.ftt_queryCall_of_arity c.funcName c.funcArguments m hm hn
    refine ⟨call, hcall, ?_⟩
    rw [hE]
    simp only [fastObject, Sys.Println]
    rcases fast_test_token.ftt_QueryContract_bound X.keccak256 X.fttInstance s.heap.ftt c.funcName
      c.funcArguments s.world inst call hi hcall with ⟨r, hr, hw, he⟩ | hp
    · left
      rw [hr]
      simp only [Run.bind]
      rcases hre : r.err with _ | err
      · exact ⟨_, rfl, hw, by rw [← he, hre]⟩
      · exact ⟨_, rfl, hw, by rw [← he, hre]⟩
    · right
      rw [hp]
      rfl

theorem ExecuteContract_ftt_write (X : Externals ιd ιf W Auth CallOpts Backend Tx E)
    (c : contractExecutorFacade UserAccount EthRpcClient BlockChainState Auth)
    (s : Sys (Templates ιd ιf Tx) W) (hk : c.contractType = "fast_test_token")
    (hw : c.funcName ∈ funcNames c.contractType "write") :
    ∃ m, fast_test_token.writeArity c.funcName = some m ∧
      (c.funcArguments.length ≠ m →
        ExecuteContract X c s = .returned (some (.errorf ("error: "
          ++ toString c.funcArguments.length ++ " arguments does not match required "
          ++ toString m)), s.Println "Starting contract executor process.")) ∧
      (c.funcArguments.length = m → ∀ inst, s.heap.ftt.Instance = some inst →
        ∃ call : fast_test_token.Call Auth CallOpts,
          fast_test_token.writeCall c.auth c.funcName c.funcArguments = some call ∧
          ∃ r, ExecuteContract X c s = .returned r ∧
            r.2.world = (X.fttInstance.invoke inst call s.world).2 ∧
            r.1 = (X.fttInstance.invoke inst call s.world).1.2) := by
  have hT : (ContractNamesDict X).lookup c.contractType = some (fastObject X) := by
    simp only [ContractNamesDict, GoMap.lookup, hk, String.reduceEq, if_true, if_false]
  have hne : fast_test_token.writeArity c.funcName ≠ none := (ftt_write_mem_iff _).1 (hk ▸ hw)
  obtain ⟨m, hm⟩ := Option.ne_none_iff_exists'.1 hne
  have hE := ExecuteContract_write X c s _ hT (write_not_query _ _ hw) hw
  refine ⟨m, hm, fun hn => ?_, fun hn inst hi => ?_⟩
  · rw [hE]
    simp only [fastObject, Sys.Println]
    rw [fast_test_token.ftt_WriteContract_wrong_arity _ _ _ _ _ _ _ m hm hn]
    rfl
  · obtain ⟨call, hcall⟩ : ∃ call : fast_test_token.Call Auth CallOpts,
        fast_test_token.writeCall c.auth c.funcName c.funcArguments = some call :=
      fast_test_token.ftt_writeCall_of_arity c.auth c.funcName c.funcArguments m hm hn
    refine ⟨call, hcall, ?_⟩
    rw [hE]
    simp only [fastObject, Sys.Println]
    obtain ⟨r, hr, hw1, he, -⟩ := fast_test_token.ftt_WriteContract_world X.keccak256 X.fttInstance
      s.heap.ftt c.auth c.funcName c.funcArguments s.world inst call hi hcall
    rw [hr]
    simp only [Run.bind]
    rcases hre : r.err with _ | err
    · exact ⟨_, rfl, hw1, by rw [← he, hre]⟩
    · exact ⟨_, rfl, hw1, by rw [← he, hre]⟩

/-- C27. The registry and the templates agree. For each kind a name is in the
query list exactly when the switch of QueryContract has a case for it, and in
the write list exactly when the switch of WriteContract has one; a name has no
case exactly when the call is the silent no-op for every argument list.
For a name that VerifyFunctionNameExists accepts, the kind is registered and
ExecuteContract runs QueryContract or WriteContract of the object of the
dictionary, whose two methods are QueryContract and WriteContract of the
template, run on the object in the state. So ExecuteContract reaches the case
of the name in the switch of that template: with a number of arguments other
than the case wants it returns the error of the length check of that case, and
with that number on a bound instance it makes the one request of the case to
the connector and returns the error of this request; it is never the silent
no-op. -/
theorem registry_and_templates_agree
    {ι ιd ιf W Auth CallOpts Backend Tx E UserAccount EthRpcClient BlockChainState : Type}
    (keccak256 : List UInt8 → List UInt8) :
    (∀ n,
      (n ∈ funcNames "detailed_test_token" "query" ↔ detailed_test_token.queryArity n ≠ none) ∧
      (n ∈ funcNames "detailed_test_token" "write" ↔ detailed_test_token.writeArity n ≠ none) ∧
      (n ∈ funcNames "fast_test_token" "query" ↔ fast_test_token.queryArity n ≠ none) ∧
      (n ∈ funcNames "fast_test_token" "write" ↔ fast_test_token.writeArity n ≠ none)) ∧
    (∀ (I : detailed_test_token.IInstance ι W Auth CallOpts Tx E)
        (d : detailed_test_token.DetailedTestTokenContract ι Tx) (auth : Auth) (n : String)
        (w : W),
      (detailed_test_token.queryArity n = none ↔
        ∀ funcArgs, detailed_test_token.QueryContract keccak256 I d n funcArgs w =
          .returned ⟨none, d, w⟩) ∧
      (detailed_test_token.writeArity n = none ↔
        ∀ funcArgs, detailed_test_token.WriteContract keccak256 I d auth n funcArgs w =
          .returned ⟨none, d, w⟩)) ∧
    (∀ (I : fast_test_token.IInstance ι W Auth CallOpts Tx E)
        (f : fast_test_token.FastTestTokenContract ι Tx) (auth : Auth) (n : String) (w : W),
      (fast_test_token.queryArity n = none ↔
        ∀ funcArgs, fast_test_token.QueryContract keccak256 I f n funcArgs w =
          .returned ⟨none, f, w⟩) ∧
      (fast_test_token.writeArity n = none ↔
        ∀ funcArgs, fast_test_token.WriteContract keccak256 I f auth n funcArgs w =
          .returned ⟨none, f, w⟩)) ∧
    (∀ (X : Externals ιd ιf W Auth CallOpts Backend Tx E)
        (c : contractExecutorFacade UserAccount EthRpcClient BlockChainState Auth)
        (s : Sys (Templates ιd ιf Tx) W),
      VerifyFunctionNameExists c.contractType c.funcName = true →
      ∃ T, (ContractNamesDict X).lookup c.contractType = some T ∧
        ((c.funcName ∈ funcNames c.contractType "query" ∧
            ExecuteContract X c s =
              (T.QueryContract c.funcName c.funcArguments
                (s.Println "Starting contract executor process.")).bind fun r =>
              match r.1 with
              | some err => .returned (some err, r.2)
              | none =>
                (T.PrintLoadedContractData r.2).bind fun s1 =>
                (T.PrintContractDataAfterExecution s1).bind fun s2 =>
                .returned (none,
                  s2.Println "Successfully completed contract execution process.")) ∨
          (c.funcName ∈ funcNames c.contractType "write" ∧
            ExecuteContract X c s =
              (T.WriteContract c.auth c.funcName c.funcArguments
                (s.Println "Starting contract executor process.")).bind fun r =>
              match r.1 with
              | some err => .returned (some err, r.2)
              | none =>
                (T.PrintLoadedContractData r.2).bind fun s1 =>
                (T.PrintContractDataAfterExecution s1).bind fun s2 =>
                .returned (none,
                  s2.Println "Successfully completed contract execution process."))) ∧
        ((c.contractType = "detailed_test_token" ∧ T = detailedObject X ∧
            (∀ funcName funcArgs t, T.QueryContract funcName funcArgs t =
              (detailed_test_token.QueryContract X.keccak256 X.dttInstance t.heap.dtt funcName
                funcArgs t.world).bind fun r =>
              .returned (r.err,
                { t with heap := { t.heap with dtt := r.self }, world := r.world })) ∧
            (∀ auth funcName funcArgs t, T.WriteContract auth funcName funcArgs t =
              (detailed_test_token.WriteContract X.keccak256 X.dttInstance t.heap.dtt auth
                funcName funcArgs t.world).bind fun r =>
              .returned (r.err,
                { t with heap := { t.heap with dtt := r.self }, world := r.world })) ∧
            (c.funcName ∈ funcNames c.contractType "query" →
              detailed_test_token.queryArity c.funcName ≠ none) ∧
            (c.funcName ∈ funcNames c.contractType "write" →
              detailed_test_token.writeArity c.funcName ≠ none)) ∨
          (c.contractType = "fast_test_token" ∧ T = fastObject X ∧
            (∀ funcName funcArgs t, T.QueryContract funcName funcArgs t =
              (fast_test_token.QueryContract X.keccak256 X.fttInstance t.heap.ftt funcName
                funcArgs t.world).bind fun r =>
              .returned (r.err,
                { t with heap := { t.heap with ftt := r.self }, world := r.world })) ∧
            (∀ auth funcName funcArgs t, T.WriteContract auth funcName funcArgs t =
              (fast_test_token.WriteContract X.keccak256 X.fttInstance t.heap.ftt auth
                funcName funcArgs t.world).bind fun r =>
              .returned (r.err,
                { t with heap := { t.heap with ftt := r.self }, world := r.world })) ∧
            (c.funcName ∈ funcNames c.contractType "query" →
              fast_test_token.queryArity c.funcName ≠ none) ∧
            (c.funcName ∈ funcNames c.contractType "write" →
              fast_test_token.writeArity c.funcName ≠ none)))) ∧
    (∀ (X : Externals ιd ιf W Auth CallOpts Backend Tx E)
        (c : contractExecutorFacade UserAccount EthRpcClient BlockChainState Auth)
        (s : Sys (Templates ιd ιf Tx) W),
      VerifyFunctionNameExists c.contractType c.funcName = true →
      (c.contractType = "detailed_test_token" ∧
        ∃ m, (detailed_test_token.queryArity c.funcName = some m ∨
            detailed_test_token.writeArity c.funcName = some m) ∧
          (c.funcArguments.length ≠ m →
            ExecuteContract X c s = .returned (some (.errorf ("error: "
              ++ toString c.funcArguments.length ++ " arguments does not match required "
              ++ toString m)), s.Println "Starting contract executor process.")) ∧
          (c.funcArguments.length = m → ∀ inst, s.heap.dtt.Instance = some inst →
            ∃ call : detailed_test_token.Call Auth CallOpts,
              (detailed_test_token.queryCall c.funcName c.funcArguments = some call ∨
                detailed_test_token.writeCall c.auth c.funcName c.funcArguments = some call) ∧
              ((∃ r, ExecuteContract X c s = .returned r ∧
                  r.2.world = (X.dttInstance.invoke inst call s.world).2 ∧
                  r.1 = (X.dttInstance.invoke inst call s.world).1.2) ∨
                ExecuteContract X c s = .panicked "assignment to entry in nil map"))) ∨
      (c.contractType = "fast_test_token" ∧
        ∃ m, (fast_test_token.queryArity c.funcName = some m ∨
            fast_test_token.writeArity c.funcName = some m) ∧
          (c.funcArguments.length ≠ m →
            ExecuteContract X c s = .returned (some (.errorf ("error: "
              ++ toString c.funcArguments.length ++ " arguments does not match required "
              ++ toString m)), s.Println "Starting contract executor process.")) ∧
          (c.funcArguments.length = m → ∀ inst, s.heap.ftt.Instance = some inst →
            ∃ call : fast_test_token.Call Auth CallOpts,
              (fast_test_token.queryCall c.funcName c.funcArguments = some call ∨
                fast_test_token.writeCall c.auth c.funcName c.funcArguments = some call) ∧
              ((∃ r, ExecuteContract X c s = .returned r ∧
                  r.2.world = (X.fttInstance.invoke inst call s.world).2 ∧
                  r.1 = (X.fttInstance.invoke inst call s.world).1.2) ∨
                ExecuteContract X c s = .panicked "assignment to entry in nil map")))) := by
  have hmem : ∀ c : contractExecutorFacade UserAccount EthRpcClient BlockChainState Auth,
      VerifyFunctionNameExists c.contractType c.funcName = true →
      (c.funcName ∈ funcNames c.contractType "query" ∨
        c.funcName ∈ funcNames c.contractType "write") ∧
      (c.contractType = "detailed_test_token" ∨ c.contractType = "fast_test_token") := by
    intro c hv
    have hall := (constants.VerifyFunctionNameExists_iff _ _).1 hv
    rcases constants.lookup_funcNames c.contractType with ⟨_, h0⟩ | ⟨hk, hq, hw, ha⟩ |
      ⟨hk, hq, hw, ha⟩
    · rw [h0] at hall; cases hall
    · rw [ha] at hall; rw [hq, hw]; exact ⟨List.mem_append.1 hall, Or.inl hk⟩
    · rw [ha] at hall; rw [hq, hw]; exact ⟨List.mem_append.1 hall, Or.inr hk⟩
  refine ⟨fun n => ⟨dtt_query_mem_iff n, dtt_write_mem_iff n, ftt_query_mem_iff n,
    ftt_write_mem_iff n⟩, ?_, ?_, ?_, ?_⟩
  · intro I d auth n w
    exact ⟨dtt_QueryContract_default_iff keccak256 I d n w,
      dtt_WriteContract_default_iff keccak256 I d auth n w⟩
  · intro I f auth n w
    exact ⟨ftt_QueryContract_default_iff keccak256 I f n w,
      ftt_WriteContract_default_iff keccak256 I f auth n w⟩
  · intro X c s hv
    obtain ⟨hmem, hk⟩ := hmem c hv
    obtain ⟨T, hT⟩ : ∃ T, (ContractNamesDict X).lookup c.contractType = some T :=
      Option.isSome_iff_exists.1 ((constants.dict_lookup X c.contractType).2 hk)
    refine ⟨T, hT, ?_, ?_⟩
    · rcases hmem with hq | hw
      · exact Or.inl ⟨hq, ExecuteContract_query X c s T hT hq⟩
      · exact Or.inr ⟨hw, ExecuteContract_write X c s T hT
          (write_not_query c.contractType c.funcName hw) hw⟩
    · rcases hk with hk | hk
      · left
        have hT1 : T = detailedObject X := by
          simp only [ContractNamesDict, GoMap.lookup, hk, if_true, Option.some.injEq] at hT
          exact hT.symm
        subst hT1
        refine ⟨hk, rfl, fun _ _ _ => rfl, fun _ _ _ _ => rfl, ?_, ?_⟩
        · intro hq; rw [hk] at hq; exact (dtt_query_mem_iff _).1 hq
        · intro hw; rw [hk] at hw; exact (dtt_write_mem_iff _).1 hw
      · right
        have hT1 : T = fastObject X := by
          simp only [ContractNamesDict, GoMap.lookup, hk, String.reduceEq, if_false, if_true,
            Option.some.injEq] at hT
          exact hT.symm
        subst hT1
        refine ⟨hk, rfl, fun _ _ _ => rfl, fun _ _ _ _ => rfl, ?_, ?_⟩
        · intro hq; rw [hk] at hq; exact (ftt_query_mem_iff _).1 hq
        · intro hw; rw [hk] at hw; exact (ftt_write_mem_iff _).1 hw
  · intro X c s hv
    obtain ⟨hmem, hk⟩ := hmem c hv
    rcases hk with hk | hk
    · left
      refine ⟨hk, ?_⟩
      rcases hmem with hq | hw
      · obtain ⟨m, hm, h1, h2⟩ := ExecuteContract_dtt_query X c s hk hq
        refine ⟨m, Or.inl hm, h1, fun hn inst hi => ?_⟩
        obtain ⟨call, hcall, h3⟩ := h2 hn inst hi
        exact ⟨call, Or.inl hcall, h3⟩
      · obtain ⟨m, hm, h1, h2⟩ := ExecuteContract_dtt_write X c s hk hw
        refine ⟨m, Or.inr hm, h1, fun hn inst hi => ?_⟩
        obtain ⟨call, hcall, h3⟩ := h2 hn inst hi
        exact ⟨call, Or.inr hcall, Or.inl h3⟩
    · right
      refine ⟨hk, ?_⟩
      rcases hmem with hq | hw
      · obtain ⟨m, hm, h1, h2⟩ := ExecuteContract_ftt_query X c s hk hq
        refine ⟨m, Or.inl hm, h1, fun hn inst hi => ?_⟩
        obtain ⟨call, hcall, h3⟩ := h2 hn inst hi
        exact ⟨call, Or.inl hcall, h3⟩
      · obtain ⟨m, hm, h1, h2⟩ := ExecuteContract_ftt_write X c s hk hw
        refine ⟨m, Or.inr hm, h1, fun hn inst hi => ?_⟩
        obtain ⟨call, hcall, h3⟩ := h2 hn inst hi
        exact ⟨call, Or.inr hcall, Or.inl h3⟩

theorem registry_and_templates_agree_witness :
    VerifyFunctionNameExists (testFacade "detailed_test_token" "mint" ["0x01", "5"]).contractType
      (testFacade "detailed_test_token" "mint" ["0x01", "5"]).funcName = true ∧
    (ContractNamesDict testExternals).lookup "detailed_test_token" =
      some (detailedObject testExternals) ∧
    detailed_test_token.writeArity "mint" ≠ none ∧
    ∃ r, ExecuteContract testExternals (testFacade "detailed_test_token" "mint" ["0x01", "5"])
        loadedSys = .returned r ∧
      r.1 = none ∧
      r.2.world = ([.Mint () (common.HexToAddress "0x01") (some 5)], []) := by
  have hv : VerifyFunctionNameExists
      (testFacade "detailed_test_token" "mint" ["0x01", "5"]).contractType
      (testFacade "detailed_test_token" "mint" ["0x01", "5"]).funcName = true := by decide
  have h := @registry_and_templates_agree Unit Unit Unit TestWorld Unit Unit Unit
    Unit Empty Unit Unit Unit (fun _ => [])
  obtain ⟨T, hT, -, h4⟩ := h.2.2.2.1 testExternals
    (testFacade "detailed_test_token" "mint" ["0x01", "5"]) loadedSys hv
  refine ⟨hv, ?_, ?_, ?_⟩
  · rcases h4 with ⟨-, hT1, -⟩ | ⟨hk, -⟩
    · rw [← hT1]; exact hT
    · exact absurd hk (by decide)
  · rcases h4 with ⟨-, -, -, -, -, hw⟩ | ⟨hk, -⟩
    · exact hw (by decide)
    · exact absurd hk (by decide)
  · have hq0 : detailed_test_token.queryArity "mint" = none := by decide
    have hw0 : detailed_test_token.writeArity "mint" = some 2 := by decide
    have hc0 : (detailed_test_token.queryCall "mint" ["0x01", "5"] :
        Option (detailed_test_token.Call Unit Unit)) = none := rfl
    have hc1 : (detailed_test_token.writeCall () "mint" ["0x01", "5"] :
        Option (detailed_test_token.Call Unit Unit)) =
          some (.Mint () (common.HexToAddress "0x01") (some 5)) := by
      simp only [detailed_test_token.writeCall, String.reduceEq, if_false, if_true]
      rfl
    have hrun : ∃ r, ExecuteContract testExternals
        (testFacade "detailed_test_token" "mint" ["0x01", "5"]) loadedSys = .returned r :=
      ⟨_, rfl⟩
    rcases h.2.2.2.2 testExternals (testFacade "detailed_test_token" "mint" ["0x01", "5"])
      loadedSys hv with ⟨-, m, hm, -, h2⟩ | ⟨hk, -⟩
    · have hm2 : m = 2 := by
        rcases hm with hm | hm
        · rw [show (testFacade "detailed_test_token" "mint" ["0x01", "5"]).funcName = "mint"
            from rfl, hq0] at hm
          cases hm
        · rw [show (testFacade "detailed_test_token" "mint" ["0x01", "5"]).funcName = "mint"
            from rfl, hw0] at hm
          exact (Option.some.inj hm).symm
      subst hm2
      obtain ⟨call, hcall, hr⟩ := h2 rfl () rfl
      have hcall2 : call = .Mint () (common.HexToAddress "0x01") (some 5) := by
        rcases hcall with hcall | hcall
        · exact absurd (hc0.symm.trans hcall) (by simp)
        · exact Option.some.inj (hcall.symm.trans hc1)
      subst hcall2
      rcases hr with ⟨r, hr, hw, he⟩ | hp
      · refine ⟨r, hr, ?_, ?_⟩
        · rw [he]
          rfl
        · rw [hw]
          rfl
      · obtain ⟨r, hr⟩ := hrun
        rw [hp] at hr
        cases hr
    · exact absurd hk (by decide)

end

/-- C28. For corresponding states of the two templates, a connector of the
DetailedTestToken and the same connector without Mint and Burn, and every
function name other than mint and burn and every argument list: QueryContract
of the FastTestToken and of the DetailedTestToken agree, and so do the two
WriteContract. Both panic for the same reason or both return, and then with
the same error, the same world, which every request to the connector goes
into, and corresponding states; the two report strings are both unchanged or
are the same text around the label FastTestToken or DetailedTestToken. -/
theorem fast_and_detailed_agree_up_to_the_label (keccak256 : List UInt8 → List UInt8)
    (I : detailed_test_token.IInstance ι W Auth CallOpts Tx E)
    (f : fast_test_token.FastTestTokenContract ι Tx)
    (d : detailed_test_token.DetailedTestTokenContract ι Tx) (auth : Auth) (funcName : String)
    (funcArgs : List String) (w : W) (hc : fast_test_token.Corresponds f d)
    (hm : funcName ≠ "mint") (hb : funcName ≠ "burn") :
    fast_test_token.Agree f d
      (fast_test_token.QueryContract keccak256 I.toFast f funcName funcArgs w)
      (detailed_test_token.QueryContract keccak256 I d funcName funcArgs w) ∧
    fast_test_token.Agree f d
      (fast_test_token.WriteContract keccak256 I.toFast f auth funcName funcArgs w)
      (detailed_test_token.WriteContract keccak256 I d auth funcName funcArgs w) ∧
    (∀ a b, fast_test_token.WriteContract keccak256 I.toFast f auth funcName funcArgs w =
        .returned a →
      detailed_test_token.WriteContract keccak256 I d auth funcName funcArgs w = .returned b →
      a.err = b.err ∧ a.world = b.world ∧ fast_test_token.Corresponds a.self b.self) ∧
    (∀ a b, fast_test_token.QueryContract keccak256 I.toFast f funcName funcArgs w =
        .returned a →
      detailed_test_token.QueryContract keccak256 I d funcName funcArgs w = .returned b →
      a.err = b.err ∧ a.world = b.world ∧ fast_test_token.Corresponds a.self b.self) := by
  have hq := fast_test_token.ftt_QueryContract_agrees keccak256 I f d funcName funcArgs w hc
  have hw := fast_test_token.ftt_WriteContract_agrees keccak256 I f d auth funcName funcArgs w hc
    hm hb
  refine ⟨hq, hw, ?_, ?_⟩
  · intro a b ha hb1
    rw [ha, hb1] at hw
    exact ⟨hw.1, hw.2.1, hw.2.2.1⟩
  · intro a b ha hb1
    rw [ha, hb1] at hq
    exact ⟨hq.1, hq.2.1, hq.2.2.1⟩

theorem fast_and_detailed_agree_up_to_the_label_witness :
    fast_test_token.Corresponds fast_test_token.loadedContract
      detailed_test_token.loadedContract ∧
    fast_test_token.Agree fast_test_token.loadedContract detailed_test_token.loadedContract
      (fast_test_token.WriteContract (fun _ => [])
        (detailed_test_token.mockInstance detailed_test_token.testReturns).toFast
        fast_test_token.loadedContract () "transfer"
        ["0x86Be6FC9B05B55CBD04F3161f9b481f27F90a8Df", "100"] [])
      (detailed_test_token.WriteContract (fun _ => [])
        (detailed_test_token.mockInstance detailed_test_token.testReturns)
        detailed_test_token.loadedContract () "transfer"
        ["0x86Be6FC9B05B55CBD04F3161f9b481f27F90a8Df", "100"] []) := by
  have hc : fast_test_token.Corresponds fast_test_token.loadedContract
      detailed_test_token.loadedContract := ⟨rfl, rfl, rfl, rfl, rfl, rfl, rfl, rfl, rfl⟩
  exact ⟨hc, (fast_and_detailed_agree_up_to_the_label (fun _ => [])
    (detailed_test_token.mockInstance detailed_test_token.testReturns)
    fast_test_token.loadedContract detailed_test_token.loadedContract () "transfer"
    ["0x86Be6FC9B05B55CBD04F3161f9b481f27F90a8Df", "100"] [] hc (by decide) (by decide)).2.1⟩

/-- C29. For both templates, a bound connector, every function name that has a
case and every argument list of the length of the case, whatever the strings
in it are: the call stands for one request to the connector. WriteContract
returns, with the world after that request, and its error is the error of the
request, so it is non-nil exactly when the request fails. QueryContract,
whenever it returns, does so with the world after that request and the error
of the request; it returns the error of a failing request as it is, and on a
loaded instance it always returns. -/
theorem error_only_from_the_connector (keccak256 : List UInt8 → List UInt8) :
    (∀ (I : detailed_test_token.IInstance ι W Auth CallOpts Tx E)
        (d : detailed_test_token.DetailedTestTokenContract ι Tx) (auth : Auth) (funcName : String)
        (funcArgs : List String) (w : W) (inst : ι) (m : Nat),
        d.Instance = some inst → detailed_test_token.writeArity funcName = some m →
        funcArgs.length = m →
        ∃ c r, detailed_test_token.writeCall auth funcName funcArgs = some c ∧
          detailed_test_token.WriteContract keccak256 I d auth funcName funcArgs w = .returned r ∧
          r.world = (I.invoke inst c w).2 ∧ r.err = (I.invoke inst c w).1.2 ∧
          (r.err ≠ none ↔ (I.invoke inst c w).1.2 ≠ none)) ∧
    (∀ (I : detailed_test_token.IInstance ι W Auth CallOpts Tx E)
        (d : detailed_test_token.DetailedTestTokenContract ι Tx) (funcName : String)
        (funcArgs : List String) (w : W) (inst : ι) (m : Nat),
        d.Instance = some inst → detailed_test_token.queryArity funcName = some m →
        funcArgs.length = m →
        ∃ c : detailed_test_token.Call Auth CallOpts, detailed_test_token.queryCall funcName funcArgs = some c ∧
          (∀ r, detailed_test_token.QueryContract keccak256 I d funcName funcArgs w = .returned r →
            r.world = (I.invoke inst c w).2 ∧ r.err = (I.invoke inst c w).1.2 ∧
            (r.err ≠ none ↔ (I.invoke inst c w).1.2 ≠ none)) ∧
          (∀ e, (I.invoke inst c w).1.2 = some e →
            detailed_test_token.QueryContract keccak256 I d funcName funcArgs w =
              .returned ⟨some e, d, (I.invoke inst c w).2⟩) ∧
          (detailed_test_token.Loaded d →
            ∃ r, detailed_test_token.QueryContract keccak256 I d funcName funcArgs w = .returned r)) ∧
    (∀ (I : fast_test_token.IInstance ι W Auth CallOpts Tx E)
        (f : fast_test_token.FastTestTokenContract ι Tx) (auth : Auth) (funcName : String)
        (funcArgs : List String) (w : W) (inst : ι) (m : Nat),
        f.Instance = some inst → fast_test_token.writeArity funcName = some m →
        funcArgs.length = m →
        ∃ c r, fast_test_token.writeCall auth funcName funcArgs = some c ∧
          fast_test_token.WriteContract keccak256 I f auth funcName funcArgs w = .returned r ∧
          r.world = (I.invoke inst c w).2 ∧ r.err = (I.invoke inst c w).1.2 ∧
          (r.err ≠ none ↔ (I.invoke inst c w).1.2 ≠ none)) ∧
    (∀ (I : fast_test_token.IInstance ι W Auth CallOpts Tx E)
        (f : fast_test_token.FastTestTokenContract ι Tx) (funcName : String)
        (funcArgs : List String) (w : W) (inst : ι) (m : Nat),
        f.Instance = some inst → fast_test_token.queryArity funcName = some m →
        funcArgs.length = m →
        ∃ c : fast_test_token.Call Auth CallOpts, fast_test_token.queryCall funcName funcArgs = some c ∧
          (∀ r, fast_test_token.QueryContract keccak256 I f funcName funcArgs w = .returned r →
            r.world = (I.invoke inst c w).2 ∧ r.err = (I.invoke inst c w).1.2 ∧
            (r.err ≠ none ↔ (I.invoke inst c w).1.2 ≠ none)) ∧
          (∀ e, (I.invoke inst c w).1.2 = some e →
            fast_test_token.QueryContract keccak256 I f funcName funcArgs w =
              .returned ⟨some e, f, (I.invoke inst c w).2⟩) ∧
          (fast_test_token.Loaded f →
            ∃ r, fast_test_token.QueryContract keccak256 I f funcName funcArgs w = .returned r)) := by
  refine ⟨?_, ?_, ?_, ?_⟩
  · intro I d auth funcName funcArgs w inst m hi hm hn
    obtain ⟨c, hc⟩ : ∃ c : detailed_test_token.Call Auth CallOpts,
        detailed_test_token.writeCall auth funcName funcArgs = some c :=
      detailed_test_token.dtt_writeCall_of_arity auth funcName funcArgs m hm hn
    obtain ⟨r, hr, hw, he, -⟩ :=
      detailed_test_token.dtt_WriteContract_world keccak256 I d auth funcName funcArgs w inst c hi hc
    exact ⟨c, r, hc, hr, hw, he, by rw [he]⟩
  · intro I d funcName funcArgs w inst m hi hm hn
    obtain ⟨c, hc⟩ : ∃ c : detailed_test_token.Call Auth CallOpts,
        detailed_test_token.queryCall funcName funcArgs = some c :=
      detailed_test_token.dtt_queryCall_of_arity funcName funcArgs m hm hn
    refine ⟨c, hc, ?_, ?_, ?_⟩
    · intro r hr
      rcases detailed_test_token.dtt_QueryContract_bound keccak256 I d funcName funcArgs w inst c hi hc
        with ⟨r1, h1, hw, he⟩ | hp
      · rw [h1] at hr
        cases hr
        exact ⟨hw, he, by rw [he]⟩
      · rw [hp] at hr
        cases hr
    · intro e he
      exact detailed_test_token.dtt_QueryContract_err keccak256 I d funcName funcArgs w inst c e hi hc he
    · intro hL
      exact detailed_test_token.dtt_QueryContract_returns keccak256 I d funcName funcArgs w hL
  · intro I f auth funcName funcArgs w inst m hi hm hn
    obtain ⟨c, hc⟩ : ∃ c : fast_test_token.Call Auth CallOpts,
        fast_test_token.writeCall auth funcName funcArgs = some c :=
      fast_test_token.ftt_writeCall_of_arity auth funcName funcArgs m hm hn
    obtain ⟨r, hr, hw, he, -⟩ :=
      fast_test_token.ftt_WriteContract_world keccak256 I f auth funcName funcArgs w inst c hi hc
    exact ⟨c, r, hc, hr, hw, he, by rw [he]⟩
  · intro I f funcName funcArgs w inst m hi hm hn
    obtain ⟨c, hc⟩ : ∃ c : fast_test_token.Call Auth CallOpts,
        fast_test_token.queryCall funcName funcArgs = some c :=
      fast_test_token.ftt_queryCall_of_arity funcName funcArgs m hm hn
    refine ⟨c, hc, ?_, ?_, ?_⟩
    · intro r hr
      rcases fast_test_token.ftt_QueryContract_bound keccak256 I f funcName funcArgs w inst c hi hc
        with ⟨r1, h1, hw, he⟩ | hp
      · rw [h1] at hr
        cases hr
        exact ⟨hw, he, by rw [he]⟩
      · rw [hp] at hr
        cases hr
    · intro e he
      exact fast_test_token.ftt_QueryContract_err keccak256 I f funcName funcArgs w inst c e hi hc he
    · intro hL
      exact fast_test_token.ftt_QueryContract_returns keccak256 I f funcName funcArgs w hL

theorem error_only_from_the_connector_witness :
    ∃ c r, fast_test_token.writeCall () "transfer" ["not an address", ""] = some c ∧
      fast_test_token.WriteContract (fun _ => [])
        (fast_test_token.mockInstance fast_test_token.testReturns)
        fast_test_token.loadedContract () "transfer" ["not an address", ""] [] = .returned r ∧
      r.world = ((fast_test_token.mockInstance fast_test_token.testReturns).invoke () c []).2 ∧
      r.err = none := by
  obtain ⟨c, r, hc, hr, hw, he, -⟩ := (error_only_from_the_connector (fun _ => [])).2.2.1
    (fast_test_token.mockInstance fast_test_token.testReturns) fast_test_token.loadedContract ()
    "transfer" ["not an address", ""] [] () 2 rfl (by decide) rfl
  refine ⟨c, r, hc, hr, hw, ?_⟩
  rw [he]
  cases hc
  rfl

/-- C30. For both templates, every function name and every argument list of any
length: on a loaded instance QueryContract and WriteContract return, so
nothing panics; on any instance at all neither of them panics with an index
out of range, WriteContract never writes into a nil map, and QueryContract
does so only on an instance that is not loaded; the one other panic there is
comes from a connector that is not bound. ParseConstructorArguments of the
DetailedTestToken returns for every argument list. -/
theorem no_index_out_of_range_and_no_nil_map_write (keccak256 : List UInt8 → List UInt8) :
    (∀ (I : detailed_test_token.IInstance ι W Auth CallOpts Tx E)
        (d : detailed_test_token.DetailedTestTokenContract ι Tx) (auth : Auth) (funcName : String)
        (funcArgs : List String) (w : W),
        (detailed_test_token.Loaded d →
          (∃ r, detailed_test_token.QueryContract keccak256 I d funcName funcArgs w = .returned r) ∧
          (∃ r, detailed_test_token.WriteContract keccak256 I d auth funcName funcArgs w = .returned r)) ∧
        (∀ p, detailed_test_token.QueryContract keccak256 I d funcName funcArgs w = .panicked p →
          p ≠ "index out of range" ∧
          ((d.Instance = none ∧ p = "invalid memory address or nil pointer dereference") ∨
            (¬ detailed_test_token.Loaded d ∧ p = "assignment to entry in nil map"))) ∧
        (∀ p, detailed_test_token.WriteContract keccak256 I d auth funcName funcArgs w = .panicked p →
          p ≠ "index out of range" ∧ p ≠ "assignment to entry in nil map" ∧
          d.Instance = none ∧ p = "invalid memory address or nil pointer dereference")) ∧
    (∀ (I : fast_test_token.IInstance ι W Auth CallOpts Tx E)
        (f : fast_test_token.FastTestTokenContract ι Tx) (auth : Auth) (funcName : String)
        (funcArgs : List String) (w : W),
        (fast_test_token.Loaded f →
          (∃ r, fast_test_token.QueryContract keccak256 I f funcName funcArgs w = .returned r) ∧
          (∃ r, fast_test_token.WriteContract keccak256 I f auth funcName funcArgs w = .returned r)) ∧
        (∀ p, fast_test_token.QueryContract keccak256 I f funcName funcArgs w = .panicked p →
          p ≠ "index out of range" ∧
          ((f.Instance = none ∧ p = "invalid memory address or nil pointer dereference") ∨
            (¬ fast_test_token.Loaded f ∧ p = "assignment to entry in nil map"))) ∧
        (∀ p, fast_test_token.WriteContract keccak256 I f auth funcName funcArgs w = .panicked p →
          p ≠ "index out of range" ∧ p ≠ "assignment to entry in nil map" ∧
          f.Instance = none ∧ p = "invalid memory address or nil pointer dereference")) ∧
    (∀ (d : detailed_test_token.DetailedTestTokenContract ι Tx) (contractArgs : List String),
      ∃ (e : Option (GoError E)) (d1 : detailed_test_token.DetailedTestTokenContract ι Tx),
        detailed_test_token.ParseConstructorArguments d contractArgs = .returned (e, d1)) := by
  refine ⟨?_, ?_, ?_⟩
  · intro I d auth funcName funcArgs w
    refine ⟨fun hL => ⟨detailed_test_token.dtt_QueryContract_returns keccak256 I d funcName funcArgs w hL,
      detailed_test_token.dtt_WriteContract_returns keccak256 I d auth funcName funcArgs w hL.1⟩, ?_, ?_⟩
    · intro p hp
      rcases detailed_test_token.dtt_QueryContract_panics keccak256 I d funcName funcArgs w p hp with
        ⟨hi, rfl⟩ | ⟨-, hL, rfl⟩
      · exact ⟨by decide, Or.inl ⟨hi, rfl⟩⟩
      · exact ⟨by decide, Or.inr ⟨hL, rfl⟩⟩
    · intro p hp
      obtain ⟨hi, rfl⟩ :=
        detailed_test_token.dtt_WriteContract_panics keccak256 I d auth funcName funcArgs w p hp
      exact ⟨by decide, by decide, hi, rfl⟩
  · intro I f auth funcName funcArgs w
    refine ⟨fun hL => ⟨fast_test_token.ftt_QueryContract_returns keccak256 I f funcName funcArgs w hL,
      fast_test_token.ftt_WriteContract_returns keccak256 I f auth funcName funcArgs w hL.1⟩, ?_, ?_⟩
    · intro p hp
      rcases fast_test_token.ftt_QueryContract_panics keccak256 I f funcName funcArgs w p hp with
        ⟨hi, rfl⟩ | ⟨-, hL, rfl⟩
      · exact ⟨by decide, Or.inl ⟨hi, rfl⟩⟩
      · exact ⟨by decide, Or.inr ⟨hL, rfl⟩⟩
    · intro p hp
      obtain ⟨hi, rfl⟩ :=
        fast_test_token.ftt_WriteContract_panics keccak256 I f auth funcName funcArgs w p hp
      exact ⟨by decide, by decide, hi, rfl⟩
  · intro d contractArgs
    by_cases h : contractArgs.length = 3
    · obtain ⟨a0, a1, a2, rfl⟩ := List.length_eq_three.1 h
      exact ⟨none, { d with ConstructorArgs :=
        { name := a0, symbol := a1, amount := some (big.SetString a2) } },
        by simp [detailed_test_token.ParseConstructorArguments,
          detailed_test_token.contractConstructorArgs.NumField, index, Run.bind]⟩
    · have hne : (contractArgs.length : Int) ≠ 3 := by exact_mod_cast h
      exact ⟨some (.errorf ("error: incorrect amount of arguments, args needed : "
        ++ fmt.d_int 3 ++ " != args received " ++ fmt.d_int contractArgs.length)), d,
        by simp only [detailed_test_token.ParseConstructorArguments,
          detailed_test_token.contractConstructorArgs.NumField, hne, ne_eq, not_false_eq_true,
          if_true]⟩

theorem no_index_out_of_range_and_no_nil_map_write_witness :
    detailed_test_token.Loaded detailed_test_token.loadedContract ∧
    (∃ r, detailed_test_token.QueryContract (fun _ => [])
      (detailed_test_token.mockInstance detailed_test_token.testReturns)
      detailed_test_token.loadedContract "allowance" ["a"] [] = .returned r) ∧
    (∃ r, detailed_test_token.WriteContract (fun _ => [])
      (detailed_test_token.mockInstance detailed_test_token.testReturns)
      detailed_test_token.loadedContract () "allowance" ["a"] [] = .returned r) := by
  have hL : detailed_test_token.Loaded detailed_test_token.loadedContract := by
    refine ⟨by simp [detailed_test_token.loadedContract, detailed_test_token.testContract],
      by simp [detailed_test_token.loadedContract, GoMap.empty],
      by simp [detailed_test_token.loadedContract, GoMap.empty], fun o => ?_⟩
    simp [detailed_test_token.loadedContract, GoMap.empty, GoMap.lookup]
  exact ⟨hL, ((@no_index_out_of_range_and_no_nil_map_write Unit
    (List (detailed_test_token.Call Unit Unit)) Unit Unit Unit Empty (fun _ => [])).1
    (detailed_test_token.mockInstance detailed_test_token.testReturns)
    detailed_test_token.loadedContract () "allowance" ["a"] []).1 hL⟩

/-! ## The client of the node -/

section

open eth_rpc_client eth_account

variable {κ Ctx H R PublicKey PrivateKey C : Type}

theorem toInt64_of_range (x : Int) (h1 : -2 ^ 63 ≤ x) (h2 : x < 2 ^ 63) : toInt64 x = x := by
  unfold toInt64
  norm_num at h1 h2 ⊢
  omega

theorem toInt64_of_uint64 (n : Nat) (h : n < 2 ^ 64) :
    toInt64 n = if n < 2 ^ 63 then (n : Int) else (n : Int) - 2 ^ 64 := by
  unfold toInt64
  norm_num at h ⊢
  split_ifs <;> omega

theorem toUint64_of_int (x : Int) (h1 : -2 ^ 63 ≤ x) (h2 : x < 2 ^ 63) :
    (toUint64 x : Int) = if 0 ≤ x then x else x + 2 ^ 64 := by
  unfold toUint64
  norm_num at h1 h2 ⊢
  split_ifs <;> omega

theorem GetDataForTransaction_ok (I : IEthClient κ Ctx W E)
    (newKeyedTransactionWithChainID :
      Option PrivateKey → big.IntPtr → Option (bind.TransactOpts R) × Option (GoError E))
    (e : EthRpcClient κ) (ctx : Ctx) (acc : UserAccount PublicKey PrivateKey)
    (chainId : big.IntPtr) (gasLimit gasPrice : Int) (s : Sys H W) (client : κ) (n : Nat)
    (w1 : W) (a : bind.TransactOpts R) (hc : e.EthClient = some client)
    (hn : I.PendingNonceAt client ctx acc.Account s.world = ((n, none), w1))
    (hk : newKeyedTransactionWithChainID acc.PrivateKey chainId = (some a, none)) :
    GetDataForTransaction I newKeyedTransactionWithChainID e ctx (some acc) chainId gasLimit
      gasPrice s =
      .returned ((some { a with
        Nonce := some (toInt64 n)
        Value := some 0
        GasLimit := toUint64 gasLimit
        GasPrice := some (toInt64 gasPrice) }, none),
        Sys.Printf { s with world := w1 }
          ("Retrieved Account nonce " ++ fmt.d_uint64 n ++ " \n")) := by
  simp only [GetDataForTransaction, hc, deref, Run.bind, hn, hk]

theorem GetDataForTransaction_nonce_err (I : IEthClient κ Ctx W E)
    (newKeyedTransactionWithChainID :
      Option PrivateKey → big.IntPtr → Option (bind.TransactOpts R) × Option (GoError E))
    (e : EthRpcClient κ) (ctx : Ctx) (acc : UserAccount PublicKey PrivateKey)
    (chainId : big.IntPtr) (gasLimit gasPrice : Int) (s : Sys H W) (client : κ) (n : Nat)
    (w1 : W) (err : GoError E) (hc : e.EthClient = some client)
    (hn : I.PendingNonceAt client ctx acc.Account s.world = ((n, some err), w1)) :
    GetDataForTransaction I newKeyedTransactionWithChainID e ctx (some acc) chainId gasLimit
      gasPrice s = .returned ((none, some err), { s with world := w1 }) := by
  simp only [GetDataForTransaction, hc, deref, Run.bind, hn]

theorem GetDataForTransaction_auth_err (I : IEthClient κ Ctx W E)
    (newKeyedTransactionWithChainID :
      Option PrivateKey → big.IntPtr → Option (bind.TransactOpts R) × Option (GoError E))
    (e : EthRpcClient κ) (ctx : Ctx) (acc : UserAccount PublicKey PrivateKey)
    (chainId : big.IntPtr) (gasLimit gasPrice : Int) (s : Sys H W) (client : κ) (n : Nat)
    (w1 : W) (x : Option (bind.TransactOpts R)) (err1 : GoError E)
    (hc : e.EthClient = some client)
    (hn : I.PendingNonceAt client ctx acc.Account s.world = ((n, none), w1))
    (hk : newKeyedTransactionWithChainID acc.PrivateKey chainId = (x, some err1)) :
    GetDataForTransaction I newKeyedTransactionWithChainID e ctx (some acc) chainId gasLimit
      gasPrice s =
      .returned ((none, some err1), Sys.Printf { s with world := w1 }
        ("Retrieved Account nonce " ++ fmt.d_uint64 n ++ " \n")) := by
  simp only [GetDataForTransaction, hc, deref, Run.bind, hn, hk]

/-- C21, the claim as stated fails. With the pending nonce 2^63 and the gas limit
-1, GetDataForTransaction returns a transactor whose Nonce is -2^63 and whose
GasLimit is 2^64 - 1. -/
theorem nonce_and_gas_limit_wrap_around :
    ∃ auth s1, GetDataForTransaction
        (recordingClient { testClientReturns with nonce := 2 ^ 63 } :
          IEthClient Unit Unit (List (Event Unit)) Empty)
        (fun (_ : Option Unit) _ =>
          (some { Nonce := none, Value := none, GasPrice := none, GasLimit := 0, rest := () },
            none))
        { EthClient := some (), RawUrl := "http://127.0.0.1:8545/" } ()
        (some { Account := common.zeroAddress, PublicKey := some (), PrivateKey := some () })
        (some 9001) (-1) 1000 ({ heap := (), world := [], stdout := "" } : Sys Unit _) =
          .returned ((some auth, none), s1) ∧
      auth.Nonce = some (-(2 ^ 63)) ∧ auth.Nonce ≠ some (2 ^ 63) ∧
      auth.GasLimit = 2 ^ 64 - 1 ∧ (auth.GasLimit : Int) ≠ -1 := by
  refine ⟨_, _, rfl, ?_, ?_, ?_, ?_⟩
  · show some (toInt64 ((2 ^ 63 : Nat) : Int)) = some (-(2 ^ 63))
    unfold toInt64
    norm_num
  · show some (toInt64 ((2 ^ 63 : Nat) : Int)) ≠ some (2 ^ 63)
    unfold toInt64
    norm_num
  · show toUint64 (-1) = 2 ^ 64 - 1
    unfold toUint64
    norm_num
    rfl
  · show ((toUint64 (-1) : Nat) : Int) ≠ -1
    unfold toUint64
    norm_num

/-- C21, amended. With a bound client and an account: when the nonce fetch
answers the nonce `n` below 2^64 and the transactor construction succeeds,
GetDataForTransaction returns the transactor with Value 0, GasPrice equal to
the gas price, Nonce equal to `n` if `n` is below 2^63 and to `n - 2^64`
otherwise, and GasLimit equal to the gas limit if that is not negative and to
the gas limit plus 2^64 otherwise, the gas limit and the gas price being Go
int values; the other fields are as constructed. When the nonce fetch fails it
returns nil and that error, whatever the transactor construction would do;
when the transactor construction fails it returns nil and that error. -/
theorem get_data_for_transaction_fields (I : IEthClient κ Ctx W E)
    (newKeyedTransactionWithChainID :
      Option PrivateKey → big.IntPtr → Option (bind.TransactOpts R) × Option (GoError E))
    (e : EthRpcClient κ) (ctx : Ctx) (acc : UserAccount PublicKey PrivateKey)
    (chainId : big.IntPtr) (gasLimit gasPrice : Int) (s : Sys H W) (client : κ)
    (hc : e.EthClient = some client)
    (hl : -2 ^ 63 ≤ gasLimit ∧ gasLimit < 2 ^ 63) (hp : -2 ^ 63 ≤ gasPrice ∧ gasPrice < 2 ^ 63) :
    (∀ (n : Nat) (w1 : W) (a : bind.TransactOpts R), n < 2 ^ 64 →
      I.PendingNonceAt client ctx acc.Account s.world = ((n, none), w1) →
      newKeyedTransactionWithChainID acc.PrivateKey chainId = (some a, none) →
      ∃ auth s1, GetDataForTransaction I newKeyedTransactionWithChainID e ctx (some acc) chainId
          gasLimit gasPrice s = .returned ((some auth, none), s1) ∧
        s1.world = w1 ∧ auth.rest = a.rest ∧
        auth.Value = some 0 ∧ auth.GasPrice = some gasPrice ∧
        auth.Nonce = some (if n < 2 ^ 63 then (n : Int) else (n : Int) - 2 ^ 64) ∧
        (auth.GasLimit : Int) = (if 0 ≤ gasLimit then gasLimit else gasLimit + 2 ^ 64) ∧
        (n < 2 ^ 63 → auth.Nonce = some (n : Int)) ∧
        (0 ≤ gasLimit → (auth.GasLimit : Int) = gasLimit)) ∧
    (∀ (n : Nat) (w1 : W) (err : GoError E),
      I.PendingNonceAt client ctx acc.Account s.world = ((n, some err), w1) →
      ∀ anyNewKeyed : Option PrivateKey → big.IntPtr →
          Option (bind.TransactOpts R) × Option (GoError E),
        GetDataForTransaction I anyNewKeyed e ctx (some acc) chainId gasLimit gasPrice s =
          .returned ((none, some err), { s with world := w1 })) ∧
    (∀ (n : Nat) (w1 : W) (x : Option (bind.TransactOpts R)) (err1 : GoError E),
      I.PendingNonceAt client ctx acc.Account s.world = ((n, none), w1) →
      newKeyedTransactionWithChainID acc.PrivateKey chainId = (x, some err1) →
      ∃ s1, GetDataForTransaction I newKeyedTransactionWithChainID e ctx (some acc) chainId
          gasLimit gasPrice s = .returned ((none, some err1), s1) ∧ s1.world = w1) := by
  refine ⟨?_, ?_, ?_⟩
  · intro n w1 a hn64 hn hk
    refine ⟨_, _, GetDataForTransaction_ok I newKeyedTransactionWithChainID e ctx acc chainId
      gasLimit gasPrice s client n w1 a hc hn hk, rfl, rfl, rfl, ?_, ?_, ?_, ?_, ?_⟩
    · exact congrArg some (toInt64_of_range gasPrice hp.1 hp.2)
    · exact congrArg some (toInt64_of_uint64 n hn64)
    · exact toUint64_of_int gasLimit hl.1 hl.2
    · intro h
      show some (toInt64 n) = some (n : Int)
      rw [toInt64_of_uint64 n hn64, if_pos h]
    · intro h
      show ((toUint64 gasLimit : Nat) : Int) = gasLimit
      rw [toUint64_of_int gasLimit hl.1 hl.2, if_pos h]
  · intro n w1 err hn anyNewKeyed
    exact GetDataForTransaction_nonce_err I anyNewKeyed e ctx acc chainId gasLimit gasPrice s
      client n w1 err hc hn
  · intro n w1 x err1 hn hk
    exact ⟨_, GetDataForTransaction_auth_err I newKeyedTransactionWithChainID e ctx acc chainId
      gasLimit gasPrice s client n w1 x err1 hc hn hk, rfl⟩

theorem get_data_for_transaction_fields_witness :
    ∃ auth s1, GetDataForTransaction
        (recordingClient testClientReturns : IEthClient Unit Unit (List (Event Unit)) Empty)
        (fun (_ : Option Unit) _ =>
          (some { Nonce := none, Value := none, GasPrice := none, GasLimit := 0, rest := () },
            none))
        { EthClient := some (), RawUrl := "http://127.0.0.1:8545/" } ()
        (some { Account := common.zeroAddress, PublicKey := some (), PrivateKey := some () })
        (some 9001) 800000 1000 ({ heap := (), world := [], stdout := "" } : Sys Unit _) =
          .returned ((some auth, none), s1) ∧
      auth.Nonce = some 1 ∧ auth.Value = some 0 ∧ (auth.GasLimit : Int) = 800000 ∧
      auth.GasPrice = some 1000 := by
  obtain ⟨auth, s1, h, -, -, hv, hg, -, -, hn, hl⟩ :=
    (get_data_for_transaction_fields
      (recordingClient testClientReturns : IEthClient Unit Unit (List (Event Unit)) Empty)
      (fun (_ : Option Unit) _ =>
        (some { Nonce := none, Value := none, GasPrice := none, GasLimit := 0, rest := () },
          none))
      { EthClient := some (), RawUrl := "http://127.0.0.1:8545/" } ()
      { Account := common.zeroAddress, PublicKey := some (), PrivateKey := some () }
      (some 9001) 800000 1000 ({ heap := (), world := [], stdout := "" } : Sys Unit _) () rfl
      (by norm_num) (by norm_num)).1 1 _ _ (by norm_num) rfl rfl
  exact ⟨auth, s1, h, hn (by norm_num), hv, hl (by norm_num), hg⟩

end

section

open eth_rpc_client

variable {κ Ctx : Type}

/-- C22. With a bound client: when ChainID and BlockNumber both succeed,
LoadBlockChainState returns the state holding exactly that chain id and that
block number, and no error; when ChainID fails it returns nil and that error,
in the world right after the ChainID call, so without a BlockNumber call, which
a recording client shows; when ChainID succeeds and BlockNumber fails it
returns nil and that error. It always returns, and the state is non-nil exactly
when the error is nil. -/
theorem load_block_chain_state_results (I : IEthClient κ Ctx W E) (e : EthRpcClient κ)
    (ctx : Ctx) (w : W) (client : κ) (hc : e.EthClient = some client) :
    (∀ chainId w1 blockNumber w2, I.ChainID client ctx w = ((chainId, none), w1) →
      I.BlockNumber client ctx w1 = ((blockNumber, none), w2) →
      LoadBlockChainState I e ctx w =
        .returned ((some { BlockNumber := blockNumber, ChainId := chainId }, none), w2)) ∧
    (∀ x err w1, I.ChainID client ctx w = ((x, some err), w1) →
      LoadBlockChainState I e ctx w = .returned ((none, some err), w1)) ∧
    (∀ chainId w1 x err1 w2, I.ChainID client ctx w = ((chainId, none), w1) →
      I.BlockNumber client ctx w1 = ((x, some err1), w2) →
      LoadBlockChainState I e ctx w = .returned ((none, some err1), w2)) ∧
    (∃ st err w1, LoadBlockChainState I e ctx w = .returned ((st, err), w1) ∧
      (st ≠ none ↔ err = none)) ∧
    (∀ (ret : ClientReturns E) (err : GoError E) (url : String) (log : List (Event Unit)),
      ret.chainIdErr = some err →
      LoadBlockChainState (recordingClient ret) { EthClient := some (), RawUrl := url } ctx log =
        .returned ((none, some err), log ++ [.ChainID])) := by
  refine ⟨?_, ?_, ?_, ?_, ?_⟩
  · intro chainId w1 blockNumber w2 h1 h2
    simp only [LoadBlockChainState, hc, deref, Run.bind, h1, h2]
  · intro x err w1 h1
    simp only [LoadBlockChainState, hc, deref, Run.bind, h1]
  · intro chainId w1 x err1 w2 h1 h2
    simp only [LoadBlockChainState, hc, deref, Run.bind, h1, h2]
  · simp only [LoadBlockChainState, hc, deref, Run.bind]
    generalize I.ChainID client ctx w = r
    rcases r with ⟨⟨chainId, _ | err⟩, w1⟩
    · dsimp only
      generalize I.BlockNumber client ctx w1 = r1
      rcases r1 with ⟨⟨blockNumber, _ | err1⟩, w2⟩
      · exact ⟨_, _, _, rfl, by simp⟩
      · exact ⟨_, _, _, rfl, by simp⟩
    · exact ⟨_, _, _, rfl, by simp⟩
  · intro ret err url log h
    simp only [LoadBlockChainState, deref, Run.bind, recordingClient, h]

theorem load_block_chain_state_results_witness :
    LoadBlockChainState
      (recordingClient testClientReturns : IEthClient Unit Unit (List (Event Unit)) Empty)
      { EthClient := some (), RawUrl := "http://127.0.0.1:8545/" } () [] =
        .returned ((some { BlockNumber := 3000, ChainId := some 9001 }, none),
          [.ChainID, .BlockNumber]) :=
  (load_block_chain_state_results
    (recordingClient testClientReturns : IEthClient Unit Unit (List (Event Unit)) Empty)
    { EthClient := some (), RawUrl := "http://127.0.0.1:8545/" } () [] () rfl).1
    (some 9001) [.ChainID] 3000 [.ChainID, .BlockNumber] rfl rfl

/-- C23. With a bound client, VerifyContractExistsAtAddress makes the one CodeAt
call, for the address and the block number given, and returns true exactly
when that call answers no error and a code of length greater than zero; an
error of the call is answered with false. -/
theorem verify_contract_exists_is_code_present (I : IEthClient κ Ctx W E)
    (e : EthRpcClient κ) (ctx : Ctx) (blockNumber : big.IntPtr)
    (contractAddress : common.Address) (w : W) (client : κ) (hc : e.EthClient = some client) :
    ∃ b, VerifyContractExistsAtAddress I e ctx blockNumber contractAddress w =
        .returned (b, (I.CodeAt client ctx contractAddress blockNumber w).2) ∧
      (b = true ↔ ((I.CodeAt client ctx contractAddress blockNumber w).1.2 = none ∧
        0 < (I.CodeAt client ctx contractAddress blockNumber w).1.1.length)) ∧
      ((I.CodeAt client ctx contractAddress blockNumber w).1.2 ≠ none → b = false) := by
  rcases h : I.CodeAt client ctx contractAddress blockNumber w with ⟨⟨code, _ | err⟩, w1⟩
  · by_cases hl : code.length = 0
    · refine ⟨false, ?_, by simp [hl], by simp⟩
      simp only [VerifyContractExistsAtAddress, hc, deref, Run.bind, h]
      simp [hl]
    · refine ⟨true, ?_, by simp; omega, by simp⟩
      simp only [VerifyContractExistsAtAddress, hc, deref, Run.bind, h]
      simp [hl]
  · refine ⟨false, ?_, by simp, by simp⟩
    simp only [VerifyContractExistsAtAddress, hc, deref, Run.bind, h]
    simp

theorem verify_contract_exists_is_code_present_witness :
    ∃ b, VerifyContractExistsAtAddress
        (recordingClient { testClientReturns with code := [] } :
          IEthClient Unit Unit (List (Event Unit)) Empty)
        { EthClient := some (), RawUrl := "http://127.0.0.1:8545/" } () (some 3000)
        common.zeroAddress [] = .returned (b, [.CodeAt common.zeroAddress (some 3000)]) ∧
      b = false := by
  obtain ⟨b, h, hb, -⟩ := verify_contract_exists_is_code_present
    (recordingClient { testClientReturns with code := [] } :
      IEthClient Unit Unit (List (Event Unit)) Empty)
    { EthClient := some (), RawUrl := "http://127.0.0.1:8545/" } () (some 3000)
    common.zeroAddress [] () rfl
  refine ⟨b, h, ?_⟩
  cases b
  · rfl
  · exact absurd (hb.1 rfl).2 (by decide)

end

/-! ## The constructors of the facades -/

namespace contract_interactor_facade

open constants contracts_template_interface eth_account eth_rpc_client

variable {κ Ctx H R PublicKey PrivateKey C : Type}

theorem CreateAccount_ok_some (Cr : Crypto PublicKey PrivateKey E) (privateHexKey : String)
    (x : Option (UserAccount PublicKey PrivateKey))
    (h : CreateAccount Cr privateHexKey = .returned (x, none)) : ∃ ua, x = some ua := by
  unfold CreateAccount at h
  dsimp only [deref, Run.bind] at h
  repeat' split at h
  all_goals first
    | (cases h; exact ⟨_, rfl⟩)
    | cases h

theorem NewContractDeployerFacade_account_err (keccak256 : List UInt8 → List UInt8)
    (P : Packages κ Ctx W PublicKey PrivateKey R E) (privateKey rpc : String)
    (contractArgs : List String) (contractType : String)
    (gasLimit gasPrice : Int) (s : Sys H W) (x : Option (UserAccount PublicKey PrivateKey))
    (err : GoError E) (ha : CreateAccount P.crypto privateKey = .returned (x, some err)) :
    NewContractDeployerFacade keccak256 P privateKey rpc contractArgs contractType gasLimit gasPrice s =
      .returned ((none, some err),
        s.Println "Starting account and blockchain connection process.") := by
  simp only [NewContractDeployerFacade, ha, Run.bind]

theorem NewContractDeployerFacade_dial_err (keccak256 : List UInt8 → List UInt8)
    (P : Packages κ Ctx W PublicKey PrivateKey R E) (privateKey rpc : String)
    (contractArgs : List String) (contractType : String)
    (gasLimit gasPrice : Int) (s : Sys H W) (ua : UserAccount PublicKey PrivateKey)
    (x : Option κ) (err1 : GoError E) (w2 : W)
    (ha : CreateAccount P.crypto privateKey = .returned (some ua, none))
    (hd : P.dialClient rpc s.world = ((x, some err1), w2)) :
    NewContractDeployerFacade keccak256 P privateKey rpc contractArgs contractType gasLimit gasPrice s =
      .returned ((none, some (.errorf ("error: failed to connect to given " ++ "rpc url : "
        ++ fmt.v_error P.ErrorString (some err1) ++ " \n"))),
        { (s.Println "Starting account and blockchain connection process.").Printf
            ("Successfully accessed account for Public Key: " ++ fmt.s_Address keccak256 ua.Account ++ "\n") with world := w2 }) := by
  simp only [NewContractDeployerFacade, ha, Run.bind, deref, CreateClient, Sys.Println, Sys.Printf, hd]

theorem NewContractDeployerFacade_dialled (keccak256 : List UInt8 → List UInt8)
    (P : Packages κ Ctx W PublicKey PrivateKey R E) (privateKey rpc : String)
    (contractArgs : List String) (contractType : String)
    (gasLimit gasPrice : Int) (s : Sys H W) (ua : UserAccount PublicKey PrivateKey)
    (oc : Option κ) (w2 : W)
    (ha : CreateAccount P.crypto privateKey = .returned (some ua, none))
    (hd : P.dialClient rpc s.world = ((oc, none), w2)) :
    NewContractDeployerFacade keccak256 P privateKey rpc contractArgs contractType gasLimit gasPrice s =
      (NewContractDeployerFacade.afterDefer P (some ua) (some { EthClient := oc, RawUrl := rpc }) contractArgs contractType
        gasLimit gasPrice
        { (s.Println "Starting account and blockchain connection process.").Printf
            ("Successfully accessed account for Public Key: " ++ fmt.s_Address keccak256 ua.Account ++ "\n") with world := w2 }).bind
      fun r =>
        (CloseClient P.ethClient { EthClient := oc, RawUrl := rpc } r.2.world).bind fun w3 =>
        .returned (r.1, { r.2 with world := w3 }) := by
  simp only [NewContractDeployerFacade, ha, Run.bind, deref, CreateClient, Sys.Println, Sys.Printf, hd]

theorem NewContractDeployerFacade_chain_err (P : Packages κ Ctx W PublicKey PrivateKey R E)
    (userAccount : Option (UserAccount PublicKey PrivateKey)) (ec : EthRpcClient κ)
    (contractArgs : List String) (contractType : String)
    (gasLimit gasPrice : Int) (s : Sys H W) (x : Option BlockChainState) (err2 : GoError E)
    (w1 : W)
    (hl : LoadBlockChainState P.ethClient ec P.Background s.world =
      .returned ((x, some err2), w1)) :
    NewContractDeployerFacade.afterDefer P userAccount (some ec) contractArgs contractType gasLimit gasPrice s =
      .returned ((none, some (.errorf ("error: failed to retrieve account using "
        ++ "provided private key : " ++ fmt.v_error P.ErrorString (some err2) ++ "\n"))),
        { s with world := w1 }) := by
  simp only [NewContractDeployerFacade.afterDefer, hl, Run.bind, deref]

theorem NewContractExecutionFacade_account_err (keccak256 : List UInt8 → List UInt8)
    (P : Packages κ Ctx W PublicKey PrivateKey R E) (privateKey rpc : String)
    (contractType contractAddress funcName : String) (funcArguments : List String)
    (gasLimit gasPrice : Int) (s : Sys H W) (x : Option (UserAccount PublicKey PrivateKey))
    (err : GoError E) (ha : CreateAccount P.crypto privateKey = .returned (x, some err)) :
    NewContractExecutionFacade keccak256 P privateKey rpc contractType contractAddress funcName funcArguments gasLimit gasPrice s =
      .returned ((none, some err),
        s.Println "Starting account and blockchain connection process.") := by
  simp only [NewContractExecutionFacade, ha, Run.bind]

theorem NewContractExecutionFacade_dial_err (keccak256 : List UInt8 → List UInt8)
    (P : Packages κ Ctx W PublicKey PrivateKey R E) (privateKey rpc : String)
    (contractType contractAddress funcName : String) (funcArguments : List String)
    (gasLimit gasPrice : Int) (s : Sys H W) (ua : UserAccount PublicKey PrivateKey)
    (x : Option κ) (err1 : GoError E) (w2 : W)
    (ha : CreateAccount P.crypto privateKey = .returned (some ua, none))
    (hd : P.dialClient rpc s.world = ((x, some err1), w2)) :
    NewContractExecutionFacade keccak256 P privateKey rpc contractType contractAddress funcName funcArguments gasLimit gasPrice s =
      .returned ((none, some (.errorf ("error: failed to connect to given " ++ "rpc url : "
        ++ fmt.v_error P.ErrorString (some err1) ++ " \n"))),
        { (s.Println "Starting account and blockchain connection process.").Printf
            ("Succesfully accessed account returned Public Key: " ++ fmt.s_Address keccak256 ua.Account ++ "\n") with world := w2 }) := by
  simp only [NewContractExecutionFacade, ha, Run.bind, deref, CreateClient, Sys.Println, Sys.Printf, hd]

theorem NewContractExecutionFacade_dialled (keccak256 : List UInt8 → List UInt8)
    (P : Packages κ Ctx W PublicKey PrivateKey R E) (privateKey rpc : String)
    (contractType contractAddress funcName : String) (funcArguments : List String)
    (gasLimit gasPrice : Int) (s : Sys H W) (ua : UserAccount PublicKey PrivateKey)
    (oc : Option κ) (w2 : W)
    (ha : CreateAccount P.crypto privateKey = .returned (some ua, none))
    (hd : P.dialClient rpc s.world = ((oc, none), w2)) :
    NewContractExecutionFacade keccak256 P privateKey rpc contractType contractAddress funcName funcArguments gasLimit gasPrice s =
      (NewContractExecutionFacade.afterDefer P (some ua) (some { EthClient := oc, RawUrl := rpc }) contractType contractAddress funcName funcArguments
        gasLimit gasPrice
        { (s.Println "Starting account and blockchain connection process.").Printf
            ("Succesfully accessed account returned Public Key: " ++ fmt.s_Address keccak256 ua.Account ++ "\n") with world := w2 }).bind
      fun r =>
        (CloseClient P.ethClient { EthClient := oc, RawUrl := rpc } r.2.world).bind fun w3 =>
        .returned (r.1, { r.2 with world := w3 }) := by
  simp only [NewContractExecutionFacade, ha, Run.bind, deref, CreateClient, Sys.Println, Sys.Printf, hd]

theorem NewContractExecutionFacade_chain_err (P : Packages κ Ctx W PublicKey PrivateKey R E)
    (userAccount : Option (UserAccount PublicKey PrivateKey)) (ec : EthRpcClient κ)
    (contractType contractAddress funcName : String) (funcArguments : List String)
    (gasLimit gasPrice : Int) (s : Sys H W) (x : Option BlockChainState) (err2 : GoError E)
    (w1 : W)
    (hl : LoadBlockChainState P.ethClient ec P.Background s.world =
      .returned ((x, some err2), w1)) :
    NewContractExecutionFacade.afterDefer P userAccount (some ec) contractType contractAddress funcName funcArguments gasLimit gasPrice s =
      .returned ((none, some (.errorf ("error: failed to retrieve account using "
        ++ "provided private key : " ++ fmt.v_error P.ErrorString (some err2) ++ "\n"))),
        { s with world := w1 }) := by
  simp only [NewContractExecutionFacade.afterDefer, hl, Run.bind, deref]

end contract_interactor_facade

namespace contract_interactor_facade

open constants contracts_template_interface eth_account eth_rpc_client

variable {κ Ctx H R PublicKey PrivateKey C : Type}

theorem NewContractDeployerFacade_afterDefer_trace
    (P : Packages Unit Ctx (List (Event C)) PublicKey PrivateKey R E) (ret : ClientReturns E)
    (hc : P.ethClient = recordingClient ret)
    (userAccount : Option (UserAccount PublicKey PrivateKey)) (ec : Option (EthRpcClient Unit))
    (contractArgs : List String) (contractType : String)
    (gasLimit gasPrice : Int) (s : Sys H (List (Event C)))
    (res : Option (contractDeployerFacade (UserAccount PublicKey PrivateKey) (EthRpcClient Unit)
      BlockChainState (Option (bind.TransactOpts R))) × Option (GoError E))
    (sb : Sys H (List (Event C)))
    (h : NewContractDeployerFacade.afterDefer P userAccount ec contractArgs contractType
      gasLimit gasPrice s = .returned (res, sb)) :
    ∃ mid, sb.world = s.world ++ .ChainID :: mid ∧ ∀ e ∈ mid, e.isRead = true := by
  obtain ⟨cid, cerr, bn, berr, n, nerr, code, coderr⟩ := ret
  rcases ec with _ | ⟨_ | ⟨⟩, url⟩ <;> rcases cerr with _ | e1 <;> rcases berr with _ | e2 <;>
    rcases nerr with _ | e3 <;> rcases userAccount with _ | ua <;>
    simp only [NewContractDeployerFacade.afterDefer, LoadBlockChainState, GetDataForTransaction,
      hc, recordingClient, deref, Run.bind, Sys.Printf, Sys.Println] at h <;>
    (try (generalize P.newKeyedTransactionWithChainID _ _ = rk at h
          rcases rk with ⟨_ | a, _ | e4⟩ <;> simp only [] at h)) <;>
    first
    | (cases h
       simp only [List.append_assoc, List.singleton_append, List.cons_append, List.nil_append]
       refine ⟨_, rfl, ?_⟩
       simp [Event.isRead])
    | cases h

end contract_interactor_facade

namespace contract_interactor_facade

open constants contracts_template_interface eth_account eth_rpc_client

variable {κ Ctx H R PublicKey PrivateKey C : Type}

theorem NewContractExecutionFacade_afterDefer_trace
    (P : Packages Unit Ctx (List (Event C)) PublicKey PrivateKey R E) (ret : ClientReturns E)
    (hc : P.ethClient = recordingClient ret)
    (userAccount : Option (UserAccount PublicKey PrivateKey)) (ec : Option (EthRpcClient Unit))
    (contractType contractAddress funcName : String) (funcArguments : List String)
    (gasLimit gasPrice : Int) (s : Sys H (List (Event C)))
    (res : Option (contractExecutorFacade (UserAccount PublicKey PrivateKey) (EthRpcClient Unit)
      BlockChainState (Option (bind.TransactOpts R))) × Option (GoError E))
    (sb : Sys H (List (Event C)))
    (h : NewContractExecutionFacade.afterDefer P userAccount ec contractType contractAddress
      funcName funcArguments gasLimit gasPrice s = .returned (res, sb)) :
    ∃ mid, sb.world = s.world ++ .ChainID :: mid ∧ ∀ e ∈ mid, e.isRead = true := by
  obtain ⟨cid, cerr, bn, berr, n, nerr, code, coderr⟩ := ret
  rcases ec with _ | ⟨_ | ⟨⟩, url⟩ <;> rcases cerr with _ | e1 <;> rcases berr with _ | e2 <;>
    rcases nerr with _ | e3 <;> rcases userAccount with _ | ua <;>
    rcases coderr with _ | e5 <;> rcases code with _ | ⟨b, bs⟩ <;>
    simp only [NewContractExecutionFacade.afterDefer, LoadBlockChainState,
      VerifyContractExistsAtAddress, GetDataForTransaction,
      hc, recordingClient, deref, Run.bind, Sys.Printf, Sys.Println, Option.isSome_none,
      Option.isSome_some, List.length_nil, List.length_cons, Bool.false_eq_true, false_or,
      true_or, or_true, or_false, if_true, if_false, Nat.succ_ne_zero, Bool.not_true,
      Bool.not_false, reduceCtorEq, Nat.add_one_ne_zero] at h <;>
    (try (generalize P.newKeyedTransactionWithChainID _ _ = rk at h
          rcases rk with ⟨_ | a, _ | e4⟩ <;> simp only [] at h)) <;>
    first
    | (cases h
       simp only [List.append_assoc, List.singleton_append, List.cons_append, List.nil_append]
       refine ⟨_, rfl, ?_⟩
       simp [Event.isRead])
    | cases h

end contract_interactor_facade

namespace contract_interactor_facade

open constants contracts_template_interface eth_account eth_rpc_client

variable {κ Ctx H R PublicKey PrivateKey C : Type}

theorem NewContractDeployerFacade_trace (keccak256 : List UInt8 → List UInt8)
    (P : Packages Unit Ctx (List (Event C)) PublicKey PrivateKey R E) (oc : Option Unit)
    (ret : ClientReturns E)
    (hd : P.dialClient = recordingDial oc none) (hc : P.ethClient = recordingClient ret)
    (privateKey rpc : String)
    (contractArgs : List String) (contractType : String)
    (gasLimit gasPrice : Int) (s : Sys H (List (Event C)))
    (res : Option (contractDeployerFacade (UserAccount PublicKey PrivateKey) (EthRpcClient Unit)
      BlockChainState (Option (bind.TransactOpts R))) × Option (GoError E))
    (s1 : Sys H (List (Event C)))
    (h : NewContractDeployerFacade keccak256 P privateKey rpc contractArgs contractType gasLimit gasPrice s = .returned (res, s1)) :
    ((∃ x err, CreateAccount P.crypto privateKey = .returned (x, some err)) ∧ res.1 = none ∧
      s1.world = s.world) ∨
    ∃ mid, s1.world = s.world ++ .Dial rpc :: .ChainID :: mid ++ [.Close] ∧
      ∀ e ∈ mid, e.isRead = true := by
  rcases ha : CreateAccount P.crypto privateKey with ⟨x, _ | err⟩ | p
  · obtain ⟨ua, rfl⟩ := CreateAccount_ok_some _ _ _ ha
    have hd2 : P.dialClient rpc s.world = ((oc, none), s.world ++ [.Dial rpc]) := by
      rw [hd]
      rfl
    rw [NewContractDeployerFacade_dialled keccak256 P privateKey rpc _ _ gasLimit gasPrice s ua oc _ ha hd2] at h
    generalize hr : NewContractDeployerFacade.afterDefer P _ _ _ _ _ _ _ = ra at h
    rcases ra with ⟨r, sb⟩ | p
    · obtain ⟨mid, hm, hq⟩ := NewContractDeployerFacade_afterDefer_trace P ret hc _ _ _ _ _ _ _ _ _ hr
      rcases oc with _ | ⟨⟩
      · simp [CloseClient, deref, Run.bind] at h
      · simp only [CloseClient, deref, Run.bind, hc, recordingClient] at h
        cases h
        right
        refine ⟨mid, ?_, hq⟩
        simp [hm, Sys.Println, Sys.Printf]
    · simp [Run.bind] at h
  · rw [NewContractDeployerFacade_account_err keccak256 P privateKey rpc _ _ gasLimit gasPrice s x err ha] at h
    cases h
    exact Or.inl ⟨⟨x, err, rfl⟩, rfl, rfl⟩
  · simp [NewContractDeployerFacade, ha, Run.bind] at h

theorem NewContractExecutionFacade_trace (keccak256 : List UInt8 → List UInt8)
    (P : Packages Unit Ctx (List (Event C)) PublicKey PrivateKey R E) (oc : Option Unit)
    (ret : ClientReturns E)
    (hd : P.dialClient = recordingDial oc none) (hc : P.ethClient = recordingClient ret)
    (privateKey rpc : String)
    (contractType contractAddress funcName : String) (funcArguments : List String)
    (gasLimit gasPrice : Int) (s : Sys H (List (Event C)))
    (res : Option (contractExecutorFacade (UserAccount PublicKey PrivateKey) (EthRpcClient Unit)
      BlockChainState (Option (bind.TransactOpts R))) × Option (GoError E))
    (s1 : Sys H (List (Event C)))
    (h : NewContractExecutionFacade keccak256 P privateKey rpc contractType contractAddress funcName funcArguments gasLimit gasPrice s = .returned (res, s1)) :
    ((∃ x err, CreateAccount P.crypto privateKey = .returned (x, some err)) ∧ res.1 = none ∧
      s1.world = s.world) ∨
    ∃ mid, s1.world = s.world ++ .Dial rpc :: .ChainID :: mid ++ [.Close] ∧
      ∀ e ∈ mid, e.isRead = true := by
  rcases ha : CreateAccount P.crypto privateKey with ⟨x, _ | err⟩ | p
  · obtain ⟨ua, rfl⟩ := CreateAccount_ok_some _ _ _ ha
    have hd2 : P.dialClient rpc s.world = ((oc, none), s.world ++ [.Dial rpc]) := by
      rw [hd]
      rfl
    rw [NewContractExecutionFacade_dialled keccak256 P privateKey rpc _ _ _ _ gasLimit gasPrice s ua oc _ ha hd2] at h
    generalize hr : NewContractExecutionFacade.afterDefer P _ _ _ _ _ _ _ _ _ = ra at h
    rcases ra with ⟨r, sb⟩ | p
    · obtain ⟨mid, hm, hq⟩ := NewContractExecutionFacade_afterDefer_trace P ret hc _ _ _ _ _ _ _ _ _ _ _ hr
      rcases oc with _ | ⟨⟩
      · simp [CloseClient, deref, Run.bind] at h
      · simp only [CloseClient, deref, Run.bind, hc, recordingClient] at h
        cases h
        right
        refine ⟨mid, ?_, hq⟩
        simp [hm, Sys.Println, Sys.Printf]
    · simp [Run.bind] at h
  · rw [NewContractExecutionFacade_account_err keccak256 P privateKey rpc _ _ _ _ gasLimit gasPrice s x err ha] at h
    cases h
    exact Or.inl ⟨⟨x, err, rfl⟩, rfl, rfl⟩
  · simp [NewContractExecutionFacade, ha, Run.bind] at h

end contract_interactor_facade

section

open constants contracts_template_interface eth_account eth_rpc_client contract_interactor_facade

variable {κ Ctx H R PublicKey PrivateKey C : Type}

theorem contract_deployer_main_trace
    (X : Externals ιd ιf (List (Event C)) (Option (bind.TransactOpts R)) CallOpts (Option Unit)
      Tx E)
    (P : Packages Unit Ctx (List (Event C)) PublicKey PrivateKey R E) (oc : Option Unit)
    (ret : ClientReturns E)
    (hd : P.dialClient = recordingDial oc none) (hc : P.ethClient = recordingClient ret)
    (privateKey rpc contractType : String) (gasLimit gasPrice : Int)
    (contractArguments : List String) (s : Sys (Templates ιd ιf Tx) (List (Event C)))
    (code : Int) (s2 : Sys (Templates ιd ιf Tx) (List (Event C)))
    (h : contract_deployer.main X P privateKey rpc contractType gasLimit gasPrice
      contractArguments s = .returned (code, s2)) :
    s2.world = s.world ∨
    ∃ mid s1, (∀ e ∈ mid, e.isRead = true) ∧
      s1.world = s.world ++ .Dial rpc :: .ChainID :: mid ++ [.Close] ∧
      (s2.world = s1.world ∨
        ∃ (c : contractDeployerFacade (UserAccount PublicKey PrivateKey) (EthRpcClient Unit)
            BlockChainState (Option (bind.TransactOpts R))) (r : _),
          DeployContract X c s1 = .returned r ∧ s2.world = r.2.world) := by
  unfold contract_deployer.main at h
  dsimp only at h
  split_ifs at h
  · cases h
    exact Or.inl rfl
  · cases h
    exact Or.inl rfl
  · generalize hcons : NewContractDeployerFacade X.keccak256 P privateKey rpc contractArguments
      contractType gasLimit gasPrice s = rc at h
    rcases rc with ⟨⟨x, _ | err⟩, s1⟩ | p
    · rcases x with _ | c
      · simp [deref, Run.bind] at h
      · rcases NewContractDeployerFacade_trace _ P oc ret hd hc _ _ _ _ _ _ _ _ _ hcons with
          ⟨_, hn, _⟩ | ⟨mid, hm, hq⟩
        · cases hn
        · generalize hdep : DeployContract X c s1 = rd at h
          rcases rd with ⟨_ | e, sd⟩ | p
          · simp only [Run.bind, deref, hdep] at h
            cases h
            exact Or.inr ⟨mid, s1, hq, hm, Or.inr ⟨c, _, hdep, rfl⟩⟩
          · simp only [Run.bind, deref, hdep] at h
            cases h
            exact Or.inr ⟨mid, s1, hq, hm, Or.inr ⟨c, _, hdep, rfl⟩⟩
          · simp [Run.bind, deref, hdep] at h
    · simp only [Run.bind] at h
      cases h
      rcases NewContractDeployerFacade_trace _ P oc ret hd hc _ _ _ _ _ _ _ _ _ hcons with
        ⟨_, _, hw⟩ | ⟨mid, hm, hq⟩
      · exact Or.inl hw
      · exact Or.inr ⟨mid, s1, hq, hm, Or.inl rfl⟩
    · simp [Run.bind] at h

theorem contract_interactor_main_trace
    (X : Externals ιd ιf (List (Event C)) (Option (bind.TransactOpts R)) CallOpts (Option Unit)
      Tx E)
    (P : Packages Unit Ctx (List (Event C)) PublicKey PrivateKey R E) (oc : Option Unit)
    (ret : ClientReturns E)
    (hd : P.dialClient = recordingDial oc none) (hc : P.ethClient = recordingClient ret)
    (privateKey rpc contractType contractAddress funcName : String) (gasLimit gasPrice : Int)
    (funcArguments : List String) (s : Sys (Templates ιd ιf Tx) (List (Event C)))
    (code : Int) (s2 : Sys (Templates ιd ιf Tx) (List (Event C)))
    (h : contract_interactor.main X P privateKey rpc contractType contractAddress funcName
      gasLimit gasPrice funcArguments s = .returned (code, s2)) :
    s2.world = s.world ∨
    ∃ mid s1, (∀ e ∈ mid, e.isRead = true) ∧
      s1.world = s.world ++ .Dial rpc :: .ChainID :: mid ++ [.Close] ∧
      (s2.world = s1.world ∨
        ∃ (c : contractExecutorFacade (UserAccount PublicKey PrivateKey) (EthRpcClient Unit)
            BlockChainState (Option (bind.TransactOpts R))) (r : _),
          LoadContract X c s1 = .returned r ∧
          (s2.world = r.2.world ∨
            ∃ r2, ExecuteContract X c r.2 = .returned r2 ∧ s2.world = r2.2.world)) := by
  unfold contract_interactor.main at h
  dsimp only at h
  split_ifs at h
  · cases h
    exact Or.inl rfl
  · cases h
    exact Or.inl rfl
  · cases h
    exact Or.inl rfl
  · generalize hcons : NewContractExecutionFacade X.keccak256 P privateKey rpc contractType
      contractAddress (P.ToLower funcName) funcArguments gasLimit gasPrice s = rc at h
    rcases rc with ⟨⟨x, _ | err⟩, s1⟩ | p
    · rcases x with _ | c
      · simp [deref, Run.bind] at h
      · rcases NewContractExecutionFacade_trace _ P oc ret hd hc _ _ _ _ _ _ _ _ _ _ _ hcons with
          ⟨_, hn, _⟩ | ⟨mid, hm, hq⟩
        · cases hn
        · generalize hload : LoadContract X c s1 = rd at h
          rcases rd with ⟨_ | e, sd⟩ | p
          · generalize hex : ExecuteContract X c sd = re at h
            rcases re with ⟨_ | e2, se⟩ | p
            · simp only [Run.bind, deref, hload, hex] at h
              cases h
              exact Or.inr ⟨mid, s1, hq, hm, Or.inr ⟨c, _, hload, Or.inr ⟨_, hex, rfl⟩⟩⟩
            · simp only [Run.bind, deref, hload, hex] at h
              cases h
              exact Or.inr ⟨mid, s1, hq, hm, Or.inr ⟨c, _, hload, Or.inr ⟨_, hex, rfl⟩⟩⟩
            · simp [Run.bind, deref, hload, hex] at h
          · simp only [Run.bind, deref, hload] at h
            cases h
            exact Or.inr ⟨mid, s1, hq, hm, Or.inr ⟨c, _, hload, Or.inl rfl⟩⟩
          · simp [Run.bind, deref, hload] at h
    · simp only [Run.bind] at h
      cases h
      rcases NewContractExecutionFacade_trace _ P oc ret hd hc _ _ _ _ _ _ _ _ _ _ _ hcons with
        ⟨_, _, hw⟩ | ⟨mid, hm, hq⟩
      · exact Or.inl hw
      · exact Or.inr ⟨mid, s1, hq, hm, Or.inl rfl⟩
    · simp [Run.bind] at h

end

section

open constants contracts_template_interface eth_account eth_rpc_client contract_interactor_facade

variable {κ Ctx H R PublicKey PrivateKey C : Type}

/-- C26. With a client that records what it is asked and a dial that succeeded:
whenever NewContractDeployerFacade or NewContractExecutionFacade returns, with
a facade or with any error, either the account could not be created and
nothing was dialled, or the events added are the dial, ChainID, then only
BlockNumber, PendingNonceAt and CodeAt, and last one Close; so Close is invoked
once, after the chain state was asked for. In the two programs DeployContract,
LoadContract and ExecuteContract of the facade start from the state that the
constructor returned, whose events end with that Close. -/
theorem close_once_after_the_chain_state_and_before_the_templates
    (X : Externals ιd ιf (List (Event C)) (Option (bind.TransactOpts R)) CallOpts (Option Unit)
      Tx E)
    (P : Packages Unit Ctx (List (Event C)) PublicKey PrivateKey R E) (oc : Option Unit)
    (ret : ClientReturns E)
    (hd : P.dialClient = recordingDial oc none) (hc : P.ethClient = recordingClient ret)
    (privateKey rpc contractType contractAddress funcName : String) (gasLimit gasPrice : Int)
    (arguments : List String) (s : Sys (Templates ιd ιf Tx) (List (Event C))) :
    (∀ res s1, NewContractDeployerFacade X.keccak256 P privateKey rpc arguments contractType
        gasLimit gasPrice s = .returned (res, s1) →
      ((∃ x err, CreateAccount P.crypto privateKey = .returned (x, some err)) ∧ res.1 = none ∧
        s1.world = s.world) ∨
      ∃ mid, s1.world = s.world ++ .Dial rpc :: .ChainID :: mid ++ [.Close] ∧
        ∀ e ∈ mid, e.isRead = true) ∧
    (∀ res s1, NewContractExecutionFacade X.keccak256 P privateKey rpc contractType
        contractAddress funcName arguments gasLimit gasPrice s = .returned (res, s1) →
      ((∃ x err, CreateAccount P.crypto privateKey = .returned (x, some err)) ∧ res.1 = none ∧
        s1.world = s.world) ∨
      ∃ mid, s1.world = s.world ++ .Dial rpc :: .ChainID :: mid ++ [.Close] ∧
        ∀ e ∈ mid, e.isRead = true) ∧
    (∀ code s2, contract_deployer.main X P privateKey rpc contractType gasLimit gasPrice
        arguments s = .returned (code, s2) →
      s2.world = s.world ∨
      ∃ mid s1, (∀ e ∈ mid, e.isRead = true) ∧
        s1.world = s.world ++ .Dial rpc :: .ChainID :: mid ++ [.Close] ∧
        (s2.world = s1.world ∨
          ∃ (c : contractDeployerFacade (UserAccount PublicKey PrivateKey) (EthRpcClient Unit)
              BlockChainState (Option (bind.TransactOpts R))) (r : _),
            DeployContract X c s1 = .returned r ∧ s2.world = r.2.world)) ∧
    (∀ code s2, contract_interactor.main X P privateKey rpc contractType contractAddress
        funcName gasLimit gasPrice arguments s = .returned (code, s2) →
      s2.world = s.world ∨
      ∃ mid s1, (∀ e ∈ mid, e.isRead = true) ∧
        s1.world = s.world ++ .Dial rpc :: .ChainID :: mid ++ [.Close] ∧
        (s2.world = s1.world ∨
          ∃ (c : contractExecutorFacade (UserAccount PublicKey PrivateKey) (EthRpcClient Unit)
              BlockChainState (Option (bind.TransactOpts R))) (r : _),
            LoadContract X c s1 = .returned r ∧
            (s2.world = r.2.world ∨
              ∃ r2, ExecuteContract X c r.2 = .returned r2 ∧ s2.world = r2.2.world))) :=
  ⟨fun _ _ h => NewContractDeployerFacade_trace _ P oc ret hd hc _ _ _ _ _ _ _ _ _ h,
    fun _ _ h => NewContractExecutionFacade_trace _ P oc ret hd hc _ _ _ _ _ _ _ _ _ _ _ h,
    fun _ _ h => contract_deployer_main_trace X P oc ret hd hc _ _ _ _ _ _ _ _ _ h,
    fun _ _ h => contract_interactor_main_trace X P oc ret hd hc _ _ _ _ _ _ _ _ _ _ _ h⟩

theorem close_once_after_the_chain_state_and_before_the_templates_witness :
    (testPackages (some ()) none testClientReturns).dialClient = recordingDial (some ()) none ∧
    (testPackages (some ()) none testClientReturns).ethClient =
      recordingClient testClientReturns ∧
    ∃ res s1, NewContractExecutionFacade sessionExternals.keccak256
        (testPackages (some ()) none testClientReturns) testKey "url" "fast_test_token"
        "0x00000000000000000000000000000000000000aa" "transfer" ["0xbb", "1"] 800000 1000
        sessionSys = .returned (res, s1) ∧
      s1.world = [.Dial "url", .ChainID, .BlockNumber,
        .CodeAt (common.HexToAddress "0x00000000000000000000000000000000000000aa") (some 3000),
        .PendingNonceAt common.zeroAddress, .Close] ∧
      (((∃ x err,
          CreateAccount (testPackages (some ()) none testClientReturns).crypto testKey =
          .returned (x, some err)) ∧ res.1 = none ∧ s1.world = sessionSys.world) ∨
        ∃ mid, s1.world = sessionSys.world ++ .Dial "url" :: .ChainID :: mid ++ [.Close] ∧
          ∀ e ∈ mid, e.isRead = true) :=
  ⟨rfl, rfl, _, _, rfl, rfl,
    (close_once_after_the_chain_state_and_before_the_templates sessionExternals
      (testPackages (some ()) none testClientReturns) (some ()) testClientReturns rfl rfl
      testKey "url" "fast_test_token" "0x00000000000000000000000000000000000000aa" "transfer"
      800000 1000 ["0xbb", "1"] sessionSys).2.1 _ _ rfl⟩

end

section

open constants contracts_template_interface eth_account eth_rpc_client contract_interactor_facade

variable {κ Ctx H R PublicKey PrivateKey C : Type}

theorem CreateClient_err (dialClient : String → W → (Option κ × Option (GoError E)) × W)
    (RawUrl : String) (w : W) (x : Option (EthRpcClient κ)) (e : GoError E) (w2 : W)
    (h : CreateClient dialClient RawUrl w = ((x, some e), w2)) :
    ∃ y, dialClient RawUrl w = ((y, some e), w2) := by
  unfold CreateClient at h
  rcases hd : dialClient RawUrl w with ⟨⟨y, _ | e1⟩, w1⟩ <;> simp only [hd] at h <;> cases h
  exact ⟨y, rfl⟩

theorem CreateClient_ok (dialClient : String → W → (Option κ × Option (GoError E)) × W)
    (RawUrl : String) (w : W) (ec : EthRpcClient κ) (w2 : W)
    (h : CreateClient dialClient RawUrl w = ((some ec, none), w2)) :
    dialClient RawUrl w = ((ec.EthClient, none), w2) ∧ ec.RawUrl = RawUrl := by
  unfold CreateClient at h
  rcases hd : dialClient RawUrl w with ⟨⟨y, _ | e1⟩, w1⟩ <;> simp only [hd] at h <;> cases h
  exact ⟨rfl, rfl⟩

theorem LoadBlockChainState_returns_connected (I : IEthClient κ Ctx W E) (ec : EthRpcClient κ)
    (ctx : Ctx) (w : W) (r : (Option BlockChainState × Option (GoError E)) × W)
    (h : LoadBlockChainState I ec ctx w = .returned r) : ∃ conn, ec.EthClient = some conn := by
  rcases hc : ec.EthClient with _ | conn
  · simp [LoadBlockChainState, hc, deref, Run.bind] at h
  · exact ⟨conn, rfl⟩

/-- C24, as the code has it. Once the account is there: when CreateClient fails
with the error e, both constructors return a new error, whose message is
"error: failed to connect to given rpc url : ", the message of e, a blank and
a line feed; when the client is connected and LoadBlockChainState fails with
the error e, both return a new error whose message is "error: failed to
retrieve account using provided private key : ", the message of e and a line
feed, after Close was invoked on the connection. -/
theorem dial_and_chain_state_errors_come_back_wrapped (keccak256 : List UInt8 → List UInt8)
    (P : Packages κ Ctx W PublicKey PrivateKey R E)
    (privateKey rpc contractType contractAddress funcName : String) (arguments : List String)
    (gasLimit gasPrice : Int) (s : Sys H W) (ua : UserAccount PublicKey PrivateKey)
    (ha : CreateAccount P.crypto privateKey = .returned (some ua, none)) :
    (∀ x e w2, CreateClient P.dialClient rpc s.world = ((x, some e), w2) →
      (∃ s1, NewContractDeployerFacade keccak256 P privateKey rpc arguments contractType
        gasLimit gasPrice s = .returned ((none, some (.errorf
          ("error: failed to connect to given rpc url : " ++ e.Error P.ErrorString ++ " \n"))),
          s1)) ∧
      (∃ s1, NewContractExecutionFacade keccak256 P privateKey rpc contractType contractAddress
        funcName arguments gasLimit gasPrice s = .returned ((none, some (.errorf
          ("error: failed to connect to given rpc url : " ++ e.Error P.ErrorString ++ " \n"))),
          s1))) ∧
    (∀ ec w2 x e w1, CreateClient P.dialClient rpc s.world = ((some ec, none), w2) →
      LoadBlockChainState P.ethClient ec P.Background w2 = .returned ((x, some e), w1) →
      ∃ conn, ec.EthClient = some conn ∧
        (∃ s1, NewContractDeployerFacade keccak256 P privateKey rpc arguments contractType
          gasLimit gasPrice s = .returned ((none, some (.errorf
            ("error: failed to retrieve account using provided private key : "
              ++ e.Error P.ErrorString ++ "\n"))), s1) ∧
          s1.world = P.ethClient.Close conn w1) ∧
        (∃ s1, NewContractExecutionFacade keccak256 P privateKey rpc contractType
          contractAddress funcName arguments gasLimit gasPrice s = .returned ((none, some (.errorf
            ("error: failed to retrieve account using provided private key : "
              ++ e.Error P.ErrorString ++ "\n"))), s1) ∧
          s1.world = P.ethClient.Close conn w1)) := by
  have h1 : "error: failed to connect to given " ++ "rpc url : " =
      "error: failed to connect to given rpc url : " := by decide
  have h2 : "error: failed to retrieve account using " ++ "provided private key : " =
      "error: failed to retrieve account using provided private key : " := by decide
  refine ⟨fun x e w2 hcl => ?_, fun ec w2 x e w1 hcl hl => ?_⟩
  · obtain ⟨y, hd⟩ := CreateClient_err _ _ _ _ _ _ hcl
    rw [NewContractDeployerFacade_dial_err keccak256 P privateKey rpc _ _ gasLimit gasPrice s ua
      y e w2 ha hd, NewContractExecutionFacade_dial_err keccak256 P privateKey rpc _ _ _ _
      gasLimit gasPrice s ua y e w2 ha hd, h1]
    exact ⟨⟨_, rfl⟩, ⟨_, rfl⟩⟩
  · obtain ⟨hd, hu⟩ := CreateClient_ok _ _ _ _ _ hcl
    obtain ⟨conn, hconn⟩ := LoadBlockChainState_returns_connected _ _ _ _ _ hl
    obtain ⟨oc, url⟩ := ec
    cases hu
    cases hconn
    refine ⟨conn, rfl, ?_, ?_⟩
    · rw [NewContractDeployerFacade_dialled keccak256 P privateKey _ _ _ gasLimit gasPrice s
        ua _ w2 ha hd, NewContractDeployerFacade_chain_err P _ _ _ _ _ _ _ x e w1 hl]
      simp only [Run.bind, CloseClient, deref, h2, fmt.v_error]
      exact ⟨_, rfl, rfl⟩
    · rw [NewContractExecutionFacade_dialled keccak256 P privateKey _ _ _ _ _ gasLimit
        gasPrice s ua _ w2 ha hd,
        NewContractExecutionFacade_chain_err P _ _ _ _ _ _ _ _ _ x e w1 hl]
      simp only [Run.bind, CloseClient, deref, h2, fmt.v_error]
      exact ⟨_, rfl, rfl⟩

theorem dial_and_chain_state_errors_come_back_wrapped_witness :
    CreateAccount (testPackages (some ()) none noChainIdReturns).crypto testKey =
      .returned (some ⟨common.zeroAddress, some (), some ()⟩, none) ∧
    ∃ s1, NewContractDeployerFacade (fun _ => []) (testPackages (some ()) none noChainIdReturns)
        testKey "url" [] "detailed_test_token" 800000 1000 sessionSys =
        .returned ((none, some (.errorf
          "error: failed to retrieve account using provided private key : no chain id\n")),
          s1) ∧
      s1.world = [.Dial "url", .ChainID, .Close] := by
  obtain ⟨conn, -, ⟨s1, h1, hw1⟩, -⟩ := (dial_and_chain_state_errors_come_back_wrapped
    (fun _ => []) (testPackages (some ()) none noChainIdReturns)
    testKey "url" "detailed_test_token" "" "" [] 800000 1000 sessionSys
    ⟨common.zeroAddress, some (), some ()⟩ rfl).2
    { EthClient := some (), RawUrl := "url" } [.Dial "url"] none (.errorf "no chain id")
    [.Dial "url", .ChainID] rfl rfl
  exact ⟨rfl, s1, h1, hw1⟩

/-- C24 does not hold as stated: CreateClient fails with an error whose message
is "connection refused", and the error that both constructors return has the
message "error: failed to connect to given rpc url : connection refused \n". -/
theorem dial_error_comes_back_with_a_prefix :
    CreateClient (testPackages none (some (.errorf "connection refused"))
        testClientReturns).dialClient "url" sessionSys.world =
      ((none, some (.errorf "connection refused")), [.Dial "url"]) ∧
    (∃ s1, NewContractDeployerFacade (fun _ => [])
        (testPackages none (some (.errorf "connection refused")) testClientReturns) testKey
        "url"
        [] "detailed_test_token" 800000 1000 sessionSys =
      .returned ((none, some (.errorf
        "error: failed to connect to given rpc url : connection refused \n")), s1)) ∧
    (∃ s1, NewContractExecutionFacade (fun _ => [])
        (testPackages none (some (.errorf "connection refused")) testClientReturns) testKey
        "url"
        "detailed_test_token" "0x00000000000000000000000000000000000000aa" "name" [] 800000 1000
        sessionSys =
      .returned ((none, some (.errorf
        "error: failed to connect to given rpc url : connection refused \n")), s1)) ∧
    GoError.Error (fun e : Empty => nomatch e)
        (.errorf "error: failed to connect to given rpc url : connection refused \n") ≠
      GoError.Error (fun e : Empty => nomatch e) (.errorf "connection refused") :=
  ⟨rfl, ⟨_, rfl⟩, ⟨_, rfl⟩, by decide⟩

end

section

open constants contracts_template_interface eth_account eth_rpc_client contract_interactor_facade

variable {κ Ctx H R PublicKey PrivateKey C : Type}

/-- C25, as the code has it. In the deployer, when the flags and the contract
type pass the checks, the facade was built and DeployContract returns the error
e, `main` exits with code 1 after printing "<nil> \n" and the line "Failed
deployment exiting program!": what it prints is the error variable of the
constructor, which is nil there, and not the message of e. -/
theorem deployer_prints_nil_for_the_error_of_DeployContract
    (X : Externals ιd ιf W (Option (bind.TransactOpts R)) CallOpts (Option κ) Tx E)
    (P : Packages κ Ctx W PublicKey PrivateKey R E) (privateKey rpc contractType : String)
    (gasLimit gasPrice : Int) (contractArguments : List String)
    (s : Sys (Templates ιd ιf Tx) W)
    (c : contractDeployerFacade (UserAccount PublicKey PrivateKey) (EthRpcClient κ)
      BlockChainState (Option (bind.TransactOpts R)))
    (s1 : Sys (Templates ιd ιf Tx) W) (e : GoError E) (s2 : Sys (Templates ιd ιf Tx) W)
    (hflags : utils.RequiredFlagVerification [privateKey, rpc, contractType] = true)
    (htype : VerifyContractTypeExists X contractType = true)
    (hcons : NewContractDeployerFacade X.keccak256 P privateKey rpc contractArguments
      contractType gasLimit gasPrice s = .returned ((some c, none), s1))
    (hdep : DeployContract X c s1 = .returned (some e, s2)) :
    contract_deployer.main X P privateKey rpc contractType gasLimit gasPrice contractArguments
      s = .returned (1, (s2.Printf "<nil> \n").Println "Failed deployment exiting program!") := by
  have h1 : "<nil>" ++ " \n" = "<nil> \n" := by decide
  simp only [contract_deployer.main, hflags, htype, hcons, hdep, Run.bind, deref,
    contract_deployer.exitProgramMsg, fmt.v_error, h1, Bool.not_true, Bool.false_eq_true,
    if_false]

theorem deployer_prints_nil_for_the_error_of_DeployContract_witness :
    ∃ c s1 e s2,
      NewContractDeployerFacade sessionExternals.keccak256
        (testPackages (some ()) none testClientReturns) testKey "url" [] "detailed_test_token"
        800000 1000 sessionSys = .returned ((some c, none), s1) ∧
      DeployContract sessionExternals c s1 = .returned (some e, s2) ∧
      GoError.Error (fun x : Empty => nomatch x) e =
        "error: incorrect amount of arguments, args needed : 3 != args received 0" ∧
      contract_deployer.main sessionExternals (testPackages (some ()) none testClientReturns)
        testKey "url" "detailed_test_token" 800000 1000 [] sessionSys =
        .returned (1, (s2.Printf "<nil> \n").Println "Failed deployment exiting program!") :=
  ⟨_, _, _, _, rfl, rfl, rfl,
    deployer_prints_nil_for_the_error_of_DeployContract sessionExternals
      (testPackages (some ()) none testClientReturns) testKey "url" "detailed_test_token"
      800000 1000 [] sessionSys _ _ _ _ (by decide) (by decide) rfl rfl⟩

end

end GoEvmClient
